import Mathlib

/-!
Verification development for the function-lowering stage of the Hermes IRGen
(`lib/IRGen/ESTreeIRGen-func.cpp`).  The C++ source is shallowly embedded as a
pure state-passing program over an explicit compiler state (`St`): IR
functions, basic blocks, instructions, the function-context stack and the
scoped name table.  Helpers defined outside the translated file
(`declareVariableOrGlobalProperty`, `emitStore`, `genResumeGenerator`, ...)
are modelled from the specification and marked as such in their doc comments.
-/

namespace Hermes

abbrev Name := String

structure Variable where
  vid : Nat
  vname : Name
deriving DecidableEq, Repr

inductive Storage where
  | var (v : Variable)
  | globalProp (nm : Name)
deriving DecidableEq, Repr

inductive Value where
  | litUndefined
  | litNumber (n : Nat)
  | litString (msg : Name)
  | param (fid : Nat) (idx : Nat)
  | var (v : Variable)
  | inst (iid : Nat)
deriving DecidableEq, Repr

inductive NodeKind where
  | functionDeclaration
  | functionExpression
  | arrowFunctionExpression
  | otherKind (n : Nat)
deriving DecidableEq, Repr

inductive Op where
  | storeFrame (v : Value) (target : Variable)
  | storeGlobal (v : Value) (target : Name)
  | createFunctionInst (fid : Nat)
  | createGeneratorInst (fid : Nat)
  | startGenerator
  | allocStack (nm : Name)
  | resumeGenerator (slot : Nat) (target : Nat)
  | branch (target : Nat)
  | ret (v : Value)
  | throwInst (v : Value)
  | callInst (callee : Value) (thisArg : Value) (args : List Value)
  | getNewTarget
  | createArguments
  | hermesInternal (fnm : Name) (thisArg : Value) (args : List Value)
  | selectDefault (p : Value)
  | destructure (v : Value)
  | loadGlobal (nm : Name)
  | bodyMarker (tag : Nat)
deriving DecidableEq, Repr

/-- The basic-block successors referenced by an instruction's operands. -/
def Op.blockRefs : Op → List Nat
  | .branch t => [t]
  | .resumeGenerator _ t => [t]
  | _ => []

structure Instr where
  iid : Nat
  op : Op
deriving DecidableEq, Repr

structure BasicBlock where
  bid : Nat
  instrs : List Instr
deriving DecidableEq, Repr

inductive DefinitionKind where
  | es5Function
  | es6Arrow
deriving DecidableEq, Repr

inductive FuncKind where
  | normal
  | generatorOuter
  | generatorInner
deriving DecidableEq, Repr

structure LazySource where
  bufferId : Nat
  nodeKind : NodeKind
  functionRange : Nat × Nat
deriving DecidableEq, Repr

structure Func where
  fnm : Name
  defKind : DefinitionKind
  funcKind : FuncKind
  strict : Bool
  sourceRange : Option (Nat × Nat)
  params : List Name
  blocks : List BasicBlock
  lazyClosureAlias : Option Variable
  lazyScope : Option (List Nat)
  lazySource : Option LazySource
deriving DecidableEq, Repr

/-! ### AST model -/

inductive PatNode where
  | ident (nm : Name)
  | pattern (tag : Nat)
deriving DecidableEq, Repr

inductive ParamNode where
  | plain (p : PatNode)
  | assign (p : PatNode) (initTag : Nat)
  | rest (p : PatNode)
deriving DecidableEq, Repr

structure SemInfo where
  varDecls : List Name
  paramNames : List Name
  containsArrowFunctions : Bool
  containsArrowFunctionsUsingArguments : Bool
  labelCount : Nat
deriving DecidableEq, Repr

mutual
inductive FuncNode where
  | mk (kind : NodeKind) (strictF : Bool) (range : Nat × Nat) (bodyRange : Nat × Nat)
      (params : List ParamNode) (sem : SemInfo) (closures : List FuncDecl)
      (isLazy : Bool) (bufferId : Nat) (body : List Stmt)

inductive FuncDecl where
  | mk (nm : Name) (isGenerator : Bool) (node : FuncNode)

inductive Stmt where
  | simple (tag : Nat)
  | arrow (nameHint : Name) (node : FuncNode)
end

def FuncNode.kind : FuncNode → NodeKind
  | .mk k _ _ _ _ _ _ _ _ _ => k

def FuncNode.strictF : FuncNode → Bool
  | .mk _ st _ _ _ _ _ _ _ _ => st

def FuncNode.range : FuncNode → Nat × Nat
  | .mk _ _ r _ _ _ _ _ _ _ => r

def FuncNode.bodyRange : FuncNode → Nat × Nat
  | .mk _ _ _ br _ _ _ _ _ _ => br

def FuncNode.params : FuncNode → List ParamNode
  | .mk _ _ _ _ ps _ _ _ _ _ => ps

def FuncNode.sem : FuncNode → SemInfo
  | .mk _ _ _ _ _ si _ _ _ _ => si

def FuncNode.closures : FuncNode → List FuncDecl
  | .mk _ _ _ _ _ _ cs _ _ _ => cs

def FuncNode.isLazy : FuncNode → Bool
  | .mk _ _ _ _ _ _ _ lz _ _ => lz

def FuncNode.bufferId : FuncNode → Nat
  | .mk _ _ _ _ _ _ _ _ bi _ => bi

def FuncNode.body : FuncNode → List Stmt
  | .mk _ _ _ _ _ _ _ _ _ b => b

def FuncDecl.nm : FuncDecl → Name
  | .mk n _ _ => n

def FuncDecl.isGenerator : FuncDecl → Bool
  | .mk _ g _ => g

def FuncDecl.node : FuncDecl → FuncNode
  | .mk _ _ nd => nd

/-! ### Compiler state -/

/-- One `FunctionContext` of the C++ source: per-function compile-time state.
`capturedNewTarget` is set to the literal undefined by the constructor; the
other two capture references start absent (null). -/
structure Ctx where
  funcId : Nat
  semInfo : Option SemInfo
  capturedThis : Option Variable
  capturedNewTarget : Option Value
  capturedArguments : Option Variable
  entryTerminator : Option Nat
  anonCounter : Nat
  labelsSize : Nat
  savedInsertion : Option (Nat × Nat)
  scopeId : Nat
deriving DecidableEq, Repr

structure ScopeLevel where
  sid : Nat
  entries : List (Name × Storage)
deriving DecidableEq, Repr

/-- The whole compiler state: the module's functions (a function's id is its
index in `functions`), the context stack (head is current), the scoped name
table (head is innermost), the builder's insertion point `(fid, bid)`, fresh
counters, and two model flags: `assertFailed` records a failed source
assertion / invalid builder use, `epilogueNullDeref` records the unchecked
null-pointer dereference of `nextBlock` in `emitFunctionEpilogue`.
`archived` is a ghost log of popped contexts (most recent first), used only to
observe a context's final state in theorems. -/
structure St where
  functions : List Func
  contexts : List Ctx
  archived : List Ctx
  nameTable : List ScopeLevel
  insertion : Option (Nat × Nat)
  nextInstrId : Nat
  nextBlockId : Nat
  nextVarId : Nat
  nextScopeId : Nat
  assertFailed : Bool
  epilogueNullDeref : Bool
deriving DecidableEq, Repr

def St.crash (s : St) : St := { s with assertFailed := true }

def listUpdate {α : Type} (l : List α) (i : Nat) (g : α → α) : List α :=
  match l, i with
  | [], _ => []
  | x :: t, 0 => g x :: t
  | x :: t, Nat.succ j => x :: listUpdate t j g

def St.getFunc (s : St) (fid : Nat) : Option Func := s.functions[fid]?

def St.modifyFunc (s : St) (fid : Nat) (g : Func → Func) : St :=
  { s with functions := listUpdate s.functions fid g }

def St.curCtx (s : St) : Option Ctx := s.contexts.head?

def St.modifyCtx (s : St) (g : Ctx → Ctx) : St :=
  match s.contexts with
  | [] => s.crash
  | c :: t => { s with contexts := g c :: t }

/-- `IRBuilder::createFunction` / `createGeneratorFunction` /
`createGeneratorInnerFunction`: append a fresh empty function to the module
and return its id. -/
def createFunction (fnm : Name) (dk : DefinitionKind) (fk : FuncKind) (strict : Bool)
    (range : Option (Nat × Nat)) (s : St) : Nat × St :=
  (s.functions.length,
   { s with functions := s.functions ++
      [{ fnm := fnm, defKind := dk, funcKind := fk, strict := strict, sourceRange := range,
         params := [], blocks := [], lazyClosureAlias := none, lazyScope := none,
         lazySource := none }] })

/-- `IRBuilder::createBasicBlock`: append a fresh empty block to a function. -/
def createBasicBlock (fid : Nat) (s : St) : Nat × St :=
  (s.nextBlockId,
   { s.modifyFunc fid
      (fun f => { f with blocks := f.blocks ++ [{ bid := s.nextBlockId, instrs := [] }] })
     with nextBlockId := s.nextBlockId + 1 })

/-- `IRBuilder::setInsertionBlock`. -/
def setInsertion (fid bid : Nat) (s : St) : St := { s with insertion := some (fid, bid) }

def appendInstrToBlock (i : Instr) (bid : Nat) (f : Func) : Func :=
  let bs := f.blocks.map (fun b => if b.bid = bid then { b with instrs := b.instrs ++ [i] } else b)
  { f with blocks := bs }

/-- Create an instruction at the builder's insertion point and return its id. -/
def emit (op : Op) (s : St) : Nat × St :=
  match s.insertion with
  | none => (s.nextInstrId, s.crash)
  | some (fid, bid) =>
    (s.nextInstrId,
     { s.modifyFunc fid (appendInstrToBlock { iid := s.nextInstrId, op := op } bid)
        with nextInstrId := s.nextInstrId + 1 })

/-- `IRBuilder::createVariable`: variables are identified by a fresh id. -/
def createVariable (nm : Name) (s : St) : Variable × St :=
  ({ vid := s.nextVarId, vname := nm }, { s with nextVarId := s.nextVarId + 1 })

/-- `IRBuilder::createParameter`: append a formal parameter to a function,
returning its index. -/
def createParameter (fid : Nat) (nm : Name) (s : St) : Nat × St :=
  match s.getFunc fid with
  | none => (0, s.crash)
  | some f => (f.params.length, s.modifyFunc fid (fun g => { g with params := g.params ++ [nm] }))

/-- The `FunctionContext` constructor: link a new current context (saving the
builder's insertion point), push a fresh name-table scope, initialize
`capturedNewTarget` to the literal undefined, and pre-size the label table
from the semantic info. -/
def pushContext (fid : Nat) (si : Option SemInfo) (s : St) : St :=
  let c : Ctx :=
    { funcId := fid, semInfo := si, capturedThis := none,
      capturedNewTarget := some Value.litUndefined, capturedArguments := none,
      entryTerminator := none, anonCounter := 0,
      labelsSize := (si.map (fun x => x.labelCount)).getD 0,
      savedInsertion := s.insertion, scopeId := s.nextScopeId }
  let lvl : ScopeLevel := { sid := s.nextScopeId, entries := [] }
  { s with contexts := c :: s.contexts, nameTable := lvl :: s.nameTable,
           nextScopeId := s.nextScopeId + 1 }

/-- The `FunctionContext` destructor: restore the enclosing context as
current, pop the context's name-table scope and restore the saved builder
insertion point.  The dying context is archived (ghost). -/
def popContext (s : St) : St :=
  match s.contexts with
  | [] => s.crash
  | c :: t =>
    let tbl := s.nameTable.filter (fun lvl => lvl.sid ≠ c.scopeId)
    { s with contexts := t, archived := c :: s.archived, insertion := c.savedInsertion,
             nameTable := tbl }

/-- `FunctionContext::genAnonymousLabelName`. -/
def genAnonymousLabelName (hint : Name) (s : St) : Name × St :=
  match s.contexts with
  | [] => ("?anon_0_" ++ hint, s.crash)
  | c :: t =>
    let c1 := { c with anonCounter := c.anonCounter + 1 }
    ("?anon_" ++ toString c.anonCounter ++ "_" ++ hint, { s with contexts := c1 :: t })

/-! ### Name table operations (scoped hash table) -/

def lookupInLevel (nm : Name) (lvl : ScopeLevel) : Option Storage :=
  (lvl.entries.find? (fun e => e.1 = nm)).map (fun e => e.2)

/-- `nameTable_.lookup`: innermost binding wins. -/
def nameLookup (nm : Name) (s : St) : Option Storage :=
  s.nameTable.findSome? (fun lvl => lookupInLevel nm lvl)

/-- `nameTable_.insert`: insert into the innermost scope. -/
def insertTop (nm : Name) (st : Storage) (s : St) : St :=
  match s.nameTable with
  | [] => s.crash
  | lvl :: t =>
    let lvl1 := { lvl with entries := (nm, st) :: lvl.entries }
    { s with nameTable := lvl1 :: t }

/-- `nameTable_.insertIntoScope`: insert into the identified scope level. -/
def insertIntoScope (sid : Nat) (nm : Name) (st : Storage) (s : St) : St :=
  let tbl := s.nameTable.map
    (fun lvl => if lvl.sid = sid then { lvl with entries := (nm, st) :: lvl.entries } else lvl)
  { s with nameTable := tbl }

def lookupScopeLevel (sid : Nat) (nm : Name) (s : St) : Option Storage :=
  match s.nameTable.find? (fun lvl => lvl.sid = sid) with
  | none => none
  | some lvl => lookupInLevel nm lvl

/-! ### Spec-modelled external helpers -/

/-- Modelled from the spec: `emitStore` (defined outside this file) stores a
value into a storage slot — a frame store for a frame variable, a global
property store for a global property. -/
def emitStore (v : Value) (target : Storage) (s : St) : St :=
  match target with
  | .var vr => (emit (.storeFrame v vr) s).2
  | .globalProp nm => (emit (.storeGlobal v nm) s).2

/-- Modelled from the spec: `declareVariableOrGlobalProperty` (defined outside
this file).  Hoisting creates a storage slot at function scope only if none
exists yet (an existing slot wins and no new one is created); the boolean
reports whether a new slot was created.  The functions lowered by this file
are never the global function, so a new slot is always a frame variable. -/
def declareVariableOrGlobalProperty (_fid : Nat) (nm : Name) (s : St) : (Storage × Bool) × St :=
  match s.curCtx with
  | none => ((Storage.globalProp nm, false), s.crash)
  | some c =>
    match lookupScopeLevel c.scopeId nm s with
    | some st => ((st, false), s)
    | none =>
      let p := createVariable nm s
      ((Storage.var p.1, true), insertIntoScope c.scopeId nm (Storage.var p.1) p.2)

/-- Modelled from the spec: `saveCurrentScope` records the lexical scope chain
active at definition time; we record the chain of scope-level ids. -/
def saveCurrentScope (s : St) : List Nat := s.nameTable.map (fun lvl => lvl.sid)

/-- Modelled from the spec: `genResumeGenerator` (defined outside this file)
emits the resume marker parameterized with (a) the stack slot recording
whether the triggering external call was a return-request and (b) the entry
block to branch into for the initial resume, leaving the builder inserting
into that entry block. -/
def genResumeGenerator (resumeIsReturn : Nat) (nextBB : Nat) (s : St) : St :=
  let p := emit (Op.resumeGenerator resumeIsReturn nextBB) s
  match p.2.insertion with
  | none => p.2
  | some (fid, _) => setInsertion fid nextBB p.2

/-- Modelled from the spec: `genHermesInternalCall` emits a call to the named
internal helper. -/
def genHermesInternalCall (fnm : Name) (thisArg : Value) (args : List Value) (s : St) : Nat × St :=
  emit (Op.hermesInternal fnm thisArg args) s

/-- Modelled from the spec: `createLRef(pat).emitStore(v)` binds a value to a
parameter binding target: identifier targets store through the name table
(an unresolved identifier stores to the global), non-identifier
(destructuring) targets emit an opaque destructuring store. -/
def lrefStore (p : PatNode) (v : Value) (s : St) : St :=
  match p with
  | .ident nm =>
    match nameLookup nm s with
    | some st => emitStore v st s
    | none => (emit (Op.storeGlobal v nm) s).2
  | .pattern _ => (emit (Op.destructure v) s).2

/-- Modelled from the spec: `emitOptionalInitialization` yields the parameter
value itself when there is no initializer, otherwise a value selecting the
default exactly when the parameter's runtime value is undefined. -/
def emitOptionalInitialization (pv : Value) (hasInit : Bool) (s : St) : Value × St :=
  if hasInit then
    let p := emit (Op.selectDefault pv) s
    (Value.inst p.1, p.2)
  else (pv, s)

/-! ### The straight-line pieces of `ESTreeIRGen` -/

/-- One iteration of the hoisting loop of `emitFunctionPrologue`: declare the
`var`, and initialize it to undefined only when it is a freshly created frame
variable. -/
def hoistVarDecl (fid : Nat) (nm : Name) (s : St) : St :=
  let r := declareVariableOrGlobalProperty fid nm s
  match r.1.1, r.1.2 with
  | Storage.var v, true => (emit (Op.storeFrame Value.litUndefined v) r.2).2
  | _, _ => r.2

def hoistVarDecls (fid : Nat) (names : List Name) (s : St) : St :=
  match names with
  | [] => s
  | nm :: t => hoistVarDecls fid t (hoistVarDecl fid nm s)

/-- The closure pre-declaration loop of `emitFunctionPrologue`. -/
def declareClosures (fid : Nat) (cs : List FuncDecl) (s : St) : St :=
  match cs with
  | [] => s
  | fd :: t => declareClosures fid t (declareVariableOrGlobalProperty fid fd.nm s).2

/-- The `paramNames` loop of `emitParameters`: create a frame variable for
every declared parameter name and register it in the scope. -/
def declareParamVars (names : List Name) (s : St) : St :=
  match names with
  | [] => s
  | nm :: t =>
    let p := createVariable nm s
    declareParamVars t (insertTop nm (Storage.var p.1) p.2)

/-- The parameter-node loop of `emitParameters`.  `paramIndex` is the C++
`uint32_t` counter (it starts at `0 - 1` and wraps modulo `2^32`).  A rest
element emits the `copyRestArgs` call and stops; an assignment pattern is
unpacked into its target and initializer; the formal parameter is created
with the identifier's name, or an anonymous name for destructuring targets. -/
def emitParamList (fid : Nat) (ps : List ParamNode) (paramIndex : Nat) (s : St) : St :=
  match ps with
  | [] => s
  | p :: restPs =>
    let paramIndex := (paramIndex + 1) % 4294967296
    match p with
    | .rest r =>
      let q := genHermesInternalCall "copyRestArgs" Value.litUndefined
        [Value.litNumber paramIndex] s
      lrefStore r (Value.inst q.1) q.2
    | _ =>
      let pi0 : PatNode × Bool :=
        match p with
        | .assign q _ => (q, true)
        | .plain q => (q, false)
        | .rest q => (q, false)
      let n1 := match pi0.1 with
        | .ident nm => (nm, s)
        | .pattern _ => genAnonymousLabelName "param" s
      let p2 := createParameter fid n1.1 n1.2
      let v3 := emitOptionalInitialization (Value.param fid p2.1) pi0.2 p2.2
      emitParamList fid restPs paramIndex (lrefStore pi0.1 v3.1 v3.2)

/-- `ESTreeIRGen::emitParameters`. -/
def emitParameters (node : FuncNode) (s : St) : St :=
  match s.curCtx with
  | none => s.crash
  | some c =>
    let fid := c.funcId
    let p1 := createParameter fid "this" s
    let s2 := declareParamVars node.sem.paramNames p1.2
    emitParamList fid node.params 4294967295 s2

/-- `ESTreeIRGen::initCaptureStateInES5Function`. -/
def initCaptureStateInES5Function (s : St) : St :=
  match s.curCtx with
  | none => s.crash
  | some c =>
    match c.semInfo with
    | none => s.crash
    | some si =>
      if !si.containsArrowFunctions then s
      else
        let n1 := genAnonymousLabelName "this" s
        let v1 := createVariable n1.1 n1.2
        let s3 := v1.2.modifyCtx (fun c => { c with capturedThis := some v1.1 })
        let fid := ((s3.insertion.map (fun q => q.1))).getD 0
        let s4 := emitStore (Value.param fid 0) (Storage.var v1.1) s3
        let n2 := genAnonymousLabelName "new.target" s4
        let v2 := createVariable n2.1 n2.2
        let s7 := v2.2.modifyCtx (fun c => { c with capturedNewTarget := some (Value.var v2.1) })
        let nt := emit Op.getNewTarget s7
        let s9 := emitStore (Value.inst nt.1) (Storage.var v2.1) nt.2
        if si.containsArrowFunctionsUsingArguments then
          let n3 := genAnonymousLabelName "arguments" s9
          let v3 := createVariable n3.1 n3.2
          let s12 := v3.2.modifyCtx (fun c => { c with capturedArguments := some v3.1 })
          let ca := emit Op.createArguments s12
          emitStore (Value.inst ca.1) (Storage.var v3.1) ca.2
        else s9

/-- The parameter loop of the lazy-stub path of `genES5Function`: the C++
`cast<ESTree::IdentifierNode>` asserts that every declared parameter is a
plain identifier. -/
def lazyParams (fid : Nat) (ps : List ParamNode) (s : St) : St :=
  match ps with
  | [] => s
  | p :: t =>
    match p with
    | .plain (.ident nm) => lazyParams fid t (createParameter fid nm s).2
    | _ => lazyParams fid t s.crash

def Func.findInstr (f : Func) (iid : Nat) : Option Instr :=
  f.blocks.findSome? (fun b => b.instrs.find? (fun i => i.iid = iid))

/-- `BasicBlock::getNumUsers` for a block: the number of uses of the block as
an instruction operand across the function. -/
def countBlockUses (f : Func) (bid : Nat) : Nat :=
  (f.blocks.map (fun b => (b.instrs.map
    (fun i => (i.op.blockRefs.filter (fun t => t = bid)).length)).sum)).sum

def insertBeforeInstr (iid : Nat) (newIs : List Instr) (is : List Instr) : List Instr :=
  match is with
  | [] => []
  | i :: t => if i.iid = iid then newIs ++ i :: t else i :: insertBeforeInstr iid newIs t

/-- `ESTreeIRGen::emitFunctionEpilogue`.  Note the source initializes the
local `nextBlock` pointer to null, assigns it only when the entry terminator
has exactly one successor, and then dereferences it unconditionally
(`nextBlock->getNumUsers()`); reaching that dereference with a null pointer
is recorded in the `epilogueNullDeref` flag. -/
def emitFunctionEpilogue (returnValue : Option Value) (s : St) : St :=
  let s := match returnValue with
    | some rv => (emit (Op.ret rv) s).2
    | none => s
  match s.curCtx with
  | none => s.crash
  | some c =>
    match c.entryTerminator with
    | none => { s with epilogueNullDeref := true }
    | some tid =>
      match s.getFunc c.funcId with
      | none => s.crash
      | some f =>
        match f.findInstr tid with
        | none => s.crash
        | some term =>
          match term.op.blockRefs with
          | [nb] =>
            if countBlockUses f nb = 1 ∧ nb ∈ term.op.blockRefs then
              let nbInstrs := ((f.blocks.find? (fun b => b.bid = nb)).map
                (fun b => b.instrs)).getD []
              let moved := f.blocks.map
                (fun b => { b with instrs := insertBeforeInstr tid nbInstrs b.instrs })
              let erased := moved.map
                (fun b => { b with instrs := b.instrs.filter (fun i => i.iid ≠ tid) })
              let newBlocks := erased.filter (fun b => b.bid ≠ nb)
              let s1 := s.modifyFunc c.funcId (fun g => { g with blocks := newBlocks })
              s1.modifyCtx (fun c0 => { c0 with entryTerminator := none })
            else s
          | _ => { s with epilogueNullDeref := true }

/-- `ESTreeIRGen::genSyntaxErrorFunction`: a fresh builder on the module; it
does not disturb the main builder's insertion point. -/
def genSyntaxErrorFunction (originalName : Name) (sourceRange : Nat × Nat) (error : Name)
    (s : St) : Nat × St :=
  let savedIns := s.insertion
  let f1 := createFunction originalName DefinitionKind.es5Function FuncKind.normal true
    (some sourceRange) s
  let s2 := (createParameter f1.1 "this" f1.2).2
  let b3 := createBasicBlock f1.1 s2
  let s4 := setInsertion f1.1 b3.1 b3.2
  let ld := emit (Op.loadGlobal "SyntaxError") s4
  let cl := emit (Op.callInst (Value.inst ld.1) Value.litUndefined [Value.litString error]) ld.2
  let s7 := (emit (Op.throwInst (Value.inst cl.1)) cl.2).2
  (f1.1, { s7 with insertion := savedIns })

/-! ### The mutually recursive drivers, via a fuel-indexed interpreter -/

inductive Task where
  | decl (fd : FuncDecl)
  | es5 (node : FuncNode)
  | genF (node : FuncNode)
  | arrow (node : FuncNode)
  | prologue (node : FuncNode)
  | stmts (l : List Stmt)
  | stmt1 (st : Stmt)
  | closures (l : List FuncDecl)

structure Args where
  nm : Name
  closureAlias : Option Variable
  isGenInner : Bool
  entry : Nat
deriving DecidableEq, Repr

def Args.none0 : Args := { nm := "", closureAlias := none, isGenInner := false, entry := 0 }

def mkArgs (nm : Name) (closureAlias : Option Variable) (isGenInner : Bool) (entry : Nat) :
    Args :=
  { nm := nm, closureAlias := closureAlias, isGenInner := isGenInner, entry := entry }

theorem mkArgs_nm (nm ca gi e) : (mkArgs nm ca gi e).nm = nm := rfl

theorem mkArgs_closureAlias (nm ca gi e) : (mkArgs nm ca gi e).closureAlias = ca := rfl

theorem mkArgs_isGenInner (nm ca gi e) : (mkArgs nm ca gi e).isGenInner = gi := rfl

theorem mkArgs_entry (nm ca gi e) : (mkArgs nm ca gi e).entry = e := rfl

mutual
def FuncNode.sz : FuncNode → Nat
  | .mk _ _ _ _ _ _ cs _ _ b => 1 + szClosureList cs + szStmtList b

def FuncDecl.sz : FuncDecl → Nat
  | .mk _ _ n => 1 + n.sz

def szClosureList : List FuncDecl → Nat
  | [] => 0
  | fd :: t => 1 + fd.sz + szClosureList t

def Stmt.sz : Stmt → Nat
  | .simple _ => 1
  | .arrow _ n => 1 + n.sz

def szStmtList : List Stmt → Nat
  | [] => 0
  | st :: t => 1 + st.sz + szStmtList t
end

/-- The capture-copy step at the start of arrow-function lowering
(`genArrowFunctionExpression`): copy the three capture references
(`capturedThis`, `capturedNewTarget`, `capturedArguments`) from the enclosing
function's context into the arrow's own context. -/
def arrowCapture (s4 : St) : St :=
  match s4.contexts with
  | cur :: prev :: rest =>
    let cur1 := { cur with capturedThis := prev.capturedThis,
                           capturedNewTarget := prev.capturedNewTarget,
                           capturedArguments := prev.capturedArguments }
    { s4 with contexts := cur1 :: prev :: rest }
  | _ => s4.crash

/-- Fuel-indexed interpreter for the mutually recursive lowering drivers of
`ESTreeIRGen-func.cpp`.  Each case is the direct translation of the
corresponding C++ function; `runF` returns the resulting state together with
the created function id (or created-closure instruction id, or `0` for tasks
without a result). -/
def runF : Nat → Task → Args → St → Nat × St
  | 0, _, _, s => (0, s)
  | Nat.succ n, t, a, s =>
    match t with
    | .decl fd =>
      match nameLookup fd.nm s with
      | none => (0, s.crash)
      | some funcStorage =>
        let r :=
          if fd.isGenerator then
            runF n (.genF fd.node) (mkArgs fd.nm none false 0) s
          else
            runF n (.es5 fd.node) (mkArgs fd.nm none false 0) s
        let cl := emit (Op.createFunctionInst r.1) r.2
        (0, emitStore (Value.inst cl.1) funcStorage cl.2)
    | .es5 node =>
      let f1 := createFunction a.nm DefinitionKind.es5Function
        (if a.isGenInner then FuncKind.generatorInner else FuncKind.normal)
        node.strictF (some node.bodyRange) s
      let newFunction := f1.1
      let s2 := f1.2.modifyFunc newFunction (fun f => { f with lazyClosureAlias := a.closureAlias })
      if node.isLazy then
        let src : LazySource :=
          { bufferId := node.bufferId, nodeKind := node.kind, functionRange := node.range }
        let s3 := s2.modifyFunc newFunction
          (fun f => { f with lazyScope := some (saveCurrentScope s2), lazySource := some src })
        let s4 := (createParameter newFunction "this" s3).2
        (newFunction, lazyParams newFunction node.params s4)
      else
        let s3 := pushContext newFunction (some node.sem) s2
        let s4 :=
          if a.isGenInner then
            let bb := createBasicBlock newFunction s3
            let t2 := setInsertion newFunction bb.1 bb.2
            let t3 := (emit Op.startGenerator t2).2
            let nm4 := genAnonymousLabelName "isReturn" t3
            let al5 := emit (Op.allocStack nm4.1) nm4.2
            let ep := createBasicBlock newFunction al5.2
            let t7 := genResumeGenerator al5.1 ep.1 ep.2
            (runF n (.prologue node) { Args.none0 with entry := ep.1 } t7).2
          else
            let bb := createBasicBlock newFunction s3
            (runF n (.prologue node) { Args.none0 with entry := bb.1 } bb.2).2
        let s5 := initCaptureStateInES5Function s4
        let s6 := (runF n (.stmts node.body) Args.none0 s5).2
        let s7 := emitFunctionEpilogue (some Value.litUndefined) s6
        (newFunction, popContext s7)
    | .genF node =>
      let f1 := createFunction a.nm DefinitionKind.es5Function FuncKind.generatorOuter
        node.strictF none s
      let outerFn := f1.1
      let an := genAnonymousLabelName a.nm f1.2
      let inner := runF n (.es5 node) (mkArgs an.1 a.closureAlias true 0) an.2
      let s4 := pushContext outerFn (some node.sem) inner.2
      let bb := createBasicBlock outerFn s4
      let s6 := (runF n (.prologue node) { Args.none0 with entry := bb.1 } bb.2).2
      let s7 := initCaptureStateInES5Function s6
      let gen := emit (Op.createGeneratorInst inner.1) s7
      let s9 := emitFunctionEpilogue (some (Value.inst gen.1)) gen.2
      (outerFn, popContext s9)
    | .arrow node =>
      let f1 := createFunction a.nm DefinitionKind.es6Arrow FuncKind.normal
        node.strictF (some node.range) s
      let newFunc := f1.1
      let s2 := pushContext newFunc (some node.sem) f1.2
      let bb := createBasicBlock newFunc s2
      let s4 := (runF n (.prologue node) { Args.none0 with entry := bb.1 } bb.2).2
      let s5 := arrowCapture s4
      let s6 := (runF n (.stmts node.body) Args.none0 s5).2
      let s7 := emitFunctionEpilogue (some Value.litUndefined) s6
      let s8 := popContext s7
      emit (Op.createFunctionInst newFunc) s8
    | .prologue node =>
      match s.curCtx with
      | none => (0, s.crash)
      | some c =>
        let fid := c.funcId
        let s1 := setInsertion fid a.entry s
        let s2 := hoistVarDecls fid node.sem.varDecls s1
        let s3 := declareClosures fid node.closures s2
        let s4 := emitParameters node s3
        let s5 := (runF n (.closures node.closures) Args.none0 s4).2
        let nb := createBasicBlock fid s5
        let term := emit (Op.branch nb.1) nb.2
        let s8 := term.2.modifyCtx (fun c0 => { c0 with entryTerminator := some term.1 })
        (0, setInsertion fid nb.1 s8)
    | .stmts l =>
      match l with
      | [] => (0, s)
      | st :: t =>
        let r := runF n (.stmt1 st) Args.none0 s
        runF n (.stmts t) Args.none0 r.2
    | .stmt1 st =>
      match st with
      | .simple tag => (0, (emit (Op.bodyMarker tag) s).2)
      | .arrow hint node => runF n (.arrow node) { Args.none0 with nm := hint } s
    | .closures l =>
      match l with
      | [] => (0, s)
      | fd :: t =>
        let r := runF n (.decl fd) Args.none0 s
        runF n (.closures t) Args.none0 r.2

/-- Termination measure for the drivers: lexicographic in (AST size, call
phase), collapsed into one natural number. -/
def taskMeasure : Task → Nat
  | .decl fd => 10 * fd.sz + 9
  | .genF node => 10 * node.sz + 8
  | .es5 node => 10 * node.sz + 6
  | .arrow node => 10 * node.sz + 6
  | .prologue node => 10 * node.sz + 4
  | .closures l => 10 * szClosureList l + 2
  | .stmts l => 10 * szStmtList l + 2
  | .stmt1 st => 10 * st.sz + 4

def runTask (t : Task) (a : Args) (s : St) : Nat × St :=
  runF (taskMeasure t + 1) t a s

/-- `ESTreeIRGen::genFunctionDeclaration`. -/
def genFunctionDeclaration (fd : FuncDecl) (s : St) : St :=
  (runTask (.decl fd) Args.none0 s).2

/-- `ESTreeIRGen::genES5Function`. -/
def genES5Function (nm : Name) (closureAlias : Option Variable) (node : FuncNode)
    (isGenInner : Bool) (s : St) : Nat × St :=
  runTask (.es5 node) (mkArgs nm closureAlias isGenInner 0) s

/-- `ESTreeIRGen::genGeneratorFunction`. -/
def genGeneratorFunction (nm : Name) (closureAlias : Option Variable) (node : FuncNode)
    (s : St) : Nat × St :=
  runTask (.genF node) (mkArgs nm closureAlias false 0) s

/-- `ESTreeIRGen::genArrowFunctionExpression`. -/
def genArrowFunctionExpression (nameHint : Name) (node : FuncNode) (s : St) : Nat × St :=
  runTask (.arrow node) (mkArgs nameHint none false 0) s

/-- `ESTreeIRGen::emitFunctionPrologue`. -/
def emitFunctionPrologue (node : FuncNode) (entry : Nat) (s : St) : St :=
  (runTask (.prologue node) { Args.none0 with entry := entry } s).2

/-- The body-lowering driver (`genStatement` over the function body; the
statement-level lowering outside function constructs is an external
collaborator, modelled as opaque body-marker instructions). -/
def genStatements (l : List Stmt) (s : St) : St :=
  (runTask (.stmts l) Args.none0 s).2

def genStatement (st : Stmt) (s : St) : St :=
  (runTask (.stmt1 st) Args.none0 s).2

def lowerClosures (l : List FuncDecl) (s : St) : St :=
  (runTask (.closures l) Args.none0 s).2

/-! ### Fuel irrelevance and clean unfolding equations -/

theorem FuncNode_sz_def (n : FuncNode) :
    n.sz = 1 + szClosureList n.closures + szStmtList n.body := by
  cases n
  simp [FuncNode.sz, FuncNode.closures, FuncNode.body]

theorem FuncDecl_sz_def (fd : FuncDecl) : fd.sz = 1 + fd.node.sz := by
  cases fd
  simp [FuncDecl.sz, FuncDecl.node]

theorem szClosureList_nil : szClosureList [] = 0 := by simp [szClosureList]

theorem szClosureList_cons (fd : FuncDecl) (t : List FuncDecl) :
    szClosureList (fd :: t) = 1 + fd.sz + szClosureList t := by simp [szClosureList]

theorem Stmt.sz_simple (tag : Nat) : (Stmt.simple tag).sz = 1 := by simp [Stmt.sz]

theorem Stmt.sz_arrow (h : Name) (n : FuncNode) : (Stmt.arrow h n).sz = 1 + n.sz := by
  simp [Stmt.sz]

theorem szStmtList_nil : szStmtList [] = 0 := by simp [szStmtList]

theorem szStmtList_cons (st : Stmt) (t : List Stmt) :
    szStmtList (st :: t) = 1 + st.sz + szStmtList t := by simp [szStmtList]

theorem tm_genF_lt_decl (fd : FuncDecl) :
    taskMeasure (.genF fd.node) < taskMeasure (.decl fd) := by
  simp only [taskMeasure, FuncDecl_sz_def fd]
  omega

theorem tm_es5_lt_decl (fd : FuncDecl) :
    taskMeasure (.es5 fd.node) < taskMeasure (.decl fd) := by
  simp only [taskMeasure, FuncDecl_sz_def fd]
  omega

theorem tm_prologue_lt_es5 (n : FuncNode) :
    taskMeasure (.prologue n) < taskMeasure (.es5 n) := by
  simp only [taskMeasure]
  omega

theorem tm_stmts_lt_es5 (n : FuncNode) :
    taskMeasure (.stmts n.body) < taskMeasure (.es5 n) := by
  simp only [taskMeasure, FuncNode_sz_def n]
  omega

theorem tm_es5_lt_genF (n : FuncNode) :
    taskMeasure (.es5 n) < taskMeasure (.genF n) := by
  simp only [taskMeasure]
  omega

theorem tm_prologue_lt_genF (n : FuncNode) :
    taskMeasure (.prologue n) < taskMeasure (.genF n) := by
  simp only [taskMeasure]
  omega

theorem tm_prologue_lt_arrow (n : FuncNode) :
    taskMeasure (.prologue n) < taskMeasure (.arrow n) := by
  simp only [taskMeasure]
  omega

theorem tm_stmts_lt_arrow (n : FuncNode) :
    taskMeasure (.stmts n.body) < taskMeasure (.arrow n) := by
  simp only [taskMeasure, FuncNode_sz_def n]
  omega

theorem tm_closures_lt_prologue (n : FuncNode) :
    taskMeasure (.closures n.closures) < taskMeasure (.prologue n) := by
  simp only [taskMeasure, FuncNode_sz_def n]
  omega

theorem tm_decl_lt_closures (fd : FuncDecl) (t : List FuncDecl) :
    taskMeasure (.decl fd) < taskMeasure (.closures (fd :: t)) := by
  simp only [taskMeasure, szClosureList_cons]
  omega

theorem tm_closures_lt_closures (fd : FuncDecl) (t : List FuncDecl) :
    taskMeasure (.closures t) < taskMeasure (.closures (fd :: t)) := by
  simp only [taskMeasure, szClosureList_cons]
  omega

theorem tm_stmt1_lt_stmts (st : Stmt) (t : List Stmt) :
    taskMeasure (.stmt1 st) < taskMeasure (.stmts (st :: t)) := by
  simp only [taskMeasure, szStmtList_cons]
  omega

theorem tm_stmts_lt_stmts (st : Stmt) (t : List Stmt) :
    taskMeasure (.stmts t) < taskMeasure (.stmts (st :: t)) := by
  simp only [taskMeasure, szStmtList_cons]
  omega

theorem tm_arrow_lt_stmt1 (h : Name) (n : FuncNode) :
    taskMeasure (.arrow n) < taskMeasure (.stmt1 (.arrow h n)) := by
  simp only [taskMeasure, Stmt.sz_arrow]
  omega

set_option maxHeartbeats 2000000 in
/-- Any fuel above the task measure computes the same result: `runF` is
fuel-irrelevant above the measure. -/
theorem runF_fuel_eq (n : Nat) : ∀ t a s, taskMeasure t < n →
    runF n t a s = runF (taskMeasure t + 1) t a s := by
  induction n using Nat.strong_induction_on with
  | _ n ih =>
    intro t a s hlt
    obtain ⟨m, rfl⟩ : ∃ m, n = m + 1 := ⟨n - 1, by omega⟩
    have hsub : ∀ t' a' s', taskMeasure t' < taskMeasure t →
        runF m t' a' s' = runF (taskMeasure t) t' a' s' := by
      intro t' a' s' h'
      have e1 : runF m t' a' s' = runF (taskMeasure t' + 1) t' a' s' :=
        ih m (by omega) t' a' s' (by omega)
      have e2 : runF (taskMeasure t) t' a' s' = runF (taskMeasure t' + 1) t' a' s' :=
        ih (taskMeasure t) (by omega) t' a' s' (by omega)
      rw [e1, e2]
    clear hlt ih
    obtain ⟨K, hK⟩ : ∃ K, taskMeasure t = K := ⟨_, rfl⟩
    rw [hK] at hsub ⊢
    cases t with
    | decl fd =>
      have h1 := fun a' s' => hsub (.genF fd.node) a' s' (hK ▸ tm_genF_lt_decl fd)
      have h2 := fun a' s' => hsub (.es5 fd.node) a' s' (hK ▸ tm_es5_lt_decl fd)
      simp only [runF, h1, h2]
    | es5 node =>
      have h1 := fun a' s' => hsub (.prologue node) a' s' (hK ▸ tm_prologue_lt_es5 node)
      have h2 := fun a' s' => hsub (.stmts node.body) a' s' (hK ▸ tm_stmts_lt_es5 node)
      simp only [runF, h1, h2]
    | genF node =>
      have h1 := fun a' s' => hsub (.es5 node) a' s' (hK ▸ tm_es5_lt_genF node)
      have h2 := fun a' s' => hsub (.prologue node) a' s' (hK ▸ tm_prologue_lt_genF node)
      simp only [runF, h1, h2]
    | arrow node =>
      have h1 := fun a' s' => hsub (.prologue node) a' s' (hK ▸ tm_prologue_lt_arrow node)
      have h2 := fun a' s' => hsub (.stmts node.body) a' s' (hK ▸ tm_stmts_lt_arrow node)
      simp only [runF, h1, h2]
    | prologue node =>
      have h1 := fun a' s' =>
        hsub (.closures node.closures) a' s' (hK ▸ tm_closures_lt_prologue node)
      simp only [runF, h1]
    | stmts l =>
      cases l with
      | nil => simp only [runF]
      | cons st t0 =>
        have h1 := fun a' s' => hsub (.stmt1 st) a' s' (hK ▸ tm_stmt1_lt_stmts st t0)
        have h2 := fun a' s' => hsub (.stmts t0) a' s' (hK ▸ tm_stmts_lt_stmts st t0)
        simp only [runF, h1, h2]
    | stmt1 st =>
      cases st with
      | simple tag => simp only [runF]
      | arrow h node =>
        have h1 := fun a' s' => hsub (.arrow node) a' s' (hK ▸ tm_arrow_lt_stmt1 h node)
        simp only [runF, h1]
    | closures l =>
      cases l with
      | nil => simp only [runF]
      | cons fd t0 =>
        have h1 := fun a' s' => hsub (.decl fd) a' s' (hK ▸ tm_decl_lt_closures fd t0)
        have h2 := fun a' s' => hsub (.closures t0) a' s' (hK ▸ tm_closures_lt_closures fd t0)
        simp only [runF, h1, h2]

theorem runTask_eq (t : Task) (a : Args) (s : St) (n : Nat) (h : taskMeasure t < n) :
    runTask t a s = runF n t a s := by
  rw [runTask, runF_fuel_eq n t a s h]

theorem genFunctionDeclaration_eq (fd : FuncDecl) (s : St) :
    genFunctionDeclaration fd s =
      match nameLookup fd.nm s with
      | none => s.crash
      | some funcStorage =>
        let r := if fd.isGenerator then genGeneratorFunction fd.nm none fd.node s
                 else genES5Function fd.nm none fd.node false s
        let cl := emit (Op.createFunctionInst r.1) r.2
        emitStore (Value.inst cl.1) funcStorage cl.2 := by
  obtain ⟨M, hM⟩ : ∃ M, taskMeasure (Task.decl fd) = M := ⟨_, rfl⟩
  have h1 : ∀ s' : St, runF M (Task.genF fd.node) (mkArgs fd.nm none false 0) s'
      = genGeneratorFunction fd.nm none fd.node s' := by
    intro s'
    rw [genGeneratorFunction, runTask_eq _ _ _ M (hM ▸ tm_genF_lt_decl fd)]
  have h2 : ∀ s' : St, runF M (Task.es5 fd.node) (mkArgs fd.nm none false 0) s'
      = genES5Function fd.nm none fd.node false s' := by
    intro s'
    rw [genES5Function, runTask_eq _ _ _ M (hM ▸ tm_es5_lt_decl fd)]
  rw [genFunctionDeclaration, runTask, hM]
  cases hn : nameLookup fd.nm s with
  | none => simp only [runF, hn]
  | some fs => simp only [runF, hn, h1, h2]

theorem genES5Function_eq (nm : Name) (ca : Option Variable) (node : FuncNode) (gi : Bool)
    (s : St) :
    genES5Function nm ca node gi s =
      let f1 := createFunction nm DefinitionKind.es5Function
        (if gi then FuncKind.generatorInner else FuncKind.normal)
        node.strictF (some node.bodyRange) s
      let newFunction := f1.1
      let s2 := f1.2.modifyFunc newFunction (fun f => { f with lazyClosureAlias := ca })
      if node.isLazy then
        let src : LazySource :=
          { bufferId := node.bufferId, nodeKind := node.kind, functionRange := node.range }
        let s3 := s2.modifyFunc newFunction
          (fun f => { f with lazyScope := some (saveCurrentScope s2), lazySource := some src })
        let s4 := (createParameter newFunction "this" s3).2
        (newFunction, lazyParams newFunction node.params s4)
      else
        let s3 := pushContext newFunction (some node.sem) s2
        let s4 :=
          if gi then
            let bb := createBasicBlock newFunction s3
            let t2 := setInsertion newFunction bb.1 bb.2
            let t3 := (emit Op.startGenerator t2).2
            let nm4 := genAnonymousLabelName "isReturn" t3
            let al5 := emit (Op.allocStack nm4.1) nm4.2
            let ep := createBasicBlock newFunction al5.2
            let t7 := genResumeGenerator al5.1 ep.1 ep.2
            emitFunctionPrologue node ep.1 t7
          else
            let bb := createBasicBlock newFunction s3
            emitFunctionPrologue node bb.1 bb.2
        let s5 := initCaptureStateInES5Function s4
        let s6 := genStatements node.body s5
        let s7 := emitFunctionEpilogue (some Value.litUndefined) s6
        (newFunction, popContext s7) := by
  obtain ⟨M, hM⟩ : ∃ M, taskMeasure (Task.es5 node) = M := ⟨_, rfl⟩
  have h1 : ∀ (e : Nat) (s' : St),
      (runF M (Task.prologue node) { Args.none0 with entry := e } s').2
      = emitFunctionPrologue node e s' := by
    intro e s'
    rw [emitFunctionPrologue, runTask_eq _ _ _ M (hM ▸ tm_prologue_lt_es5 node)]
  have h2 : ∀ s' : St, (runF M (Task.stmts node.body) Args.none0 s').2
      = genStatements node.body s' := by
    intro s'
    rw [genStatements, runTask_eq _ _ _ M (hM ▸ tm_stmts_lt_es5 node)]
  rw [genES5Function, runTask, hM]
  simp only [runF, h1, h2, mkArgs_nm, mkArgs_closureAlias, mkArgs_isGenInner, mkArgs_entry]

theorem genGeneratorFunction_eq (nm : Name) (ca : Option Variable) (node : FuncNode)
    (s : St) :
    genGeneratorFunction nm ca node s =
      let f1 := createFunction nm DefinitionKind.es5Function FuncKind.generatorOuter
        node.strictF none s
      let outerFn := f1.1
      let an := genAnonymousLabelName nm f1.2
      let inner := genES5Function an.1 ca node true an.2
      let s4 := pushContext outerFn (some node.sem) inner.2
      let bb := createBasicBlock outerFn s4
      let s6 := emitFunctionPrologue node bb.1 bb.2
      let s7 := initCaptureStateInES5Function s6
      let gen := emit (Op.createGeneratorInst inner.1) s7
      let s9 := emitFunctionEpilogue (some (Value.inst gen.1)) gen.2
      (outerFn, popContext s9) := by
  obtain ⟨M, hM⟩ : ∃ M, taskMeasure (Task.genF node) = M := ⟨_, rfl⟩
  have h1 : ∀ (nm' : Name) (s' : St), runF M (Task.es5 node) (mkArgs nm' ca true 0) s'
      = genES5Function nm' ca node true s' := by
    intro nm' s'
    rw [genES5Function, runTask_eq _ _ _ M (hM ▸ tm_es5_lt_genF node)]
  have h2 : ∀ (e : Nat) (s' : St),
      (runF M (Task.prologue node) { Args.none0 with entry := e } s').2
      = emitFunctionPrologue node e s' := by
    intro e s'
    rw [emitFunctionPrologue, runTask_eq _ _ _ M (hM ▸ tm_prologue_lt_genF node)]
  rw [genGeneratorFunction, runTask, hM]
  simp only [runF, h1, h2, mkArgs_nm, mkArgs_closureAlias, mkArgs_isGenInner, mkArgs_entry]

theorem genArrowFunctionExpression_eq (nameHint : Name) (node : FuncNode) (s : St) :
    genArrowFunctionExpression nameHint node s =
      let f1 := createFunction nameHint DefinitionKind.es6Arrow FuncKind.normal
        node.strictF (some node.range) s
      let newFunc := f1.1
      let s2 := pushContext newFunc (some node.sem) f1.2
      let bb := createBasicBlock newFunc s2
      let s4 := emitFunctionPrologue node bb.1 bb.2
      let s5 := arrowCapture s4
      let s6 := genStatements node.body s5
      let s7 := emitFunctionEpilogue (some Value.litUndefined) s6
      let s8 := popContext s7
      emit (Op.createFunctionInst newFunc) s8 := by
  obtain ⟨M, hM⟩ : ∃ M, taskMeasure (Task.arrow node) = M := ⟨_, rfl⟩
  have h1 : ∀ (e : Nat) (s' : St),
      (runF M (Task.prologue node) { Args.none0 with entry := e } s').2
      = emitFunctionPrologue node e s' := by
    intro e s'
    rw [emitFunctionPrologue, runTask_eq _ _ _ M (hM ▸ tm_prologue_lt_arrow node)]
  have h2 : ∀ s' : St, (runF M (Task.stmts node.body) Args.none0 s').2
      = genStatements node.body s' := by
    intro s'
    rw [genStatements, runTask_eq _ _ _ M (hM ▸ tm_stmts_lt_arrow node)]
  rw [genArrowFunctionExpression, runTask, hM]
  simp only [runF, h1, h2, mkArgs_nm, mkArgs_closureAlias, mkArgs_isGenInner, mkArgs_entry]

theorem emitFunctionPrologue_eq (node : FuncNode) (entry : Nat) (s : St) :
    emitFunctionPrologue node entry s =
      match s.curCtx with
      | none => s.crash
      | some c =>
        let fid := c.funcId
        let s1 := setInsertion fid entry s
        let s2 := hoistVarDecls fid node.sem.varDecls s1
        let s3 := declareClosures fid node.closures s2
        let s4 := emitParameters node s3
        let s5 := lowerClosures node.closures s4
        let nb := createBasicBlock fid s5
        let term := emit (Op.branch nb.1) nb.2
        let s8 := term.2.modifyCtx (fun c0 => { c0 with entryTerminator := some term.1 })
        setInsertion fid nb.1 s8 := by
  obtain ⟨M, hM⟩ : ∃ M, taskMeasure (Task.prologue node) = M := ⟨_, rfl⟩
  have h1 : ∀ s' : St, (runF M (Task.closures node.closures) Args.none0 s').2
      = lowerClosures node.closures s' := by
    intro s'
    rw [lowerClosures, runTask_eq _ _ _ M (hM ▸ tm_closures_lt_prologue node)]
  rw [emitFunctionPrologue, runTask, hM]
  cases hc : s.curCtx with
  | none => simp only [runF, hc]
  | some c => simp only [runF, hc, h1]

theorem genStatements_nil (s : St) : genStatements [] s = s := by
  rw [genStatements, runTask]
  simp only [runF]

theorem genStatements_cons (st : Stmt) (t : List Stmt) (s : St) :
    genStatements (st :: t) s = genStatements t (genStatement st s) := by
  obtain ⟨M, hM⟩ : ∃ M, taskMeasure (Task.stmts (st :: t)) = M := ⟨_, rfl⟩
  have h1 : ∀ s' : St, (runF M (Task.stmt1 st) Args.none0 s').2 = genStatement st s' := by
    intro s'
    rw [genStatement, runTask_eq _ _ _ M (hM ▸ tm_stmt1_lt_stmts st t)]
  have h2 : ∀ s' : St, (runF M (Task.stmts t) Args.none0 s').2 = genStatements t s' := by
    intro s'
    rw [genStatements, runTask_eq _ _ _ M (hM ▸ tm_stmts_lt_stmts st t)]
  rw [genStatements, runTask, hM]
  simp only [runF]
  rw [h1, h2]

theorem genStatement_simple (tag : Nat) (s : St) :
    genStatement (.simple tag) s = (emit (Op.bodyMarker tag) s).2 := by
  rw [genStatement, runTask]
  simp only [runF]

theorem genStatement_arrow (hint : Name) (node : FuncNode) (s : St) :
    genStatement (.arrow hint node) s = (genArrowFunctionExpression hint node s).2 := by
  obtain ⟨M, hM⟩ : ∃ M, taskMeasure (Task.stmt1 (Stmt.arrow hint node)) = M := ⟨_, rfl⟩
  have h1 : ∀ s' : St, runF M (Task.arrow node) (mkArgs hint none false 0) s'
      = genArrowFunctionExpression hint node s' := by
    intro s'
    rw [genArrowFunctionExpression, runTask_eq _ _ _ M (hM ▸ tm_arrow_lt_stmt1 hint node)]
  rw [genStatement, runTask, hM]
  simp only [runF]
  rw [show (mkArgs hint none false 0 : Args) = { Args.none0 with nm := hint } from rfl] at h1
  rw [h1]

theorem lowerClosures_nil (s : St) : lowerClosures [] s = s := by
  rw [lowerClosures, runTask]
  simp only [runF]

theorem lowerClosures_cons (fd : FuncDecl) (t : List FuncDecl) (s : St) :
    lowerClosures (fd :: t) s = lowerClosures t (genFunctionDeclaration fd s) := by
  obtain ⟨M, hM⟩ : ∃ M, taskMeasure (Task.closures (fd :: t)) = M := ⟨_, rfl⟩
  have h1 : ∀ s' : St, (runF M (Task.decl fd) Args.none0 s').2 = genFunctionDeclaration fd s' := by
    intro s'
    rw [genFunctionDeclaration, runTask_eq _ _ _ M (hM ▸ tm_decl_lt_closures fd t)]
  have h2 : ∀ s' : St, (runF M (Task.closures t) Args.none0 s').2 = lowerClosures t s' := by
    intro s'
    rw [lowerClosures, runTask_eq _ _ _ M (hM ▸ tm_closures_lt_closures fd t)]
  rw [lowerClosures, runTask, hM]
  simp only [runF]
  rw [h1, h2]

/-! ### State-observation helpers and primitive-step lemmas -/

/-- Append a list of instructions at the end of block `bid` of a function. -/
def appendList (L : List Instr) (bid : Nat) (f : Func) : Func :=
  let bs := f.blocks.map (fun b => if b.bid = bid then { b with instrs := b.instrs ++ L } else b)
  { f with blocks := bs }

/-- The instruction list of block `bid` of function `fid` in a function list
(first block with that id), or `[]`. -/
def blkIn (fns : List Func) (fid bid : Nat) : List Instr :=
  match fns[fid]? with
  | none => []
  | some f => ((f.blocks.find? (fun b => b.bid = bid)).map (fun b => b.instrs)).getD []

def blkLive (fns : List Func) (fid bid : Nat) : Prop :=
  ∃ f, fns[fid]? = some f ∧ (f.blocks.find? (fun b => b.bid = bid)).isSome

/-- The instruction list of block `bid` of function `fid` of a state. -/
def blockInstrs (s : St) (fid bid : Nat) : List Instr := blkIn s.functions fid bid

def St.blockLive (s : St) (fid bid : Nat) : Prop := blkLive s.functions fid bid

theorem listUpdate_getElem_self {α : Type} (l : List α) (i : Nat) (g : α → α) :
    (listUpdate l i g)[i]? = (l[i]?).map g := by
  induction l generalizing i with
  | nil => simp [listUpdate]
  | cons x t ih =>
    cases i with
    | zero => simp [listUpdate]
    | succ j => simpa [listUpdate] using ih j

theorem listUpdate_getElem_other {α : Type} (l : List α) (i j : Nat) (g : α → α)
    (h : i ≠ j) : (listUpdate l i g)[j]? = l[j]? := by
  induction l generalizing i j with
  | nil => simp [listUpdate]
  | cons x t ih =>
    cases i with
    | zero =>
      cases j with
      | zero => exact absurd rfl h
      | succ j' => simp [listUpdate]
    | succ i' =>
      cases j with
      | zero => simp [listUpdate]
      | succ j' => simpa [listUpdate] using ih i' j' (by omega)

theorem listUpdate_length {α : Type} (l : List α) (i : Nat) (g : α → α) :
    (listUpdate l i g).length = l.length := by
  induction l generalizing i with
  | nil => simp [listUpdate]
  | cons x t ih =>
    cases i with
    | zero => simp [listUpdate]
    | succ j => simpa [listUpdate] using ih j

theorem mapped_bid (b : BasicBlock) (bid : Nat) (L : List Instr) :
    ((if b.bid = bid then { b with instrs := b.instrs ++ L } else b) : BasicBlock).bid
      = b.bid := by
  by_cases hbb : b.bid = bid <;> simp [hbb]

theorem find?_bid_map_append (bs : List BasicBlock) (bid bid' : Nat) (L : List Instr) :
    (bs.map (fun b => if b.bid = bid then { b with instrs := b.instrs ++ L } else b)).find?
        (fun b => b.bid = bid') =
      ((bs.find? (fun b => b.bid = bid')).map
        (fun b => if b.bid = bid then { b with instrs := b.instrs ++ L } else b)) := by
  induction bs with
  | nil => simp
  | cons b t ih =>
    by_cases hb : b.bid = bid'
    · have hp : ((if b.bid = bid then { b with instrs := b.instrs ++ L } else b) :
          BasicBlock).bid = bid' := by
        rw [mapped_bid]
        exact hb
      rw [List.map_cons, List.find?_cons_of_pos _ (by simpa using hp),
        List.find?_cons_of_pos _ (by simpa using hb)]
      simp
    · have hp : ¬ ((if b.bid = bid then { b with instrs := b.instrs ++ L } else b) :
          BasicBlock).bid = bid' := by
        rw [mapped_bid]
        exact hb
      rw [List.map_cons, List.find?_cons_of_neg _ (by simpa using hp),
        List.find?_cons_of_neg _ (by simpa using hb), ih]

theorem appendList_params (L : List Instr) (bid : Nat) (f : Func) :
    (appendList L bid f).params = f.params := rfl

theorem appendList_blocks_find (L : List Instr) (bid bid' : Nat) (f : Func) :
    ((appendList L bid f).blocks.find? (fun b => b.bid = bid')) =
      ((f.blocks.find? (fun b => b.bid = bid')).map
        (fun b => if b.bid = bid then { b with instrs := b.instrs ++ L } else b)) := by
  simp only [appendList]
  exact find?_bid_map_append f.blocks bid bid' L

theorem appendInstrToBlock_eq_appendList (i : Instr) (bid : Nat) :
    appendInstrToBlock i bid = appendList [i] bid := rfl

/-- The explicit form of `emit` at a valid insertion point. -/
theorem emit_some (op : Op) (s : St) (fid bid : Nat) (h : s.insertion = some (fid, bid)) :
    emit op s = (s.nextInstrId,
      { s with
          functions :=
            listUpdate s.functions fid (appendList [{ iid := s.nextInstrId, op := op }] bid),
          nextInstrId := s.nextInstrId + 1 }) := by
  cases s with
  | mk fns ctxs arch tbl ins nii nbi nvi nsi af ed =>
    simp only at h
    subst h
    rfl

theorem blkIn_getElem (fns : List Func) (fid bid : Nat) (f : Func)
    (hf : fns[fid]? = some f) :
    blkIn fns fid bid
      = ((f.blocks.find? (fun b => b.bid = bid)).map (fun b => b.instrs)).getD [] := by
  simp only [blkIn, hf]

theorem blkIn_getElem_none (fns : List Func) (fid bid : Nat) (hf : fns[fid]? = none) :
    blkIn fns fid bid = [] := by
  simp only [blkIn, hf]

theorem blkIn_append_self (fns : List Func) (fid bid : Nat) (L : List Instr)
    (h : blkLive fns fid bid) :
    blkIn (listUpdate fns fid (appendList L bid)) fid bid = blkIn fns fid bid ++ L := by
  obtain ⟨f, hf, hfind⟩ := h
  obtain ⟨b, hb⟩ := Option.isSome_iff_exists.mp hfind
  have hbid : b.bid = bid := by simpa using List.find?_some hb
  have h2 : (listUpdate fns fid (appendList L bid))[fid]? = some (appendList L bid f) := by
    rw [listUpdate_getElem_self, hf]
    rfl
  rw [blkIn_getElem _ _ _ _ h2, blkIn_getElem _ _ _ _ hf, appendList_blocks_find, hb]
  simp [hbid]

theorem blkLive_append (fns : List Func) (fid bid fid' bid' : Nat) (L : List Instr)
    (h : blkLive fns fid' bid') :
    blkLive (listUpdate fns fid (appendList L bid)) fid' bid' := by
  obtain ⟨f, hf, hfind⟩ := h
  by_cases hfid : fid = fid'
  · subst hfid
    refine ⟨appendList L bid f, ?_, ?_⟩
    · rw [listUpdate_getElem_self, hf]
      rfl
    · rw [appendList_blocks_find]
      obtain ⟨b, hb⟩ := Option.isSome_iff_exists.mp hfind
      rw [hb]
      rfl
  · exact ⟨f, by rw [listUpdate_getElem_other _ _ _ _ hfid]; exact hf, hfind⟩

theorem blkIn_append_other (fns : List Func) (fid bid fid' bid' : Nat) (L : List Instr)
    (h : fid = fid' → bid ≠ bid') :
    blkIn (listUpdate fns fid (appendList L bid)) fid' bid' = blkIn fns fid' bid' := by
  by_cases hfid : fid = fid'
  · subst hfid
    cases hf : fns[fid]? with
    | none =>
      have h2 : (listUpdate fns fid (appendList L bid))[fid]? = none := by
        rw [listUpdate_getElem_self, hf]
        rfl
      rw [blkIn_getElem_none _ _ _ h2, blkIn_getElem_none _ _ _ hf]
    | some f =>
      have h2 : (listUpdate fns fid (appendList L bid))[fid]? = some (appendList L bid f) := by
        rw [listUpdate_getElem_self, hf]
        rfl
      rw [blkIn_getElem _ _ _ _ h2, blkIn_getElem _ _ _ _ hf, appendList_blocks_find]
      cases hfd : f.blocks.find? (fun b => b.bid = bid') with
      | none => rfl
      | some b =>
        have hbid : b.bid = bid' := by simpa using List.find?_some hfd
        have hne : b.bid ≠ bid := by
          rw [hbid]
          intro hcon
          exact (h rfl) hcon.symm
        simp [hne]
  · have h2 : (listUpdate fns fid (appendList L bid))[fid']? = fns[fid']? :=
      listUpdate_getElem_other _ _ _ _ hfid
    cases hf : fns[fid']? with
    | none => rw [blkIn_getElem_none _ _ _ (h2.trans hf), blkIn_getElem_none _ _ _ hf]
    | some f => rw [blkIn_getElem _ _ _ _ (h2.trans hf), blkIn_getElem _ _ _ _ hf]

/-! ### Claim C2 -/

/-- **C2.** For every non-arrow function: with `containsArrowFunctions = false`,
`initCaptureStateInES5Function` creates no capture-slot variables and leaves
the state untouched; with `containsArrowFunctions = true` and
`containsArrowFunctionsUsingArguments = false` it creates exactly two capture
slots — one for `this`, initialized by storing the function's own `this`
parameter, and one for `new.target`, initialized from a get-new-target value —
and leaves the `arguments` capture reference unchanged (no `arguments` slot);
with both flags `true` it additionally creates an `arguments` slot initialized
from a materialized arguments object. -/
theorem claim_C2 (s : St) (c : Ctx) (ct : List Ctx) (si : SemInfo) (fid bid : Nat)
    (hctx : s.contexts = c :: ct) (hsi : c.semInfo = some si)
    (hins : s.insertion = some (fid, bid)) (hlive : s.blockLive fid bid) :
    (si.containsArrowFunctions = false → initCaptureStateInES5Function s = s) ∧
    (si.containsArrowFunctions = true → si.containsArrowFunctionsUsingArguments = false →
      (initCaptureStateInES5Function s).contexts =
        { c with
            capturedThis := some (Variable.mk s.nextVarId
              ("?anon_" ++ toString c.anonCounter ++ "_" ++ "this")),
            capturedNewTarget := some (Value.var (Variable.mk (s.nextVarId + 1)
              ("?anon_" ++ toString (c.anonCounter + 1) ++ "_" ++ "new.target"))),
            anonCounter := c.anonCounter + 2 } :: ct ∧
      (initCaptureStateInES5Function s).nextVarId = s.nextVarId + 2 ∧
      blockInstrs (initCaptureStateInES5Function s) fid bid = blockInstrs s fid bid ++
        [Instr.mk s.nextInstrId (Op.storeFrame (Value.param fid 0)
            (Variable.mk s.nextVarId ("?anon_" ++ toString c.anonCounter ++ "_" ++ "this"))),
         Instr.mk (s.nextInstrId + 1) Op.getNewTarget,
         Instr.mk (s.nextInstrId + 2) (Op.storeFrame (Value.inst (s.nextInstrId + 1))
            (Variable.mk (s.nextVarId + 1)
              ("?anon_" ++ toString (c.anonCounter + 1) ++ "_" ++ "new.target")))]) ∧
    (si.containsArrowFunctions = true → si.containsArrowFunctionsUsingArguments = true →
      (initCaptureStateInES5Function s).contexts =
        { c with
            capturedThis := some (Variable.mk s.nextVarId
              ("?anon_" ++ toString c.anonCounter ++ "_" ++ "this")),
            capturedNewTarget := some (Value.var (Variable.mk (s.nextVarId + 1)
              ("?anon_" ++ toString (c.anonCounter + 1) ++ "_" ++ "new.target"))),
            capturedArguments := some (Variable.mk (s.nextVarId + 2)
              ("?anon_" ++ toString (c.anonCounter + 2) ++ "_" ++ "arguments")),
            anonCounter := c.anonCounter + 3 } :: ct ∧
      (initCaptureStateInES5Function s).nextVarId = s.nextVarId + 3 ∧
      blockInstrs (initCaptureStateInES5Function s) fid bid = blockInstrs s fid bid ++
        [Instr.mk s.nextInstrId (Op.storeFrame (Value.param fid 0)
            (Variable.mk s.nextVarId ("?anon_" ++ toString c.anonCounter ++ "_" ++ "this"))),
         Instr.mk (s.nextInstrId + 1) Op.getNewTarget,
         Instr.mk (s.nextInstrId + 2) (Op.storeFrame (Value.inst (s.nextInstrId + 1))
            (Variable.mk (s.nextVarId + 1)
              ("?anon_" ++ toString (c.anonCounter + 1) ++ "_" ++ "new.target"))),
         Instr.mk (s.nextInstrId + 3) Op.createArguments,
         Instr.mk (s.nextInstrId + 4) (Op.storeFrame (Value.inst (s.nextInstrId + 3))
            (Variable.mk (s.nextVarId + 2)
              ("?anon_" ++ toString (c.anonCounter + 2) ++ "_" ++ "arguments")))]) := by
  obtain ⟨fns, ctxs, arch, tbl, ins, nii, nbi, nvi, nsi, af, ed⟩ := s
  obtain ⟨cfid, csem, cthis, cnt, cargs, cterm, canon, clab, csav, cscope⟩ := c
  simp only at hctx hsi hins hlive ⊢
  subst hctx hsi hins
  simp only [St.blockLive] at hlive
  refine ⟨?_, ?_, ?_⟩
  · intro hfalse
    simp [initCaptureStateInES5Function, St.curCtx, hfalse]
  · intro htrue hfalse2
    simp only [initCaptureStateInES5Function, St.curCtx, List.head?_cons, htrue, hfalse2,
      genAnonymousLabelName, createVariable, St.modifyCtx, emitStore, emit, St.modifyFunc,
      appendInstrToBlock_eq_appendList, blockInstrs, Bool.not_true, Bool.false_eq_true,
      if_false, if_true]
    refine ⟨trivial, trivial, ?_⟩
    rw [blkIn_append_self, blkIn_append_self, blkIn_append_self]
    · simp
    · exact hlive
    · exact blkLive_append _ _ _ _ _ _ hlive
    · exact blkLive_append _ _ _ _ _ _ (blkLive_append _ _ _ _ _ _ hlive)
  · intro htrue htrue2
    simp only [initCaptureStateInES5Function, St.curCtx, List.head?_cons, htrue, htrue2,
      genAnonymousLabelName, createVariable, St.modifyCtx, emitStore, emit, St.modifyFunc,
      appendInstrToBlock_eq_appendList, blockInstrs, Bool.not_true, Bool.false_eq_true,
      if_false, if_true]
    refine ⟨trivial, trivial, ?_⟩
    rw [blkIn_append_self, blkIn_append_self, blkIn_append_self, blkIn_append_self,
      blkIn_append_self]
    · simp
    · exact hlive
    · exact blkLive_append _ _ _ _ _ _ hlive
    · exact blkLive_append _ _ _ _ _ _ (blkLive_append _ _ _ _ _ _ hlive)
    · exact blkLive_append _ _ _ _ _ _
        (blkLive_append _ _ _ _ _ _ (blkLive_append _ _ _ _ _ _ hlive))
    · exact blkLive_append _ _ _ _ _ _ (blkLive_append _ _ _ _ _ _
        (blkLive_append _ _ _ _ _ _ (blkLive_append _ _ _ _ _ _ hlive)))

def c2F : Func :=
  { fnm := "f", defKind := DefinitionKind.es5Function, funcKind := FuncKind.normal,
    strict := true, sourceRange := none, params := [], blocks := [BasicBlock.mk 0 []],
    lazyClosureAlias := none, lazyScope := none, lazySource := none }

def c2si : SemInfo := SemInfo.mk [] [] true true 0

def c2c : Ctx := Ctx.mk 0 (some c2si) none (some Value.litUndefined) none none 0 0 none 0

def c2st : St := St.mk [c2F] [c2c] [] [] (some (0, 0)) 0 1 0 1 false false

theorem claim_C2_witness :
    (c2st.contexts = c2c :: [] ∧ c2c.semInfo = some c2si ∧
      c2st.insertion = some (0, 0) ∧ c2st.blockLive 0 0 ∧
      c2si.containsArrowFunctions = true ∧
      c2si.containsArrowFunctionsUsingArguments = true) ∧
    (initCaptureStateInES5Function c2st).nextVarId = c2st.nextVarId + 3 :=
  ⟨⟨rfl, rfl, rfl, ⟨c2F, rfl, rfl⟩, rfl, rfl⟩,
   ((claim_C2 c2st c2c [] c2si 0 0 rfl rfl rfl ⟨c2F, rfl, rfl⟩).2.2 rfl rfl).2.1⟩

/-! ### Frame predicates for the master lemma -/

def noBlockRefs (L : List Instr) : Prop := ∀ i ∈ L, i.op.blockRefs = []

def freshIds (n : Nat) (L : List Instr) : Prop := ∀ i ∈ L, n ≤ i.iid

/-- The effect, on one function of the module, of appending instruction list
`L` at the builder's insertion point `ins`: function `j` is touched only if it
is the insertion function, and then only its insertion block is extended. -/
def appendIns (ins : Option (Nat × Nat)) (j : Nat) (L : List Instr) (f : Func) : Func :=
  match ins with
  | none => f
  | some (fid, bid) => if j = fid then appendList L bid f else f

/-- The head context may change only in its `anonCounter`; the tail is
untouched. -/
def anonBumped : List Ctx → List Ctx → Prop
  | [], l' => l' = []
  | c :: t, l' => ∃ k, l' = { c with anonCounter := k } :: t

/-- Well-formedness: all block ids, instruction ids and block references are
below the corresponding fresh counters, as are the name-table scope ids. -/
def St.wfS (s : St) : Prop :=
  (∀ f ∈ s.functions, ∀ b ∈ f.blocks, b.bid < s.nextBlockId ∧
      (∀ i ∈ b.instrs, i.iid < s.nextInstrId ∧ ∀ r ∈ i.op.blockRefs, r < s.nextBlockId)) ∧
  (∀ lvl ∈ s.nameTable, lvl.sid < s.nextScopeId)

theorem anonBumped_refl (l : List Ctx) : anonBumped l l := by
  cases l with
  | nil => rfl
  | cons c t => exact ⟨c.anonCounter, rfl⟩

theorem anonBumped_trans (l1 l2 l3 : List Ctx) (h1 : anonBumped l1 l2)
    (h2 : anonBumped l2 l3) : anonBumped l1 l3 := by
  cases l1 with
  | nil =>
    simp only [anonBumped] at h1
    subst h1
    exact h2
  | cons c t =>
    obtain ⟨k, hk⟩ := h1
    subst hk
    obtain ⟨k', hk'⟩ := h2
    exact ⟨k', hk'⟩

theorem appendList_nil (bid : Nat) (f : Func) : appendList [] bid f = f := by
  cases f with
  | mk fnm dk fk st sr ps bs la ls lsrc =>
    simp only [appendList]
    congr 1
    apply List.map_id''
    intro b
    cases b with
    | mk bbid bis =>
      by_cases h : bbid = bid <;> simp [h]

theorem appendIns_nil (ins : Option (Nat × Nat)) (j : Nat) (f : Func) :
    appendIns ins j [] f = f := by
  cases ins with
  | none => rfl
  | some p =>
    obtain ⟨fid, bid⟩ := p
    simp only [appendIns]
    by_cases h : j = fid <;> simp [h, appendList_nil]

theorem appendList_compose (L1 L2 : List Instr) (bid : Nat) (f : Func) :
    appendList L2 bid (appendList L1 bid f) = appendList (L1 ++ L2) bid f := by
  cases f with
  | mk fnm dk fk st sr ps bs la ls lsrc =>
    simp only [appendList, List.map_map]
    congr 1
    apply List.map_congr_left
    intro b _
    cases b with
    | mk bbid bis =>
      by_cases h : bbid = bid <;> simp [h]

theorem appendIns_compose (ins : Option (Nat × Nat)) (j : Nat) (L1 L2 : List Instr)
    (f : Func) : appendIns ins j L2 (appendIns ins j L1 f) = appendIns ins j (L1 ++ L2) f := by
  cases ins with
  | none => rfl
  | some p =>
    obtain ⟨fid, bid⟩ := p
    simp only [appendIns]
    by_cases h : j = fid <;> simp [h, appendList_compose]

/-- Monotone core facts shared by every lowering step. -/
structure StCore (s s' : St) : Prop where
  arch : ∃ A, s'.archived = A ++ s.archived
  flag : s.wfS → s'.epilogueNullDeref = s.epilogueNullDeref
  instrLe : s.nextInstrId ≤ s'.nextInstrId
  blockLe : s.nextBlockId ≤ s'.nextBlockId
  varLe : s.nextVarId ≤ s'.nextVarId
  scopeLe : s.nextScopeId ≤ s'.nextScopeId
  funLe : s.functions.length ≤ s'.functions.length
  wfp : s.wfS → s'.wfS

theorem StCore_refl (s : St) : StCore s s :=
  ⟨⟨[], rfl⟩, fun _ => rfl, Nat.le.refl, Nat.le.refl, Nat.le.refl, Nat.le.refl, Nat.le.refl,
    id⟩

theorem StCore_trans {s1 s2 s3 : St} (a : StCore s1 s2) (b : StCore s2 s3) : StCore s1 s3 := by
  refine ⟨?_, fun h => (b.flag (a.wfp h)).trans (a.flag h), a.instrLe.trans b.instrLe,
    a.blockLe.trans b.blockLe,
    a.varLe.trans b.varLe, a.scopeLe.trans b.scopeLe, a.funLe.trans b.funLe,
    fun h => b.wfp (a.wfp h)⟩
  obtain ⟨A1, h1⟩ := a.arch
  obtain ⟨A2, h2⟩ := b.arch
  exact ⟨A2 ++ A1, by rw [h2, h1, List.append_assoc]⟩

def wfB (nbi nii : Nat) (fns : List Func) : Prop :=
  ∀ f ∈ fns, ∀ b ∈ f.blocks, b.bid < nbi ∧
    ∀ i ∈ b.instrs, i.iid < nii ∧ ∀ r ∈ i.op.blockRefs, r < nbi

def wfT (nsi : Nat) (tbl : List ScopeLevel) : Prop := ∀ lvl ∈ tbl, lvl.sid < nsi

theorem wfS_iff (s : St) : s.wfS ↔ wfB s.nextBlockId s.nextInstrId s.functions ∧
    wfT s.nextScopeId s.nameTable := Iff.rfl

theorem wfB_mono {nbi nii nbi' nii' : Nat} {fns : List Func} (h : wfB nbi nii fns)
    (hb : nbi ≤ nbi') (hi : nii ≤ nii') : wfB nbi' nii' fns := by
  intro f hf b hb'
  obtain ⟨h1, h2⟩ := h f hf b hb'
  exact ⟨Nat.lt_of_lt_of_le h1 hb, fun i hi' =>
    ⟨Nat.lt_of_lt_of_le (h2 i hi').1 hi, fun r hr => Nat.lt_of_lt_of_le ((h2 i hi').2 r hr) hb⟩⟩

theorem wfT_mono {nsi nsi' : Nat} {tbl : List ScopeLevel} (h : wfT nsi tbl)
    (hs : nsi ≤ nsi') : wfT nsi' tbl :=
  fun lvl hl => Nat.lt_of_lt_of_le (h lvl hl) hs

theorem listUpdate_mem {α : Type} {l : List α} {i : Nat} {g : α → α} {x : α}
    (h : x ∈ listUpdate l i g) : x ∈ l ∨ ∃ y ∈ l, x = g y := by
  induction l generalizing i with
  | nil => simp [listUpdate] at h
  | cons a t ih =>
    cases i with
    | zero =>
      rcases List.mem_cons.mp h with h | h
      · exact Or.inr ⟨a, List.mem_cons_self a t, h⟩
      · exact Or.inl (List.mem_cons_of_mem _ h)
    | succ j =>
      rcases List.mem_cons.mp h with h | h
      · exact Or.inl (h ▸ List.mem_cons_self a t)
      · rcases ih h with h' | ⟨y, hy, hxy⟩
        · exact Or.inl (List.mem_cons_of_mem _ h')
        · exact Or.inr ⟨y, List.mem_cons_of_mem _ hy, hxy⟩

theorem wfB_appendList_update {nbi nii : Nat} {fns : List Func} (fid bid : Nat)
    (L : List Instr) (h : wfB nbi nii fns)
    (hL : ∀ i ∈ L, i.iid < nii ∧ ∀ r ∈ i.op.blockRefs, r < nbi) :
    wfB nbi nii (listUpdate fns fid (appendList L bid)) := by
  intro f hf b hb
  rcases listUpdate_mem hf with hf' | ⟨g, hg, rfl⟩
  · exact h f hf' b hb
  · simp only [appendList, List.mem_map] at hb
    obtain ⟨b0, hb0, rfl⟩ := hb
    by_cases hbb : b0.bid = bid
    · rw [if_pos hbb]
      refine ⟨(h g hg b0 hb0).1, fun i hi => ?_⟩
      rcases List.mem_append.mp hi with hi | hi
      · exact (h g hg b0 hb0).2 i hi
      · exact hL i hi
    · rw [if_neg hbb]
      exact h g hg b0 hb0

/-! ### Per-phase effect lemmas -/

theorem listUpdate_ge {α : Type} (l : List α) (i : Nat) (g : α → α) (h : l.length ≤ i) :
    listUpdate l i g = l := by
  induction l generalizing i with
  | nil => rfl
  | cons x t ih =>
    cases i with
    | zero => simp at h
    | succ j =>
      simp only [listUpdate, List.cons.injEq, true_and]
      exact ih j (by simpa using h)

/-- Effect of `emit` on every projection of the state. -/
theorem emit_effect (op : Op) (s : St) :
    (emit op s).2.contexts = s.contexts ∧ (emit op s).2.insertion = s.insertion ∧
    (emit op s).2.nameTable = s.nameTable ∧ (emit op s).2.archived = s.archived ∧
    (emit op s).2.nextBlockId = s.nextBlockId ∧ (emit op s).2.nextVarId = s.nextVarId ∧
    (emit op s).2.nextScopeId = s.nextScopeId ∧
    (emit op s).2.epilogueNullDeref = s.epilogueNullDeref ∧
    s.nextInstrId ≤ (emit op s).2.nextInstrId ∧ (emit op s).1 = s.nextInstrId ∧
    (∀ j, (emit op s).2.functions[j]? =
      (s.functions[j]?).map (appendIns s.insertion j [Instr.mk s.nextInstrId op])) := by
  cases hins : s.insertion with
  | none =>
    have he : emit op s = (s.nextInstrId, s.crash) := by simp [emit, hins]
    rw [he]
    refine ⟨rfl, hins, rfl, rfl, rfl, rfl, rfl, rfl, Nat.le.refl, rfl, fun j => ?_⟩
    show s.functions[j]? = _
    cases s.functions[j]? <;> simp [appendIns]
  | some p =>
    obtain ⟨fid, bid⟩ := p
    rw [emit_some op s fid bid hins]
    refine ⟨rfl, hins, rfl, rfl, rfl, rfl, rfl, rfl, Nat.le_succ _, rfl, fun j => ?_⟩
    by_cases hj : j = fid
    · subst hj
      show (listUpdate s.functions j _)[j]? = _
      rw [listUpdate_getElem_self]
      cases s.functions[j]? <;> simp [appendIns]
    · show (listUpdate s.functions fid _)[j]? = _
      rw [listUpdate_getElem_other _ _ _ _ (fun he => hj he.symm)]
      cases s.functions[j]? <;> simp [appendIns, hj]

theorem emit_wf (op : Op) (s : St) (h : ∀ r ∈ op.blockRefs, r < s.nextBlockId)
    (hw : s.wfS) : (emit op s).2.wfS := by
  cases hins : s.insertion with
  | none => simp only [emit, hins, St.crash]; exact hw
  | some p =>
    obtain ⟨fid, bid⟩ := p
    rw [emit_some op s fid bid hins]
    obtain ⟨hwb, hwt⟩ := hw
    refine ⟨?_, hwt⟩
    have := @wfB_appendList_update s.nextBlockId (s.nextInstrId + 1) s.functions
      fid bid [Instr.mk s.nextInstrId op]
      (wfB_mono hwb Nat.le.refl (Nat.le_succ _)) ?_
    · exact this
    · intro i hi
      simp only [List.mem_singleton] at hi
      subst hi
      exact ⟨Nat.lt_succ_self _, h⟩

theorem emit_StCore (op : Op) (s : St) (h : ∀ r ∈ op.blockRefs, r < s.nextBlockId) :
    StCore s (emit op s).2 := by
  obtain ⟨e1, e2, e3, e4, e5, e6, e7, e8, e9, e10, e11⟩ := emit_effect op s
  exact ⟨⟨[], by rw [e4]; rfl⟩, fun _ => e8, e9, Nat.le_of_eq e5.symm, Nat.le_of_eq e6.symm,
    Nat.le_of_eq e7.symm, by
      have : (emit op s).2.functions.length = s.functions.length := by
        cases hins : s.insertion with
        | none => simp [emit, hins, St.crash]
        | some p =>
          obtain ⟨fid, bid⟩ := p
          rw [emit_some op s fid bid hins]
          exact listUpdate_length _ _ _
      exact Nat.le_of_eq this.symm,
    emit_wf op s h⟩

theorem genAnon_effect (hint : Name) (s : St) :
    anonBumped s.contexts (genAnonymousLabelName hint s).2.contexts ∧
    (genAnonymousLabelName hint s).2.insertion = s.insertion ∧
    (genAnonymousLabelName hint s).2.nameTable = s.nameTable ∧
    (genAnonymousLabelName hint s).2.archived = s.archived ∧
    (genAnonymousLabelName hint s).2.functions = s.functions ∧
    (genAnonymousLabelName hint s).2.nextInstrId = s.nextInstrId ∧
    (genAnonymousLabelName hint s).2.nextBlockId = s.nextBlockId ∧
    (genAnonymousLabelName hint s).2.nextVarId = s.nextVarId ∧
    (genAnonymousLabelName hint s).2.nextScopeId = s.nextScopeId ∧
    (genAnonymousLabelName hint s).2.epilogueNullDeref = s.epilogueNullDeref ∧
    ((genAnonymousLabelName hint s).2.wfS ↔ s.wfS) := by
  cases hc : s.contexts with
  | nil =>
    have he : (genAnonymousLabelName hint s).2 = s.crash := by
      simp [genAnonymousLabelName, hc]
    rw [he]
    exact ⟨hc, rfl, rfl, rfl, rfl, rfl, rfl, rfl, rfl, rfl, Iff.rfl⟩
  | cons c t =>
    have he : (genAnonymousLabelName hint s).2 =
        { s with contexts := { c with anonCounter := c.anonCounter + 1 } :: t } := by
      simp [genAnonymousLabelName, hc]
    rw [he]
    exact ⟨⟨c.anonCounter + 1, rfl⟩, rfl, rfl, rfl, rfl, rfl, rfl, rfl, rfl, rfl, Iff.rfl⟩

theorem appendList_params_swap (L : List Instr) (bid : Nat) (f : Func) (p : List Name) :
    appendList L bid { f with params := p } = { appendList L bid f with params := p } := rfl

theorem papp_nil (bid : Nat) (f : Func) :
    ({ appendList [] bid f with params := f.params ++ [] } : Func) = f := by
  rw [appendList_nil, List.append_nil]

theorem papp_compose (L1 L2 : List Instr) (ps1 ps2 : List Name) (bid : Nat) (f : Func) :
    ({ appendList L2 bid ({ appendList L1 bid f with params := f.params ++ ps1 }) with
        params := (f.params ++ ps1) ++ ps2 } : Func) =
      { appendList (L1 ++ L2) bid f with params := f.params ++ (ps1 ++ ps2) } := by
  rw [appendList_params_swap, appendList_compose, List.append_assoc]

/-- Effect record for the steps inside `emitFunctionPrologue` (relative to the
current function `cfid` and the insertion block `bid`). -/
structure PStep (cfid bid : Nat) (s s' : St) : Prop where
  core : StCore s s'
  ctxs : anonBumped s.contexts s'.contexts
  ins : s'.insertion = s.insertion
  funcs : ∃ L ps, noBlockRefs L ∧ freshIds s.nextInstrId L ∧
    (∀ j, j < s.functions.length → j ≠ cfid → s'.functions[j]? = s.functions[j]?) ∧
    (cfid < s.functions.length → s'.functions[cfid]? = (s.functions[cfid]?).map
      (fun f => { appendList L bid f with params := f.params ++ ps }))
  tbl : s.wfS → ∀ c ct lvl rest, s.contexts = c :: ct → s.nameTable = lvl :: rest →
    lvl.sid = c.scopeId → (∀ l ∈ rest, l.sid ≠ c.scopeId) →
    ∃ es, s'.nameTable = { lvl with entries := es ++ lvl.entries } :: rest

theorem PStep_refl (cfid bid : Nat) (s : St) : PStep cfid bid s s := by
  refine ⟨StCore_refl s, anonBumped_refl _, rfl, ⟨[], [], ?_, ?_, ?_, ?_⟩, ?_⟩
  · intro i hi
    simp at hi
  · intro i hi
    simp at hi
  · intro j _ _
    rfl
  · intro _
    cases s.functions[cfid]? with
    | none => rfl
    | some f => exact congrArg some (papp_nil bid f).symm
  · intro _ c ct lvl rest hc ht _ _
    refine ⟨[], ?_⟩
    rw [ht]
    simp

theorem PStep_trans {cfid bid : Nat} {s1 s2 s3 : St} (a : PStep cfid bid s1 s2)
    (b : PStep cfid bid s2 s3) : PStep cfid bid s1 s3 := by
  refine ⟨StCore_trans a.core b.core, anonBumped_trans _ _ _ a.ctxs b.ctxs, b.ins.trans a.ins,
    ?_, ?_⟩
  · obtain ⟨L1, ps1, r1, f1, j1, c1⟩ := a.funcs
    obtain ⟨L2, ps2, r2, f2, j2, c2⟩ := b.funcs
    refine ⟨L1 ++ L2, ps1 ++ ps2, ?_, ?_, ?_, ?_⟩
    · intro i hi
      rcases List.mem_append.mp hi with hi | hi
      · exact r1 i hi
      · exact r2 i hi
    · intro i hi
      rcases List.mem_append.mp hi with hi | hi
      · exact f1 i hi
      · exact Nat.le_trans a.core.instrLe (f2 i hi)
    · intro j hj hne
      rw [j2 j (Nat.lt_of_lt_of_le hj a.core.funLe) hne, j1 j hj hne]
    · intro hlt
      rw [c2 (Nat.lt_of_lt_of_le hlt a.core.funLe), c1 hlt]
      cases s1.functions[cfid]? with
      | none => rfl
      | some f => exact congrArg some (papp_compose L1 L2 ps1 ps2 bid f)
  · intro hw c ct lvl rest hc ht hsid hrest
    obtain ⟨es1, h1⟩ := a.tbl hw c ct lvl rest hc ht hsid hrest
    obtain ⟨k, hk⟩ : anonBumped (c :: ct) s2.contexts := hc ▸ a.ctxs
    obtain ⟨es2, h2⟩ := b.tbl (a.core.wfp hw) { c with anonCounter := k } ct
      { lvl with entries := es1 ++ lvl.entries } rest hk h1 hsid hrest
    exact ⟨es2 ++ es1, by rw [h2, List.append_assoc]⟩

theorem PStep_crash (cfid bid : Nat) (s : St) : PStep cfid bid s s.crash := by
  refine ⟨⟨⟨[], rfl⟩, fun _ => rfl, Nat.le.refl, Nat.le.refl, Nat.le.refl, Nat.le.refl, Nat.le.refl,
    fun h => h⟩, anonBumped_refl _, rfl, ⟨[], [], ?_, ?_, ?_, ?_⟩, ?_⟩
  · intro i hi
    simp at hi
  · intro i hi
    simp at hi
  · intro j _ _
    rfl
  · intro _
    show s.functions[cfid]? = _
    cases s.functions[cfid]? with
    | none => rfl
    | some f => exact congrArg some (papp_nil bid f).symm
  · intro _ c ct lvl rest hc ht _ _
    refine ⟨[], ?_⟩
    show s.nameTable = _
    rw [ht]
    simp

theorem PStep_emit (cfid bid : Nat) (op : Op) (s : St) (hop : op.blockRefs = [])
    (hins : s.insertion = some (cfid, bid)) : PStep cfid bid s (emit op s).2 := by
  obtain ⟨e1, e2, e3, e4, e5, e6, e7, e8, e9, e10, e11⟩ := emit_effect op s
  refine ⟨emit_StCore op s (by rw [hop]; intro r hr; simp at hr), ?_, e2, ?_, ?_⟩
  · rw [e1]
    exact anonBumped_refl _
  · refine ⟨[Instr.mk s.nextInstrId op], [], ?_, ?_, ?_, ?_⟩
    · intro i hi
      simp only [List.mem_singleton] at hi
      subst hi
      exact hop
    · intro i hi
      simp only [List.mem_singleton] at hi
      subst hi
      exact Nat.le.refl
    · intro j _ hne
      rw [e11 j, hins]
      cases s.functions[j]? with
      | none => rfl
      | some f => simp [appendIns, hne]
    · intro _
      rw [e11 cfid, hins]
      cases s.functions[cfid]? with
      | none => rfl
      | some f =>
        refine congrArg some ?_
        show appendIns (some (cfid, bid)) cfid _ f = _
        simp only [appendIns, if_pos rfl, if_true, List.append_nil]
        rfl
  · intro _ c ct lvl rest hc ht _ _
    refine ⟨[], ?_⟩
    rw [e3, ht]
    simp

theorem PStep_createVariable (cfid bid : Nat) (nm : Name) (s : St) :
    PStep cfid bid s (createVariable nm s).2 := by
  refine ⟨⟨⟨[], rfl⟩, fun _ => rfl, Nat.le.refl, Nat.le.refl, Nat.le_succ _, Nat.le.refl, Nat.le.refl,
    fun h => h⟩, anonBumped_refl _, rfl, ⟨[], [], ?_, ?_, ?_, ?_⟩, ?_⟩
  · intro i hi
    simp at hi
  · intro i hi
    simp at hi
  · intro j _ _
    rfl
  · intro _
    show s.functions[cfid]? = _
    cases s.functions[cfid]? with
    | none => rfl
    | some f => exact congrArg some (papp_nil bid f).symm
  · intro _ c ct lvl rest hc ht _ _
    refine ⟨[], ?_⟩
    show s.nameTable = _
    rw [ht]
    simp

theorem PStep_createParameter (cfid bid : Nat) (nm : Name) (s : St) :
    PStep cfid bid s (createParameter cfid nm s).2 := by
  cases hf : s.getFunc cfid with
  | none =>
    have he : (createParameter cfid nm s).2 = s.crash := by simp [createParameter, hf]
    rw [he]
    exact PStep_crash cfid bid s
  | some f =>
    have he : (createParameter cfid nm s).2 =
        s.modifyFunc cfid (fun g => { g with params := g.params ++ [nm] }) := by
      simp [createParameter, hf]
    rw [he]
    refine ⟨⟨⟨[], rfl⟩, fun _ => rfl, Nat.le.refl, Nat.le.refl, Nat.le.refl, Nat.le.refl,
      ?_, ?_⟩,
      anonBumped_refl _, rfl, ⟨[], [nm], ?_, ?_, ?_, ?_⟩, ?_⟩
    · show s.functions.length ≤ (listUpdate s.functions cfid _).length
      rw [listUpdate_length]
    · intro hw
      obtain ⟨hwb, hwt⟩ := hw
      refine ⟨?_, hwt⟩
      intro g hg b hb
      rcases listUpdate_mem hg with hg' | ⟨g0, hg0, rfl⟩
      · exact hwb g hg' b hb
      · exact hwb g0 hg0 b hb
    · intro i hi
      simp at hi
    · intro i hi
      simp at hi
    · intro j _ hne
      show (listUpdate s.functions cfid _)[j]? = _
      rw [listUpdate_getElem_other _ _ _ _ (fun he' => hne he'.symm)]
    · intro _
      show (listUpdate s.functions cfid _)[cfid]? = _
      rw [listUpdate_getElem_self]
      cases s.functions[cfid]? with
      | none => rfl
      | some g =>
        refine congrArg some ?_
        exact congrArg (fun h : Func => ({ h with params := g.params ++ [nm] } : Func))
          (appendList_nil bid g).symm
    · intro _ c ct lvl rest hc ht _ _
      refine ⟨[], ?_⟩
      show s.nameTable = _
      rw [ht]
      simp

theorem PStep_genAnon (cfid bid : Nat) (hint : Name) (s : St) :
    PStep cfid bid s (genAnonymousLabelName hint s).2 := by
  obtain ⟨g1, g2, g3, g4, g5, g6, g7, g8, g9, g10, g11⟩ := genAnon_effect hint s
  refine ⟨⟨⟨[], by rw [g4]; rfl⟩, fun _ => g10, Nat.le_of_eq g6.symm, Nat.le_of_eq g7.symm,
    Nat.le_of_eq g8.symm, Nat.le_of_eq g9.symm, by rw [g5], fun h => g11.mpr h⟩,
    g1, g2, ⟨[], [], ?_, ?_, ?_, ?_⟩, ?_⟩
  · intro i hi
    simp at hi
  · intro i hi
    simp at hi
  · intro j _ _
    rw [g5]
  · intro _
    rw [g5]
    cases s.functions[cfid]? with
    | none => rfl
    | some f => exact congrArg some (papp_nil bid f).symm
  · intro _ c ct lvl rest hc ht _ _
    refine ⟨[], ?_⟩
    rw [g3, ht]
    simp

theorem wfT_map_sid_preserving {nsi : Nat} {tbl : List ScopeLevel} (f : ScopeLevel → ScopeLevel)
    (hf : ∀ l, (f l).sid = l.sid) (h : wfT nsi tbl) : wfT nsi (tbl.map f) := by
  intro l hl
  simp only [List.mem_map] at hl
  obtain ⟨l0, hl0, rfl⟩ := hl
  rw [hf l0]
  exact h l0 hl0

theorem PStep_emitStore (cfid bid : Nat) (v : Value) (target : Storage) (s : St)
    (hins : s.insertion = some (cfid, bid)) : PStep cfid bid s (emitStore v target s) := by
  cases target with
  | var vr => exact PStep_emit cfid bid _ s rfl hins
  | globalProp nm => exact PStep_emit cfid bid _ s rfl hins

theorem PStep_lrefStore (cfid bid : Nat) (p : PatNode) (v : Value) (s : St)
    (hins : s.insertion = some (cfid, bid)) : PStep cfid bid s (lrefStore p v s) := by
  cases p with
  | ident nm =>
    show PStep cfid bid s (match nameLookup nm s with
      | some st => emitStore v st s
      | none => (emit (Op.storeGlobal v nm) s).2)
    cases nameLookup nm s with
    | some st => exact PStep_emitStore cfid bid v st s hins
    | none => exact PStep_emit cfid bid (Op.storeGlobal v nm) s rfl hins
  | pattern x => exact PStep_emit cfid bid (Op.destructure v) s rfl hins

theorem PStep_emitOptionalInitialization (cfid bid : Nat) (pv : Value) (hasInit : Bool)
    (s : St) (hins : s.insertion = some (cfid, bid)) :
    PStep cfid bid s (emitOptionalInitialization pv hasInit s).2 := by
  cases hasInit with
  | true => exact PStep_emit cfid bid _ s rfl hins
  | false => exact PStep_refl cfid bid s

theorem PStep_insertTop (cfid bid : Nat) (nm : Name) (stg : Storage) (s : St) :
    PStep cfid bid s (insertTop nm stg s) := by
  cases ht : s.nameTable with
  | nil =>
    have he : insertTop nm stg s = s.crash := by simp [insertTop, ht]
    rw [he]
    exact PStep_crash cfid bid s
  | cons lvl t =>
    have he : insertTop nm stg s =
        { s with nameTable := { lvl with entries := (nm, stg) :: lvl.entries } :: t } := by
      simp [insertTop, ht]
    rw [he]
    refine ⟨⟨⟨[], rfl⟩, fun _ => rfl, Nat.le.refl, Nat.le.refl, Nat.le.refl, Nat.le.refl, Nat.le.refl,
      ?_⟩, anonBumped_refl _, rfl, ⟨[], [], ?_, ?_, ?_, ?_⟩, ?_⟩
    · intro hw
      obtain ⟨hwb, hwt⟩ := hw
      refine ⟨hwb, ?_⟩
      intro l hl
      rcases List.mem_cons.mp hl with h | h
      · subst h
        show lvl.sid < s.nextScopeId
        exact hwt lvl (by rw [ht]; exact List.mem_cons_self lvl t)
      · exact hwt l (by rw [ht]; exact List.mem_cons_of_mem lvl h)
    · intro i hi
      simp at hi
    · intro i hi
      simp at hi
    · intro j _ _
      rfl
    · intro _
      show s.functions[cfid]? = _
      cases s.functions[cfid]? with
      | none => rfl
      | some f => exact congrArg some (papp_nil bid f).symm
    · intro _ c ct lvl0 rest hc ht2 hsid hrest
      rw [ht] at ht2
      injection ht2 with h1 h2
      subst h1
      subst h2
      exact ⟨[(nm, stg)], rfl⟩

theorem PStep_declProp (cfid bid fid : Nat) (nm : Name) (s : St) :
    PStep cfid bid s (declareVariableOrGlobalProperty fid nm s).2 := by
  cases hc : s.curCtx with
  | none =>
    have he : (declareVariableOrGlobalProperty fid nm s).2 = s.crash := by
      simp [declareVariableOrGlobalProperty, hc]
    rw [he]
    exact PStep_crash cfid bid s
  | some c =>
    cases hl : lookupScopeLevel c.scopeId nm s with
    | some stg =>
      have he : (declareVariableOrGlobalProperty fid nm s).2 = s := by
        simp [declareVariableOrGlobalProperty, hc, hl]
      rw [he]
      exact PStep_refl cfid bid s
    | none =>
      have he : (declareVariableOrGlobalProperty fid nm s).2 =
          { s with nextVarId := s.nextVarId + 1,
                   nameTable := s.nameTable.map (fun l =>
                     if l.sid = c.scopeId
                     then { l with entries :=
                       (nm, Storage.var { vid := s.nextVarId, vname := nm }) :: l.entries }
                     else l) } := by
        simp [declareVariableOrGlobalProperty, hc, hl, insertIntoScope, createVariable]
      rw [he]
      refine ⟨⟨⟨[], rfl⟩, fun _ => rfl, Nat.le.refl, Nat.le.refl, Nat.le_succ _, Nat.le.refl, Nat.le.refl,
        ?_⟩, anonBumped_refl _, rfl, ⟨[], [], ?_, ?_, ?_, ?_⟩, ?_⟩
      · intro hw
        obtain ⟨hwb, hwt⟩ := hw
        refine ⟨hwb, ?_⟩
        refine wfT_map_sid_preserving _ (fun l => ?_) hwt
        by_cases h : l.sid = c.scopeId <;> simp [h]
      · intro i hi
        simp at hi
      · intro i hi
        simp at hi
      · intro j _ _
        rfl
      · intro _
        show s.functions[cfid]? = _
        cases s.functions[cfid]? with
        | none => rfl
        | some f => exact congrArg some (papp_nil bid f).symm
      · intro _ c0 ct lvl rest hcs ht hsid hrest
        have hc0 : c0 = c := by
          rw [St.curCtx, hcs] at hc
          simp only [List.head?] at hc
          injection hc
        rw [hc0] at hsid hrest
        refine ⟨[(nm, Storage.var { vid := s.nextVarId, vname := nm })], ?_⟩
        show (s.nameTable.map (fun l =>
          if l.sid = c.scopeId
          then { l with entries :=
            (nm, Storage.var { vid := s.nextVarId, vname := nm }) :: l.entries }
          else l)) = _
        rw [ht, List.map_cons]
        congr 1
        · rw [if_pos hsid]
          rfl
        · have hmapid : rest.map (fun l =>
              if l.sid = c.scopeId
              then { l with entries :=
                (nm, Storage.var { vid := s.nextVarId, vname := nm }) :: l.entries }
              else l) = rest.map id := by
            apply List.map_congr_left
            intro l0 hl0
            exact if_neg (hrest l0 hl0)
          rw [hmapid, List.map_id]

theorem PStep_hoistVarDecl (cfid bid fid : Nat) (nm : Name) (s : St)
    (hins : s.insertion = some (cfid, bid)) : PStep cfid bid s (hoistVarDecl fid nm s) := by
  have h1 := PStep_declProp cfid bid fid nm s
  rcases hr : declareVariableOrGlobalProperty fid nm s with ⟨⟨stg, b⟩, s2⟩
  rw [hr] at h1
  cases stg with
  | var v =>
    cases b with
    | true =>
      have he : hoistVarDecl fid nm s = (emit (Op.storeFrame Value.litUndefined v) s2).2 := by
        simp [hoistVarDecl, hr]
      rw [he]
      exact PStep_trans h1 (PStep_emit cfid bid _ s2 rfl (h1.ins.trans hins))
    | false =>
      have he : hoistVarDecl fid nm s = s2 := by simp [hoistVarDecl, hr]
      rw [he]
      exact h1
  | globalProp g =>
    have he : hoistVarDecl fid nm s = s2 := by simp [hoistVarDecl, hr]
    rw [he]
    exact h1

theorem PStep_hoistVarDecls (cfid bid fid : Nat) (names : List Name) :
    ∀ s : St, s.insertion = some (cfid, bid) →
    PStep cfid bid s (hoistVarDecls fid names s) := by
  induction names with
  | nil =>
    intro s _
    exact PStep_refl cfid bid s
  | cons nm t ih =>
    intro s hins
    have h1 := PStep_hoistVarDecl cfid bid fid nm s hins
    exact PStep_trans h1 (ih (hoistVarDecl fid nm s) (h1.ins.trans hins))

theorem PStep_declareClosures (cfid bid fid : Nat) (cs : List FuncDecl) :
    ∀ s : St, PStep cfid bid s (declareClosures fid cs s) := by
  induction cs with
  | nil =>
    intro s
    exact PStep_refl cfid bid s
  | cons fd t ih =>
    intro s
    exact PStep_trans (PStep_declProp cfid bid fid fd.nm s) (ih _)

theorem PStep_declareParamVars (cfid bid : Nat) (names : List Name) :
    ∀ s : St, PStep cfid bid s (declareParamVars names s) := by
  induction names with
  | nil =>
    intro s
    exact PStep_refl cfid bid s
  | cons nm t ih =>
    intro s
    exact PStep_trans (PStep_createVariable cfid bid nm s)
      (PStep_trans (PStep_insertTop cfid bid nm
        (Storage.var { vid := s.nextVarId, vname := nm }) (createVariable nm s).2) (ih _))

theorem PStep_emitParamList (cfid bid : Nat) (ps : List ParamNode) :
    ∀ (k : Nat) (s : St), s.insertion = some (cfid, bid) →
    PStep cfid bid s (emitParamList cfid ps k s) := by
  induction ps with
  | nil =>
    intro k s _
    exact PStep_refl cfid bid s
  | cons p t ih =>
    intro k s hins
    cases p with
    | rest r =>
      have h1 := PStep_emit cfid bid (Op.hermesInternal "copyRestArgs" Value.litUndefined
        [Value.litNumber ((k + 1) % 4294967296)]) s rfl hins
      exact PStep_trans h1 (PStep_lrefStore cfid bid r
        (Value.inst (emit (Op.hermesInternal "copyRestArgs" Value.litUndefined
          [Value.litNumber ((k + 1) % 4294967296)]) s).1)
        (emit (Op.hermesInternal "copyRestArgs" Value.litUndefined
          [Value.litNumber ((k + 1) % 4294967296)]) s).2 (h1.ins.trans hins))
    | assign q init =>
      cases q with
      | ident nm =>
        have h1 := PStep_createParameter cfid bid nm s
        have h2 := PStep_emitOptionalInitialization cfid bid
          (Value.param cfid (createParameter cfid nm s).1) true
          (createParameter cfid nm s).2 (h1.ins.trans hins)
        have h3 := PStep_lrefStore cfid bid (PatNode.ident nm)
          (emitOptionalInitialization (Value.param cfid (createParameter cfid nm s).1) true
            (createParameter cfid nm s).2).1
          (emitOptionalInitialization (Value.param cfid (createParameter cfid nm s).1) true
            (createParameter cfid nm s).2).2
          (h2.ins.trans (h1.ins.trans hins))
        exact PStep_trans h1 (PStep_trans h2 (PStep_trans h3
          (ih _ _ (h3.ins.trans (h2.ins.trans (h1.ins.trans hins))))))
      | pattern x =>
        have h0 := PStep_genAnon cfid bid "param" s
        have h1 := PStep_createParameter cfid bid (genAnonymousLabelName "param" s).1
          (genAnonymousLabelName "param" s).2
        have h2 := PStep_emitOptionalInitialization cfid bid
          (Value.param cfid (createParameter cfid (genAnonymousLabelName "param" s).1
            (genAnonymousLabelName "param" s).2).1) true
          (createParameter cfid (genAnonymousLabelName "param" s).1
            (genAnonymousLabelName "param" s).2).2
          (h1.ins.trans (h0.ins.trans hins))
        have h3 := PStep_lrefStore cfid bid (PatNode.pattern x)
          (emitOptionalInitialization (Value.param cfid (createParameter cfid
              (genAnonymousLabelName "param" s).1 (genAnonymousLabelName "param" s).2).1) true
            (createParameter cfid (genAnonymousLabelName "param" s).1
              (genAnonymousLabelName "param" s).2).2).1
          (emitOptionalInitialization (Value.param cfid (createParameter cfid
              (genAnonymousLabelName "param" s).1 (genAnonymousLabelName "param" s).2).1) true
            (createParameter cfid (genAnonymousLabelName "param" s).1
              (genAnonymousLabelName "param" s).2).2).2
          (h2.ins.trans (h1.ins.trans (h0.ins.trans hins)))
        exact PStep_trans h0 (PStep_trans h1 (PStep_trans h2 (PStep_trans h3
          (ih _ _ (h3.ins.trans (h2.ins.trans
            (h1.ins.trans (h0.ins.trans hins))))))))
    | plain q =>
      cases q with
      | ident nm =>
        have h1 := PStep_createParameter cfid bid nm s
        have h3 := PStep_lrefStore cfid bid (PatNode.ident nm)
          (Value.param cfid (createParameter cfid nm s).1)
          (createParameter cfid nm s).2 (h1.ins.trans hins)
        exact PStep_trans h1 (PStep_trans h3 (ih _ _ (h3.ins.trans (h1.ins.trans hins))))
      | pattern x =>
        have h0 := PStep_genAnon cfid bid "param" s
        have h1 := PStep_createParameter cfid bid (genAnonymousLabelName "param" s).1
          (genAnonymousLabelName "param" s).2
        have h3 := PStep_lrefStore cfid bid (PatNode.pattern x)
          (Value.param cfid (createParameter cfid (genAnonymousLabelName "param" s).1
            (genAnonymousLabelName "param" s).2).1)
          (createParameter cfid (genAnonymousLabelName "param" s).1
            (genAnonymousLabelName "param" s).2).2
          (h1.ins.trans (h0.ins.trans hins))
        exact PStep_trans h0 (PStep_trans h1 (PStep_trans h3
          (ih _ _ (h3.ins.trans (h1.ins.trans (h0.ins.trans hins))))))

theorem PStep_emitParameters (cfid bid : Nat) (node : FuncNode) (s : St)
    (hins : s.insertion = some (cfid, bid))
    (hcf : ∀ c ct, s.contexts = c :: ct → c.funcId = cfid) :
    PStep cfid bid s (emitParameters node s) := by
  cases hc : s.curCtx with
  | none =>
    have he : emitParameters node s = s.crash := by simp [emitParameters, hc]
    rw [he]
    exact PStep_crash cfid bid s
  | some c =>
    have hcf' : c.funcId = cfid := by
      cases hcs : s.contexts with
      | nil =>
        rw [St.curCtx, hcs] at hc
        simp at hc
      | cons c0 ct =>
        rw [St.curCtx, hcs] at hc
        simp only [List.head?] at hc
        injection hc with h
        exact h ▸ hcf c0 ct hcs
    have he : emitParameters node s = emitParamList c.funcId node.params 4294967295
        (declareParamVars node.sem.paramNames (createParameter c.funcId "this" s).2) := by
      simp [emitParameters, hc]
    rw [he, hcf']
    have h1 := PStep_createParameter cfid bid "this" s
    have h2 := PStep_declareParamVars cfid bid node.sem.paramNames
      (createParameter cfid "this" s).2
    exact PStep_trans h1 (PStep_trans h2 (PStep_emitParamList cfid bid node.params 4294967295 _
      ((PStep_trans h1 h2).ins.trans hins)))

theorem listUpdate_listUpdate {α : Type} (l : List α) (i : Nat) (f g : α → α) :
    listUpdate (listUpdate l i f) i g = listUpdate l i (fun x => g (f x)) := by
  induction l generalizing i with
  | nil => rfl
  | cons x t ih =>
    cases i with
    | zero => rfl
    | succ j =>
      simp only [listUpdate]
      rw [ih]

theorem map_appendIns_nil (ins : Option (Nat × Nat)) (j : Nat) (o : Option Func) :
    o.map (appendIns ins j []) = o := by
  cases o with
  | none => rfl
  | some f => exact congrArg some (appendIns_nil ins j f)

theorem find?_iid_append (l1 l2 : List Instr) (tid : Nat) (h2 : ∀ i ∈ l2, i.iid ≠ tid) :
    (l1 ++ l2).find? (fun i => i.iid = tid) = l1.find? (fun i => i.iid = tid) := by
  induction l1 with
  | nil =>
    simp only [List.nil_append, List.find?_nil]
    apply List.find?_eq_none.mpr
    intro i hi
    simp only [decide_eq_true_eq]
    exact h2 i hi
  | cons i t ih =>
    by_cases hp : i.iid = tid
    · rw [List.cons_append, List.find?_cons_of_pos _ (by simpa using hp),
        List.find?_cons_of_pos _ (by simpa using hp)]
    · rw [List.cons_append, List.find?_cons_of_neg _ (by simpa using hp),
        List.find?_cons_of_neg _ (by simpa using hp)]
      exact ih

theorem find?_iid_append_self (l : List Instr) (i0 : Instr)
    (h : ∀ i ∈ l, i.iid ≠ i0.iid) :
    (l ++ [i0]).find? (fun i => i.iid = i0.iid) = some i0 := by
  induction l with
  | nil =>
    rw [List.nil_append, List.find?_cons_of_pos _ (by simp)]
  | cons i t ih =>
    rw [List.cons_append,
      List.find?_cons_of_neg _ (by simpa using h i (List.mem_cons_self i t))]
    exact ih (fun j hj => h j (List.mem_cons_of_mem i hj))

theorem findSome_blocks_append (bs : List BasicBlock) (L : List Instr) (bid tid : Nat)
    (hL : ∀ i ∈ L, i.iid ≠ tid) :
    ((bs.map (fun b => if b.bid = bid then { b with instrs := b.instrs ++ L } else b)).findSome?
      (fun b => b.instrs.find? (fun i => i.iid = tid))) =
    bs.findSome? (fun b => b.instrs.find? (fun i => i.iid = tid)) := by
  induction bs with
  | nil => rfl
  | cons b t ih =>
    simp only [List.map_cons, List.findSome?_cons]
    by_cases hb : b.bid = bid
    · rw [if_pos hb]
      dsimp only
      rw [find?_iid_append b.instrs L tid hL]
      cases b.instrs.find? (fun i => i.iid = tid) with
      | none => exact ih
      | some i => rfl
    · rw [if_neg hb]
      cases b.instrs.find? (fun i => i.iid = tid) with
      | none => exact ih
      | some i => rfl

theorem findInstr_appendList (L : List Instr) (bid tid : Nat) (f : Func)
    (hL : ∀ i ∈ L, i.iid ≠ tid) :
    (appendList L bid f).findInstr tid = f.findInstr tid :=
  findSome_blocks_append f.blocks L bid tid hL

theorem findInstr_params (f : Func) (p : List Name) (tid : Nat) :
    ({ f with params := p } : Func).findInstr tid = f.findInstr tid := rfl

theorem findSome_blocks_append_self (bs : List BasicBlock) (i0 : Instr) (e : Nat)
    (hfound : (bs.find? (fun b => b.bid = e)).isSome = true)
    (hold : ∀ b ∈ bs, ∀ i ∈ b.instrs, i.iid ≠ i0.iid) :
    ((bs.map (fun b => if b.bid = e then { b with instrs := b.instrs ++ [i0] } else b)).findSome?
      (fun b => b.instrs.find? (fun i => i.iid = i0.iid))) = some i0 := by
  induction bs with
  | nil => simp at hfound
  | cons b t ih =>
    simp only [List.map_cons, List.findSome?_cons]
    by_cases hb : b.bid = e
    · rw [if_pos hb]
      dsimp only
      rw [find?_iid_append_self b.instrs i0 (hold b (List.mem_cons_self b t))]
    · rw [if_neg hb]
      have hn : b.instrs.find? (fun i => i.iid = i0.iid) = none := by
        apply List.find?_eq_none.mpr
        intro i hi
        simpa using hold b (List.mem_cons_self b t) i hi
      rw [hn]
      have hf' : (t.find? (fun b => b.bid = e)).isSome = true := by
        rwa [List.find?_cons_of_neg _ (by simpa using hb)] at hfound
      exact ih hf' (fun b' hb' => hold b' (List.mem_cons_of_mem b hb'))

/-- Appending a fresh terminator instruction to an existing block makes it the
unique hit of `findInstr`, provided every existing instruction has a
different id. -/
theorem findInstr_appendList_self (i0 : Instr) (e : Nat) (f : Func)
    (hfound : (f.blocks.find? (fun b => b.bid = e)).isSome = true)
    (hold : ∀ b ∈ f.blocks, ∀ i ∈ b.instrs, i.iid ≠ i0.iid) :
    (appendList [i0] e f).findInstr i0.iid = some i0 :=
  findSome_blocks_append_self f.blocks i0 e hfound hold

theorem mem_insertBeforeInstr {x : Instr} {iid : Nat} {newIs l : List Instr}
    (h : x ∈ insertBeforeInstr iid newIs l) : x ∈ newIs ∨ x ∈ l := by
  induction l with
  | nil => simp [insertBeforeInstr] at h
  | cons i t ih =>
    simp only [insertBeforeInstr] at h
    by_cases hp : i.iid = iid
    · rw [if_pos hp] at h
      rcases List.mem_append.mp h with h | h
      · exact Or.inl h
      · exact Or.inr h
    · rw [if_neg hp] at h
      rcases List.mem_cons.mp h with h | h
      · exact Or.inr (h ▸ List.mem_cons_self i t)
      · rcases ih h with h | h
        · exact Or.inl h
        · exact Or.inr (List.mem_cons_of_mem i h)

theorem wfT_filter (nsi : Nat) (tbl : List ScopeLevel) (p : ScopeLevel → Bool)
    (h : wfT nsi tbl) : wfT nsi (tbl.filter p) :=
  fun lvl hl => h lvl (List.mem_of_mem_filter hl)



/-- Effect of `initCaptureStateInES5Function` relative to any current context
and insertion point: only the head context's capture references (and anonymous
counter) change, instructions are appended at the insertion point only, and
everything else is preserved. -/
theorem initCapture_effect (s : St) (c : Ctx) (ct : List Ctx) (fid bi : Nat)
    (hcs : s.contexts = c :: ct) (hins : s.insertion = some (fid, bi)) :
    (∃ a' cT cNT cA, (initCaptureStateInES5Function s).contexts =
      { c with capturedThis := cT, capturedNewTarget := cNT,
               capturedArguments := cA, anonCounter := a' } :: ct) ∧
    (∃ L, noBlockRefs L ∧ freshIds s.nextInstrId L ∧
      (∀ j, (initCaptureStateInES5Function s).functions[j]? =
        (s.functions[j]?).map (appendIns s.insertion j L))) ∧
    (initCaptureStateInES5Function s).insertion = s.insertion ∧
    (initCaptureStateInES5Function s).nameTable = s.nameTable ∧
    (initCaptureStateInES5Function s).archived = s.archived ∧
    (initCaptureStateInES5Function s).epilogueNullDeref = s.epilogueNullDeref ∧
    s.nextInstrId ≤ (initCaptureStateInES5Function s).nextInstrId ∧
    (initCaptureStateInES5Function s).nextBlockId = s.nextBlockId ∧
    s.nextVarId ≤ (initCaptureStateInES5Function s).nextVarId ∧
    (initCaptureStateInES5Function s).nextScopeId = s.nextScopeId ∧
    (initCaptureStateInES5Function s).functions.length = s.functions.length ∧
    (s.wfS → (initCaptureStateInES5Function s).wfS) := by
  obtain ⟨fns, ctxs, arch, tbl, ins, nii, nbi, nvi, nsi, af, ed⟩ := s
  obtain ⟨cfid, csem, cthis, cnt, cargs, cterm, canon, clab, csav, cscope⟩ := c
  simp only at hcs hins ⊢
  subst hcs hins
  cases csem with
  | none =>
    have he : ∀ st : St,
        st.contexts = Ctx.mk cfid none cthis cnt cargs cterm canon clab csav cscope :: ct →
        initCaptureStateInES5Function st = st.crash := by
      intro st hcst
      simp [initCaptureStateInES5Function, St.curCtx, hcst]
    rw [he _ rfl]
    refine ⟨⟨canon, cthis, cnt, cargs, rfl⟩, ⟨[], ?_, ?_, ?_⟩, rfl, rfl, rfl, rfl,
      Nat.le.refl, rfl, Nat.le.refl, rfl, rfl, fun h => h⟩
    · intro i hi
      simp at hi
    · intro i hi
      simp at hi
    · intro j
      exact (map_appendIns_nil (some (fid, bi)) j fns[j]?).symm
  | some si =>
    cases haf : si.containsArrowFunctions with
    | false =>
      have he : ∀ st : St,
          st.contexts =
            Ctx.mk cfid (some si) cthis cnt cargs cterm canon clab csav cscope :: ct →
          initCaptureStateInES5Function st = st := by
        intro st hcst
        simp [initCaptureStateInES5Function, St.curCtx, hcst, haf]
      rw [he _ rfl]
      refine ⟨⟨canon, cthis, cnt, cargs, rfl⟩, ⟨[], ?_, ?_, ?_⟩, rfl, rfl, rfl, rfl,
        Nat.le.refl, rfl, Nat.le.refl, rfl, rfl, fun h => h⟩
      · intro i hi
        simp at hi
      · intro i hi
        simp at hi
      · intro j
        exact (map_appendIns_nil (some (fid, bi)) j fns[j]?).symm
    | true =>
      cases hua : si.containsArrowFunctionsUsingArguments with
      | false =>
        simp only [initCaptureStateInES5Function, St.curCtx, List.head?_cons, haf, hua,
          genAnonymousLabelName, createVariable, St.modifyCtx, emitStore, emit, St.modifyFunc,
          appendInstrToBlock_eq_appendList, Bool.not_true, Bool.false_eq_true, if_false,
          if_true, Option.map_some', Option.getD_some]
        refine ⟨⟨canon + 2, _, _, cargs, rfl⟩,
          ⟨[Instr.mk nii (Op.storeFrame (Value.param fid 0)
              (Variable.mk nvi ("?anon_" ++ toString canon ++ "_" ++ "this"))),
            Instr.mk (nii + 1) Op.getNewTarget,
            Instr.mk (nii + 2) (Op.storeFrame (Value.inst (nii + 1))
              (Variable.mk (nvi + 1)
                ("?anon_" ++ toString (canon + 1) ++ "_" ++ "new.target")))], ?_, ?_, ?_⟩,
          (by trivial), (by trivial), (by trivial), (by trivial),
          Nat.le_add_right nii 3, (by trivial), Nat.le_add_right nvi 2, (by trivial),
          ?_, ?_⟩
        · intro i hi
          simp only [List.mem_cons, List.mem_singleton] at hi
          rcases hi with rfl | rfl | rfl | h
          · rfl
          · rfl
          · rfl
          · simp at h
        · intro i hi
          simp only [List.mem_cons, List.mem_singleton] at hi
          rcases hi with rfl | rfl | rfl | h
          · exact Nat.le.refl
          · show nii ≤ nii + 1
            omega
          · show nii ≤ nii + 2
            omega
          · simp at h
        · intro j
          rw [listUpdate_listUpdate, listUpdate_listUpdate]
          by_cases hj : j = fid
          · subst hj
            rw [listUpdate_getElem_self]
            cases fns[j]? with
            | none => rfl
            | some f =>
              refine congrArg some ?_
              show appendList _ bi (appendList _ bi (appendList _ bi f)) =
                appendIns (some (j, bi)) j _ f
              have ha : ∀ M : List Instr, appendIns (some (j, bi)) j M f =
                  appendList M bi f := by
                intro M
                simp [appendIns]
              rw [ha, appendList_compose, appendList_compose]
              rfl
          · rw [listUpdate_getElem_other _ _ _ _ (fun h => hj h.symm)]
            cases fns[j]? with
            | none => rfl
            | some f =>
              refine congrArg some ?_
              show f = appendIns (some (fid, bi)) j _ f
              simp [appendIns, hj]
        · exact ((listUpdate_length _ _ _).trans (listUpdate_length _ _ _)).trans
            (listUpdate_length _ _ _)
        · intro hw
          obtain ⟨hwb, hwt⟩ := hw
          refine ⟨?_, hwt⟩
          apply wfB_appendList_update
          · apply wfB_appendList_update
            · apply wfB_appendList_update
              · exact wfB_mono hwb Nat.le.refl (Nat.le_add_right nii 3)
              · intro i hi
                simp only [List.mem_singleton] at hi
                subst hi
                refine ⟨show nii < nii + 3 by omega, ?_⟩
                intro r hr
                simp [Op.blockRefs] at hr
            · intro i hi
              simp only [List.mem_singleton] at hi
              subst hi
              refine ⟨show nii + 1 < nii + 3 by omega, ?_⟩
              intro r hr
              simp [Op.blockRefs] at hr
          · intro i hi
            simp only [List.mem_singleton] at hi
            subst hi
            refine ⟨show nii + 2 < nii + 3 by omega, ?_⟩
            intro r hr
            simp [Op.blockRefs] at hr
      | true =>
        simp only [initCaptureStateInES5Function, St.curCtx, List.head?_cons, haf, hua,
          genAnonymousLabelName, createVariable, St.modifyCtx, emitStore, emit, St.modifyFunc,
          appendInstrToBlock_eq_appendList, Bool.not_true, Bool.false_eq_true, if_false,
          if_true, Option.map_some', Option.getD_some]
        refine ⟨⟨canon + 3, _, _, _, rfl⟩,
          ⟨[Instr.mk nii (Op.storeFrame (Value.param fid 0)
              (Variable.mk nvi ("?anon_" ++ toString canon ++ "_" ++ "this"))),
            Instr.mk (nii + 1) Op.getNewTarget,
            Instr.mk (nii + 2) (Op.storeFrame (Value.inst (nii + 1))
              (Variable.mk (nvi + 1)
                ("?anon_" ++ toString (canon + 1) ++ "_" ++ "new.target"))),
            Instr.mk (nii + 3) Op.createArguments,
            Instr.mk (nii + 4) (Op.storeFrame (Value.inst (nii + 3))
              (Variable.mk (nvi + 2)
                ("?anon_" ++ toString (canon + 2) ++ "_" ++ "arguments")))], ?_, ?_, ?_⟩,
          (by trivial), (by trivial), (by trivial), (by trivial),
          Nat.le_add_right nii 5, (by trivial), Nat.le_add_right nvi 3, (by trivial),
          ?_, ?_⟩
        · intro i hi
          simp only [List.mem_cons, List.mem_singleton] at hi
          rcases hi with rfl | rfl | rfl | rfl | rfl | h
          · rfl
          · rfl
          · rfl
          · rfl
          · rfl
          · simp at h
        · intro i hi
          simp only [List.mem_cons, List.mem_singleton] at hi
          rcases hi with rfl | rfl | rfl | rfl | rfl | h
          · exact Nat.le.refl
          · show nii ≤ nii + 1
            omega
          · show nii ≤ nii + 2
            omega
          · show nii ≤ nii + 3
            omega
          · show nii ≤ nii + 4
            omega
          · simp at h
        · intro j
          rw [listUpdate_listUpdate, listUpdate_listUpdate, listUpdate_listUpdate,
            listUpdate_listUpdate]
          by_cases hj : j = fid
          · subst hj
            rw [listUpdate_getElem_self]
            cases fns[j]? with
            | none => rfl
            | some f =>
              refine congrArg some ?_
              show appendList _ bi (appendList _ bi (appendList _ bi (appendList _ bi
                (appendList _ bi f)))) = appendIns (some (j, bi)) j _ f
              have ha : ∀ M : List Instr, appendIns (some (j, bi)) j M f =
                  appendList M bi f := by
                intro M
                simp [appendIns]
              rw [ha, appendList_compose, appendList_compose, appendList_compose,
                appendList_compose]
              rfl
          · rw [listUpdate_getElem_other _ _ _ _ (fun h => hj h.symm)]
            cases fns[j]? with
            | none => rfl
            | some f =>
              refine congrArg some ?_
              show f = appendIns (some (fid, bi)) j _ f
              simp [appendIns, hj]
        · exact ((((listUpdate_length _ _ _).trans (listUpdate_length _ _ _)).trans
            (listUpdate_length _ _ _)).trans (listUpdate_length _ _ _)).trans
            (listUpdate_length _ _ _)
        · intro hw
          obtain ⟨hwb, hwt⟩ := hw
          refine ⟨?_, hwt⟩
          apply wfB_appendList_update
          · apply wfB_appendList_update
            · apply wfB_appendList_update
              · apply wfB_appendList_update
                · apply wfB_appendList_update
                  · exact wfB_mono hwb Nat.le.refl (Nat.le_add_right nii 5)
                  · intro i hi
                    simp only [List.mem_singleton] at hi
                    subst hi
                    refine ⟨show nii < nii + 5 by omega, ?_⟩
                    intro r hr
                    simp [Op.blockRefs] at hr
                · intro i hi
                  simp only [List.mem_singleton] at hi
                  subst hi
                  refine ⟨show nii + 1 < nii + 5 by omega, ?_⟩
                  intro r hr
                  simp [Op.blockRefs] at hr
              · intro i hi
                simp only [List.mem_singleton] at hi
                subst hi
                refine ⟨show nii + 2 < nii + 5 by omega, ?_⟩
                intro r hr
                simp [Op.blockRefs] at hr
            · intro i hi
              simp only [List.mem_singleton] at hi
              subst hi
              refine ⟨show nii + 3 < nii + 5 by omega, ?_⟩
              intro r hr
              simp [Op.blockRefs] at hr
          · intro i hi
            simp only [List.mem_singleton] at hi
            subst hi
            refine ⟨show nii + 4 < nii + 5 by omega, ?_⟩
            intro r hr
            simp [Op.blockRefs] at hr

theorem popContext_eq (s : St) (c : Ctx) (ct : List Ctx) (hc : s.contexts = c :: ct) :
    popContext s =
      { s with contexts := ct, archived := c :: s.archived,
               insertion := c.savedInsertion,
               nameTable := s.nameTable.filter (fun lvl => lvl.sid ≠ c.scopeId) } := by
  simp [popContext, hc]

theorem popContext_wf (s : St) (hw : s.wfS) : (popContext s).wfS := by
  cases hc : s.contexts with
  | nil =>
    have he : popContext s = s.crash := by simp [popContext, hc]
    rw [he]
    exact hw
  | cons c ct =>
    rw [popContext_eq s c ct hc]
    refine ⟨hw.1, ?_⟩
    exact wfT_filter _ _ _ hw.2

theorem createBasicBlock_wf (fid : Nat) (s : St) (hw : s.wfS) :
    (createBasicBlock fid s).2.wfS := by
  obtain ⟨hwb, hwt⟩ := hw
  refine ⟨?_, hwt⟩
  intro f hf b hb
  rcases listUpdate_mem hf with hf' | ⟨g, hg, rfl⟩
  · exact (wfB_mono hwb (Nat.le_succ _) Nat.le.refl) f hf' b hb
  · rcases List.mem_append.mp hb with hb' | hb'
    · exact (wfB_mono hwb (Nat.le_succ _) Nat.le.refl) g hg b hb'
    · simp only [List.mem_singleton] at hb'
      subst hb'
      refine ⟨Nat.lt_succ_self _, ?_⟩
      intro i hi
      simp at hi

theorem getElem?_some_of_lt {α : Type} (l : List α) (j : Nat) (h : j < l.length) :
    l[j]? = some l[j] := List.getElem?_eq_getElem h

theorem epilogue_some_eq (v : Value) (s : St) :
    emitFunctionEpilogue (some v) s = emitFunctionEpilogue none (emit (Op.ret v) s).2 := rfl

/-- The block surgery done by the happy path of `emitFunctionEpilogue`: the
successor block's instructions are moved before the entry terminator, the
terminator is erased, and the merged-away block is removed. -/
def epilogueMerge (tid nb : Nat) (f : Func) : List BasicBlock :=
  let nbInstrs := ((f.blocks.find? (fun b2 => b2.bid = nb)).map (fun b2 => b2.instrs)).getD []
  let moved := f.blocks.map (fun b => { b with instrs := insertBeforeInstr tid nbInstrs b.instrs })
  let erased := moved.map (fun b => { b with instrs := b.instrs.filter (fun i => i.iid ≠ tid) })
  erased.filter (fun b => b.bid ≠ nb)

/-- Effect of the epilogue under the prologue-established invariant: the
current context's entry terminator points at a one-successor branch that is
still findable in the current function, so the `nextBlock` dereference is not
on the null path and the flag is preserved. -/
theorem epilogue_core (s : St) (c : Ctx) (ct : List Ctx) (tid nb : Nat)
    (hc : s.contexts = c :: ct)
    (hterm : c.entryTerminator = some tid)
    (hfind : ∀ f, s.getFunc c.funcId = some f →
      f.findInstr tid = some (Instr.mk tid (Op.branch nb)))
    (hex : c.funcId < s.functions.length) :
    (emitFunctionEpilogue none s).epilogueNullDeref = s.epilogueNullDeref ∧
    (∃ et', (emitFunctionEpilogue none s).contexts = { c with entryTerminator := et' } :: ct) ∧
    (emitFunctionEpilogue none s).insertion = s.insertion ∧
    (emitFunctionEpilogue none s).nameTable = s.nameTable ∧
    (emitFunctionEpilogue none s).archived = s.archived ∧
    (∀ j, j < s.functions.length → j ≠ c.funcId →
      (emitFunctionEpilogue none s).functions[j]? = s.functions[j]?) ∧
    (emitFunctionEpilogue none s).functions.length = s.functions.length ∧
    (emitFunctionEpilogue none s).nextInstrId = s.nextInstrId ∧
    (emitFunctionEpilogue none s).nextBlockId = s.nextBlockId ∧
    (emitFunctionEpilogue none s).nextVarId = s.nextVarId ∧
    (emitFunctionEpilogue none s).nextScopeId = s.nextScopeId ∧
    (s.wfS → (emitFunctionEpilogue none s).wfS) := by
  have hcur : s.curCtx = some c := by
    rw [St.curCtx, hc]
    rfl
  have hgf : s.getFunc c.funcId = some ((s.functions.get ⟨c.funcId, hex⟩)) :=
    getElem?_some_of_lt _ _ hex
  have hfi : ((s.functions.get ⟨c.funcId, hex⟩)).findInstr tid = some (Instr.mk tid (Op.branch nb)) :=
    hfind _ hgf
  by_cases hcond : countBlockUses ((s.functions.get ⟨c.funcId, hex⟩)) nb = 1
  · have he : emitFunctionEpilogue none s =
        { s with
            functions := listUpdate s.functions c.funcId (fun g =>
              { g with blocks := epilogueMerge tid nb ((s.functions.get ⟨c.funcId, hex⟩)) }),
            contexts := { c with entryTerminator := none } :: ct } := by
      simp only [emitFunctionEpilogue, hcur, hterm, hgf, hfi, Op.blockRefs, St.modifyFunc,
        St.modifyCtx, hcond, List.mem_singleton, and_self, if_true, hc, epilogueMerge]
    rw [he]
    refine ⟨rfl, ⟨none, rfl⟩, rfl, rfl, rfl, ?_, listUpdate_length _ _ _, rfl, rfl, rfl, rfl,
      ?_⟩
    · intro j _ hj
      show (listUpdate s.functions c.funcId _)[j]? = _
      rw [listUpdate_getElem_other _ _ _ _ (fun h => hj h.symm)]
    · intro hw
      obtain ⟨hwb, hwt⟩ := hw
      refine ⟨?_, hwt⟩
      intro f' hf' b hb
      rcases listUpdate_mem hf' with hf2 | ⟨g, hg, rfl⟩
      · exact hwb f' hf2 b hb
      · simp only [epilogueMerge] at hb
        have hb2 := List.mem_of_mem_filter hb
        simp only [List.map_map, List.mem_map] at hb2
        obtain ⟨b0, hb0, rfl⟩ := hb2
        have hwf0 := hwb _ (List.get_mem _ _ hex) b0 hb0
        refine ⟨hwf0.1, ?_⟩
        intro i hi
        have hi2 := List.mem_of_mem_filter hi
        rcases mem_insertBeforeInstr hi2 with hi3 | hi3
        · cases hfd : ((s.functions.get ⟨c.funcId, hex⟩)).blocks.find? (fun b2 => b2.bid = nb) with
          | none =>
            rw [hfd] at hi3
            simp at hi3
          | some bnb =>
            rw [hfd] at hi3
            simp only [Option.map_some', Option.getD_some] at hi3
            exact (hwb _ (List.get_mem _ _ hex) bnb
              (List.mem_of_find?_eq_some hfd)).2 i hi3
        · exact hwf0.2 i hi3
  · have he : emitFunctionEpilogue none s = s := by
      simp only [emitFunctionEpilogue, hcur, hterm, hgf, hfi, Op.blockRefs, hcond,
        List.mem_singleton, false_and, if_false]
    rw [he]
    refine ⟨rfl, ⟨c.entryTerminator, ?_⟩, rfl, rfl, rfl, fun j _ _ => rfl, rfl, rfl, rfl,
      rfl, rfl, fun h => h⟩
    rw [hc]

/-! ### Output predicates of the master frame lemma -/

/-- Net effect of the function-level drivers (`genES5Function`,
`genGeneratorFunction`) on the caller's state: the context stack, insertion
point and (for well-formed states) name table are restored, previously
existing functions are untouched, and the returned id is the next function
slot. -/
structure DrvOutS (s s' : St) : Prop where
  core : StCore s s'
  ctxs : anonBumped s.contexts s'.contexts
  ins : s'.insertion = s.insertion
  tblEq : s.wfS → s'.nameTable = s.nameTable
  funcs : ∀ j, j < s.functions.length → s'.functions[j]? = s.functions[j]?

structure DrvOut (s : St) (r : Nat × St) : Prop where
  toS : DrvOutS s r.2
  fid : r.1 = s.functions.length

/-- Net effect of `emitFunctionPrologue`: the head context gets its
`entryTerminator` set to a fresh unconditional branch, findable in the current
function, and the insertion point moves to the branch's target block. -/
structure POut (entry : Nat) (s s' : St) : Prop where
  core : StCore s s'
  main : ∀ c ct, s.contexts = c :: ct → ∃ a' tid nbid,
    s'.contexts = { c with anonCounter := a', entryTerminator := some tid } :: ct ∧
    s'.insertion = some (c.funcId, nbid) ∧
    tid < s'.nextInstrId ∧
    (∀ j, j < s.functions.length → j ≠ c.funcId → s'.functions[j]? = s.functions[j]?) ∧
    (s.wfS → c.funcId < s.functions.length →
      (∀ f, s.getFunc c.funcId = some f →
        (f.blocks.find? (fun b => b.bid = entry)).isSome = true) →
      ∃ f', s'.getFunc c.funcId = some f' ∧
        f'.findInstr tid = some (Instr.mk tid (Op.branch nbid)))
  tbl : s.wfS → ∀ c ct lvl rest, s.contexts = c :: ct → s.nameTable = lvl :: rest →
    lvl.sid = c.scopeId → (∀ l ∈ rest, l.sid ≠ c.scopeId) →
    ∃ es, s'.nameTable = { lvl with entries := es ++ lvl.entries } :: rest

/-- The arrow-specific conclusion used by C3/C9: the archived arrow context
carries capture references copied verbatim from the parent context. -/
def ArrowOut (s : St) (r : Nat × St) : Prop :=
  ∀ c ct, s.contexts = c :: ct → ∃ ca mid,
    r.2.archived = ca :: (mid ++ s.archived) ∧
    ca.capturedThis = c.capturedThis ∧
    ca.capturedNewTarget = c.capturedNewTarget ∧
    ca.capturedArguments = c.capturedArguments ∧
    ca.funcId = s.functions.length

def BalOut (s : St) (r : Nat × St) : Prop :=
  ∀ cfid bid, s.insertion = some (cfid, bid) → PStep cfid bid s r.2

/-- The per-task conclusion of the master frame lemma. -/
def MOut : Task → Args → St → Nat × St → Prop
  | .decl _, _, s, r => BalOut s r
  | .stmts _, _, s, r => BalOut s r
  | .stmt1 _, _, s, r => BalOut s r
  | .closures _, _, s, r => BalOut s r
  | .arrow _, _, s, r => BalOut s r ∧ ArrowOut s r
  | .es5 _, _, s, r => DrvOut s r
  | .genF _, _, s, r => DrvOut s r
  | .prologue _, a, s, r => POut a.entry s r.2

theorem DrvOutS_to_PStep (cfid bid : Nat) {s s' : St} (h : DrvOutS s s') :
    PStep cfid bid s s' := by
  refine ⟨h.core, h.ctxs, h.ins, ⟨[], [], ?_, ?_, ?_, ?_⟩, ?_⟩
  · intro i hi
    simp at hi
  · intro i hi
    simp at hi
  · intro j hj _
    exact h.funcs j hj
  · intro hlt
    rw [h.funcs cfid hlt]
    cases s.functions[cfid]? with
    | none => rfl
    | some f => exact congrArg some (papp_nil bid f).symm
  · intro hw c ct lvl rest _ ht _ _
    refine ⟨[], ?_⟩
    rw [h.tblEq hw, ht]
    simp

theorem DrvOut_to_PStep (cfid bid : Nat) {s : St} {r : Nat × St} (h : DrvOut s r) :
    PStep cfid bid s r.2 :=
  DrvOutS_to_PStep cfid bid h.toS

theorem wfB_blocks_preserving {nbi nii : Nat} {fns : List Func} (fid : Nat) (g : Func → Func)
    (hg : ∀ f, (g f).blocks = f.blocks) (h : wfB nbi nii fns) :
    wfB nbi nii (listUpdate fns fid g) := by
  intro f hf b hb
  rcases listUpdate_mem hf with hf' | ⟨f0, h0, rfl⟩
  · exact h f hf' b hb
  · rw [hg f0] at hb
    exact h f0 h0 b hb

theorem wfB_append_new {nbi nii : Nat} {fns : List Func} (f0 : Func) (h : wfB nbi nii fns)
    (h0 : f0.blocks = []) : wfB nbi nii (fns ++ [f0]) := by
  intro f hf b hb
  rcases List.mem_append.mp hf with hf' | hf'
  · exact h f hf' b hb
  · simp only [List.mem_singleton] at hf'
    subst hf'
    rw [h0] at hb
    simp at hb

theorem find?_append_isSome {α : Type} (l1 l2 : List α) (p : α → Bool)
    (h : (l1.find? p).isSome = true) : ((l1 ++ l2).find? p).isSome = true := by
  induction l1 with
  | nil => simp at h
  | cons x t ih =>
    by_cases hp : p x
    · rw [List.cons_append, List.find?_cons_of_pos _ hp]
      rfl
    · rw [List.find?_cons_of_neg _ (by simpa using hp)] at h
      rw [List.cons_append, List.find?_cons_of_neg _ (by simpa using hp)]
      exact ih h

theorem blocks_find_isSome_pstep (L : List Instr) (ps : List Name) (bid e : Nat) (f : Func)
    (h : ((f.blocks.find? (fun b => b.bid = e)).isSome = true)) :
    ((({ appendList L bid f with params := f.params ++ ps } : Func)).blocks.find?
      (fun b => b.bid = e)).isSome = true := by
  show (((appendList L bid f).blocks.find? (fun b => b.bid = e)).isSome = true)
  rw [appendList_blocks_find]
  cases hfd : f.blocks.find? (fun b => b.bid = e) with
  | none =>
    rw [hfd] at h
    simp at h
  | some b => rfl

/-- Effect of `createParameter` on every projection except the target
function's parameter list. -/
theorem createParameter_effect (fid : Nat) (nm : Name) (s : St) :
    (createParameter fid nm s).2.contexts = s.contexts ∧
    (createParameter fid nm s).2.insertion = s.insertion ∧
    (createParameter fid nm s).2.nameTable = s.nameTable ∧
    (createParameter fid nm s).2.archived = s.archived ∧
    (createParameter fid nm s).2.epilogueNullDeref = s.epilogueNullDeref ∧
    (createParameter fid nm s).2.nextInstrId = s.nextInstrId ∧
    (createParameter fid nm s).2.nextBlockId = s.nextBlockId ∧
    (createParameter fid nm s).2.nextVarId = s.nextVarId ∧
    (createParameter fid nm s).2.nextScopeId = s.nextScopeId ∧
    (∀ j, j ≠ fid → (createParameter fid nm s).2.functions[j]? = s.functions[j]?) ∧
    (createParameter fid nm s).2.functions.length = s.functions.length ∧
    (s.wfS → (createParameter fid nm s).2.wfS) := by
  cases hf : s.getFunc fid with
  | none =>
    have he : (createParameter fid nm s).2 = s.crash := by simp [createParameter, hf]
    rw [he]
    exact ⟨rfl, rfl, rfl, rfl, rfl, rfl, rfl, rfl, rfl, fun j _ => rfl, rfl, fun h => h⟩
  | some f =>
    have he : (createParameter fid nm s).2 =
        s.modifyFunc fid (fun g => { g with params := g.params ++ [nm] }) := by
      simp [createParameter, hf]
    rw [he]
    refine ⟨rfl, rfl, rfl, rfl, rfl, rfl, rfl, rfl, rfl, ?_, listUpdate_length _ _ _, ?_⟩
    · intro j hj
      show (listUpdate s.functions fid _)[j]? = _
      rw [listUpdate_getElem_other _ _ _ _ (fun h => hj h.symm)]
    · intro hw
      exact ⟨wfB_blocks_preserving fid _ (fun f0 => rfl) hw.1, hw.2⟩

/-- Effect of the lazy-stub parameter loop on every projection except the
target function's parameter list. -/
theorem lazyParams_effect (fid : Nat) (ps : List ParamNode) : ∀ s : St,
    (lazyParams fid ps s).contexts = s.contexts ∧
    (lazyParams fid ps s).insertion = s.insertion ∧
    (lazyParams fid ps s).nameTable = s.nameTable ∧
    (lazyParams fid ps s).archived = s.archived ∧
    (lazyParams fid ps s).epilogueNullDeref = s.epilogueNullDeref ∧
    (lazyParams fid ps s).nextInstrId = s.nextInstrId ∧
    (lazyParams fid ps s).nextBlockId = s.nextBlockId ∧
    (lazyParams fid ps s).nextVarId = s.nextVarId ∧
    (lazyParams fid ps s).nextScopeId = s.nextScopeId ∧
    (∀ j, j ≠ fid → (lazyParams fid ps s).functions[j]? = s.functions[j]?) ∧
    (lazyParams fid ps s).functions.length = s.functions.length ∧
    (s.wfS → (lazyParams fid ps s).wfS) := by
  induction ps with
  | nil =>
    intro s
    exact ⟨rfl, rfl, rfl, rfl, rfl, rfl, rfl, rfl, rfl, fun j _ => rfl, rfl, fun h => h⟩
  | cons p t ih =>
    intro s
    cases p with
    | plain q =>
      cases q with
      | ident nm =>
        obtain ⟨e1, e2, e3, e4, e5, e6, e7, e8, e9, e10, e11, e12⟩ :=
          createParameter_effect fid nm s
        obtain ⟨i1, i2, i3, i4, i5, i6, i7, i8, i9, i10, i11, i12⟩ :=
          ih (createParameter fid nm s).2
        exact ⟨i1.trans e1, i2.trans e2, i3.trans e3, i4.trans e4, i5.trans e5, i6.trans e6,
          i7.trans e7, i8.trans e8, i9.trans e9,
          fun j hj => (i10 j hj).trans (e10 j hj), i11.trans e11, fun h => i12 (e12 h)⟩
      | pattern x =>
        obtain ⟨i1, i2, i3, i4, i5, i6, i7, i8, i9, i10, i11, i12⟩ := ih s.crash
        exact ⟨i1, i2, i3, i4, i5, i6, i7, i8, i9, fun j hj => i10 j hj, i11,
          fun h => i12 h⟩
    | assign q init =>
      obtain ⟨i1, i2, i3, i4, i5, i6, i7, i8, i9, i10, i11, i12⟩ := ih s.crash
      exact ⟨i1, i2, i3, i4, i5, i6, i7, i8, i9, fun j hj => i10 j hj, i11, fun h => i12 h⟩
    | rest q =>
      obtain ⟨i1, i2, i3, i4, i5, i6, i7, i8, i9, i10, i11, i12⟩ := ih s.crash
      exact ⟨i1, i2, i3, i4, i5, i6, i7, i8, i9, fun j hj => i10 j hj, i11, fun h => i12 h⟩

/-! ### Argument irrelevance of the tasks over unused argument fields -/

theorem runTask_decl_arg (fd : FuncDecl) (a : Args) (s : St) :
    (runTask (.decl fd) a s).2 = genFunctionDeclaration fd s := by
  rw [genFunctionDeclaration]
  obtain ⟨M, hM⟩ : ∃ M, taskMeasure (Task.decl fd) = M := ⟨_, rfl⟩
  rw [runTask, runTask, hM]
  simp only [runF]

theorem runTask_stmts_arg (l : List Stmt) (a : Args) (s : St) :
    (runTask (.stmts l) a s).2 = genStatements l s := by
  rw [genStatements]
  obtain ⟨M, hM⟩ : ∃ M, taskMeasure (Task.stmts l) = M := ⟨_, rfl⟩
  rw [runTask, runTask, hM]
  cases l with
  | nil => simp only [runF]
  | cons st t => simp only [runF]

theorem runTask_stmt1_arg (st : Stmt) (a : Args) (s : St) :
    (runTask (.stmt1 st) a s).2 = genStatement st s := by
  rw [genStatement]
  obtain ⟨M, hM⟩ : ∃ M, taskMeasure (Task.stmt1 st) = M := ⟨_, rfl⟩
  rw [runTask, runTask, hM]
  cases st with
  | simple tag => simp only [runF]
  | arrow hint node => simp only [runF]

theorem runTask_closures_arg (l : List FuncDecl) (a : Args) (s : St) :
    (runTask (.closures l) a s).2 = lowerClosures l s := by
  rw [lowerClosures]
  obtain ⟨M, hM⟩ : ∃ M, taskMeasure (Task.closures l) = M := ⟨_, rfl⟩
  rw [runTask, runTask, hM]
  cases l with
  | nil => simp only [runF]
  | cons fd t => simp only [runF]

theorem runTask_arrow_arg (node : FuncNode) (a : Args) (s : St) :
    (runTask (.arrow node) a s).2 = (genArrowFunctionExpression a.nm node s).2 := by
  obtain ⟨anm, aca, agi, ae⟩ := a
  rw [genArrowFunctionExpression]
  obtain ⟨M, hM⟩ : ∃ M, taskMeasure (Task.arrow node) = M := ⟨_, rfl⟩
  rw [runTask, runTask, hM]
  simp only [runF, mkArgs_nm, mkArgs_closureAlias, mkArgs_isGenInner, mkArgs_entry]

theorem runTask_es5_arg (node : FuncNode) (a : Args) (s : St) :
    runTask (.es5 node) a s = genES5Function a.nm a.closureAlias node a.isGenInner s := by
  obtain ⟨anm, aca, agi, ae⟩ := a
  rw [genES5Function]
  obtain ⟨M, hM⟩ : ∃ M, taskMeasure (Task.es5 node) = M := ⟨_, rfl⟩
  rw [runTask, runTask, hM]
  simp only [runF, mkArgs_nm, mkArgs_closureAlias, mkArgs_isGenInner, mkArgs_entry]

theorem runTask_genF_arg (node : FuncNode) (a : Args) (s : St) :
    runTask (.genF node) a s = genGeneratorFunction a.nm a.closureAlias node s := by
  obtain ⟨anm, aca, agi, ae⟩ := a
  rw [genGeneratorFunction]
  obtain ⟨M, hM⟩ : ∃ M, taskMeasure (Task.genF node) = M := ⟨_, rfl⟩
  rw [runTask, runTask, hM]
  simp only [runF, mkArgs_nm, mkArgs_closureAlias, mkArgs_isGenInner, mkArgs_entry]

theorem runTask_prologue_arg (node : FuncNode) (a : Args) (s : St) :
    (runTask (.prologue node) a s).2 = emitFunctionPrologue node a.entry s := by
  obtain ⟨anm, aca, agi, ae⟩ := a
  rw [emitFunctionPrologue]
  obtain ⟨M, hM⟩ : ∃ M, taskMeasure (Task.prologue node) = M := ⟨_, rfl⟩
  rw [runTask, runTask, hM]
  cases hc : s.curCtx with
  | none => simp only [runF, hc]
  | some c => simp only [runF, hc]


theorem StCore_crash (s : St) : StCore s s.crash :=
  ⟨⟨[], rfl⟩, fun _ => rfl, Nat.le.refl, Nat.le.refl, Nat.le.refl, Nat.le.refl, Nat.le.refl,
    fun h => h⟩

theorem StCore_setInsertion (fid bid : Nat) (s : St) : StCore s (setInsertion fid bid s) :=
  ⟨⟨[], rfl⟩, fun _ => rfl, Nat.le.refl, Nat.le.refl, Nat.le.refl, Nat.le.refl, Nat.le.refl,
    fun h => h⟩

theorem StCore_createBasicBlock (fid : Nat) (s : St) : StCore s (createBasicBlock fid s).2 :=
  ⟨⟨[], rfl⟩, fun _ => rfl, Nat.le.refl, Nat.le_succ _, Nat.le.refl, Nat.le.refl,
    Nat.le_of_eq (listUpdate_length _ _ _).symm, createBasicBlock_wf fid s⟩

theorem StCore_modifyCtx (g : Ctx → Ctx) (s : St) : StCore s (s.modifyCtx g) := by
  cases hc : s.contexts with
  | nil =>
    have he : s.modifyCtx g = s.crash := by simp [St.modifyCtx, hc]
    rw [he]
    exact StCore_crash s
  | cons c ct =>
    have he : s.modifyCtx g = { s with contexts := g c :: ct } := by simp [St.modifyCtx, hc]
    rw [he]
    exact ⟨⟨[], rfl⟩, fun _ => rfl, Nat.le.refl, Nat.le.refl, Nat.le.refl, Nat.le.refl, Nat.le.refl,
      fun h => h⟩

theorem modifyCtx_eq (g : Ctx → Ctx) (s : St) (c : Ctx) (ct : List Ctx)
    (hc : s.contexts = c :: ct) : s.modifyCtx g = { s with contexts := g c :: ct } := by
  simp [St.modifyCtx, hc]

/-- The tail of the prologue (fresh next block, branch terminator, terminator
registration, moving the insertion point), composed after the balanced part. -/
theorem prologueTail (entry : Nat) (s : St) (c : Ctx) (ct : List Ctx) (s5 : St)
    (hcs : s.contexts = c :: ct)
    (hPS : PStep c.funcId entry (setInsertion c.funcId entry s) s5) :
    POut entry s
      (setInsertion c.funcId (createBasicBlock c.funcId s5).1
        ((emit (Op.branch (createBasicBlock c.funcId s5).1)
            (createBasicBlock c.funcId s5).2).2.modifyCtx
          (fun c0 =>
            { c0 with
                entryTerminator :=
                  some (emit (Op.branch (createBasicBlock c.funcId s5).1)
                    (createBasicBlock c.funcId s5).2).1 }))) := by
  have hins1 : (setInsertion c.funcId entry s).insertion = some (c.funcId, entry) := rfl
  have hins5 : s5.insertion = some (c.funcId, entry) := hPS.ins.trans hins1
  have hk5' : anonBumped (c :: ct) s5.contexts := by
    rw [← hcs]
    exact hPS.ctxs
  obtain ⟨k5, hk5⟩ := hk5'
  rcases hbb : createBasicBlock c.funcId s5 with ⟨nbId, s6⟩
  have hnb : nbId = s5.nextBlockId := congrArg Prod.fst hbb.symm
  have hs6 : s6 = { s5 with
      functions := listUpdate s5.functions c.funcId
        (fun f => { f with blocks := f.blocks ++ [{ bid := s5.nextBlockId, instrs := [] }] }),
      nextBlockId := s5.nextBlockId + 1 } := congrArg Prod.snd hbb.symm
  have hcore56 : StCore s5 s6 := by
    have h := StCore_createBasicBlock c.funcId s5
    rw [hbb] at h
    exact h
  have hins6 : s6.insertion = some (c.funcId, entry) := by
    rw [hs6]
    exact hins5
  dsimp only
  rcases hem : emit (Op.branch nbId) s6 with ⟨tid, s7⟩
  have hpair := (emit_some (Op.branch nbId) s6 c.funcId entry hins6).symm.trans hem
  have htid : tid = s6.nextInstrId := (congrArg Prod.fst hpair).symm
  have hs7 : s7 = { s6 with
      functions := listUpdate s6.functions c.funcId
        (appendList [{ iid := s6.nextInstrId, op := Op.branch nbId }] entry),
      nextInstrId := s6.nextInstrId + 1 } := (congrArg Prod.snd hpair).symm
  have hrefs : ∀ r ∈ (Op.branch nbId).blockRefs, r < s6.nextBlockId := by
    intro r hr
    simp only [Op.blockRefs, List.mem_singleton] at hr
    subst hr
    rw [hnb, hs6]
    exact Nat.lt_succ_self _
  have hcore67 : StCore s6 s7 := by
    have h := emit_StCore (Op.branch nbId) s6 hrefs
    rw [hem] at h
    exact h
  dsimp only
  have hctx6 : s6.contexts = { c with anonCounter := k5 } :: ct := by
    rw [hs6]
    exact hk5
  have hctx7 : s7.contexts = { c with anonCounter := k5 } :: ct := by
    rw [hs7]
    exact hctx6
  rw [modifyCtx_eq _ _ _ _ hctx7]
  refine ⟨?_, ?_, ?_⟩
  · refine StCore_trans (StCore_setInsertion c.funcId entry s) (StCore_trans hPS.core
      (StCore_trans hcore56 (StCore_trans hcore67
        (StCore_trans ?_ (StCore_setInsertion c.funcId nbId _)))))
    exact ⟨⟨[], rfl⟩, fun _ => rfl, Nat.le.refl, Nat.le.refl, Nat.le.refl, Nat.le.refl, Nat.le.refl,
      fun h => h⟩
  · intro c0 ct0 hcs0
    rw [hcs] at hcs0
    injection hcs0 with h1 h2
    subst h1
    subst h2
    refine ⟨k5, tid, nbId, rfl, rfl, ?_, ?_, ?_⟩
    · show tid < s7.nextInstrId
      rw [htid, hs7]
      exact Nat.lt_succ_self _
    · intro j hj hne
      show s7.functions[j]? = s.functions[j]?
      rw [hs7]
      show (listUpdate s6.functions c.funcId _)[j]? = _
      rw [listUpdate_getElem_other _ _ _ _ (fun h => hne h.symm), hs6]
      show (listUpdate s5.functions c.funcId _)[j]? = _
      rw [listUpdate_getElem_other _ _ _ _ (fun h => hne h.symm)]
      obtain ⟨L, ps, _, _, hjc, _⟩ := hPS.funcs
      exact hjc j hj hne
    · intro hw hex hentry
      obtain ⟨L, ps, hnref, hfresh, hjc, hcc⟩ := hPS.funcs
      have hgf0 : s.getFunc c.funcId = some ((s.functions.get ⟨c.funcId, hex⟩)) :=
        getElem?_some_of_lt _ _ hex
      have h5c : s5.functions[c.funcId]? = some
          ({ appendList L entry ((s.functions.get ⟨c.funcId, hex⟩)) with
             params := ((s.functions.get ⟨c.funcId, hex⟩)).params ++ ps } : Func) := by
        rw [hcc hex]
        show (s.functions[c.funcId]?).map _ = _
        rw [getElem?_some_of_lt _ _ hex]
        rfl
      obtain ⟨f5, hf5, hf5find⟩ : ∃ f5, s5.functions[c.funcId]? = some f5 ∧
          ((f5.blocks.find? (fun b => b.bid = entry)).isSome = true) :=
        ⟨_, h5c, blocks_find_isSome_pstep L ps entry entry _ (hentry _ hgf0)⟩
      have h6c : s6.functions[c.funcId]? = some
          ({ f5 with blocks := f5.blocks ++ [{ bid := s5.nextBlockId, instrs := [] }] } :
            Func) := by
        rw [hs6]
        show (listUpdate s5.functions c.funcId _)[c.funcId]? = _
        rw [listUpdate_getElem_self, hf5]
        rfl
      have hfind6 : ((({ f5 with
          blocks := f5.blocks ++ [{ bid := s5.nextBlockId, instrs := [] }] } : Func)).blocks.find?
            (fun b => b.bid = entry)).isSome = true := by
        show ((f5.blocks ++ _).find? _).isSome = true
        exact find?_append_isSome _ _ _ hf5find
      have hnii : s6.nextInstrId = s5.nextInstrId := by rw [hs6]
      have hold6 : ∀ b ∈ (({ f5 with
          blocks := f5.blocks ++ [{ bid := s5.nextBlockId, instrs := [] }] } : Func)).blocks,
          ∀ i ∈ b.instrs, i.iid ≠ tid := by
        intro b hb i hi
        have hb' : b ∈ f5.blocks ++ [{ bid := s5.nextBlockId, instrs := [] }] := hb
        rcases List.mem_append.mp hb' with hb2 | hb2
        · have hwf5 := (hPS.core.wfp hw).1 f5 (List.getElem?_mem hf5) b hb2
          have hlt := (hwf5.2 i hi).1
          rw [htid, hnii]
          omega
        · simp only [List.mem_singleton] at hb2
          subst hb2
          simp at hi
      refine ⟨appendList [{ iid := tid, op := Op.branch nbId }] entry
        ({ f5 with blocks := f5.blocks ++ [{ bid := s5.nextBlockId, instrs := [] }] } : Func),
        ?_, ?_⟩
      · show s7.functions[c.funcId]? = _
        rw [hs7]
        show (listUpdate s6.functions c.funcId _)[c.funcId]? = _
        rw [listUpdate_getElem_self, h6c, htid]
        rfl
      · exact findInstr_appendList_self { iid := tid, op := Op.branch nbId } entry _
          hfind6 hold6
  · intro hw c0 ct0 lvl rest hcs0 htab hsid hrest
    rw [hcs] at hcs0
    injection hcs0 with h1 h2
    subst h1
    subst h2
    obtain ⟨es, h5t⟩ := hPS.tbl hw c ct lvl rest hcs htab hsid hrest
    refine ⟨es, ?_⟩
    show s7.nameTable = _
    rw [hs7]
    show s6.nameTable = _
    rw [hs6]
    exact h5t

/-- The prologue case of the master frame lemma, given the closures-task
conclusion at every state. -/
theorem prologueCase (node : FuncNode) (entry : Nat) (s : St)
    (hCL : ∀ (s' : St) (cfid bid : Nat), s'.insertion = some (cfid, bid) →
      PStep cfid bid s' (lowerClosures node.closures s')) :
    POut entry s (emitFunctionPrologue node entry s) := by
  rw [emitFunctionPrologue_eq]
  cases hc : s.curCtx with
  | none =>
    refine ⟨StCore_crash s, ?_, ?_⟩
    · intro c ct hcs
      rw [St.curCtx, hcs] at hc
      simp at hc
    · intro _ c ct lvl rest hcs _ _ _
      rw [St.curCtx, hcs] at hc
      simp at hc
  | some c =>
    obtain ⟨ct, hcs⟩ : ∃ ct, s.contexts = c :: ct := by
      cases hcs : s.contexts with
      | nil =>
        rw [St.curCtx, hcs] at hc
        simp at hc
      | cons c0 ct =>
        rw [St.curCtx, hcs] at hc
        simp only [List.head?_cons] at hc
        injection hc with hc0
        exact ⟨ct, by rw [hc0]⟩
    have hins1 : (setInsertion c.funcId entry s).insertion = some (c.funcId, entry) := rfl
    have hP2 := PStep_hoistVarDecls c.funcId entry c.funcId node.sem.varDecls
      (setInsertion c.funcId entry s) hins1
    have hP3 := PStep_declareClosures c.funcId entry c.funcId node.closures
      (hoistVarDecls c.funcId node.sem.varDecls (setInsertion c.funcId entry s))
    have hP23 := PStep_trans hP2 hP3
    have hctxs3 : anonBumped (c :: ct)
        (declareClosures c.funcId node.closures
          (hoistVarDecls c.funcId node.sem.varDecls
            (setInsertion c.funcId entry s))).contexts := by
      rw [← hcs]
      exact hP23.ctxs
    obtain ⟨k3, hk3⟩ := hctxs3
    have hP4 := PStep_emitParameters c.funcId entry node
      (declareClosures c.funcId node.closures
        (hoistVarDecls c.funcId node.sem.varDecls (setInsertion c.funcId entry s)))
      (hP23.ins.trans hins1)
      (by
        intro c' ct' hcc
        rw [hk3] at hcc
        injection hcc with h1 _
        rw [← h1])
    have hP5 := hCL (emitParameters node
        (declareClosures c.funcId node.closures
          (hoistVarDecls c.funcId node.sem.varDecls (setInsertion c.funcId entry s))))
      c.funcId entry ((PStep_trans hP23 hP4).ins.trans hins1)
    have hPS := PStep_trans hP23 (PStep_trans hP4 hP5)
    exact prologueTail entry s c ct _ hcs hPS

theorem filter_scope_restore (tbl : List ScopeLevel) (sid : Nat) (lvl : ScopeLevel)
    (hl : lvl.sid = sid) (hrest : ∀ l ∈ tbl, l.sid ≠ sid) :
    (lvl :: tbl).filter (fun l => l.sid ≠ sid) = tbl := by
  rw [List.filter_cons]
  have hp : (decide (lvl.sid ≠ sid)) = false := by simp [hl]
  rw [hp]
  simp only [Bool.false_eq_true, if_false]
  exact List.filter_eq_self.mpr (fun l hml => by simpa using hrest l hml)

/-- Unconditional structural frame of the epilogue: whatever branch is taken,
only the head context's `entryTerminator` and the current function change
(besides the possible flag). -/
theorem epilogue_frame (s : St) (c : Ctx) (ct : List Ctx) (hc : s.contexts = c :: ct) :
    (∃ et', (emitFunctionEpilogue none s).contexts = { c with entryTerminator := et' } :: ct) ∧
    (emitFunctionEpilogue none s).insertion = s.insertion ∧
    (emitFunctionEpilogue none s).nameTable = s.nameTable ∧
    (emitFunctionEpilogue none s).archived = s.archived ∧
    (∀ j, j ≠ c.funcId → (emitFunctionEpilogue none s).functions[j]? = s.functions[j]?) ∧
    (emitFunctionEpilogue none s).functions.length = s.functions.length ∧
    (emitFunctionEpilogue none s).nextInstrId = s.nextInstrId ∧
    (emitFunctionEpilogue none s).nextBlockId = s.nextBlockId ∧
    (emitFunctionEpilogue none s).nextVarId = s.nextVarId ∧
    (emitFunctionEpilogue none s).nextScopeId = s.nextScopeId := by
  have hcur : s.curCtx = some c := by
    rw [St.curCtx, hc]
    rfl
  have hcx : s.contexts = { c with entryTerminator := c.entryTerminator } :: ct := hc
  cases hterm : c.entryTerminator with
  | none =>
    have he : emitFunctionEpilogue none s = { s with epilogueNullDeref := true } := by
      simp only [emitFunctionEpilogue, hcur, hterm]
    rw [he]
    exact ⟨⟨c.entryTerminator, hcx⟩, rfl, rfl, rfl, fun j _ => rfl, rfl, rfl, rfl, rfl, rfl⟩
  | some tid =>
    cases hgf : s.getFunc c.funcId with
    | none =>
      have he : emitFunctionEpilogue none s = s.crash := by
        simp only [emitFunctionEpilogue, hcur, hterm, hgf]
      rw [he]
      exact ⟨⟨c.entryTerminator, hcx⟩, rfl, rfl, rfl, fun j _ => rfl, rfl, rfl, rfl, rfl, rfl⟩
    | some f =>
      cases hfi : f.findInstr tid with
      | none =>
        have he : emitFunctionEpilogue none s = s.crash := by
          simp only [emitFunctionEpilogue, hcur, hterm, hgf, hfi]
        rw [he]
        exact ⟨⟨c.entryTerminator, hcx⟩, rfl, rfl, rfl, fun j _ => rfl, rfl, rfl, rfl, rfl,
          rfl⟩
      | some term =>
        cases hbr : term.op.blockRefs with
        | nil =>
          have he : emitFunctionEpilogue none s = { s with epilogueNullDeref := true } := by
            simp only [emitFunctionEpilogue, hcur, hterm, hgf, hfi, hbr]
          rw [he]
          exact ⟨⟨c.entryTerminator, hcx⟩, rfl, rfl, rfl, fun j _ => rfl, rfl, rfl, rfl,
            rfl, rfl⟩
        | cons nb tl =>
          cases tl with
          | cons nb2 tl2 =>
            have he : emitFunctionEpilogue none s = { s with epilogueNullDeref := true } := by
              simp only [emitFunctionEpilogue, hcur, hterm, hgf, hfi, hbr]
            rw [he]
            exact ⟨⟨c.entryTerminator, hcx⟩, rfl, rfl, rfl, fun j _ => rfl, rfl, rfl, rfl,
              rfl, rfl⟩
          | nil =>
            by_cases hcond : countBlockUses f nb = 1 ∧ nb ∈ ([nb] : List Nat)
            · have he : emitFunctionEpilogue none s =
                  { s with
                      functions := listUpdate s.functions c.funcId (fun g =>
                        { g with blocks := epilogueMerge tid nb f }),
                      contexts := { c with entryTerminator := none } :: ct } := by
                simp only [emitFunctionEpilogue, hcur, hterm, hgf, hfi, hbr, if_pos hcond,
                  St.modifyFunc, St.modifyCtx, hc, epilogueMerge]
              rw [he]
              refine ⟨⟨none, rfl⟩, rfl, rfl, rfl, ?_, listUpdate_length _ _ _, rfl, rfl,
                rfl, rfl⟩
              intro j hj
              show (listUpdate s.functions c.funcId _)[j]? = _
              rw [listUpdate_getElem_other _ _ _ _ (fun h => hj h.symm)]
            · have he : emitFunctionEpilogue none s = s := by
                simp only [emitFunctionEpilogue, hcur, hterm, hgf, hfi, hbr, if_neg hcond]
              rw [he]
              exact ⟨⟨c.entryTerminator, hcx⟩, rfl, rfl, rfl, fun j _ => rfl, rfl, rfl,
                rfl, rfl, rfl⟩


/-! ### Small frame lemmas for the driver-entry primitives -/

theorem modifyFunc_len (s : St) (fid : Nat) (g : Func → Func) :
    (s.modifyFunc fid g).functions.length = s.functions.length :=
  listUpdate_length _ _ _

theorem modifyFunc_getElem_other (s : St) (fid : Nat) (g : Func → Func) (j : Nat)
    (hj : j ≠ fid) : (s.modifyFunc fid g).functions[j]? = s.functions[j]? := by
  show (listUpdate s.functions fid g)[j]? = _
  rw [listUpdate_getElem_other _ _ _ _ (fun h => hj h.symm)]

theorem modifyFunc_getElem_self (s : St) (fid : Nat) (g : Func → Func) :
    (s.modifyFunc fid g).functions[fid]? = (s.functions[fid]?).map g := by
  show (listUpdate s.functions fid g)[fid]? = _
  rw [listUpdate_getElem_self]

theorem modifyFunc_wf (s : St) (fid : Nat) (g : Func → Func)
    (hg : ∀ f, (g f).blocks = f.blocks) (hw : s.wfS) : (s.modifyFunc fid g).wfS :=
  ⟨wfB_blocks_preserving fid g hg hw.1, hw.2⟩

theorem createBasicBlock_len (fid : Nat) (s : St) :
    (createBasicBlock fid s).2.functions.length = s.functions.length :=
  listUpdate_length _ _ _

theorem createBasicBlock_getElem_other (fid : Nat) (s : St) (j : Nat) (hj : j ≠ fid) :
    (createBasicBlock fid s).2.functions[j]? = s.functions[j]? := by
  show (listUpdate s.functions fid _)[j]? = _
  rw [listUpdate_getElem_other _ _ _ _ (fun h => hj h.symm)]

theorem createBasicBlock_getElem_self (fid : Nat) (s : St) :
    (createBasicBlock fid s).2.functions[fid]? = (s.functions[fid]?).map
      (fun f => { f with blocks := f.blocks ++ [{ bid := s.nextBlockId, instrs := [] }] }) := by
  show (listUpdate s.functions fid _)[fid]? = _
  rw [listUpdate_getElem_self]

theorem createFunction_len (fnm : Name) (dk : DefinitionKind) (fk : FuncKind) (strict : Bool)
    (range : Option (Nat × Nat)) (s : St) :
    (createFunction fnm dk fk strict range s).2.functions.length =
      s.functions.length + 1 := by
  show (s.functions ++ [_]).length = _
  simp

theorem createFunction_getElem_lt (fnm : Name) (dk : DefinitionKind) (fk : FuncKind)
    (strict : Bool) (range : Option (Nat × Nat)) (s : St) (j : Nat)
    (hj : j < s.functions.length) :
    (createFunction fnm dk fk strict range s).2.functions[j]? = s.functions[j]? := by
  show (s.functions ++ [_])[j]? = _
  rw [List.getElem?_append_left hj]

theorem createFunction_getElem_new (fnm : Name) (dk : DefinitionKind) (fk : FuncKind)
    (strict : Bool) (range : Option (Nat × Nat)) (s : St) :
    (createFunction fnm dk fk strict range s).2.functions[s.functions.length]? =
      some { fnm := fnm, defKind := dk, funcKind := fk, strict := strict,
             sourceRange := range, params := [], blocks := [], lazyClosureAlias := none,
             lazyScope := none, lazySource := none } := by
  show (s.functions ++ [_])[s.functions.length]? = _
  rw [List.getElem?_concat_length]

theorem createFunction_wf (fnm : Name) (dk : DefinitionKind) (fk : FuncKind) (strict : Bool)
    (range : Option (Nat × Nat)) (s : St) (hw : s.wfS) :
    (createFunction fnm dk fk strict range s).2.wfS :=
  ⟨wfB_append_new _ hw.1 rfl, hw.2⟩

theorem pushContext_wf (fid : Nat) (si : Option SemInfo) (s : St) (hw : s.wfS) :
    (pushContext fid si s).wfS := by
  refine ⟨hw.1, ?_⟩
  intro lvl hl
  rcases List.mem_cons.mp hl with h | h
  · subst h
    show s.nextScopeId < s.nextScopeId + 1
    exact Nat.lt_succ_self _
  · exact Nat.lt_trans (hw.2 lvl h) (Nat.lt_succ_self _)

theorem find?_bid_concat (bs : List BasicBlock) (e : Nat) :
    (((bs ++ [BasicBlock.mk e []]).find? (fun b => b.bid = e)).isSome = true) := by
  induction bs with
  | nil => simp [List.find?]
  | cons b t ih =>
    by_cases hp : b.bid = e
    · rw [List.cons_append, List.find?_cons_of_pos _ (by simpa using hp)]
      rfl
    · rw [List.cons_append, List.find?_cons_of_neg _ (by simpa using hp)]
      exact ih

/-- Effect of the arrow capture-copy step, in the common shape shared with
`initCapture_effect`. -/
theorem arrowCapture_effect (st : St) (c : Ctx) (ct : List Ctx) (fid bi : Nat)
    (hcs : st.contexts = c :: ct) (hins : st.insertion = some (fid, bi)) :
    (∃ a' cT cNT cA, (arrowCapture st).contexts =
      { c with capturedThis := cT, capturedNewTarget := cNT,
               capturedArguments := cA, anonCounter := a' } :: ct) ∧
    (∃ L, noBlockRefs L ∧ freshIds st.nextInstrId L ∧
      (∀ j, (arrowCapture st).functions[j]? =
        (st.functions[j]?).map (appendIns st.insertion j L))) ∧
    (arrowCapture st).insertion = st.insertion ∧
    (arrowCapture st).nameTable = st.nameTable ∧
    (arrowCapture st).archived = st.archived ∧
    (arrowCapture st).epilogueNullDeref = st.epilogueNullDeref ∧
    st.nextInstrId ≤ (arrowCapture st).nextInstrId ∧
    (arrowCapture st).nextBlockId = st.nextBlockId ∧
    st.nextVarId ≤ (arrowCapture st).nextVarId ∧
    (arrowCapture st).nextScopeId = st.nextScopeId ∧
    (arrowCapture st).functions.length = st.functions.length ∧
    (st.wfS → (arrowCapture st).wfS) := by
  cases ct with
  | nil =>
    have he : arrowCapture st = st.crash := by
      simp [arrowCapture, hcs]
    rw [he]
    refine ⟨⟨c.anonCounter, c.capturedThis, c.capturedNewTarget, c.capturedArguments, ?_⟩,
      ⟨[], ?_, ?_, ?_⟩, rfl, rfl, rfl, rfl, Nat.le.refl, rfl, Nat.le.refl, rfl, rfl,
      fun h => h⟩
    · show st.contexts = _
      rw [hcs]
    · intro i hi
      simp at hi
    · intro i hi
      simp at hi
    · intro j
      show st.functions[j]? = _
      exact (map_appendIns_nil st.insertion j st.functions[j]?).symm
  | cons prev rest =>
    have he : arrowCapture st = { st with contexts :=
        { c with capturedThis := prev.capturedThis,
                 capturedNewTarget := prev.capturedNewTarget,
                 capturedArguments := prev.capturedArguments } :: prev :: rest } := by
      simp [arrowCapture, hcs]
    rw [he]
    refine ⟨⟨c.anonCounter, prev.capturedThis, prev.capturedNewTarget,
      prev.capturedArguments, rfl⟩,
      ⟨[], ?_, ?_, ?_⟩, rfl, rfl, rfl, rfl, Nat.le.refl, rfl, Nat.le.refl, rfl, rfl,
      fun h => h⟩
    · intro i hi
      simp at hi
    · intro i hi
      simp at hi
    · intro j
      show st.functions[j]? = _
      exact (map_appendIns_nil st.insertion j st.functions[j]?).symm


theorem pushContext_funcs (fid : Nat) (si : Option SemInfo) (s : St) :
    (pushContext fid si s).functions = s.functions := rfl

theorem setInsertion_funcs (fid bid : Nat) (s : St) :
    (setInsertion fid bid s).functions = s.functions := rfl

theorem emit_len (op : Op) (s : St) :
    (emit op s).2.functions.length = s.functions.length := by
  cases hins : s.insertion with
  | none =>
    have he : (emit op s).2 = s.crash := by simp [emit, hins]
    rw [he]
    rfl
  | some p =>
    obtain ⟨fid, bid⟩ := p
    rw [emit_some op s fid bid hins]
    exact listUpdate_length _ _ _

theorem emit_getElem_other (op : Op) (s : St) (fid bid j : Nat)
    (hins : s.insertion = some (fid, bid)) (hj : j ≠ fid) :
    (emit op s).2.functions[j]? = s.functions[j]? := by
  rw [emit_some op s fid bid hins]
  show (listUpdate s.functions fid _)[j]? = _
  rw [listUpdate_getElem_other _ _ _ _ (fun h => hj h.symm)]

theorem genAnon_funcs (hint : Name) (s : St) :
    (genAnonymousLabelName hint s).2.functions = s.functions :=
  (genAnon_effect hint s).2.2.2.2.1

theorem genResumeGenerator_eq_some (ri nb : Nat) (s : St) (fid0 bid0 : Nat)
    (hins : s.insertion = some (fid0, bid0)) :
    genResumeGenerator ri nb s =
      setInsertion fid0 nb (emit (Op.resumeGenerator ri nb) s).2 := by
  have hins2 : (emit (Op.resumeGenerator ri nb) s).2.insertion = some (fid0, bid0) :=
    ((emit_effect (Op.resumeGenerator ri nb) s).2.1).trans hins
  simp only [genResumeGenerator]
  rw [hins2]

theorem genResumeGenerator_len (ri nb : Nat) (s : St) (fid0 bid0 : Nat)
    (hins : s.insertion = some (fid0, bid0)) :
    (genResumeGenerator ri nb s).functions.length = s.functions.length := by
  rw [genResumeGenerator_eq_some ri nb s fid0 bid0 hins]
  exact emit_len _ _

theorem genResumeGenerator_getElem_other (ri nb : Nat) (s : St) (fid0 bid0 j : Nat)
    (hins : s.insertion = some (fid0, bid0)) (hj : j ≠ fid0) :
    (genResumeGenerator ri nb s).functions[j]? = s.functions[j]? := by
  rw [genResumeGenerator_eq_some ri nb s fid0 bid0 hins]
  exact emit_getElem_other _ _ _ _ _ hins hj

theorem genResumeGenerator_wf (ri nb : Nat) (s : St) (fid0 bid0 : Nat)
    (hins : s.insertion = some (fid0, bid0)) (hb : nb < s.nextBlockId) (hw : s.wfS) :
    (genResumeGenerator ri nb s).wfS := by
  rw [genResumeGenerator_eq_some ri nb s fid0 bid0 hins]
  exact emit_wf _ s (by
    intro r hr
    simp only [Op.blockRefs, List.mem_singleton] at hr
    subst hr
    exact hb) hw

theorem getFunc_find_emit (op : Op) (s : St) (fid e : Nat)
    (h : ∀ f, s.getFunc fid = some f →
      ((f.blocks.find? (fun b => b.bid = e)).isSome = true)) :
    ∀ f, (emit op s).2.getFunc fid = some f →
      ((f.blocks.find? (fun b => b.bid = e)).isSome = true) := by
  intro f hf
  have hf2 : (emit op s).2.functions[fid]? = some f := hf
  rw [(emit_effect op s).2.2.2.2.2.2.2.2.2.2 fid] at hf2
  cases hg : s.functions[fid]? with
  | none =>
    rw [hg] at hf2
    simp at hf2
  | some f0 =>
    rw [hg, Option.map_some'] at hf2
    injection hf2 with hf3
    rw [← hf3]
    have h0 := h f0 hg
    cases hins : s.insertion with
    | none => exact h0
    | some q =>
      obtain ⟨fid2, bid2⟩ := q
      by_cases hfe : fid = fid2
      · subst hfe
        have ha : appendIns (some (fid, bid2)) fid [Instr.mk s.nextInstrId op] f0 =
            appendList [Instr.mk s.nextInstrId op] bid2 f0 := by
          simp [appendIns]
        rw [ha]
        show (((appendList [Instr.mk s.nextInstrId op] bid2 f0)).blocks.find?
          (fun b => b.bid = e)).isSome = true
        rw [appendList_blocks_find]
        cases hfd : f0.blocks.find? (fun b => b.bid = e) with
        | none =>
          rw [hfd] at h0
          simp at h0
        | some b => rfl
      · have ha : appendIns (some (fid2, bid2)) fid [Instr.mk s.nextInstrId op] f0 = f0 := by
          simp [appendIns, hfe]
        rw [ha]
        exact h0

theorem getFunc_find_createBasicBlock (fid2 fid e : Nat) (s : St)
    (h : ∀ f, s.getFunc fid = some f →
      ((f.blocks.find? (fun b => b.bid = e)).isSome = true)) :
    ∀ f, (createBasicBlock fid2 s).2.getFunc fid = some f →
      ((f.blocks.find? (fun b => b.bid = e)).isSome = true) := by
  intro f hf
  have hf2 : (createBasicBlock fid2 s).2.functions[fid]? = some f := hf
  by_cases hfe : fid = fid2
  · subst hfe
    rw [createBasicBlock_getElem_self] at hf2
    cases hg : s.functions[fid]? with
    | none =>
      rw [hg] at hf2
      simp at hf2
    | some f0 =>
      rw [hg, Option.map_some'] at hf2
      injection hf2 with hf3
      rw [← hf3]
      have h0 := h f0 hg
      show ((f0.blocks ++ [BasicBlock.mk s.nextBlockId []]).find?
        (fun b => b.bid = e)).isSome = true
      exact find?_append_isSome _ _ _ h0
  · rw [createBasicBlock_getElem_other _ _ _ hfe] at hf2
    exact h f hf2

theorem getFunc_find_genResumeGenerator (ri nb : Nat) (s : St) (fid0 bid0 fid e : Nat)
    (hins : s.insertion = some (fid0, bid0))
    (h : ∀ f, s.getFunc fid = some f →
      ((f.blocks.find? (fun b => b.bid = e)).isSome = true)) :
    ∀ f, (genResumeGenerator ri nb s).getFunc fid = some f →
      ((f.blocks.find? (fun b => b.bid = e)).isSome = true) := by
  intro f hf
  have hf2 : (genResumeGenerator ri nb s).functions[fid]? = some f := hf
  rw [genResumeGenerator_eq_some ri nb s fid0 bid0 hins] at hf2
  exact getFunc_find_emit (Op.resumeGenerator ri nb) s fid e h f hf2

/-- The shared tail of the non-lazy function drivers: prologue, capture
initialization, a balanced middle (the body statements, or the single
create-generator instruction), return-value epilogue and context pop, all
relative to the caller state `s`.  `sPre` is the state just after the new
function's context was pushed (plus any generator-inner preamble). -/
theorem drvTail (node : FuncNode) (e0 nsid : Nat) (s sPre : St) (cN : Ctx)
    (cap : St → St) (mid : St → St) (rvf : St → Value)
    (hPro : ∀ (e : Nat) (s' : St), POut e s' (emitFunctionPrologue node e s'))
    (hCap : ∀ (st : St) (c : Ctx) (ct : List Ctx) (fid bi : Nat),
      st.contexts = c :: ct → st.insertion = some (fid, bi) →
      (∃ a' cT cNT cA, (cap st).contexts =
        { c with capturedThis := cT, capturedNewTarget := cNT,
                 capturedArguments := cA, anonCounter := a' } :: ct) ∧
      (∃ L, noBlockRefs L ∧ freshIds st.nextInstrId L ∧
        (∀ j, (cap st).functions[j]? =
          (st.functions[j]?).map (appendIns st.insertion j L))) ∧
      (cap st).insertion = st.insertion ∧
      (cap st).nameTable = st.nameTable ∧
      (cap st).archived = st.archived ∧
      (cap st).epilogueNullDeref = st.epilogueNullDeref ∧
      st.nextInstrId ≤ (cap st).nextInstrId ∧
      (cap st).nextBlockId = st.nextBlockId ∧
      st.nextVarId ≤ (cap st).nextVarId ∧
      (cap st).nextScopeId = st.nextScopeId ∧
      (cap st).functions.length = st.functions.length ∧
      (st.wfS → (cap st).wfS))
    (hMid : ∀ (s' : St) (cfid bid : Nat), s'.insertion = some (cfid, bid) →
      PStep cfid bid s' (mid s'))
    (hc : sPre.contexts = cN :: s.contexts)
    (hfid : cN.funcId = s.functions.length)
    (hsave : cN.savedInsertion = s.insertion)
    (hscope : cN.scopeId = nsid)
    (hlen : s.functions.length < sPre.functions.length)
    (hfuncs : ∀ j, j < s.functions.length → sPre.functions[j]? = s.functions[j]?)
    (harch : ∃ A, sPre.archived = A ++ s.archived)
    (hflag : s.wfS → sPre.epilogueNullDeref = s.epilogueNullDeref)
    (htab : s.wfS → sPre.nameTable = ScopeLevel.mk nsid [] :: s.nameTable)
    (hfresh : s.wfS → ∀ l ∈ s.nameTable, l.sid ≠ nsid)
    (hwf : s.wfS → sPre.wfS)
    (hiLe : s.nextInstrId ≤ sPre.nextInstrId)
    (hbLe : s.nextBlockId ≤ sPre.nextBlockId)
    (hvLe : s.nextVarId ≤ sPre.nextVarId)
    (hsLe : s.nextScopeId ≤ sPre.nextScopeId)
    (hentry : s.wfS → ∀ f, sPre.getFunc cN.funcId = some f →
      (f.blocks.find? (fun b => b.bid = e0)).isSome = true) :
    DrvOutS s (popContext (emitFunctionEpilogue (some (rvf (cap (emitFunctionPrologue node e0 sPre)))) (mid (cap (emitFunctionPrologue node e0 sPre))))) ∧
    (∀ c2 ct2, (cap (emitFunctionPrologue node e0 sPre)).contexts = c2 :: ct2 →
      ∃ k et2 A,
        (popContext (emitFunctionEpilogue (some (rvf (cap (emitFunctionPrologue node e0 sPre))))
            (mid (cap (emitFunctionPrologue node e0 sPre))))).archived =
          { c2 with anonCounter := k, entryTerminator := et2 } :: (A ++ s.archived)) := by
  rw [epilogue_some_eq]
  obtain ⟨a1, tid, nb, hPctx, hPins, htidlt, hPfun, hPfind⟩ :=
    (hPro e0 sPre).main cN s.contexts hc
  have hPcore := (hPro e0 sPre).core
  have hPtbl := (hPro e0 sPre).tbl
  obtain ⟨⟨a2, cT, cNT, cA2, hIctx⟩, ⟨L2, hnref2, hfresh2, hIfun⟩, hIins, hItab, hIarch,
    hIflag, hIiLe, hIbEq, hIvLe, hIsEq, hIlen, hIwf⟩ :=
    hCap (emitFunctionPrologue node e0 sPre) { cN with anonCounter := a1, entryTerminator := some tid }
      s.contexts cN.funcId nb hPctx hPins
  have hMps := hMid (cap (emitFunctionPrologue node e0 sPre)) cN.funcId nb (hIins.trans hPins)
  obtain ⟨LM, psM, hnrefM, hfreshM, hjM, hcM⟩ := hMps.funcs
  have hMb : anonBumped ({ { cN with anonCounter := a1, entryTerminator := some tid } with capturedThis := cT, capturedNewTarget := cNT, capturedArguments := cA2, anonCounter := a2 } :: s.contexts) (mid (cap (emitFunctionPrologue node e0 sPre))).contexts := by
    rw [← hIctx]
    exact hMps.ctxs
  obtain ⟨a3, hMctx⟩ := hMb
  have hMins : (mid (cap (emitFunctionPrologue node e0 sPre))).insertion = some (cN.funcId, nb) := hMps.ins.trans (hIins.trans hPins)
  obtain ⟨r1, r2, r3, r4, r5, r6, r7, r8, r9, r10, r11⟩ := emit_effect (Op.ret (rvf (cap (emitFunctionPrologue node e0 sPre)))) (mid (cap (emitFunctionPrologue node e0 sPre)))
  have hcoreR : StCore (mid (cap (emitFunctionPrologue node e0 sPre))) ((emit (Op.ret (rvf (cap (emitFunctionPrologue node e0 sPre)))) (mid (cap (emitFunctionPrologue node e0 sPre)))).2) :=
    emit_StCore (Op.ret (rvf (cap (emitFunctionPrologue node e0 sPre)))) (mid (cap (emitFunctionPrologue node e0 sPre))) (by intro r hr; simp [Op.blockRefs] at hr)
  have hRctx : ((emit (Op.ret (rvf (cap (emitFunctionPrologue node e0 sPre)))) (mid (cap (emitFunctionPrologue node e0 sPre)))).2).contexts = { { { cN with anonCounter := a1, entryTerminator := some tid } with capturedThis := cT, capturedNewTarget := cNT, capturedArguments := cA2, anonCounter := a2 } with anonCounter := a3 } :: s.contexts := r1.trans hMctx
  obtain ⟨⟨et2, hEctx⟩, hEins, hEtab, hEarch, hEfun, hElen, hEii, hEbb, hEvv, hEss⟩ :=
    epilogue_frame ((emit (Op.ret (rvf (cap (emitFunctionPrologue node e0 sPre)))) (mid (cap (emitFunctionPrologue node e0 sPre)))).2) { { { cN with anonCounter := a1, entryTerminator := some tid } with capturedThis := cT, capturedNewTarget := cNT, capturedArguments := cA2, anonCounter := a2 } with anonCounter := a3 } s.contexts hRctx
  have hPopEq := popContext_eq (emitFunctionEpilogue none ((emit (Op.ret (rvf (cap (emitFunctionPrologue node e0 sPre)))) (mid (cap (emitFunctionPrologue node e0 sPre)))).2)) { { { { cN with anonCounter := a1, entryTerminator := some tid } with capturedThis := cT, capturedNewTarget := cNT, capturedArguments := cA2, anonCounter := a2 } with anonCounter := a3 } with entryTerminator := et2 } s.contexts hEctx
  rw [hPopEq]
  have hexSR : ({ { { cN with anonCounter := a1, entryTerminator := some tid } with capturedThis := cT, capturedNewTarget := cNT, capturedArguments := cA2, anonCounter := a2 } with anonCounter := a3 } : Ctx).funcId < ((emit (Op.ret (rvf (cap (emitFunctionPrologue node e0 sPre)))) (mid (cap (emitFunctionPrologue node e0 sPre)))).2).functions.length := by
    show cN.funcId < ((emit (Op.ret (rvf (cap (emitFunctionPrologue node e0 sPre)))) (mid (cap (emitFunctionPrologue node e0 sPre)))).2).functions.length
    rw [hfid]
    calc s.functions.length < sPre.functions.length := hlen
      _ ≤ (emitFunctionPrologue node e0 sPre).functions.length := hPcore.funLe
      _ = (cap (emitFunctionPrologue node e0 sPre)).functions.length := hIlen.symm
      _ ≤ (mid (cap (emitFunctionPrologue node e0 sPre))).functions.length := hMps.core.funLe
      _ ≤ ((emit (Op.ret (rvf (cap (emitFunctionPrologue node e0 sPre)))) (mid (cap (emitFunctionPrologue node e0 sPre)))).2).functions.length := hcoreR.funLe
  have hEpi : s.wfS → ((emitFunctionEpilogue none ((emit (Op.ret (rvf (cap (emitFunctionPrologue node e0 sPre)))) (mid (cap (emitFunctionPrologue node e0 sPre)))).2)).epilogueNullDeref = ((emit (Op.ret (rvf (cap (emitFunctionPrologue node e0 sPre)))) (mid (cap (emitFunctionPrologue node e0 sPre)))).2).epilogueNullDeref ∧
      (((emit (Op.ret (rvf (cap (emitFunctionPrologue node e0 sPre)))) (mid (cap (emitFunctionPrologue node e0 sPre)))).2).wfS → (emitFunctionEpilogue none ((emit (Op.ret (rvf (cap (emitFunctionPrologue node e0 sPre)))) (mid (cap (emitFunctionPrologue node e0 sPre)))).2)).wfS)) := by
    intro hw
    obtain ⟨fP, hfP, hfPfind⟩ := hPfind (hwf hw) (by rw [hfid]; exact hlen) (hentry hw)
    have hfP' : (emitFunctionPrologue node e0 sPre).functions[cN.funcId]? = some fP := hfP
    have hfI : (cap (emitFunctionPrologue node e0 sPre)).functions[cN.funcId]? = some (appendList L2 nb fP) := by
      rw [hIfun cN.funcId, hfP', hPins]
      simp only [Option.map_some']
      refine congrArg some ?_
      simp [appendIns]
    have hfIfind : (appendList L2 nb fP).findInstr tid =
        some (Instr.mk tid (Op.branch nb)) := by
      rw [findInstr_appendList L2 nb tid fP ?hne]
      · exact hfPfind
      case hne =>
        intro i hi
        have h1 := hfresh2 i hi
        omega
    have hlenI : cN.funcId < (cap (emitFunctionPrologue node e0 sPre)).functions.length := by
      rw [hIlen, hfid]
      exact Nat.lt_of_lt_of_le hlen hPcore.funLe
    have hfM : (mid (cap (emitFunctionPrologue node e0 sPre))).functions[cN.funcId]? = some
        ({ appendList LM nb (appendList L2 nb fP) with
           params := (appendList L2 nb fP).params ++ psM } : Func) := by
      rw [hcM hlenI, hfI]
      rfl
    have hfMfind : (({ appendList LM nb (appendList L2 nb fP) with
        params := (appendList L2 nb fP).params ++ psM } : Func)).findInstr tid =
        some (Instr.mk tid (Op.branch nb)) := by
      show (appendList LM nb (appendList L2 nb fP)).findInstr tid = _
      rw [findInstr_appendList LM nb tid _ ?hne2]
      · exact hfIfind
      case hne2 =>
        intro i hi
        have h1 := hfreshM i hi
        have h2 := hIiLe
        omega
    have hfR : ((emit (Op.ret (rvf (cap (emitFunctionPrologue node e0 sPre)))) (mid (cap (emitFunctionPrologue node e0 sPre)))).2).functions[cN.funcId]? = some
        (appendList [Instr.mk (mid (cap (emitFunctionPrologue node e0 sPre))).nextInstrId (Op.ret (rvf (cap (emitFunctionPrologue node e0 sPre))))] nb
          ({ appendList LM nb (appendList L2 nb fP) with
             params := (appendList L2 nb fP).params ++ psM } : Func)) := by
      rw [r11 cN.funcId, hfM, hMins]
      simp only [Option.map_some']
      refine congrArg some ?_
      simp [appendIns]
    have hfRfind : (appendList [Instr.mk (mid (cap (emitFunctionPrologue node e0 sPre))).nextInstrId (Op.ret (rvf (cap (emitFunctionPrologue node e0 sPre))))] nb
        ({ appendList LM nb (appendList L2 nb fP) with
           params := (appendList L2 nb fP).params ++ psM } : Func)).findInstr tid =
        some (Instr.mk tid (Op.branch nb)) := by
      rw [findInstr_appendList _ nb tid _ ?hne3]
      · exact hfMfind
      case hne3 =>
        intro i hi
        simp only [List.mem_singleton] at hi
        subst hi
        show (mid (cap (emitFunctionPrologue node e0 sPre))).nextInstrId ≠ tid
        have h1 := hIiLe
        have h2 := hMps.core.instrLe
        omega
    have hfindSR : ∀ f, ((emit (Op.ret (rvf (cap (emitFunctionPrologue node e0 sPre)))) (mid (cap (emitFunctionPrologue node e0 sPre)))).2).getFunc ({ { { cN with anonCounter := a1, entryTerminator := some tid } with capturedThis := cT, capturedNewTarget := cNT, capturedArguments := cA2, anonCounter := a2 } with anonCounter := a3 } : Ctx).funcId = some f →
        f.findInstr tid = some (Instr.mk tid (Op.branch nb)) := by
      intro f hf
      have hf' : ((emit (Op.ret (rvf (cap (emitFunctionPrologue node e0 sPre)))) (mid (cap (emitFunctionPrologue node e0 sPre)))).2).functions[cN.funcId]? = some f := hf
      rw [hfR] at hf'
      injection hf' with hf2
      rw [← hf2]
      exact hfRfind
    have hcoreE := epilogue_core ((emit (Op.ret (rvf (cap (emitFunctionPrologue node e0 sPre)))) (mid (cap (emitFunctionPrologue node e0 sPre)))).2) { { { cN with anonCounter := a1, entryTerminator := some tid } with capturedThis := cT, capturedNewTarget := cNT, capturedArguments := cA2, anonCounter := a2 } with anonCounter := a3 } s.contexts tid nb hRctx rfl hfindSR hexSR
    exact ⟨hcoreE.1, hcoreE.2.2.2.2.2.2.2.2.2.2.2⟩
  have hWsm : s.wfS → (mid (cap (emitFunctionPrologue node e0 sPre))).wfS := fun hw => hMps.core.wfp (hIwf (hPcore.wfp (hwf hw)))
  have hWsr : s.wfS → ((emit (Op.ret (rvf (cap (emitFunctionPrologue node e0 sPre)))) (mid (cap (emitFunctionPrologue node e0 sPre)))).2).wfS := fun hw =>
    emit_wf (Op.ret (rvf (cap (emitFunctionPrologue node e0 sPre)))) (mid (cap (emitFunctionPrologue node e0 sPre))) (by intro r hr; simp [Op.blockRefs] at hr) (hWsm hw)
  refine ⟨⟨⟨?_, ?_, ?_, ?_, ?_, ?_, ?_, ?_⟩, ?_, ?_, ?_, ?_⟩, ?_⟩
  · obtain ⟨A2, hA2⟩ := hMps.core.arch
    obtain ⟨A1, hA1⟩ := hPcore.arch
    obtain ⟨A0, hA0⟩ := harch
    refine ⟨{ { { { cN with anonCounter := a1, entryTerminator := some tid } with capturedThis := cT, capturedNewTarget := cNT, capturedArguments := cA2, anonCounter := a2 } with anonCounter := a3 } with entryTerminator := et2 } :: (A2 ++ (A1 ++ A0)), ?_⟩
    show { { { { cN with anonCounter := a1, entryTerminator := some tid } with capturedThis := cT, capturedNewTarget := cNT, capturedArguments := cA2, anonCounter := a2 } with anonCounter := a3 } with entryTerminator := et2 } :: (emitFunctionEpilogue none ((emit (Op.ret (rvf (cap (emitFunctionPrologue node e0 sPre)))) (mid (cap (emitFunctionPrologue node e0 sPre)))).2)).archived = _
    rw [hEarch, r4, hA2, hIarch, hA1, hA0]
    simp [List.append_assoc]
  · intro hw
    show (emitFunctionEpilogue none ((emit (Op.ret (rvf (cap (emitFunctionPrologue node e0 sPre)))) (mid (cap (emitFunctionPrologue node e0 sPre)))).2)).epilogueNullDeref = s.epilogueNullDeref
    rw [(hEpi hw).1, r8, hMps.core.flag (hIwf (hPcore.wfp (hwf hw))), hIflag,
      hPcore.flag (hwf hw), hflag hw]
  · show s.nextInstrId ≤ (emitFunctionEpilogue none ((emit (Op.ret (rvf (cap (emitFunctionPrologue node e0 sPre)))) (mid (cap (emitFunctionPrologue node e0 sPre)))).2)).nextInstrId
    rw [hEii]
    calc s.nextInstrId ≤ sPre.nextInstrId := hiLe
      _ ≤ (emitFunctionPrologue node e0 sPre).nextInstrId := hPcore.instrLe
      _ ≤ (cap (emitFunctionPrologue node e0 sPre)).nextInstrId := hIiLe
      _ ≤ (mid (cap (emitFunctionPrologue node e0 sPre))).nextInstrId := hMps.core.instrLe
      _ ≤ ((emit (Op.ret (rvf (cap (emitFunctionPrologue node e0 sPre)))) (mid (cap (emitFunctionPrologue node e0 sPre)))).2).nextInstrId := hcoreR.instrLe
  · show s.nextBlockId ≤ (emitFunctionEpilogue none ((emit (Op.ret (rvf (cap (emitFunctionPrologue node e0 sPre)))) (mid (cap (emitFunctionPrologue node e0 sPre)))).2)).nextBlockId
    rw [hEbb]
    calc s.nextBlockId ≤ sPre.nextBlockId := hbLe
      _ ≤ (emitFunctionPrologue node e0 sPre).nextBlockId := hPcore.blockLe
      _ = (cap (emitFunctionPrologue node e0 sPre)).nextBlockId := hIbEq.symm
      _ ≤ (mid (cap (emitFunctionPrologue node e0 sPre))).nextBlockId := hMps.core.blockLe
      _ ≤ ((emit (Op.ret (rvf (cap (emitFunctionPrologue node e0 sPre)))) (mid (cap (emitFunctionPrologue node e0 sPre)))).2).nextBlockId := hcoreR.blockLe
  · show s.nextVarId ≤ (emitFunctionEpilogue none ((emit (Op.ret (rvf (cap (emitFunctionPrologue node e0 sPre)))) (mid (cap (emitFunctionPrologue node e0 sPre)))).2)).nextVarId
    rw [hEvv]
    calc s.nextVarId ≤ sPre.nextVarId := hvLe
      _ ≤ (emitFunctionPrologue node e0 sPre).nextVarId := hPcore.varLe
      _ ≤ (cap (emitFunctionPrologue node e0 sPre)).nextVarId := hIvLe
      _ ≤ (mid (cap (emitFunctionPrologue node e0 sPre))).nextVarId := hMps.core.varLe
      _ ≤ ((emit (Op.ret (rvf (cap (emitFunctionPrologue node e0 sPre)))) (mid (cap (emitFunctionPrologue node e0 sPre)))).2).nextVarId := hcoreR.varLe
  · show s.nextScopeId ≤ (emitFunctionEpilogue none ((emit (Op.ret (rvf (cap (emitFunctionPrologue node e0 sPre)))) (mid (cap (emitFunctionPrologue node e0 sPre)))).2)).nextScopeId
    rw [hEss]
    calc s.nextScopeId ≤ sPre.nextScopeId := hsLe
      _ ≤ (emitFunctionPrologue node e0 sPre).nextScopeId := hPcore.scopeLe
      _ = (cap (emitFunctionPrologue node e0 sPre)).nextScopeId := hIsEq.symm
      _ ≤ (mid (cap (emitFunctionPrologue node e0 sPre))).nextScopeId := hMps.core.scopeLe
      _ ≤ ((emit (Op.ret (rvf (cap (emitFunctionPrologue node e0 sPre)))) (mid (cap (emitFunctionPrologue node e0 sPre)))).2).nextScopeId := hcoreR.scopeLe
  · show s.functions.length ≤ (emitFunctionEpilogue none ((emit (Op.ret (rvf (cap (emitFunctionPrologue node e0 sPre)))) (mid (cap (emitFunctionPrologue node e0 sPre)))).2)).functions.length
    rw [hElen]
    calc s.functions.length ≤ sPre.functions.length := Nat.le_of_lt hlen
      _ ≤ (emitFunctionPrologue node e0 sPre).functions.length := hPcore.funLe
      _ = (cap (emitFunctionPrologue node e0 sPre)).functions.length := hIlen.symm
      _ ≤ (mid (cap (emitFunctionPrologue node e0 sPre))).functions.length := hMps.core.funLe
      _ ≤ ((emit (Op.ret (rvf (cap (emitFunctionPrologue node e0 sPre)))) (mid (cap (emitFunctionPrologue node e0 sPre)))).2).functions.length := hcoreR.funLe
  · intro hw
    have h := popContext_wf (emitFunctionEpilogue none ((emit (Op.ret (rvf (cap (emitFunctionPrologue node e0 sPre)))) (mid (cap (emitFunctionPrologue node e0 sPre)))).2)) ((hEpi hw).2 (hWsr hw))
    rw [hPopEq] at h
    exact h
  · exact anonBumped_refl s.contexts
  · exact hsave
  · intro hw
    have hsid0 : (ScopeLevel.mk nsid []).sid = cN.scopeId := hscope.symm
    have hrest0 : ∀ l ∈ s.nameTable, l.sid ≠ cN.scopeId := by
      intro l hl
      rw [hscope]
      exact hfresh hw l hl
    obtain ⟨esP, hPt⟩ := hPtbl (hwf hw) cN s.contexts (ScopeLevel.mk nsid [])
      s.nameTable hc (htab hw) hsid0 hrest0
    have hIt : (cap (emitFunctionPrologue node e0 sPre)).nameTable =
        { ScopeLevel.mk nsid [] with entries := esP ++ [] } :: s.nameTable :=
      hItab.trans hPt
    have hsid1 : ({ ScopeLevel.mk nsid [] with entries := esP ++ [] } :
        ScopeLevel).sid = ({ { cN with anonCounter := a1, entryTerminator := some tid } with capturedThis := cT, capturedNewTarget := cNT, capturedArguments := cA2, anonCounter := a2 } : Ctx).scopeId := by
      show nsid = cN.scopeId
      exact hscope.symm
    have hrest1 : ∀ l ∈ s.nameTable, l.sid ≠ ({ { cN with anonCounter := a1, entryTerminator := some tid } with capturedThis := cT, capturedNewTarget := cNT, capturedArguments := cA2, anonCounter := a2 } : Ctx).scopeId := by
      intro l hl
      show l.sid ≠ cN.scopeId
      exact hrest0 l hl
    obtain ⟨esM, hMt⟩ := hMps.tbl (hIwf (hPcore.wfp (hwf hw))) { { cN with anonCounter := a1, entryTerminator := some tid } with capturedThis := cT, capturedNewTarget := cNT, capturedArguments := cA2, anonCounter := a2 } s.contexts
      { ScopeLevel.mk nsid [] with entries := esP ++ [] } s.nameTable hIctx hIt
      hsid1 hrest1
    show (emitFunctionEpilogue none ((emit (Op.ret (rvf (cap (emitFunctionPrologue node e0 sPre)))) (mid (cap (emitFunctionPrologue node e0 sPre)))).2)).nameTable.filter
      (fun lvl => lvl.sid ≠ ({ { { { cN with anonCounter := a1, entryTerminator := some tid } with capturedThis := cT, capturedNewTarget := cNT, capturedArguments := cA2, anonCounter := a2 } with anonCounter := a3 } with entryTerminator := et2 } : Ctx).scopeId) =
      s.nameTable
    rw [hEtab, r3, hMt]
    exact filter_scope_restore s.nameTable _ _ hscope.symm hrest0
  · intro j hj
    have hjne : j ≠ cN.funcId := by
      rw [hfid]
      omega
    show (emitFunctionEpilogue none ((emit (Op.ret (rvf (cap (emitFunctionPrologue node e0 sPre)))) (mid (cap (emitFunctionPrologue node e0 sPre)))).2)).functions[j]? = s.functions[j]?
    rw [hEfun j hjne, r11 j, hMins]
    have hSMj : (mid (cap (emitFunctionPrologue node e0 sPre))).functions[j]? = s.functions[j]? := by
      have hlt1 : j < (cap (emitFunctionPrologue node e0 sPre)).functions.length := by
        rw [hIlen]
        exact Nat.lt_of_lt_of_le (Nat.lt_trans hj hlen) hPcore.funLe
      rw [hjM j hlt1 hjne, hIfun j, hPins, hPfun j (Nat.lt_trans hj hlen) hjne,
        hfuncs j hj]
      cases s.functions[j]? with
      | none => rfl
      | some f =>
        refine congrArg some ?_
        show appendIns (some (cN.funcId, nb)) j L2 f = f
        simp [appendIns, hjne]
    rw [hSMj]
    cases s.functions[j]? with
    | none => rfl
    | some f =>
      refine congrArg some ?_
      show appendIns (some (cN.funcId, nb)) j _ f = f
      simp [appendIns, hjne]
  · intro c2 ct2 hc2
    rw [hIctx] at hc2
    injection hc2 with h1 h2
    subst h1
    obtain ⟨A2, hA2⟩ := hMps.core.arch
    obtain ⟨A1, hA1⟩ := hPcore.arch
    obtain ⟨A0, hA0⟩ := harch
    refine ⟨a3, et2, A2 ++ (A1 ++ A0), ?_⟩
    show { { { { cN with anonCounter := a1, entryTerminator := some tid } with capturedThis := cT, capturedNewTarget := cNT, capturedArguments := cA2, anonCounter := a2 } with anonCounter := a3 } with entryTerminator := et2 } :: (emitFunctionEpilogue none ((emit (Op.ret (rvf (cap (emitFunctionPrologue node e0 sPre)))) (mid (cap (emitFunctionPrologue node e0 sPre)))).2)).archived = _
    rw [hEarch, r4, hA2, hIarch, hA1, hA0]
    simp [List.append_assoc]


/-- The lazy path of `genES5Function`: no context push, only the stub
parameters and the lazy record. -/
theorem es5CaseLazy (nm : Name) (ca : Option Variable) (node : FuncNode) (gi : Bool)
    (s : St) (hlz : node.isLazy = true) :
    DrvOut s (genES5Function nm ca node gi s) := by
  have he : genES5Function nm ca node gi s =
      (s.functions.length,
       lazyParams s.functions.length node.params
         (createParameter s.functions.length "this" (St.modifyFunc (St.modifyFunc (createFunction nm DefinitionKind.es5Function (if gi then FuncKind.generatorInner else FuncKind.normal) node.strictF (some node.bodyRange) s).2 s.functions.length (fun f => { f with lazyClosureAlias := ca })) s.functions.length (fun f => { f with lazyScope := some (saveCurrentScope (St.modifyFunc (createFunction nm DefinitionKind.es5Function (if gi then FuncKind.generatorInner else FuncKind.normal) node.strictF (some node.bodyRange) s).2 s.functions.length (fun f => { f with lazyClosureAlias := ca }))), lazySource := some { bufferId := node.bufferId, nodeKind := node.kind, functionRange := node.range } }))).2) := by
    rw [genES5Function_eq, hlz]
    exact rfl
  rw [he]
  obtain ⟨l1, l2, l3, l4, l5, l6, l7, l8, l9, l10, l11, l12⟩ :=
    lazyParams_effect s.functions.length node.params
      (createParameter s.functions.length "this" (St.modifyFunc (St.modifyFunc (createFunction nm DefinitionKind.es5Function (if gi then FuncKind.generatorInner else FuncKind.normal) node.strictF (some node.bodyRange) s).2 s.functions.length (fun f => { f with lazyClosureAlias := ca })) s.functions.length (fun f => { f with lazyScope := some (saveCurrentScope (St.modifyFunc (createFunction nm DefinitionKind.es5Function (if gi then FuncKind.generatorInner else FuncKind.normal) node.strictF (some node.bodyRange) s).2 s.functions.length (fun f => { f with lazyClosureAlias := ca }))), lazySource := some { bufferId := node.bufferId, nodeKind := node.kind, functionRange := node.range } }))).2
  obtain ⟨p1, p2, p3, p4, p5, p6, p7, p8, p9, p10, p11, p12⟩ :=
    createParameter_effect s.functions.length "this" (St.modifyFunc (St.modifyFunc (createFunction nm DefinitionKind.es5Function (if gi then FuncKind.generatorInner else FuncKind.normal) node.strictF (some node.bodyRange) s).2 s.functions.length (fun f => { f with lazyClosureAlias := ca })) s.functions.length (fun f => { f with lazyScope := some (saveCurrentScope (St.modifyFunc (createFunction nm DefinitionKind.es5Function (if gi then FuncKind.generatorInner else FuncKind.normal) node.strictF (some node.bodyRange) s).2 s.functions.length (fun f => { f with lazyClosureAlias := ca }))), lazySource := some { bufferId := node.bufferId, nodeKind := node.kind, functionRange := node.range } }))
  refine ⟨⟨⟨⟨[], ?_⟩, ?_, ?_, ?_, ?_, ?_, ?_, ?_⟩, ?_, ?_, ?_, ?_⟩, rfl⟩
  · exact l4.trans p4
  · intro hw
    exact l5.trans p5
  · exact Nat.le_of_eq (l6.trans p6).symm
  · exact Nat.le_of_eq (l7.trans p7).symm
  · exact Nat.le_of_eq (l8.trans p8).symm
  · exact Nat.le_of_eq (l9.trans p9).symm
  · rw [l11, p11, modifyFunc_len, modifyFunc_len, createFunction_len]
    exact Nat.le_succ _
  · intro hw
    exact l12 (p12 (modifyFunc_wf _ _ _ (fun f => rfl)
      (modifyFunc_wf _ _ _ (fun f => rfl) (createFunction_wf _ _ _ _ _ _ hw))))
  · rw [l1, p1]
    exact anonBumped_refl s.contexts
  · exact l2.trans p2
  · intro hw
    exact l3.trans p3
  · intro j hj
    have hjne : j ≠ s.functions.length := Nat.ne_of_lt hj
    rw [l10 j hjne, p10 j hjne, modifyFunc_getElem_other _ _ _ _ hjne,
      modifyFunc_getElem_other _ _ _ _ hjne, createFunction_getElem_lt _ _ _ _ _ _ _ hj]

/-- The non-lazy, non-generator-inner path of `genES5Function`. -/
theorem es5CaseMain (nm : Name) (ca : Option Variable) (node : FuncNode) (s : St)
    (hlz : node.isLazy = false)
    (hPro : ∀ (e : Nat) (s' : St), POut e s' (emitFunctionPrologue node e s'))
    (hStmts : ∀ (s' : St) (cfid bid : Nat), s'.insertion = some (cfid, bid) →
      PStep cfid bid s' (genStatements node.body s')) :
    DrvOut s (genES5Function nm ca node false s) := by
  have he : genES5Function nm ca node false s =
      (s.functions.length,
       popContext (emitFunctionEpilogue (some Value.litUndefined)
         (genStatements node.body (initCaptureStateInES5Function
           (emitFunctionPrologue node (createBasicBlock s.functions.length (pushContext s.functions.length (some node.sem) (St.modifyFunc (createFunction nm DefinitionKind.es5Function FuncKind.normal node.strictF (some node.bodyRange) s).2 s.functions.length (fun f => { f with lazyClosureAlias := ca })))).1 (createBasicBlock s.functions.length (pushContext s.functions.length (some node.sem) (St.modifyFunc (createFunction nm DefinitionKind.es5Function FuncKind.normal node.strictF (some node.bodyRange) s).2 s.functions.length (fun f => { f with lazyClosureAlias := ca })))).2))))) := by
    rw [genES5Function_eq, hlz]
    exact rfl
  rw [he]
  refine ⟨?_, rfl⟩
  have hlenX : s.functions.length < (createBasicBlock s.functions.length (pushContext s.functions.length (some node.sem) (St.modifyFunc (createFunction nm DefinitionKind.es5Function FuncKind.normal node.strictF (some node.bodyRange) s).2 s.functions.length (fun f => { f with lazyClosureAlias := ca })))).2.functions.length := by
    rw [createBasicBlock_len, pushContext_funcs, modifyFunc_len, createFunction_len]
    exact Nat.lt_succ_self _
  have hfuncsX : ∀ j, j < s.functions.length → (createBasicBlock s.functions.length (pushContext s.functions.length (some node.sem) (St.modifyFunc (createFunction nm DefinitionKind.es5Function FuncKind.normal node.strictF (some node.bodyRange) s).2 s.functions.length (fun f => { f with lazyClosureAlias := ca })))).2.functions[j]? = s.functions[j]? := by
    intro j hj
    have hjne : j ≠ s.functions.length := Nat.ne_of_lt hj
    rw [createBasicBlock_getElem_other _ _ _ hjne, pushContext_funcs,
      modifyFunc_getElem_other _ _ _ _ hjne, createFunction_getElem_lt _ _ _ _ _ _ _ hj]
  have hwfX : s.wfS → (createBasicBlock s.functions.length (pushContext s.functions.length (some node.sem) (St.modifyFunc (createFunction nm DefinitionKind.es5Function FuncKind.normal node.strictF (some node.bodyRange) s).2 s.functions.length (fun f => { f with lazyClosureAlias := ca })))).2.wfS := by
    intro hw
    exact createBasicBlock_wf _ _ (pushContext_wf _ _ _ (modifyFunc_wf _ _ _ (fun f => rfl)
      (createFunction_wf _ _ _ _ _ _ hw)))
  have hentryX : s.wfS → ∀ f, (createBasicBlock s.functions.length (pushContext s.functions.length (some node.sem) (St.modifyFunc (createFunction nm DefinitionKind.es5Function FuncKind.normal node.strictF (some node.bodyRange) s).2 s.functions.length (fun f => { f with lazyClosureAlias := ca })))).2.getFunc s.functions.length = some f →
      ((f.blocks.find? (fun b => b.bid = (createBasicBlock s.functions.length (pushContext s.functions.length (some node.sem) (St.modifyFunc (createFunction nm DefinitionKind.es5Function FuncKind.normal node.strictF (some node.bodyRange) s).2 s.functions.length (fun f => { f with lazyClosureAlias := ca })))).1)).isSome = true) := by
    intro _ f hf
    have hf2 : (createBasicBlock s.functions.length (pushContext s.functions.length (some node.sem) (St.modifyFunc (createFunction nm DefinitionKind.es5Function FuncKind.normal node.strictF (some node.bodyRange) s).2 s.functions.length (fun f => { f with lazyClosureAlias := ca })))).2.functions[s.functions.length]? = some f := hf
    rw [createBasicBlock_getElem_self] at hf2
    have hself : (pushContext s.functions.length (some node.sem) (St.modifyFunc (createFunction nm DefinitionKind.es5Function FuncKind.normal node.strictF (some node.bodyRange) s).2 s.functions.length (fun f => { f with lazyClosureAlias := ca }))).functions[s.functions.length]? = some { fnm := nm, defKind := DefinitionKind.es5Function, funcKind := FuncKind.normal, strict := node.strictF, sourceRange := some node.bodyRange, params := [], blocks := [], lazyClosureAlias := ca, lazyScope := none, lazySource := none } := by
      rw [pushContext_funcs, modifyFunc_getElem_self, createFunction_getElem_new]
      exact rfl
    rw [hself, Option.map_some'] at hf2
    injection hf2 with hf3
    rw [← hf3]
    show ((({ fnm := nm, defKind := DefinitionKind.es5Function, funcKind := FuncKind.normal, strict := node.strictF, sourceRange := some node.bodyRange, params := [], blocks := [], lazyClosureAlias := ca, lazyScope := none, lazySource := none } : Func).blocks ++ [BasicBlock.mk (pushContext s.functions.length (some node.sem) (St.modifyFunc (createFunction nm DefinitionKind.es5Function FuncKind.normal node.strictF (some node.bodyRange) s).2 s.functions.length (fun f => { f with lazyClosureAlias := ca }))).nextBlockId []]).find?
      (fun b => b.bid = (createBasicBlock s.functions.length (pushContext s.functions.length (some node.sem) (St.modifyFunc (createFunction nm DefinitionKind.es5Function FuncKind.normal node.strictF (some node.bodyRange) s).2 s.functions.length (fun f => { f with lazyClosureAlias := ca })))).1)).isSome = true
    exact find?_bid_concat _ _
  exact (drvTail node (createBasicBlock s.functions.length (pushContext s.functions.length (some node.sem) (St.modifyFunc (createFunction nm DefinitionKind.es5Function FuncKind.normal node.strictF (some node.bodyRange) s).2 s.functions.length (fun f => { f with lazyClosureAlias := ca })))).1 s.nextScopeId s (createBasicBlock s.functions.length (pushContext s.functions.length (some node.sem) (St.modifyFunc (createFunction nm DefinitionKind.es5Function FuncKind.normal node.strictF (some node.bodyRange) s).2 s.functions.length (fun f => { f with lazyClosureAlias := ca })))).2
    { funcId := s.functions.length, semInfo := some node.sem, capturedThis := none, capturedNewTarget := some Value.litUndefined, capturedArguments := none, entryTerminator := none, anonCounter := 0, labelsSize := node.sem.labelCount, savedInsertion := s.insertion, scopeId := s.nextScopeId }
    initCaptureStateInES5Function (genStatements node.body) (fun _ => Value.litUndefined)
    hPro initCapture_effect hStmts rfl rfl rfl rfl hlenX hfuncsX ⟨[], rfl⟩
    (fun _ => rfl) (fun _ => rfl) (fun hw l hl => Nat.ne_of_lt (hw.2 l hl)) hwfX
    (Nat.le_refl s.nextInstrId) (Nat.le_succ s.nextBlockId) (Nat.le_refl s.nextVarId)
    (Nat.le_succ s.nextScopeId) hentryX).1


/-- The non-lazy generator-inner path of `genES5Function`: the
`StartGenerator` / `AllocStack` / `ResumeGenerator` preamble precedes the
prologue. -/
theorem es5CaseGen (nm : Name) (ca : Option Variable) (node : FuncNode) (s : St)
    (hlz : node.isLazy = false)
    (hPro : ∀ (e : Nat) (s' : St), POut e s' (emitFunctionPrologue node e s'))
    (hStmts : ∀ (s' : St) (cfid bid : Nat), s'.insertion = some (cfid, bid) →
      PStep cfid bid s' (genStatements node.body s')) :
    DrvOut s (genES5Function nm ca node true s) := by
  have he : genES5Function nm ca node true s =
      (s.functions.length,
       popContext (emitFunctionEpilogue (some Value.litUndefined)
         (genStatements node.body (initCaptureStateInES5Function
           (emitFunctionPrologue node (createBasicBlock s.functions.length (emit (Op.allocStack (genAnonymousLabelName "isReturn" ((emit Op.startGenerator (setInsertion s.functions.length (createBasicBlock s.functions.length (pushContext s.functions.length (some node.sem) (St.modifyFunc (createFunction nm DefinitionKind.es5Function FuncKind.generatorInner node.strictF (some node.bodyRange) s).2 s.functions.length (fun f => { f with lazyClosureAlias := ca })))).1 (createBasicBlock s.functions.length (pushContext s.functions.length (some node.sem) (St.modifyFunc (createFunction nm DefinitionKind.es5Function FuncKind.generatorInner node.strictF (some node.bodyRange) s).2 s.functions.length (fun f => { f with lazyClosureAlias := ca })))).2)).2)).1) (genAnonymousLabelName "isReturn" ((emit Op.startGenerator (setInsertion s.functions.length (createBasicBlock s.functions.length (pushContext s.functions.length (some node.sem) (St.modifyFunc (createFunction nm DefinitionKind.es5Function FuncKind.generatorInner node.strictF (some node.bodyRange) s).2 s.functions.length (fun f => { f with lazyClosureAlias := ca })))).1 (createBasicBlock s.functions.length (pushContext s.functions.length (some node.sem) (St.modifyFunc (createFunction nm DefinitionKind.es5Function FuncKind.generatorInner node.strictF (some node.bodyRange) s).2 s.functions.length (fun f => { f with lazyClosureAlias := ca })))).2)).2)).2).2).1 (genResumeGenerator (emit (Op.allocStack (genAnonymousLabelName "isReturn" ((emit Op.startGenerator (setInsertion s.functions.length (createBasicBlock s.functions.length (pushContext s.functions.length (some node.sem) (St.modifyFunc (createFunction nm DefinitionKind.es5Function FuncKind.generatorInner node.strictF (some node.bodyRange) s).2 s.functions.length (fun f => { f with lazyClosureAlias := ca })))).1 (createBasicBlock s.functions.length (pushContext s.functions.length (some node.sem) (St.modifyFunc (createFunction nm DefinitionKind.es5Function FuncKind.generatorInner node.strictF (some node.bodyRange) s).2 s.functions.length (fun f => { f with lazyClosureAlias := ca })))).2)).2)).1) (genAnonymousLabelName "isReturn" ((emit Op.startGenerator (setInsertion s.functions.length (createBasicBlock s.functions.length (pushContext s.functions.length (some node.sem) (St.modifyFunc (createFunction nm DefinitionKind.es5Function FuncKind.generatorInner node.strictF (some node.bodyRange) s).2 s.functions.length (fun f => { f with lazyClosureAlias := ca })))).1 (createBasicBlock s.functions.length (pushContext s.functions.length (some node.sem) (St.modifyFunc (createFunction nm DefinitionKind.es5Function FuncKind.generatorInner node.strictF (some node.bodyRange) s).2 s.functions.length (fun f => { f with lazyClosureAlias := ca })))).2)).2)).2).1 (createBasicBlock s.functions.length (emit (Op.allocStack (genAnonymousLabelName "isReturn" ((emit Op.startGenerator (setInsertion s.functions.length (createBasicBlock s.functions.length (pushContext s.functions.length (some node.sem) (St.modifyFunc (createFunction nm DefinitionKind.es5Function FuncKind.generatorInner node.strictF (some node.bodyRange) s).2 s.functions.length (fun f => { f with lazyClosureAlias := ca })))).1 (createBasicBlock s.functions.length (pushContext s.functions.length (some node.sem) (St.modifyFunc (createFunction nm DefinitionKind.es5Function FuncKind.generatorInner node.strictF (some node.bodyRange) s).2 s.functions.length (fun f => { f with lazyClosureAlias := ca })))).2)).2)).1) (genAnonymousLabelName "isReturn" ((emit Op.startGenerator (setInsertion s.functions.length (createBasicBlock s.functions.length (pushContext s.functions.length (some node.sem) (St.modifyFunc (createFunction nm DefinitionKind.es5Function FuncKind.generatorInner node.strictF (some node.bodyRange) s).2 s.functions.length (fun f => { f with lazyClosureAlias := ca })))).1 (createBasicBlock s.functions.length (pushContext s.functions.length (some node.sem) (St.modifyFunc (createFunction nm DefinitionKind.es5Function FuncKind.generatorInner node.strictF (some node.bodyRange) s).2 s.functions.length (fun f => { f with lazyClosureAlias := ca })))).2)).2)).2).2).1 (createBasicBlock s.functions.length (emit (Op.allocStack (genAnonymousLabelName "isReturn" ((emit Op.startGenerator (setInsertion s.functions.length (createBasicBlock s.functions.length (pushContext s.functions.length (some node.sem) (St.modifyFunc (createFunction nm DefinitionKind.es5Function FuncKind.generatorInner node.strictF (some node.bodyRange) s).2 s.functions.length (fun f => { f with lazyClosureAlias := ca })))).1 (createBasicBlock s.functions.length (pushContext s.functions.length (some node.sem) (St.modifyFunc (createFunction nm DefinitionKind.es5Function FuncKind.generatorInner node.strictF (some node.bodyRange) s).2 s.functions.length (fun f => { f with lazyClosureAlias := ca })))).2)).2)).1) (genAnonymousLabelName "isReturn" ((emit Op.startGenerator (setInsertion s.functions.length (createBasicBlock s.functions.length (pushContext s.functions.length (some node.sem) (St.modifyFunc (createFunction nm DefinitionKind.es5Function FuncKind.generatorInner node.strictF (some node.bodyRange) s).2 s.functions.length (fun f => { f with lazyClosureAlias := ca })))).1 (createBasicBlock s.functions.length (pushContext s.functions.length (some node.sem) (St.modifyFunc (createFunction nm DefinitionKind.es5Function FuncKind.generatorInner node.strictF (some node.bodyRange) s).2 s.functions.length (fun f => { f with lazyClosureAlias := ca })))).2)).2)).2).2).2)))))) := by
    rw [genES5Function_eq, hlz]
    exact rfl
  rw [he]
  refine ⟨?_, rfl⟩
  have hins2 : (setInsertion s.functions.length (createBasicBlock s.functions.length (pushContext s.functions.length (some node.sem) (St.modifyFunc (createFunction nm DefinitionKind.es5Function FuncKind.generatorInner node.strictF (some node.bodyRange) s).2 s.functions.length (fun f => { f with lazyClosureAlias := ca })))).1 (createBasicBlock s.functions.length (pushContext s.functions.length (some node.sem) (St.modifyFunc (createFunction nm DefinitionKind.es5Function FuncKind.generatorInner node.strictF (some node.bodyRange) s).2 s.functions.length (fun f => { f with lazyClosureAlias := ca })))).2).insertion = some (s.functions.length, (createBasicBlock s.functions.length (pushContext s.functions.length (some node.sem) (St.modifyFunc (createFunction nm DefinitionKind.es5Function FuncKind.generatorInner node.strictF (some node.bodyRange) s).2 s.functions.length (fun f => { f with lazyClosureAlias := ca })))).1) := rfl
  have hins4 : (genAnonymousLabelName "isReturn" ((emit Op.startGenerator (setInsertion s.functions.length (createBasicBlock s.functions.length (pushContext s.functions.length (some node.sem) (St.modifyFunc (createFunction nm DefinitionKind.es5Function FuncKind.generatorInner node.strictF (some node.bodyRange) s).2 s.functions.length (fun f => { f with lazyClosureAlias := ca })))).1 (createBasicBlock s.functions.length (pushContext s.functions.length (some node.sem) (St.modifyFunc (createFunction nm DefinitionKind.es5Function FuncKind.generatorInner node.strictF (some node.bodyRange) s).2 s.functions.length (fun f => { f with lazyClosureAlias := ca })))).2)).2)).2.insertion = some (s.functions.length, (createBasicBlock s.functions.length (pushContext s.functions.length (some node.sem) (St.modifyFunc (createFunction nm DefinitionKind.es5Function FuncKind.generatorInner node.strictF (some node.bodyRange) s).2 s.functions.length (fun f => { f with lazyClosureAlias := ca })))).1) := rfl
  have hins6 : (createBasicBlock s.functions.length (emit (Op.allocStack (genAnonymousLabelName "isReturn" ((emit Op.startGenerator (setInsertion s.functions.length (createBasicBlock s.functions.length (pushContext s.functions.length (some node.sem) (St.modifyFunc (createFunction nm DefinitionKind.es5Function FuncKind.generatorInner node.strictF (some node.bodyRange) s).2 s.functions.length (fun f => { f with lazyClosureAlias := ca })))).1 (createBasicBlock s.functions.length (pushContext s.functions.length (some node.sem) (St.modifyFunc (createFunction nm DefinitionKind.es5Function FuncKind.generatorInner node.strictF (some node.bodyRange) s).2 s.functions.length (fun f => { f with lazyClosureAlias := ca })))).2)).2)).1) (genAnonymousLabelName "isReturn" ((emit Op.startGenerator (setInsertion s.functions.length (createBasicBlock s.functions.length (pushContext s.functions.length (some node.sem) (St.modifyFunc (createFunction nm DefinitionKind.es5Function FuncKind.generatorInner node.strictF (some node.bodyRange) s).2 s.functions.length (fun f => { f with lazyClosureAlias := ca })))).1 (createBasicBlock s.functions.length (pushContext s.functions.length (some node.sem) (St.modifyFunc (createFunction nm DefinitionKind.es5Function FuncKind.generatorInner node.strictF (some node.bodyRange) s).2 s.functions.length (fun f => { f with lazyClosureAlias := ca })))).2)).2)).2).2).2.insertion = some (s.functions.length, (createBasicBlock s.functions.length (pushContext s.functions.length (some node.sem) (St.modifyFunc (createFunction nm DefinitionKind.es5Function FuncKind.generatorInner node.strictF (some node.bodyRange) s).2 s.functions.length (fun f => { f with lazyClosureAlias := ca })))).1) := rfl
  have hlen7 : (genResumeGenerator (emit (Op.allocStack (genAnonymousLabelName "isReturn" ((emit Op.startGenerator (setInsertion s.functions.length (createBasicBlock s.functions.length (pushContext s.functions.length (some node.sem) (St.modifyFunc (createFunction nm DefinitionKind.es5Function FuncKind.generatorInner node.strictF (some node.bodyRange) s).2 s.functions.length (fun f => { f with lazyClosureAlias := ca })))).1 (createBasicBlock s.functions.length (pushContext s.functions.length (some node.sem) (St.modifyFunc (createFunction nm DefinitionKind.es5Function FuncKind.generatorInner node.strictF (some node.bodyRange) s).2 s.functions.length (fun f => { f with lazyClosureAlias := ca })))).2)).2)).1) (genAnonymousLabelName "isReturn" ((emit Op.startGenerator (setInsertion s.functions.length (createBasicBlock s.functions.length (pushContext s.functions.length (some node.sem) (St.modifyFunc (createFunction nm DefinitionKind.es5Function FuncKind.generatorInner node.strictF (some node.bodyRange) s).2 s.functions.length (fun f => { f with lazyClosureAlias := ca })))).1 (createBasicBlock s.functions.length (pushContext s.functions.length (some node.sem) (St.modifyFunc (createFunction nm DefinitionKind.es5Function FuncKind.generatorInner node.strictF (some node.bodyRange) s).2 s.functions.length (fun f => { f with lazyClosureAlias := ca })))).2)).2)).2).1 (createBasicBlock s.functions.length (emit (Op.allocStack (genAnonymousLabelName "isReturn" ((emit Op.startGenerator (setInsertion s.functions.length (createBasicBlock s.functions.length (pushContext s.functions.length (some node.sem) (St.modifyFunc (createFunction nm DefinitionKind.es5Function FuncKind.generatorInner node.strictF (some node.bodyRange) s).2 s.functions.length (fun f => { f with lazyClosureAlias := ca })))).1 (createBasicBlock s.functions.length (pushContext s.functions.length (some node.sem) (St.modifyFunc (createFunction nm DefinitionKind.es5Function FuncKind.generatorInner node.strictF (some node.bodyRange) s).2 s.functions.length (fun f => { f with lazyClosureAlias := ca })))).2)).2)).1) (genAnonymousLabelName "isReturn" ((emit Op.startGenerator (setInsertion s.functions.length (createBasicBlock s.functions.length (pushContext s.functions.length (some node.sem) (St.modifyFunc (createFunction nm DefinitionKind.es5Function FuncKind.generatorInner node.strictF (some node.bodyRange) s).2 s.functions.length (fun f => { f with lazyClosureAlias := ca })))).1 (createBasicBlock s.functions.length (pushContext s.functions.length (some node.sem) (St.modifyFunc (createFunction nm DefinitionKind.es5Function FuncKind.generatorInner node.strictF (some node.bodyRange) s).2 s.functions.length (fun f => { f with lazyClosureAlias := ca })))).2)).2)).2).2).1 (createBasicBlock s.functions.length (emit (Op.allocStack (genAnonymousLabelName "isReturn" ((emit Op.startGenerator (setInsertion s.functions.length (createBasicBlock s.functions.length (pushContext s.functions.length (some node.sem) (St.modifyFunc (createFunction nm DefinitionKind.es5Function FuncKind.generatorInner node.strictF (some node.bodyRange) s).2 s.functions.length (fun f => { f with lazyClosureAlias := ca })))).1 (createBasicBlock s.functions.length (pushContext s.functions.length (some node.sem) (St.modifyFunc (createFunction nm DefinitionKind.es5Function FuncKind.generatorInner node.strictF (some node.bodyRange) s).2 s.functions.length (fun f => { f with lazyClosureAlias := ca })))).2)).2)).1) (genAnonymousLabelName "isReturn" ((emit Op.startGenerator (setInsertion s.functions.length (createBasicBlock s.functions.length (pushContext s.functions.length (some node.sem) (St.modifyFunc (createFunction nm DefinitionKind.es5Function FuncKind.generatorInner node.strictF (some node.bodyRange) s).2 s.functions.length (fun f => { f with lazyClosureAlias := ca })))).1 (createBasicBlock s.functions.length (pushContext s.functions.length (some node.sem) (St.modifyFunc (createFunction nm DefinitionKind.es5Function FuncKind.generatorInner node.strictF (some node.bodyRange) s).2 s.functions.length (fun f => { f with lazyClosureAlias := ca })))).2)).2)).2).2).2).functions.length = s.functions.length + 1 := by
    rw [genResumeGenerator_len _ _ _ _ _ hins6, createBasicBlock_len, emit_len,
      genAnon_funcs, emit_len, setInsertion_funcs, createBasicBlock_len, pushContext_funcs,
      modifyFunc_len, createFunction_len]
  have hfuncs7 : ∀ j, j < s.functions.length → (genResumeGenerator (emit (Op.allocStack (genAnonymousLabelName "isReturn" ((emit Op.startGenerator (setInsertion s.functions.length (createBasicBlock s.functions.length (pushContext s.functions.length (some node.sem) (St.modifyFunc (createFunction nm DefinitionKind.es5Function FuncKind.generatorInner node.strictF (some node.bodyRange) s).2 s.functions.length (fun f => { f with lazyClosureAlias := ca })))).1 (createBasicBlock s.functions.length (pushContext s.functions.length (some node.sem) (St.modifyFunc (createFunction nm DefinitionKind.es5Function FuncKind.generatorInner node.strictF (some node.bodyRange) s).2 s.functions.length (fun f => { f with lazyClosureAlias := ca })))).2)).2)).1) (genAnonymousLabelName "isReturn" ((emit Op.startGenerator (setInsertion s.functions.length (createBasicBlock s.functions.length (pushContext s.functions.length (some node.sem) (St.modifyFunc (createFunction nm DefinitionKind.es5Function FuncKind.generatorInner node.strictF (some node.bodyRange) s).2 s.functions.length (fun f => { f with lazyClosureAlias := ca })))).1 (createBasicBlock s.functions.length (pushContext s.functions.length (some node.sem) (St.modifyFunc (createFunction nm DefinitionKind.es5Function FuncKind.generatorInner node.strictF (some node.bodyRange) s).2 s.functions.length (fun f => { f with lazyClosureAlias := ca })))).2)).2)).2).1 (createBasicBlock s.functions.length (emit (Op.allocStack (genAnonymousLabelName "isReturn" ((emit Op.startGenerator (setInsertion s.functions.length (createBasicBlock s.functions.length (pushContext s.functions.length (some node.sem) (St.modifyFunc (createFunction nm DefinitionKind.es5Function FuncKind.generatorInner node.strictF (some node.bodyRange) s).2 s.functions.length (fun f => { f with lazyClosureAlias := ca })))).1 (createBasicBlock s.functions.length (pushContext s.functions.length (some node.sem) (St.modifyFunc (createFunction nm DefinitionKind.es5Function FuncKind.generatorInner node.strictF (some node.bodyRange) s).2 s.functions.length (fun f => { f with lazyClosureAlias := ca })))).2)).2)).1) (genAnonymousLabelName "isReturn" ((emit Op.startGenerator (setInsertion s.functions.length (createBasicBlock s.functions.length (pushContext s.functions.length (some node.sem) (St.modifyFunc (createFunction nm DefinitionKind.es5Function FuncKind.generatorInner node.strictF (some node.bodyRange) s).2 s.functions.length (fun f => { f with lazyClosureAlias := ca })))).1 (createBasicBlock s.functions.length (pushContext s.functions.length (some node.sem) (St.modifyFunc (createFunction nm DefinitionKind.es5Function FuncKind.generatorInner node.strictF (some node.bodyRange) s).2 s.functions.length (fun f => { f with lazyClosureAlias := ca })))).2)).2)).2).2).1 (createBasicBlock s.functions.length (emit (Op.allocStack (genAnonymousLabelName "isReturn" ((emit Op.startGenerator (setInsertion s.functions.length (createBasicBlock s.functions.length (pushContext s.functions.length (some node.sem) (St.modifyFunc (createFunction nm DefinitionKind.es5Function FuncKind.generatorInner node.strictF (some node.bodyRange) s).2 s.functions.length (fun f => { f with lazyClosureAlias := ca })))).1 (createBasicBlock s.functions.length (pushContext s.functions.length (some node.sem) (St.modifyFunc (createFunction nm DefinitionKind.es5Function FuncKind.generatorInner node.strictF (some node.bodyRange) s).2 s.functions.length (fun f => { f with lazyClosureAlias := ca })))).2)).2)).1) (genAnonymousLabelName "isReturn" ((emit Op.startGenerator (setInsertion s.functions.length (createBasicBlock s.functions.length (pushContext s.functions.length (some node.sem) (St.modifyFunc (createFunction nm DefinitionKind.es5Function FuncKind.generatorInner node.strictF (some node.bodyRange) s).2 s.functions.length (fun f => { f with lazyClosureAlias := ca })))).1 (createBasicBlock s.functions.length (pushContext s.functions.length (some node.sem) (St.modifyFunc (createFunction nm DefinitionKind.es5Function FuncKind.generatorInner node.strictF (some node.bodyRange) s).2 s.functions.length (fun f => { f with lazyClosureAlias := ca })))).2)).2)).2).2).2).functions[j]? = s.functions[j]? := by
    intro j hj
    have hjne : j ≠ s.functions.length := Nat.ne_of_lt hj
    rw [genResumeGenerator_getElem_other _ _ _ _ _ _ hins6 hjne,
      createBasicBlock_getElem_other _ _ _ hjne,
      emit_getElem_other _ _ _ _ _ hins4 hjne,
      genAnon_funcs,
      emit_getElem_other _ _ _ _ _ hins2 hjne,
      setInsertion_funcs,
      createBasicBlock_getElem_other _ _ _ hjne,
      pushContext_funcs,
      modifyFunc_getElem_other _ _ _ _ hjne,
      createFunction_getElem_lt _ _ _ _ _ _ _ hj]
  have hwf7 : s.wfS → (genResumeGenerator (emit (Op.allocStack (genAnonymousLabelName "isReturn" ((emit Op.startGenerator (setInsertion s.functions.length (createBasicBlock s.functions.length (pushContext s.functions.length (some node.sem) (St.modifyFunc (createFunction nm DefinitionKind.es5Function FuncKind.generatorInner node.strictF (some node.bodyRange) s).2 s.functions.length (fun f => { f with lazyClosureAlias := ca })))).1 (createBasicBlock s.functions.length (pushContext s.functions.length (some node.sem) (St.modifyFunc (createFunction nm DefinitionKind.es5Function FuncKind.generatorInner node.strictF (some node.bodyRange) s).2 s.functions.length (fun f => { f with lazyClosureAlias := ca })))).2)).2)).1) (genAnonymousLabelName "isReturn" ((emit Op.startGenerator (setInsertion s.functions.length (createBasicBlock s.functions.length (pushContext s.functions.length (some node.sem) (St.modifyFunc (createFunction nm DefinitionKind.es5Function FuncKind.generatorInner node.strictF (some node.bodyRange) s).2 s.functions.length (fun f => { f with lazyClosureAlias := ca })))).1 (createBasicBlock s.functions.length (pushContext s.functions.length (some node.sem) (St.modifyFunc (createFunction nm DefinitionKind.es5Function FuncKind.generatorInner node.strictF (some node.bodyRange) s).2 s.functions.length (fun f => { f with lazyClosureAlias := ca })))).2)).2)).2).1 (createBasicBlock s.functions.length (emit (Op.allocStack (genAnonymousLabelName "isReturn" ((emit Op.startGenerator (setInsertion s.functions.length (createBasicBlock s.functions.length (pushContext s.functions.length (some node.sem) (St.modifyFunc (createFunction nm DefinitionKind.es5Function FuncKind.generatorInner node.strictF (some node.bodyRange) s).2 s.functions.length (fun f => { f with lazyClosureAlias := ca })))).1 (createBasicBlock s.functions.length (pushContext s.functions.length (some node.sem) (St.modifyFunc (createFunction nm DefinitionKind.es5Function FuncKind.generatorInner node.strictF (some node.bodyRange) s).2 s.functions.length (fun f => { f with lazyClosureAlias := ca })))).2)).2)).1) (genAnonymousLabelName "isReturn" ((emit Op.startGenerator (setInsertion s.functions.length (createBasicBlock s.functions.length (pushContext s.functions.length (some node.sem) (St.modifyFunc (createFunction nm DefinitionKind.es5Function FuncKind.generatorInner node.strictF (some node.bodyRange) s).2 s.functions.length (fun f => { f with lazyClosureAlias := ca })))).1 (createBasicBlock s.functions.length (pushContext s.functions.length (some node.sem) (St.modifyFunc (createFunction nm DefinitionKind.es5Function FuncKind.generatorInner node.strictF (some node.bodyRange) s).2 s.functions.length (fun f => { f with lazyClosureAlias := ca })))).2)).2)).2).2).1 (createBasicBlock s.functions.length (emit (Op.allocStack (genAnonymousLabelName "isReturn" ((emit Op.startGenerator (setInsertion s.functions.length (createBasicBlock s.functions.length (pushContext s.functions.length (some node.sem) (St.modifyFunc (createFunction nm DefinitionKind.es5Function FuncKind.generatorInner node.strictF (some node.bodyRange) s).2 s.functions.length (fun f => { f with lazyClosureAlias := ca })))).1 (createBasicBlock s.functions.length (pushContext s.functions.length (some node.sem) (St.modifyFunc (createFunction nm DefinitionKind.es5Function FuncKind.generatorInner node.strictF (some node.bodyRange) s).2 s.functions.length (fun f => { f with lazyClosureAlias := ca })))).2)).2)).1) (genAnonymousLabelName "isReturn" ((emit Op.startGenerator (setInsertion s.functions.length (createBasicBlock s.functions.length (pushContext s.functions.length (some node.sem) (St.modifyFunc (createFunction nm DefinitionKind.es5Function FuncKind.generatorInner node.strictF (some node.bodyRange) s).2 s.functions.length (fun f => { f with lazyClosureAlias := ca })))).1 (createBasicBlock s.functions.length (pushContext s.functions.length (some node.sem) (St.modifyFunc (createFunction nm DefinitionKind.es5Function FuncKind.generatorInner node.strictF (some node.bodyRange) s).2 s.functions.length (fun f => { f with lazyClosureAlias := ca })))).2)).2)).2).2).2).wfS := by
    intro hw
    have w2 : (createBasicBlock s.functions.length (pushContext s.functions.length (some node.sem) (St.modifyFunc (createFunction nm DefinitionKind.es5Function FuncKind.generatorInner node.strictF (some node.bodyRange) s).2 s.functions.length (fun f => { f with lazyClosureAlias := ca })))).2.wfS := createBasicBlock_wf _ _ (pushContext_wf _ _ _
      (modifyFunc_wf _ _ _ (fun f => rfl) (createFunction_wf _ _ _ _ _ _ hw)))
    have w3 : ((emit Op.startGenerator (setInsertion s.functions.length (createBasicBlock s.functions.length (pushContext s.functions.length (some node.sem) (St.modifyFunc (createFunction nm DefinitionKind.es5Function FuncKind.generatorInner node.strictF (some node.bodyRange) s).2 s.functions.length (fun f => { f with lazyClosureAlias := ca })))).1 (createBasicBlock s.functions.length (pushContext s.functions.length (some node.sem) (St.modifyFunc (createFunction nm DefinitionKind.es5Function FuncKind.generatorInner node.strictF (some node.bodyRange) s).2 s.functions.length (fun f => { f with lazyClosureAlias := ca })))).2)).2).wfS := emit_wf _ _ (by intro r hr; simp [Op.blockRefs] at hr) w2
    have w4 : (emit (Op.allocStack (genAnonymousLabelName "isReturn" ((emit Op.startGenerator (setInsertion s.functions.length (createBasicBlock s.functions.length (pushContext s.functions.length (some node.sem) (St.modifyFunc (createFunction nm DefinitionKind.es5Function FuncKind.generatorInner node.strictF (some node.bodyRange) s).2 s.functions.length (fun f => { f with lazyClosureAlias := ca })))).1 (createBasicBlock s.functions.length (pushContext s.functions.length (some node.sem) (St.modifyFunc (createFunction nm DefinitionKind.es5Function FuncKind.generatorInner node.strictF (some node.bodyRange) s).2 s.functions.length (fun f => { f with lazyClosureAlias := ca })))).2)).2)).1) (genAnonymousLabelName "isReturn" ((emit Op.startGenerator (setInsertion s.functions.length (createBasicBlock s.functions.length (pushContext s.functions.length (some node.sem) (St.modifyFunc (createFunction nm DefinitionKind.es5Function FuncKind.generatorInner node.strictF (some node.bodyRange) s).2 s.functions.length (fun f => { f with lazyClosureAlias := ca })))).1 (createBasicBlock s.functions.length (pushContext s.functions.length (some node.sem) (St.modifyFunc (createFunction nm DefinitionKind.es5Function FuncKind.generatorInner node.strictF (some node.bodyRange) s).2 s.functions.length (fun f => { f with lazyClosureAlias := ca })))).2)).2)).2).2.wfS := emit_wf _ _ (by intro r hr; simp [Op.blockRefs] at hr)
      ((genAnon_effect "isReturn" ((emit Op.startGenerator (setInsertion s.functions.length (createBasicBlock s.functions.length (pushContext s.functions.length (some node.sem) (St.modifyFunc (createFunction nm DefinitionKind.es5Function FuncKind.generatorInner node.strictF (some node.bodyRange) s).2 s.functions.length (fun f => { f with lazyClosureAlias := ca })))).1 (createBasicBlock s.functions.length (pushContext s.functions.length (some node.sem) (St.modifyFunc (createFunction nm DefinitionKind.es5Function FuncKind.generatorInner node.strictF (some node.bodyRange) s).2 s.functions.length (fun f => { f with lazyClosureAlias := ca })))).2)).2)).2.2.2.2.2.2.2.2.2.2.mpr w3)
    have w5 : (createBasicBlock s.functions.length (emit (Op.allocStack (genAnonymousLabelName "isReturn" ((emit Op.startGenerator (setInsertion s.functions.length (createBasicBlock s.functions.length (pushContext s.functions.length (some node.sem) (St.modifyFunc (createFunction nm DefinitionKind.es5Function FuncKind.generatorInner node.strictF (some node.bodyRange) s).2 s.functions.length (fun f => { f with lazyClosureAlias := ca })))).1 (createBasicBlock s.functions.length (pushContext s.functions.length (some node.sem) (St.modifyFunc (createFunction nm DefinitionKind.es5Function FuncKind.generatorInner node.strictF (some node.bodyRange) s).2 s.functions.length (fun f => { f with lazyClosureAlias := ca })))).2)).2)).1) (genAnonymousLabelName "isReturn" ((emit Op.startGenerator (setInsertion s.functions.length (createBasicBlock s.functions.length (pushContext s.functions.length (some node.sem) (St.modifyFunc (createFunction nm DefinitionKind.es5Function FuncKind.generatorInner node.strictF (some node.bodyRange) s).2 s.functions.length (fun f => { f with lazyClosureAlias := ca })))).1 (createBasicBlock s.functions.length (pushContext s.functions.length (some node.sem) (St.modifyFunc (createFunction nm DefinitionKind.es5Function FuncKind.generatorInner node.strictF (some node.bodyRange) s).2 s.functions.length (fun f => { f with lazyClosureAlias := ca })))).2)).2)).2).2).2.wfS := createBasicBlock_wf _ _ w4
    exact genResumeGenerator_wf _ _ _ _ _ hins6
      (by
        show (emit (Op.allocStack (genAnonymousLabelName "isReturn" ((emit Op.startGenerator (setInsertion s.functions.length (createBasicBlock s.functions.length (pushContext s.functions.length (some node.sem) (St.modifyFunc (createFunction nm DefinitionKind.es5Function FuncKind.generatorInner node.strictF (some node.bodyRange) s).2 s.functions.length (fun f => { f with lazyClosureAlias := ca })))).1 (createBasicBlock s.functions.length (pushContext s.functions.length (some node.sem) (St.modifyFunc (createFunction nm DefinitionKind.es5Function FuncKind.generatorInner node.strictF (some node.bodyRange) s).2 s.functions.length (fun f => { f with lazyClosureAlias := ca })))).2)).2)).1) (genAnonymousLabelName "isReturn" ((emit Op.startGenerator (setInsertion s.functions.length (createBasicBlock s.functions.length (pushContext s.functions.length (some node.sem) (St.modifyFunc (createFunction nm DefinitionKind.es5Function FuncKind.generatorInner node.strictF (some node.bodyRange) s).2 s.functions.length (fun f => { f with lazyClosureAlias := ca })))).1 (createBasicBlock s.functions.length (pushContext s.functions.length (some node.sem) (St.modifyFunc (createFunction nm DefinitionKind.es5Function FuncKind.generatorInner node.strictF (some node.bodyRange) s).2 s.functions.length (fun f => { f with lazyClosureAlias := ca })))).2)).2)).2).2.nextBlockId < (emit (Op.allocStack (genAnonymousLabelName "isReturn" ((emit Op.startGenerator (setInsertion s.functions.length (createBasicBlock s.functions.length (pushContext s.functions.length (some node.sem) (St.modifyFunc (createFunction nm DefinitionKind.es5Function FuncKind.generatorInner node.strictF (some node.bodyRange) s).2 s.functions.length (fun f => { f with lazyClosureAlias := ca })))).1 (createBasicBlock s.functions.length (pushContext s.functions.length (some node.sem) (St.modifyFunc (createFunction nm DefinitionKind.es5Function FuncKind.generatorInner node.strictF (some node.bodyRange) s).2 s.functions.length (fun f => { f with lazyClosureAlias := ca })))).2)).2)).1) (genAnonymousLabelName "isReturn" ((emit Op.startGenerator (setInsertion s.functions.length (createBasicBlock s.functions.length (pushContext s.functions.length (some node.sem) (St.modifyFunc (createFunction nm DefinitionKind.es5Function FuncKind.generatorInner node.strictF (some node.bodyRange) s).2 s.functions.length (fun f => { f with lazyClosureAlias := ca })))).1 (createBasicBlock s.functions.length (pushContext s.functions.length (some node.sem) (St.modifyFunc (createFunction nm DefinitionKind.es5Function FuncKind.generatorInner node.strictF (some node.bodyRange) s).2 s.functions.length (fun f => { f with lazyClosureAlias := ca })))).2)).2)).2).2.nextBlockId + 1
        exact Nat.lt_succ_self _) w5
  have hfind0 : ∀ f, (createBasicBlock s.functions.length (emit (Op.allocStack (genAnonymousLabelName "isReturn" ((emit Op.startGenerator (setInsertion s.functions.length (createBasicBlock s.functions.length (pushContext s.functions.length (some node.sem) (St.modifyFunc (createFunction nm DefinitionKind.es5Function FuncKind.generatorInner node.strictF (some node.bodyRange) s).2 s.functions.length (fun f => { f with lazyClosureAlias := ca })))).1 (createBasicBlock s.functions.length (pushContext s.functions.length (some node.sem) (St.modifyFunc (createFunction nm DefinitionKind.es5Function FuncKind.generatorInner node.strictF (some node.bodyRange) s).2 s.functions.length (fun f => { f with lazyClosureAlias := ca })))).2)).2)).1) (genAnonymousLabelName "isReturn" ((emit Op.startGenerator (setInsertion s.functions.length (createBasicBlock s.functions.length (pushContext s.functions.length (some node.sem) (St.modifyFunc (createFunction nm DefinitionKind.es5Function FuncKind.generatorInner node.strictF (some node.bodyRange) s).2 s.functions.length (fun f => { f with lazyClosureAlias := ca })))).1 (createBasicBlock s.functions.length (pushContext s.functions.length (some node.sem) (St.modifyFunc (createFunction nm DefinitionKind.es5Function FuncKind.generatorInner node.strictF (some node.bodyRange) s).2 s.functions.length (fun f => { f with lazyClosureAlias := ca })))).2)).2)).2).2).2.getFunc s.functions.length = some f →
      ((f.blocks.find? (fun b => b.bid = (createBasicBlock s.functions.length (emit (Op.allocStack (genAnonymousLabelName "isReturn" ((emit Op.startGenerator (setInsertion s.functions.length (createBasicBlock s.functions.length (pushContext s.functions.length (some node.sem) (St.modifyFunc (createFunction nm DefinitionKind.es5Function FuncKind.generatorInner node.strictF (some node.bodyRange) s).2 s.functions.length (fun f => { f with lazyClosureAlias := ca })))).1 (createBasicBlock s.functions.length (pushContext s.functions.length (some node.sem) (St.modifyFunc (createFunction nm DefinitionKind.es5Function FuncKind.generatorInner node.strictF (some node.bodyRange) s).2 s.functions.length (fun f => { f with lazyClosureAlias := ca })))).2)).2)).1) (genAnonymousLabelName "isReturn" ((emit Op.startGenerator (setInsertion s.functions.length (createBasicBlock s.functions.length (pushContext s.functions.length (some node.sem) (St.modifyFunc (createFunction nm DefinitionKind.es5Function FuncKind.generatorInner node.strictF (some node.bodyRange) s).2 s.functions.length (fun f => { f with lazyClosureAlias := ca })))).1 (createBasicBlock s.functions.length (pushContext s.functions.length (some node.sem) (St.modifyFunc (createFunction nm DefinitionKind.es5Function FuncKind.generatorInner node.strictF (some node.bodyRange) s).2 s.functions.length (fun f => { f with lazyClosureAlias := ca })))).2)).2)).2).2).1)).isSome = true) := by
    intro f hf
    have hf2 : (createBasicBlock s.functions.length (emit (Op.allocStack (genAnonymousLabelName "isReturn" ((emit Op.startGenerator (setInsertion s.functions.length (createBasicBlock s.functions.length (pushContext s.functions.length (some node.sem) (St.modifyFunc (createFunction nm DefinitionKind.es5Function FuncKind.generatorInner node.strictF (some node.bodyRange) s).2 s.functions.length (fun f => { f with lazyClosureAlias := ca })))).1 (createBasicBlock s.functions.length (pushContext s.functions.length (some node.sem) (St.modifyFunc (createFunction nm DefinitionKind.es5Function FuncKind.generatorInner node.strictF (some node.bodyRange) s).2 s.functions.length (fun f => { f with lazyClosureAlias := ca })))).2)).2)).1) (genAnonymousLabelName "isReturn" ((emit Op.startGenerator (setInsertion s.functions.length (createBasicBlock s.functions.length (pushContext s.functions.length (some node.sem) (St.modifyFunc (createFunction nm DefinitionKind.es5Function FuncKind.generatorInner node.strictF (some node.bodyRange) s).2 s.functions.length (fun f => { f with lazyClosureAlias := ca })))).1 (createBasicBlock s.functions.length (pushContext s.functions.length (some node.sem) (St.modifyFunc (createFunction nm DefinitionKind.es5Function FuncKind.generatorInner node.strictF (some node.bodyRange) s).2 s.functions.length (fun f => { f with lazyClosureAlias := ca })))).2)).2)).2).2).2.functions[s.functions.length]? = some f := hf
    rw [createBasicBlock_getElem_self] at hf2
    cases hg : (emit (Op.allocStack (genAnonymousLabelName "isReturn" ((emit Op.startGenerator (setInsertion s.functions.length (createBasicBlock s.functions.length (pushContext s.functions.length (some node.sem) (St.modifyFunc (createFunction nm DefinitionKind.es5Function FuncKind.generatorInner node.strictF (some node.bodyRange) s).2 s.functions.length (fun f => { f with lazyClosureAlias := ca })))).1 (createBasicBlock s.functions.length (pushContext s.functions.length (some node.sem) (St.modifyFunc (createFunction nm DefinitionKind.es5Function FuncKind.generatorInner node.strictF (some node.bodyRange) s).2 s.functions.length (fun f => { f with lazyClosureAlias := ca })))).2)).2)).1) (genAnonymousLabelName "isReturn" ((emit Op.startGenerator (setInsertion s.functions.length (createBasicBlock s.functions.length (pushContext s.functions.length (some node.sem) (St.modifyFunc (createFunction nm DefinitionKind.es5Function FuncKind.generatorInner node.strictF (some node.bodyRange) s).2 s.functions.length (fun f => { f with lazyClosureAlias := ca })))).1 (createBasicBlock s.functions.length (pushContext s.functions.length (some node.sem) (St.modifyFunc (createFunction nm DefinitionKind.es5Function FuncKind.generatorInner node.strictF (some node.bodyRange) s).2 s.functions.length (fun f => { f with lazyClosureAlias := ca })))).2)).2)).2).2.functions[s.functions.length]? with
    | none =>
      rw [hg] at hf2
      simp at hf2
    | some f0 =>
      rw [hg, Option.map_some'] at hf2
      injection hf2 with hf3
      rw [← hf3]
      show ((f0.blocks ++ [BasicBlock.mk (emit (Op.allocStack (genAnonymousLabelName "isReturn" ((emit Op.startGenerator (setInsertion s.functions.length (createBasicBlock s.functions.length (pushContext s.functions.length (some node.sem) (St.modifyFunc (createFunction nm DefinitionKind.es5Function FuncKind.generatorInner node.strictF (some node.bodyRange) s).2 s.functions.length (fun f => { f with lazyClosureAlias := ca })))).1 (createBasicBlock s.functions.length (pushContext s.functions.length (some node.sem) (St.modifyFunc (createFunction nm DefinitionKind.es5Function FuncKind.generatorInner node.strictF (some node.bodyRange) s).2 s.functions.length (fun f => { f with lazyClosureAlias := ca })))).2)).2)).1) (genAnonymousLabelName "isReturn" ((emit Op.startGenerator (setInsertion s.functions.length (createBasicBlock s.functions.length (pushContext s.functions.length (some node.sem) (St.modifyFunc (createFunction nm DefinitionKind.es5Function FuncKind.generatorInner node.strictF (some node.bodyRange) s).2 s.functions.length (fun f => { f with lazyClosureAlias := ca })))).1 (createBasicBlock s.functions.length (pushContext s.functions.length (some node.sem) (St.modifyFunc (createFunction nm DefinitionKind.es5Function FuncKind.generatorInner node.strictF (some node.bodyRange) s).2 s.functions.length (fun f => { f with lazyClosureAlias := ca })))).2)).2)).2).2.nextBlockId []]).find?
        (fun b => b.bid = (createBasicBlock s.functions.length (emit (Op.allocStack (genAnonymousLabelName "isReturn" ((emit Op.startGenerator (setInsertion s.functions.length (createBasicBlock s.functions.length (pushContext s.functions.length (some node.sem) (St.modifyFunc (createFunction nm DefinitionKind.es5Function FuncKind.generatorInner node.strictF (some node.bodyRange) s).2 s.functions.length (fun f => { f with lazyClosureAlias := ca })))).1 (createBasicBlock s.functions.length (pushContext s.functions.length (some node.sem) (St.modifyFunc (createFunction nm DefinitionKind.es5Function FuncKind.generatorInner node.strictF (some node.bodyRange) s).2 s.functions.length (fun f => { f with lazyClosureAlias := ca })))).2)).2)).1) (genAnonymousLabelName "isReturn" ((emit Op.startGenerator (setInsertion s.functions.length (createBasicBlock s.functions.length (pushContext s.functions.length (some node.sem) (St.modifyFunc (createFunction nm DefinitionKind.es5Function FuncKind.generatorInner node.strictF (some node.bodyRange) s).2 s.functions.length (fun f => { f with lazyClosureAlias := ca })))).1 (createBasicBlock s.functions.length (pushContext s.functions.length (some node.sem) (St.modifyFunc (createFunction nm DefinitionKind.es5Function FuncKind.generatorInner node.strictF (some node.bodyRange) s).2 s.functions.length (fun f => { f with lazyClosureAlias := ca })))).2)).2)).2).2).1)).isSome = true
      exact find?_bid_concat _ _
  have hentry7 : s.wfS → ∀ f, (genResumeGenerator (emit (Op.allocStack (genAnonymousLabelName "isReturn" ((emit Op.startGenerator (setInsertion s.functions.length (createBasicBlock s.functions.length (pushContext s.functions.length (some node.sem) (St.modifyFunc (createFunction nm DefinitionKind.es5Function FuncKind.generatorInner node.strictF (some node.bodyRange) s).2 s.functions.length (fun f => { f with lazyClosureAlias := ca })))).1 (createBasicBlock s.functions.length (pushContext s.functions.length (some node.sem) (St.modifyFunc (createFunction nm DefinitionKind.es5Function FuncKind.generatorInner node.strictF (some node.bodyRange) s).2 s.functions.length (fun f => { f with lazyClosureAlias := ca })))).2)).2)).1) (genAnonymousLabelName "isReturn" ((emit Op.startGenerator (setInsertion s.functions.length (createBasicBlock s.functions.length (pushContext s.functions.length (some node.sem) (St.modifyFunc (createFunction nm DefinitionKind.es5Function FuncKind.generatorInner node.strictF (some node.bodyRange) s).2 s.functions.length (fun f => { f with lazyClosureAlias := ca })))).1 (createBasicBlock s.functions.length (pushContext s.functions.length (some node.sem) (St.modifyFunc (createFunction nm DefinitionKind.es5Function FuncKind.generatorInner node.strictF (some node.bodyRange) s).2 s.functions.length (fun f => { f with lazyClosureAlias := ca })))).2)).2)).2).1 (createBasicBlock s.functions.length (emit (Op.allocStack (genAnonymousLabelName "isReturn" ((emit Op.startGenerator (setInsertion s.functions.length (createBasicBlock s.functions.length (pushContext s.functions.length (some node.sem) (St.modifyFunc (createFunction nm DefinitionKind.es5Function FuncKind.generatorInner node.strictF (some node.bodyRange) s).2 s.functions.length (fun f => { f with lazyClosureAlias := ca })))).1 (createBasicBlock s.functions.length (pushContext s.functions.length (some node.sem) (St.modifyFunc (createFunction nm DefinitionKind.es5Function FuncKind.generatorInner node.strictF (some node.bodyRange) s).2 s.functions.length (fun f => { f with lazyClosureAlias := ca })))).2)).2)).1) (genAnonymousLabelName "isReturn" ((emit Op.startGenerator (setInsertion s.functions.length (createBasicBlock s.functions.length (pushContext s.functions.length (some node.sem) (St.modifyFunc (createFunction nm DefinitionKind.es5Function FuncKind.generatorInner node.strictF (some node.bodyRange) s).2 s.functions.length (fun f => { f with lazyClosureAlias := ca })))).1 (createBasicBlock s.functions.length (pushContext s.functions.length (some node.sem) (St.modifyFunc (createFunction nm DefinitionKind.es5Function FuncKind.generatorInner node.strictF (some node.bodyRange) s).2 s.functions.length (fun f => { f with lazyClosureAlias := ca })))).2)).2)).2).2).1 (createBasicBlock s.functions.length (emit (Op.allocStack (genAnonymousLabelName "isReturn" ((emit Op.startGenerator (setInsertion s.functions.length (createBasicBlock s.functions.length (pushContext s.functions.length (some node.sem) (St.modifyFunc (createFunction nm DefinitionKind.es5Function FuncKind.generatorInner node.strictF (some node.bodyRange) s).2 s.functions.length (fun f => { f with lazyClosureAlias := ca })))).1 (createBasicBlock s.functions.length (pushContext s.functions.length (some node.sem) (St.modifyFunc (createFunction nm DefinitionKind.es5Function FuncKind.generatorInner node.strictF (some node.bodyRange) s).2 s.functions.length (fun f => { f with lazyClosureAlias := ca })))).2)).2)).1) (genAnonymousLabelName "isReturn" ((emit Op.startGenerator (setInsertion s.functions.length (createBasicBlock s.functions.length (pushContext s.functions.length (some node.sem) (St.modifyFunc (createFunction nm DefinitionKind.es5Function FuncKind.generatorInner node.strictF (some node.bodyRange) s).2 s.functions.length (fun f => { f with lazyClosureAlias := ca })))).1 (createBasicBlock s.functions.length (pushContext s.functions.length (some node.sem) (St.modifyFunc (createFunction nm DefinitionKind.es5Function FuncKind.generatorInner node.strictF (some node.bodyRange) s).2 s.functions.length (fun f => { f with lazyClosureAlias := ca })))).2)).2)).2).2).2).getFunc s.functions.length = some f →
      ((f.blocks.find? (fun b => b.bid = (createBasicBlock s.functions.length (emit (Op.allocStack (genAnonymousLabelName "isReturn" ((emit Op.startGenerator (setInsertion s.functions.length (createBasicBlock s.functions.length (pushContext s.functions.length (some node.sem) (St.modifyFunc (createFunction nm DefinitionKind.es5Function FuncKind.generatorInner node.strictF (some node.bodyRange) s).2 s.functions.length (fun f => { f with lazyClosureAlias := ca })))).1 (createBasicBlock s.functions.length (pushContext s.functions.length (some node.sem) (St.modifyFunc (createFunction nm DefinitionKind.es5Function FuncKind.generatorInner node.strictF (some node.bodyRange) s).2 s.functions.length (fun f => { f with lazyClosureAlias := ca })))).2)).2)).1) (genAnonymousLabelName "isReturn" ((emit Op.startGenerator (setInsertion s.functions.length (createBasicBlock s.functions.length (pushContext s.functions.length (some node.sem) (St.modifyFunc (createFunction nm DefinitionKind.es5Function FuncKind.generatorInner node.strictF (some node.bodyRange) s).2 s.functions.length (fun f => { f with lazyClosureAlias := ca })))).1 (createBasicBlock s.functions.length (pushContext s.functions.length (some node.sem) (St.modifyFunc (createFunction nm DefinitionKind.es5Function FuncKind.generatorInner node.strictF (some node.bodyRange) s).2 s.functions.length (fun f => { f with lazyClosureAlias := ca })))).2)).2)).2).2).1)).isSome = true) := by
    intro _
    exact getFunc_find_genResumeGenerator _ _ _ _ _ _ _ hins6 hfind0
  exact (drvTail node (createBasicBlock s.functions.length (emit (Op.allocStack (genAnonymousLabelName "isReturn" ((emit Op.startGenerator (setInsertion s.functions.length (createBasicBlock s.functions.length (pushContext s.functions.length (some node.sem) (St.modifyFunc (createFunction nm DefinitionKind.es5Function FuncKind.generatorInner node.strictF (some node.bodyRange) s).2 s.functions.length (fun f => { f with lazyClosureAlias := ca })))).1 (createBasicBlock s.functions.length (pushContext s.functions.length (some node.sem) (St.modifyFunc (createFunction nm DefinitionKind.es5Function FuncKind.generatorInner node.strictF (some node.bodyRange) s).2 s.functions.length (fun f => { f with lazyClosureAlias := ca })))).2)).2)).1) (genAnonymousLabelName "isReturn" ((emit Op.startGenerator (setInsertion s.functions.length (createBasicBlock s.functions.length (pushContext s.functions.length (some node.sem) (St.modifyFunc (createFunction nm DefinitionKind.es5Function FuncKind.generatorInner node.strictF (some node.bodyRange) s).2 s.functions.length (fun f => { f with lazyClosureAlias := ca })))).1 (createBasicBlock s.functions.length (pushContext s.functions.length (some node.sem) (St.modifyFunc (createFunction nm DefinitionKind.es5Function FuncKind.generatorInner node.strictF (some node.bodyRange) s).2 s.functions.length (fun f => { f with lazyClosureAlias := ca })))).2)).2)).2).2).1 s.nextScopeId s (genResumeGenerator (emit (Op.allocStack (genAnonymousLabelName "isReturn" ((emit Op.startGenerator (setInsertion s.functions.length (createBasicBlock s.functions.length (pushContext s.functions.length (some node.sem) (St.modifyFunc (createFunction nm DefinitionKind.es5Function FuncKind.generatorInner node.strictF (some node.bodyRange) s).2 s.functions.length (fun f => { f with lazyClosureAlias := ca })))).1 (createBasicBlock s.functions.length (pushContext s.functions.length (some node.sem) (St.modifyFunc (createFunction nm DefinitionKind.es5Function FuncKind.generatorInner node.strictF (some node.bodyRange) s).2 s.functions.length (fun f => { f with lazyClosureAlias := ca })))).2)).2)).1) (genAnonymousLabelName "isReturn" ((emit Op.startGenerator (setInsertion s.functions.length (createBasicBlock s.functions.length (pushContext s.functions.length (some node.sem) (St.modifyFunc (createFunction nm DefinitionKind.es5Function FuncKind.generatorInner node.strictF (some node.bodyRange) s).2 s.functions.length (fun f => { f with lazyClosureAlias := ca })))).1 (createBasicBlock s.functions.length (pushContext s.functions.length (some node.sem) (St.modifyFunc (createFunction nm DefinitionKind.es5Function FuncKind.generatorInner node.strictF (some node.bodyRange) s).2 s.functions.length (fun f => { f with lazyClosureAlias := ca })))).2)).2)).2).1 (createBasicBlock s.functions.length (emit (Op.allocStack (genAnonymousLabelName "isReturn" ((emit Op.startGenerator (setInsertion s.functions.length (createBasicBlock s.functions.length (pushContext s.functions.length (some node.sem) (St.modifyFunc (createFunction nm DefinitionKind.es5Function FuncKind.generatorInner node.strictF (some node.bodyRange) s).2 s.functions.length (fun f => { f with lazyClosureAlias := ca })))).1 (createBasicBlock s.functions.length (pushContext s.functions.length (some node.sem) (St.modifyFunc (createFunction nm DefinitionKind.es5Function FuncKind.generatorInner node.strictF (some node.bodyRange) s).2 s.functions.length (fun f => { f with lazyClosureAlias := ca })))).2)).2)).1) (genAnonymousLabelName "isReturn" ((emit Op.startGenerator (setInsertion s.functions.length (createBasicBlock s.functions.length (pushContext s.functions.length (some node.sem) (St.modifyFunc (createFunction nm DefinitionKind.es5Function FuncKind.generatorInner node.strictF (some node.bodyRange) s).2 s.functions.length (fun f => { f with lazyClosureAlias := ca })))).1 (createBasicBlock s.functions.length (pushContext s.functions.length (some node.sem) (St.modifyFunc (createFunction nm DefinitionKind.es5Function FuncKind.generatorInner node.strictF (some node.bodyRange) s).2 s.functions.length (fun f => { f with lazyClosureAlias := ca })))).2)).2)).2).2).1 (createBasicBlock s.functions.length (emit (Op.allocStack (genAnonymousLabelName "isReturn" ((emit Op.startGenerator (setInsertion s.functions.length (createBasicBlock s.functions.length (pushContext s.functions.length (some node.sem) (St.modifyFunc (createFunction nm DefinitionKind.es5Function FuncKind.generatorInner node.strictF (some node.bodyRange) s).2 s.functions.length (fun f => { f with lazyClosureAlias := ca })))).1 (createBasicBlock s.functions.length (pushContext s.functions.length (some node.sem) (St.modifyFunc (createFunction nm DefinitionKind.es5Function FuncKind.generatorInner node.strictF (some node.bodyRange) s).2 s.functions.length (fun f => { f with lazyClosureAlias := ca })))).2)).2)).1) (genAnonymousLabelName "isReturn" ((emit Op.startGenerator (setInsertion s.functions.length (createBasicBlock s.functions.length (pushContext s.functions.length (some node.sem) (St.modifyFunc (createFunction nm DefinitionKind.es5Function FuncKind.generatorInner node.strictF (some node.bodyRange) s).2 s.functions.length (fun f => { f with lazyClosureAlias := ca })))).1 (createBasicBlock s.functions.length (pushContext s.functions.length (some node.sem) (St.modifyFunc (createFunction nm DefinitionKind.es5Function FuncKind.generatorInner node.strictF (some node.bodyRange) s).2 s.functions.length (fun f => { f with lazyClosureAlias := ca })))).2)).2)).2).2).2)
    { funcId := s.functions.length, semInfo := some node.sem, capturedThis := none, capturedNewTarget := some Value.litUndefined, capturedArguments := none, entryTerminator := none, anonCounter := 1, labelsSize := node.sem.labelCount, savedInsertion := s.insertion, scopeId := s.nextScopeId }
    initCaptureStateInES5Function (genStatements node.body) (fun _ => Value.litUndefined)
    hPro initCapture_effect hStmts rfl rfl rfl rfl
    (by
      rw [hlen7]
      exact Nat.lt_succ_self _) hfuncs7 ⟨[], rfl⟩
    (fun _ => rfl) (fun _ => rfl) (fun hw l hl => Nat.ne_of_lt (hw.2 l hl)) hwf7
    (by
      show s.nextInstrId ≤ s.nextInstrId + 1 + 1 + 1
      omega)
    (by
      show s.nextBlockId ≤ s.nextBlockId + 1 + 1
      omega)
    (Nat.le_refl s.nextVarId) (Nat.le_succ s.nextScopeId) hentry7).1


/-- `genGeneratorFunction`: outer generator function around the inner
generator body. -/
theorem genFCase (nm : Name) (ca : Option Variable) (node : FuncNode) (s : St)
    (hInner : ∀ (nm2 : Name) (s' : St), DrvOut s' (genES5Function nm2 ca node true s'))
    (hPro : ∀ (e : Nat) (s' : St), POut e s' (emitFunctionPrologue node e s')) :
    DrvOut s (genGeneratorFunction nm ca node s) := by
  have he : genGeneratorFunction nm ca node s =
      (s.functions.length,
       popContext (emitFunctionEpilogue
         (some (Value.inst (emit (Op.createGeneratorInst (genES5Function (genAnonymousLabelName nm (createFunction nm DefinitionKind.es5Function FuncKind.generatorOuter node.strictF none s).2).1 ca node true (genAnonymousLabelName nm (createFunction nm DefinitionKind.es5Function FuncKind.generatorOuter node.strictF none s).2).2).1) (initCaptureStateInES5Function (emitFunctionPrologue node (createBasicBlock s.functions.length (pushContext s.functions.length (some node.sem) (genES5Function (genAnonymousLabelName nm (createFunction nm DefinitionKind.es5Function FuncKind.generatorOuter node.strictF none s).2).1 ca node true (genAnonymousLabelName nm (createFunction nm DefinitionKind.es5Function FuncKind.generatorOuter node.strictF none s).2).2).2)).1 (createBasicBlock s.functions.length (pushContext s.functions.length (some node.sem) (genES5Function (genAnonymousLabelName nm (createFunction nm DefinitionKind.es5Function FuncKind.generatorOuter node.strictF none s).2).1 ca node true (genAnonymousLabelName nm (createFunction nm DefinitionKind.es5Function FuncKind.generatorOuter node.strictF none s).2).2).2)).2))).1))
         (emit (Op.createGeneratorInst (genES5Function (genAnonymousLabelName nm (createFunction nm DefinitionKind.es5Function FuncKind.generatorOuter node.strictF none s).2).1 ca node true (genAnonymousLabelName nm (createFunction nm DefinitionKind.es5Function FuncKind.generatorOuter node.strictF none s).2).2).1) (initCaptureStateInES5Function (emitFunctionPrologue node (createBasicBlock s.functions.length (pushContext s.functions.length (some node.sem) (genES5Function (genAnonymousLabelName nm (createFunction nm DefinitionKind.es5Function FuncKind.generatorOuter node.strictF none s).2).1 ca node true (genAnonymousLabelName nm (createFunction nm DefinitionKind.es5Function FuncKind.generatorOuter node.strictF none s).2).2).2)).1 (createBasicBlock s.functions.length (pushContext s.functions.length (some node.sem) (genES5Function (genAnonymousLabelName nm (createFunction nm DefinitionKind.es5Function FuncKind.generatorOuter node.strictF none s).2).1 ca node true (genAnonymousLabelName nm (createFunction nm DefinitionKind.es5Function FuncKind.generatorOuter node.strictF none s).2).2).2)).2))).2)) := by
    rw [genGeneratorFunction_eq]
    exact rfl
  rw [he]
  have hIS := (hInner (genAnonymousLabelName nm (createFunction nm DefinitionKind.es5Function FuncKind.generatorOuter node.strictF none s).2).1 (genAnonymousLabelName nm (createFunction nm DefinitionKind.es5Function FuncKind.generatorOuter node.strictF none s).2).2).toS
  have hanwf : s.wfS → (genAnonymousLabelName nm (createFunction nm DefinitionKind.es5Function FuncKind.generatorOuter node.strictF none s).2).2.wfS := fun hw =>
    (genAnon_effect nm (createFunction nm DefinitionKind.es5Function FuncKind.generatorOuter node.strictF none s).2).2.2.2.2.2.2.2.2.2.2.mpr (createFunction_wf _ _ _ _ _ _ hw)
  have hILen : s.functions.length + 1 ≤ (genES5Function (genAnonymousLabelName nm (createFunction nm DefinitionKind.es5Function FuncKind.generatorOuter node.strictF none s).2).1 ca node true (genAnonymousLabelName nm (createFunction nm DefinitionKind.es5Function FuncKind.generatorOuter node.strictF none s).2).2).2.functions.length := by
    have h1 := hIS.core.funLe
    rw [genAnon_funcs, createFunction_len] at h1
    exact h1
  have hlenX : { s with contexts := (genES5Function (genAnonymousLabelName nm (createFunction nm DefinitionKind.es5Function FuncKind.generatorOuter node.strictF none s).2).1 ca node true (genAnonymousLabelName nm (createFunction nm DefinitionKind.es5Function FuncKind.generatorOuter node.strictF none s).2).2).2.contexts }.functions.length < (createBasicBlock s.functions.length (pushContext s.functions.length (some node.sem) (genES5Function (genAnonymousLabelName nm (createFunction nm DefinitionKind.es5Function FuncKind.generatorOuter node.strictF none s).2).1 ca node true (genAnonymousLabelName nm (createFunction nm DefinitionKind.es5Function FuncKind.generatorOuter node.strictF none s).2).2).2)).2.functions.length := by
    show s.functions.length < (createBasicBlock s.functions.length (pushContext s.functions.length (some node.sem) (genES5Function (genAnonymousLabelName nm (createFunction nm DefinitionKind.es5Function FuncKind.generatorOuter node.strictF none s).2).1 ca node true (genAnonymousLabelName nm (createFunction nm DefinitionKind.es5Function FuncKind.generatorOuter node.strictF none s).2).2).2)).2.functions.length
    rw [createBasicBlock_len, pushContext_funcs]
    exact Nat.lt_of_lt_of_le (Nat.lt_succ_self _) hILen
  have hfuncsX : ∀ j, j < { s with contexts := (genES5Function (genAnonymousLabelName nm (createFunction nm DefinitionKind.es5Function FuncKind.generatorOuter node.strictF none s).2).1 ca node true (genAnonymousLabelName nm (createFunction nm DefinitionKind.es5Function FuncKind.generatorOuter node.strictF none s).2).2).2.contexts }.functions.length →
      (createBasicBlock s.functions.length (pushContext s.functions.length (some node.sem) (genES5Function (genAnonymousLabelName nm (createFunction nm DefinitionKind.es5Function FuncKind.generatorOuter node.strictF none s).2).1 ca node true (genAnonymousLabelName nm (createFunction nm DefinitionKind.es5Function FuncKind.generatorOuter node.strictF none s).2).2).2)).2.functions[j]? = { s with contexts := (genES5Function (genAnonymousLabelName nm (createFunction nm DefinitionKind.es5Function FuncKind.generatorOuter node.strictF none s).2).1 ca node true (genAnonymousLabelName nm (createFunction nm DefinitionKind.es5Function FuncKind.generatorOuter node.strictF none s).2).2).2.contexts }.functions[j]? := by
    intro j hj
    have hj0 : j < s.functions.length := hj
    have hjne : j ≠ s.functions.length := Nat.ne_of_lt hj0
    have hj2 : j < (genAnonymousLabelName nm (createFunction nm DefinitionKind.es5Function FuncKind.generatorOuter node.strictF none s).2).2.functions.length := by
      rw [genAnon_funcs, createFunction_len]
      omega
    show (createBasicBlock s.functions.length (pushContext s.functions.length (some node.sem) (genES5Function (genAnonymousLabelName nm (createFunction nm DefinitionKind.es5Function FuncKind.generatorOuter node.strictF none s).2).1 ca node true (genAnonymousLabelName nm (createFunction nm DefinitionKind.es5Function FuncKind.generatorOuter node.strictF none s).2).2).2)).2.functions[j]? = s.functions[j]?
    rw [createBasicBlock_getElem_other _ _ _ hjne, pushContext_funcs,
      hIS.funcs j hj2, genAnon_funcs, createFunction_getElem_lt _ _ _ _ _ _ _ hj0]
  have harchX : ∃ A, (createBasicBlock s.functions.length (pushContext s.functions.length (some node.sem) (genES5Function (genAnonymousLabelName nm (createFunction nm DefinitionKind.es5Function FuncKind.generatorOuter node.strictF none s).2).1 ca node true (genAnonymousLabelName nm (createFunction nm DefinitionKind.es5Function FuncKind.generatorOuter node.strictF none s).2).2).2)).2.archived = A ++ { s with contexts := (genES5Function (genAnonymousLabelName nm (createFunction nm DefinitionKind.es5Function FuncKind.generatorOuter node.strictF none s).2).1 ca node true (genAnonymousLabelName nm (createFunction nm DefinitionKind.es5Function FuncKind.generatorOuter node.strictF none s).2).2).2.contexts }.archived := by
    obtain ⟨A, hA⟩ := hIS.core.arch
    refine ⟨A, ?_⟩
    show (genES5Function (genAnonymousLabelName nm (createFunction nm DefinitionKind.es5Function FuncKind.generatorOuter node.strictF none s).2).1 ca node true (genAnonymousLabelName nm (createFunction nm DefinitionKind.es5Function FuncKind.generatorOuter node.strictF none s).2).2).2.archived = A ++ s.archived
    rw [hA, (genAnon_effect nm (createFunction nm DefinitionKind.es5Function FuncKind.generatorOuter node.strictF none s).2).2.2.2.1]
    rfl
  have hflagX : { s with contexts := (genES5Function (genAnonymousLabelName nm (createFunction nm DefinitionKind.es5Function FuncKind.generatorOuter node.strictF none s).2).1 ca node true (genAnonymousLabelName nm (createFunction nm DefinitionKind.es5Function FuncKind.generatorOuter node.strictF none s).2).2).2.contexts }.wfS → (createBasicBlock s.functions.length (pushContext s.functions.length (some node.sem) (genES5Function (genAnonymousLabelName nm (createFunction nm DefinitionKind.es5Function FuncKind.generatorOuter node.strictF none s).2).1 ca node true (genAnonymousLabelName nm (createFunction nm DefinitionKind.es5Function FuncKind.generatorOuter node.strictF none s).2).2).2)).2.epilogueNullDeref = { s with contexts := (genES5Function (genAnonymousLabelName nm (createFunction nm DefinitionKind.es5Function FuncKind.generatorOuter node.strictF none s).2).1 ca node true (genAnonymousLabelName nm (createFunction nm DefinitionKind.es5Function FuncKind.generatorOuter node.strictF none s).2).2).2.contexts }.epilogueNullDeref := by
    intro hw
    have hw0 : s.wfS := hw
    show (genES5Function (genAnonymousLabelName nm (createFunction nm DefinitionKind.es5Function FuncKind.generatorOuter node.strictF none s).2).1 ca node true (genAnonymousLabelName nm (createFunction nm DefinitionKind.es5Function FuncKind.generatorOuter node.strictF none s).2).2).2.epilogueNullDeref = s.epilogueNullDeref
    rw [hIS.core.flag (hanwf hw0), (genAnon_effect nm (createFunction nm DefinitionKind.es5Function FuncKind.generatorOuter node.strictF none s).2).2.2.2.2.2.2.2.2.2.1]
    rfl
  have htabX : { s with contexts := (genES5Function (genAnonymousLabelName nm (createFunction nm DefinitionKind.es5Function FuncKind.generatorOuter node.strictF none s).2).1 ca node true (genAnonymousLabelName nm (createFunction nm DefinitionKind.es5Function FuncKind.generatorOuter node.strictF none s).2).2).2.contexts }.wfS → (createBasicBlock s.functions.length (pushContext s.functions.length (some node.sem) (genES5Function (genAnonymousLabelName nm (createFunction nm DefinitionKind.es5Function FuncKind.generatorOuter node.strictF none s).2).1 ca node true (genAnonymousLabelName nm (createFunction nm DefinitionKind.es5Function FuncKind.generatorOuter node.strictF none s).2).2).2)).2.nameTable =
      ScopeLevel.mk (genES5Function (genAnonymousLabelName nm (createFunction nm DefinitionKind.es5Function FuncKind.generatorOuter node.strictF none s).2).1 ca node true (genAnonymousLabelName nm (createFunction nm DefinitionKind.es5Function FuncKind.generatorOuter node.strictF none s).2).2).2.nextScopeId [] :: { s with contexts := (genES5Function (genAnonymousLabelName nm (createFunction nm DefinitionKind.es5Function FuncKind.generatorOuter node.strictF none s).2).1 ca node true (genAnonymousLabelName nm (createFunction nm DefinitionKind.es5Function FuncKind.generatorOuter node.strictF none s).2).2).2.contexts }.nameTable := by
    intro hw
    have hw0 : s.wfS := hw
    show ScopeLevel.mk (genES5Function (genAnonymousLabelName nm (createFunction nm DefinitionKind.es5Function FuncKind.generatorOuter node.strictF none s).2).1 ca node true (genAnonymousLabelName nm (createFunction nm DefinitionKind.es5Function FuncKind.generatorOuter node.strictF none s).2).2).2.nextScopeId [] :: (genES5Function (genAnonymousLabelName nm (createFunction nm DefinitionKind.es5Function FuncKind.generatorOuter node.strictF none s).2).1 ca node true (genAnonymousLabelName nm (createFunction nm DefinitionKind.es5Function FuncKind.generatorOuter node.strictF none s).2).2).2.nameTable =
      ScopeLevel.mk (genES5Function (genAnonymousLabelName nm (createFunction nm DefinitionKind.es5Function FuncKind.generatorOuter node.strictF none s).2).1 ca node true (genAnonymousLabelName nm (createFunction nm DefinitionKind.es5Function FuncKind.generatorOuter node.strictF none s).2).2).2.nextScopeId [] :: s.nameTable
    rw [hIS.tblEq (hanwf hw0), (genAnon_effect nm (createFunction nm DefinitionKind.es5Function FuncKind.generatorOuter node.strictF none s).2).2.2.1]
    rfl
  have hfreshX : { s with contexts := (genES5Function (genAnonymousLabelName nm (createFunction nm DefinitionKind.es5Function FuncKind.generatorOuter node.strictF none s).2).1 ca node true (genAnonymousLabelName nm (createFunction nm DefinitionKind.es5Function FuncKind.generatorOuter node.strictF none s).2).2).2.contexts }.wfS → ∀ l ∈ { s with contexts := (genES5Function (genAnonymousLabelName nm (createFunction nm DefinitionKind.es5Function FuncKind.generatorOuter node.strictF none s).2).1 ca node true (genAnonymousLabelName nm (createFunction nm DefinitionKind.es5Function FuncKind.generatorOuter node.strictF none s).2).2).2.contexts }.nameTable, l.sid ≠ (genES5Function (genAnonymousLabelName nm (createFunction nm DefinitionKind.es5Function FuncKind.generatorOuter node.strictF none s).2).1 ca node true (genAnonymousLabelName nm (createFunction nm DefinitionKind.es5Function FuncKind.generatorOuter node.strictF none s).2).2).2.nextScopeId := by
    intro hw l hl
    have h1 : l.sid < s.nextScopeId := hw.2 l hl
    have h2 : (genAnonymousLabelName nm (createFunction nm DefinitionKind.es5Function FuncKind.generatorOuter node.strictF none s).2).2.nextScopeId ≤ (genES5Function (genAnonymousLabelName nm (createFunction nm DefinitionKind.es5Function FuncKind.generatorOuter node.strictF none s).2).1 ca node true (genAnonymousLabelName nm (createFunction nm DefinitionKind.es5Function FuncKind.generatorOuter node.strictF none s).2).2).2.nextScopeId := hIS.core.scopeLe
    have h3 : (genAnonymousLabelName nm (createFunction nm DefinitionKind.es5Function FuncKind.generatorOuter node.strictF none s).2).2.nextScopeId = s.nextScopeId :=
      (genAnon_effect nm (createFunction nm DefinitionKind.es5Function FuncKind.generatorOuter node.strictF none s).2).2.2.2.2.2.2.2.2.1
    omega
  have hwfX : { s with contexts := (genES5Function (genAnonymousLabelName nm (createFunction nm DefinitionKind.es5Function FuncKind.generatorOuter node.strictF none s).2).1 ca node true (genAnonymousLabelName nm (createFunction nm DefinitionKind.es5Function FuncKind.generatorOuter node.strictF none s).2).2).2.contexts }.wfS → (createBasicBlock s.functions.length (pushContext s.functions.length (some node.sem) (genES5Function (genAnonymousLabelName nm (createFunction nm DefinitionKind.es5Function FuncKind.generatorOuter node.strictF none s).2).1 ca node true (genAnonymousLabelName nm (createFunction nm DefinitionKind.es5Function FuncKind.generatorOuter node.strictF none s).2).2).2)).2.wfS := by
    intro hw
    have hw0 : s.wfS := hw
    exact createBasicBlock_wf _ _ (pushContext_wf _ _ _ (hIS.core.wfp (hanwf hw0)))
  have hiLeX : { s with contexts := (genES5Function (genAnonymousLabelName nm (createFunction nm DefinitionKind.es5Function FuncKind.generatorOuter node.strictF none s).2).1 ca node true (genAnonymousLabelName nm (createFunction nm DefinitionKind.es5Function FuncKind.generatorOuter node.strictF none s).2).2).2.contexts }.nextInstrId ≤ (createBasicBlock s.functions.length (pushContext s.functions.length (some node.sem) (genES5Function (genAnonymousLabelName nm (createFunction nm DefinitionKind.es5Function FuncKind.generatorOuter node.strictF none s).2).1 ca node true (genAnonymousLabelName nm (createFunction nm DefinitionKind.es5Function FuncKind.generatorOuter node.strictF none s).2).2).2)).2.nextInstrId := by
    have h2 := hIS.core.instrLe
    rw [(genAnon_effect nm (createFunction nm DefinitionKind.es5Function FuncKind.generatorOuter node.strictF none s).2).2.2.2.2.2.1] at h2
    exact h2
  have hbLeX : { s with contexts := (genES5Function (genAnonymousLabelName nm (createFunction nm DefinitionKind.es5Function FuncKind.generatorOuter node.strictF none s).2).1 ca node true (genAnonymousLabelName nm (createFunction nm DefinitionKind.es5Function FuncKind.generatorOuter node.strictF none s).2).2).2.contexts }.nextBlockId ≤ (createBasicBlock s.functions.length (pushContext s.functions.length (some node.sem) (genES5Function (genAnonymousLabelName nm (createFunction nm DefinitionKind.es5Function FuncKind.generatorOuter node.strictF none s).2).1 ca node true (genAnonymousLabelName nm (createFunction nm DefinitionKind.es5Function FuncKind.generatorOuter node.strictF none s).2).2).2)).2.nextBlockId := by
    have h2 := hIS.core.blockLe
    rw [(genAnon_effect nm (createFunction nm DefinitionKind.es5Function FuncKind.generatorOuter node.strictF none s).2).2.2.2.2.2.2.1] at h2
    have h3 : s.nextBlockId ≤ (genES5Function (genAnonymousLabelName nm (createFunction nm DefinitionKind.es5Function FuncKind.generatorOuter node.strictF none s).2).1 ca node true (genAnonymousLabelName nm (createFunction nm DefinitionKind.es5Function FuncKind.generatorOuter node.strictF none s).2).2).2.nextBlockId := h2
    show s.nextBlockId ≤ (genES5Function (genAnonymousLabelName nm (createFunction nm DefinitionKind.es5Function FuncKind.generatorOuter node.strictF none s).2).1 ca node true (genAnonymousLabelName nm (createFunction nm DefinitionKind.es5Function FuncKind.generatorOuter node.strictF none s).2).2).2.nextBlockId + 1
    omega
  have hvLeX : { s with contexts := (genES5Function (genAnonymousLabelName nm (createFunction nm DefinitionKind.es5Function FuncKind.generatorOuter node.strictF none s).2).1 ca node true (genAnonymousLabelName nm (createFunction nm DefinitionKind.es5Function FuncKind.generatorOuter node.strictF none s).2).2).2.contexts }.nextVarId ≤ (createBasicBlock s.functions.length (pushContext s.functions.length (some node.sem) (genES5Function (genAnonymousLabelName nm (createFunction nm DefinitionKind.es5Function FuncKind.generatorOuter node.strictF none s).2).1 ca node true (genAnonymousLabelName nm (createFunction nm DefinitionKind.es5Function FuncKind.generatorOuter node.strictF none s).2).2).2)).2.nextVarId := by
    have h2 := hIS.core.varLe
    rw [(genAnon_effect nm (createFunction nm DefinitionKind.es5Function FuncKind.generatorOuter node.strictF none s).2).2.2.2.2.2.2.2.1] at h2
    exact h2
  have hsLeX : { s with contexts := (genES5Function (genAnonymousLabelName nm (createFunction nm DefinitionKind.es5Function FuncKind.generatorOuter node.strictF none s).2).1 ca node true (genAnonymousLabelName nm (createFunction nm DefinitionKind.es5Function FuncKind.generatorOuter node.strictF none s).2).2).2.contexts }.nextScopeId ≤ (createBasicBlock s.functions.length (pushContext s.functions.length (some node.sem) (genES5Function (genAnonymousLabelName nm (createFunction nm DefinitionKind.es5Function FuncKind.generatorOuter node.strictF none s).2).1 ca node true (genAnonymousLabelName nm (createFunction nm DefinitionKind.es5Function FuncKind.generatorOuter node.strictF none s).2).2).2)).2.nextScopeId := by
    have h2 := hIS.core.scopeLe
    rw [(genAnon_effect nm (createFunction nm DefinitionKind.es5Function FuncKind.generatorOuter node.strictF none s).2).2.2.2.2.2.2.2.2.1] at h2
    have h3 : s.nextScopeId ≤ (genES5Function (genAnonymousLabelName nm (createFunction nm DefinitionKind.es5Function FuncKind.generatorOuter node.strictF none s).2).1 ca node true (genAnonymousLabelName nm (createFunction nm DefinitionKind.es5Function FuncKind.generatorOuter node.strictF none s).2).2).2.nextScopeId := h2
    show s.nextScopeId ≤ (genES5Function (genAnonymousLabelName nm (createFunction nm DefinitionKind.es5Function FuncKind.generatorOuter node.strictF none s).2).1 ca node true (genAnonymousLabelName nm (createFunction nm DefinitionKind.es5Function FuncKind.generatorOuter node.strictF none s).2).2).2.nextScopeId + 1
    omega
  have hsaveX : (genES5Function (genAnonymousLabelName nm (createFunction nm DefinitionKind.es5Function FuncKind.generatorOuter node.strictF none s).2).1 ca node true (genAnonymousLabelName nm (createFunction nm DefinitionKind.es5Function FuncKind.generatorOuter node.strictF none s).2).2).2.insertion = s.insertion := by
    have h1 := hIS.ins
    rw [(genAnon_effect nm (createFunction nm DefinitionKind.es5Function FuncKind.generatorOuter node.strictF none s).2).2.1] at h1
    exact h1
  have hentryX : { s with contexts := (genES5Function (genAnonymousLabelName nm (createFunction nm DefinitionKind.es5Function FuncKind.generatorOuter node.strictF none s).2).1 ca node true (genAnonymousLabelName nm (createFunction nm DefinitionKind.es5Function FuncKind.generatorOuter node.strictF none s).2).2).2.contexts }.wfS → ∀ f, (createBasicBlock s.functions.length (pushContext s.functions.length (some node.sem) (genES5Function (genAnonymousLabelName nm (createFunction nm DefinitionKind.es5Function FuncKind.generatorOuter node.strictF none s).2).1 ca node true (genAnonymousLabelName nm (createFunction nm DefinitionKind.es5Function FuncKind.generatorOuter node.strictF none s).2).2).2)).2.getFunc s.functions.length = some f →
      ((f.blocks.find? (fun b => b.bid = (createBasicBlock s.functions.length (pushContext s.functions.length (some node.sem) (genES5Function (genAnonymousLabelName nm (createFunction nm DefinitionKind.es5Function FuncKind.generatorOuter node.strictF none s).2).1 ca node true (genAnonymousLabelName nm (createFunction nm DefinitionKind.es5Function FuncKind.generatorOuter node.strictF none s).2).2).2)).1)).isSome = true) := by
    intro _ f hf
    have hf2 : (createBasicBlock s.functions.length (pushContext s.functions.length (some node.sem) (genES5Function (genAnonymousLabelName nm (createFunction nm DefinitionKind.es5Function FuncKind.generatorOuter node.strictF none s).2).1 ca node true (genAnonymousLabelName nm (createFunction nm DefinitionKind.es5Function FuncKind.generatorOuter node.strictF none s).2).2).2)).2.functions[s.functions.length]? = some f := hf
    have hj2 : s.functions.length < (genAnonymousLabelName nm (createFunction nm DefinitionKind.es5Function FuncKind.generatorOuter node.strictF none s).2).2.functions.length := by
      rw [genAnon_funcs, createFunction_len]
      omega
    rw [createBasicBlock_getElem_self, pushContext_funcs, hIS.funcs s.functions.length hj2,
      genAnon_funcs, createFunction_getElem_new, Option.map_some'] at hf2
    injection hf2 with hf3
    rw [← hf3]
    show ((([] : List BasicBlock) ++ [BasicBlock.mk (pushContext s.functions.length (some node.sem) (genES5Function (genAnonymousLabelName nm (createFunction nm DefinitionKind.es5Function FuncKind.generatorOuter node.strictF none s).2).1 ca node true (genAnonymousLabelName nm (createFunction nm DefinitionKind.es5Function FuncKind.generatorOuter node.strictF none s).2).2).2).nextBlockId []]).find?
      (fun b => b.bid = (createBasicBlock s.functions.length (pushContext s.functions.length (some node.sem) (genES5Function (genAnonymousLabelName nm (createFunction nm DefinitionKind.es5Function FuncKind.generatorOuter node.strictF none s).2).1 ca node true (genAnonymousLabelName nm (createFunction nm DefinitionKind.es5Function FuncKind.generatorOuter node.strictF none s).2).2).2)).1)).isSome = true
    exact find?_bid_concat _ _
  have hD := (drvTail node (createBasicBlock s.functions.length (pushContext s.functions.length (some node.sem) (genES5Function (genAnonymousLabelName nm (createFunction nm DefinitionKind.es5Function FuncKind.generatorOuter node.strictF none s).2).1 ca node true (genAnonymousLabelName nm (createFunction nm DefinitionKind.es5Function FuncKind.generatorOuter node.strictF none s).2).2).2)).1 (genES5Function (genAnonymousLabelName nm (createFunction nm DefinitionKind.es5Function FuncKind.generatorOuter node.strictF none s).2).1 ca node true (genAnonymousLabelName nm (createFunction nm DefinitionKind.es5Function FuncKind.generatorOuter node.strictF none s).2).2).2.nextScopeId { s with contexts := (genES5Function (genAnonymousLabelName nm (createFunction nm DefinitionKind.es5Function FuncKind.generatorOuter node.strictF none s).2).1 ca node true (genAnonymousLabelName nm (createFunction nm DefinitionKind.es5Function FuncKind.generatorOuter node.strictF none s).2).2).2.contexts } (createBasicBlock s.functions.length (pushContext s.functions.length (some node.sem) (genES5Function (genAnonymousLabelName nm (createFunction nm DefinitionKind.es5Function FuncKind.generatorOuter node.strictF none s).2).1 ca node true (genAnonymousLabelName nm (createFunction nm DefinitionKind.es5Function FuncKind.generatorOuter node.strictF none s).2).2).2)).2
    { funcId := s.functions.length, semInfo := some node.sem, capturedThis := none, capturedNewTarget := some Value.litUndefined, capturedArguments := none, entryTerminator := none, anonCounter := 0, labelsSize := node.sem.labelCount, savedInsertion := (genES5Function (genAnonymousLabelName nm (createFunction nm DefinitionKind.es5Function FuncKind.generatorOuter node.strictF none s).2).1 ca node true (genAnonymousLabelName nm (createFunction nm DefinitionKind.es5Function FuncKind.generatorOuter node.strictF none s).2).2).2.insertion, scopeId := (genES5Function (genAnonymousLabelName nm (createFunction nm DefinitionKind.es5Function FuncKind.generatorOuter node.strictF none s).2).1 ca node true (genAnonymousLabelName nm (createFunction nm DefinitionKind.es5Function FuncKind.generatorOuter node.strictF none s).2).2).2.nextScopeId }
    initCaptureStateInES5Function
    (fun s' => (emit (Op.createGeneratorInst (genES5Function (genAnonymousLabelName nm (createFunction nm DefinitionKind.es5Function FuncKind.generatorOuter node.strictF none s).2).1 ca node true (genAnonymousLabelName nm (createFunction nm DefinitionKind.es5Function FuncKind.generatorOuter node.strictF none s).2).2).1) s').2)
    (fun s' => Value.inst (emit (Op.createGeneratorInst (genES5Function (genAnonymousLabelName nm (createFunction nm DefinitionKind.es5Function FuncKind.generatorOuter node.strictF none s).2).1 ca node true (genAnonymousLabelName nm (createFunction nm DefinitionKind.es5Function FuncKind.generatorOuter node.strictF none s).2).2).1) s').1)
    hPro initCapture_effect
    (fun s' cfid bid hins => PStep_emit cfid bid _ s' rfl hins)
    rfl rfl hsaveX rfl hlenX hfuncsX harchX hflagX htabX hfreshX hwfX
    hiLeX hbLeX hvLeX hsLeX hentryX).1
  exact ⟨⟨⟨hD.core.arch, hD.core.flag, hD.core.instrLe, hD.core.blockLe, hD.core.varLe,
    hD.core.scopeLe, hD.core.funLe, hD.core.wfp⟩,
    anonBumped_trans _ _ _ (anonBumped_trans _ _ _ ((genAnon_effect nm (createFunction nm DefinitionKind.es5Function FuncKind.generatorOuter node.strictF none s).2).1) hIS.ctxs)
      hD.ctxs,
    hD.ins, hD.tblEq, hD.funcs⟩, rfl⟩


/-- `genFunctionDeclaration`: look up the pre-declared slot, lower the closure
body via the matching driver, create the closure and store it. -/
theorem declCase (fd : FuncDecl) (s : St)
    (hGen : DrvOut s (genGeneratorFunction fd.nm none fd.node s))
    (hES5 : DrvOut s (genES5Function fd.nm none fd.node false s)) :
    ∀ cfid bid, s.insertion = some (cfid, bid) →
      PStep cfid bid s (genFunctionDeclaration fd s) := by
  intro cfid bid hins
  rw [genFunctionDeclaration_eq]
  cases hn : nameLookup fd.nm s with
  | none => exact PStep_crash cfid bid s
  | some fs =>
    have hR : DrvOut s (if fd.isGenerator then genGeneratorFunction fd.nm none fd.node s else genES5Function fd.nm none fd.node false s) := by
      cases fd.isGenerator with
      | true => exact hGen
      | false => exact hES5
    have hinsR : ((if fd.isGenerator then genGeneratorFunction fd.nm none fd.node s else genES5Function fd.nm none fd.node false s)).2.insertion = some (cfid, bid) := hR.toS.ins.trans hins
    have hinsC : (emit (Op.createFunctionInst ((if fd.isGenerator then genGeneratorFunction fd.nm none fd.node s else genES5Function fd.nm none fd.node false s)).1) ((if fd.isGenerator then genGeneratorFunction fd.nm none fd.node s else genES5Function fd.nm none fd.node false s)).2).2.insertion =
        some (cfid, bid) :=
      ((emit_effect (Op.createFunctionInst ((if fd.isGenerator then genGeneratorFunction fd.nm none fd.node s else genES5Function fd.nm none fd.node false s)).1) ((if fd.isGenerator then genGeneratorFunction fd.nm none fd.node s else genES5Function fd.nm none fd.node false s)).2).2.1).trans hinsR
    exact PStep_trans (DrvOut_to_PStep cfid bid hR)
      (PStep_trans
        (PStep_emit cfid bid (Op.createFunctionInst ((if fd.isGenerator then genGeneratorFunction fd.nm none fd.node s else genES5Function fd.nm none fd.node false s)).1) ((if fd.isGenerator then genGeneratorFunction fd.nm none fd.node s else genES5Function fd.nm none fd.node false s)).2 rfl hinsR)
        (PStep_emitStore cfid bid
          (Value.inst (emit (Op.createFunctionInst ((if fd.isGenerator then genGeneratorFunction fd.nm none fd.node s else genES5Function fd.nm none fd.node false s)).1) ((if fd.isGenerator then genGeneratorFunction fd.nm none fd.node s else genES5Function fd.nm none fd.node false s)).2).1) fs
          (emit (Op.createFunctionInst ((if fd.isGenerator then genGeneratorFunction fd.nm none fd.node s else genES5Function fd.nm none fd.node false s)).1) ((if fd.isGenerator then genGeneratorFunction fd.nm none fd.node s else genES5Function fd.nm none fd.node false s)).2).2 hinsC))

/-- `genArrowFunctionExpression`: balanced net effect plus the verbatim
capture copy observed in the archived arrow context. -/
theorem arrowCase (hint : Name) (node : FuncNode) (s : St)
    (hPro : ∀ (e : Nat) (s' : St), POut e s' (emitFunctionPrologue node e s'))
    (hStmts : ∀ (s' : St) (cfid bid : Nat), s'.insertion = some (cfid, bid) →
      PStep cfid bid s' (genStatements node.body s')) :
    (∀ cfid bid, s.insertion = some (cfid, bid) →
      PStep cfid bid s (genArrowFunctionExpression hint node s).2) ∧
    ArrowOut s (genArrowFunctionExpression hint node s) := by
  have he : genArrowFunctionExpression hint node s =
      emit (Op.createFunctionInst s.functions.length) (popContext (emitFunctionEpilogue (some Value.litUndefined) (genStatements node.body (arrowCapture (emitFunctionPrologue node (createBasicBlock s.functions.length (pushContext s.functions.length (some node.sem) (createFunction hint DefinitionKind.es6Arrow FuncKind.normal node.strictF (some node.range) s).2)).1 (createBasicBlock s.functions.length (pushContext s.functions.length (some node.sem) (createFunction hint DefinitionKind.es6Arrow FuncKind.normal node.strictF (some node.range) s).2)).2))))) := by
    rw [genArrowFunctionExpression_eq]
    exact rfl
  rw [he]
  have hlenX : s.functions.length < (createBasicBlock s.functions.length (pushContext s.functions.length (some node.sem) (createFunction hint DefinitionKind.es6Arrow FuncKind.normal node.strictF (some node.range) s).2)).2.functions.length := by
    rw [createBasicBlock_len, pushContext_funcs, createFunction_len]
    exact Nat.lt_succ_self _
  have hfuncsX : ∀ j, j < s.functions.length → (createBasicBlock s.functions.length (pushContext s.functions.length (some node.sem) (createFunction hint DefinitionKind.es6Arrow FuncKind.normal node.strictF (some node.range) s).2)).2.functions[j]? = s.functions[j]? := by
    intro j hj
    have hjne : j ≠ s.functions.length := Nat.ne_of_lt hj
    rw [createBasicBlock_getElem_other _ _ _ hjne, pushContext_funcs,
      createFunction_getElem_lt _ _ _ _ _ _ _ hj]
  have hwfX : s.wfS → (createBasicBlock s.functions.length (pushContext s.functions.length (some node.sem) (createFunction hint DefinitionKind.es6Arrow FuncKind.normal node.strictF (some node.range) s).2)).2.wfS := by
    intro hw
    exact createBasicBlock_wf _ _ (pushContext_wf _ _ _ (createFunction_wf _ _ _ _ _ _ hw))
  have hentryX : s.wfS → ∀ f, (createBasicBlock s.functions.length (pushContext s.functions.length (some node.sem) (createFunction hint DefinitionKind.es6Arrow FuncKind.normal node.strictF (some node.range) s).2)).2.getFunc s.functions.length = some f →
      ((f.blocks.find? (fun b => b.bid = (createBasicBlock s.functions.length (pushContext s.functions.length (some node.sem) (createFunction hint DefinitionKind.es6Arrow FuncKind.normal node.strictF (some node.range) s).2)).1)).isSome = true) := by
    intro _ f hf
    have hf2 : (createBasicBlock s.functions.length (pushContext s.functions.length (some node.sem) (createFunction hint DefinitionKind.es6Arrow FuncKind.normal node.strictF (some node.range) s).2)).2.functions[s.functions.length]? = some f := hf
    rw [createBasicBlock_getElem_self, pushContext_funcs, createFunction_getElem_new,
      Option.map_some'] at hf2
    injection hf2 with hf3
    rw [← hf3]
    show ((({ fnm := hint, defKind := DefinitionKind.es6Arrow, funcKind := FuncKind.normal, strict := node.strictF, sourceRange := some node.range, params := [], blocks := [], lazyClosureAlias := none, lazyScope := none, lazySource := none } : Func).blocks ++ [BasicBlock.mk (pushContext s.functions.length (some node.sem) (createFunction hint DefinitionKind.es6Arrow FuncKind.normal node.strictF (some node.range) s).2).nextBlockId []]).find?
      (fun b => b.bid = (createBasicBlock s.functions.length (pushContext s.functions.length (some node.sem) (createFunction hint DefinitionKind.es6Arrow FuncKind.normal node.strictF (some node.range) s).2)).1)).isSome = true
    exact find?_bid_concat _ _
  have hD := drvTail node (createBasicBlock s.functions.length (pushContext s.functions.length (some node.sem) (createFunction hint DefinitionKind.es6Arrow FuncKind.normal node.strictF (some node.range) s).2)).1 s.nextScopeId s (createBasicBlock s.functions.length (pushContext s.functions.length (some node.sem) (createFunction hint DefinitionKind.es6Arrow FuncKind.normal node.strictF (some node.range) s).2)).2
    { funcId := s.functions.length, semInfo := some node.sem, capturedThis := none, capturedNewTarget := some Value.litUndefined, capturedArguments := none, entryTerminator := none, anonCounter := 0, labelsSize := node.sem.labelCount, savedInsertion := s.insertion, scopeId := s.nextScopeId }
    arrowCapture (genStatements node.body) (fun _ => Value.litUndefined)
    hPro arrowCapture_effect hStmts rfl rfl rfl rfl hlenX hfuncsX ⟨[], rfl⟩
    (fun _ => rfl) (fun _ => rfl) (fun hw l hl => Nat.ne_of_lt (hw.2 l hl)) hwfX
    (Nat.le_refl s.nextInstrId) (Nat.le_succ s.nextBlockId) (Nat.le_refl s.nextVarId)
    (Nat.le_succ s.nextScopeId) hentryX
  constructor
  · intro cfid bid hins
    exact PStep_trans (DrvOutS_to_PStep cfid bid hD.1)
      (PStep_emit cfid bid (Op.createFunctionInst s.functions.length) (popContext (emitFunctionEpilogue (some Value.litUndefined) (genStatements node.body (arrowCapture (emitFunctionPrologue node (createBasicBlock s.functions.length (pushContext s.functions.length (some node.sem) (createFunction hint DefinitionKind.es6Arrow FuncKind.normal node.strictF (some node.range) s).2)).1 (createBasicBlock s.functions.length (pushContext s.functions.length (some node.sem) (createFunction hint DefinitionKind.es6Arrow FuncKind.normal node.strictF (some node.range) s).2)).2))))) rfl
        (hD.1.ins.trans hins))
  · intro c ct hc
    obtain ⟨a1, tid, nbid, hPctx, hPins, htidlt, hPfun, hPfind⟩ :=
      (hPro (createBasicBlock s.functions.length (pushContext s.functions.length (some node.sem) (createFunction hint DefinitionKind.es6Arrow FuncKind.normal node.strictF (some node.range) s).2)).1 (createBasicBlock s.functions.length (pushContext s.functions.length (some node.sem) (createFunction hint DefinitionKind.es6Arrow FuncKind.normal node.strictF (some node.range) s).2)).2).main { funcId := s.functions.length, semInfo := some node.sem, capturedThis := none, capturedNewTarget := some Value.litUndefined, capturedArguments := none, entryTerminator := none, anonCounter := 0, labelsSize := node.sem.labelCount, savedInsertion := s.insertion, scopeId := s.nextScopeId } s.contexts rfl
    have hcap : (arrowCapture (emitFunctionPrologue node (createBasicBlock s.functions.length (pushContext s.functions.length (some node.sem) (createFunction hint DefinitionKind.es6Arrow FuncKind.normal node.strictF (some node.range) s).2)).1 (createBasicBlock s.functions.length (pushContext s.functions.length (some node.sem) (createFunction hint DefinitionKind.es6Arrow FuncKind.normal node.strictF (some node.range) s).2)).2)).contexts =
        ({ { ({ funcId := s.functions.length, semInfo := some node.sem, capturedThis := none, capturedNewTarget := some Value.litUndefined, capturedArguments := none, entryTerminator := none, anonCounter := 0, labelsSize := node.sem.labelCount, savedInsertion := s.insertion, scopeId := s.nextScopeId } : Ctx) with anonCounter := a1, entryTerminator := some tid } with capturedThis := c.capturedThis, capturedNewTarget := c.capturedNewTarget, capturedArguments := c.capturedArguments } :: c :: ct) := by
      have hsp : (emitFunctionPrologue node (createBasicBlock s.functions.length (pushContext s.functions.length (some node.sem) (createFunction hint DefinitionKind.es6Arrow FuncKind.normal node.strictF (some node.range) s).2)).1 (createBasicBlock s.functions.length (pushContext s.functions.length (some node.sem) (createFunction hint DefinitionKind.es6Arrow FuncKind.normal node.strictF (some node.range) s).2)).2).contexts =
          ({ ({ funcId := s.functions.length, semInfo := some node.sem, capturedThis := none, capturedNewTarget := some Value.litUndefined, capturedArguments := none, entryTerminator := none, anonCounter := 0, labelsSize := node.sem.labelCount, savedInsertion := s.insertion, scopeId := s.nextScopeId } : Ctx) with anonCounter := a1, entryTerminator := some tid } :: (c :: ct)) := by
        rw [hPctx, hc]
      simp [arrowCapture, hsp]
    obtain ⟨k, et2, A, hF⟩ := hD.2 _ _ hcap
    refine ⟨{ { { ({ funcId := s.functions.length, semInfo := some node.sem, capturedThis := none, capturedNewTarget := some Value.litUndefined, capturedArguments := none, entryTerminator := none, anonCounter := 0, labelsSize := node.sem.labelCount, savedInsertion := s.insertion, scopeId := s.nextScopeId } : Ctx) with anonCounter := a1, entryTerminator := some tid } with capturedThis := c.capturedThis, capturedNewTarget := c.capturedNewTarget, capturedArguments := c.capturedArguments } with anonCounter := k, entryTerminator := et2 }, A, ?_, rfl, rfl, rfl, rfl⟩
    show (emit (Op.createFunctionInst s.functions.length) (popContext (emitFunctionEpilogue (some Value.litUndefined) (genStatements node.body (arrowCapture (emitFunctionPrologue node (createBasicBlock s.functions.length (pushContext s.functions.length (some node.sem) (createFunction hint DefinitionKind.es6Arrow FuncKind.normal node.strictF (some node.range) s).2)).1 (createBasicBlock s.functions.length (pushContext s.functions.length (some node.sem) (createFunction hint DefinitionKind.es6Arrow FuncKind.normal node.strictF (some node.range) s).2)).2)))))).2.archived = _
    rw [(emit_effect (Op.createFunctionInst s.functions.length) (popContext (emitFunctionEpilogue (some Value.litUndefined) (genStatements node.body (arrowCapture (emitFunctionPrologue node (createBasicBlock s.functions.length (pushContext s.functions.length (some node.sem) (createFunction hint DefinitionKind.es6Arrow FuncKind.normal node.strictF (some node.range) s).2)).1 (createBasicBlock s.functions.length (pushContext s.functions.length (some node.sem) (createFunction hint DefinitionKind.es6Arrow FuncKind.normal node.strictF (some node.range) s).2)).2)))))).2.2.2.1, hF]


/-- Master frame lemma: every task's net effect, by strong induction on the
termination measure. -/
theorem runTask_master : ∀ (N : Nat) (t : Task) (a : Args) (s : St),
    taskMeasure t < N → MOut t a s (runTask t a s) := by
  intro N
  induction N with
  | zero =>
    intro t a s h
    exact absurd h (Nat.not_lt_zero _)
  | succ n ih =>
    intro t a s hlt
    cases t with
    | decl fd =>
      intro cfid bid hins
      rw [runTask_decl_arg]
      refine declCase fd s ?_ ?_ cfid bid hins
      · have h1 := ih (.genF fd.node) (mkArgs fd.nm none false 0) s (by
          have h2 := tm_genF_lt_decl fd
          omega)
        have h2 : DrvOut s (runTask (Task.genF fd.node) (mkArgs fd.nm none false 0) s) := h1
        rw [runTask_genF_arg] at h2
        exact h2
      · have h1 := ih (.es5 fd.node) (mkArgs fd.nm none false 0) s (by
          have h2 := tm_es5_lt_decl fd
          omega)
        have h2 : DrvOut s (runTask (Task.es5 fd.node) (mkArgs fd.nm none false 0) s) := h1
        rw [runTask_es5_arg] at h2
        exact h2
    | es5 node =>
      show DrvOut s (runTask (.es5 node) a s)
      rw [runTask_es5_arg]
      have hPro : ∀ (e : Nat) (s' : St), POut e s' (emitFunctionPrologue node e s') := by
        intro e s'
        have h1 := ih (.prologue node) { Args.none0 with entry := e } s' (by
          have h2 := tm_prologue_lt_es5 node
          omega)
        have h2 : POut e s' (runTask (Task.prologue node)
            { Args.none0 with entry := e } s').2 := h1
        rw [runTask_prologue_arg] at h2
        exact h2
      have hStmts : ∀ (s' : St) (cfid bid : Nat), s'.insertion = some (cfid, bid) →
          PStep cfid bid s' (genStatements node.body s') := by
        intro s' cfid bid hins
        have h1 := ih (.stmts node.body) Args.none0 s' (by
          have h2 := tm_stmts_lt_es5 node
          omega)
        have h2 : PStep cfid bid s' (runTask (Task.stmts node.body) Args.none0 s').2 :=
          h1 cfid bid hins
        rw [runTask_stmts_arg] at h2
        exact h2
      cases hlz : node.isLazy with
      | true => exact es5CaseLazy a.nm a.closureAlias node a.isGenInner s hlz
      | false =>
        cases hgi : a.isGenInner with
        | false => exact es5CaseMain a.nm a.closureAlias node s hlz hPro hStmts
        | true => exact es5CaseGen a.nm a.closureAlias node s hlz hPro hStmts
    | genF node =>
      show DrvOut s (runTask (.genF node) a s)
      rw [runTask_genF_arg]
      have hPro : ∀ (e : Nat) (s' : St), POut e s' (emitFunctionPrologue node e s') := by
        intro e s'
        have h1 := ih (.prologue node) { Args.none0 with entry := e } s' (by
          have h2 := tm_prologue_lt_genF node
          omega)
        have h2 : POut e s' (runTask (Task.prologue node)
            { Args.none0 with entry := e } s').2 := h1
        rw [runTask_prologue_arg] at h2
        exact h2
      have hInner : ∀ (nm2 : Name) (s' : St),
          DrvOut s' (genES5Function nm2 a.closureAlias node true s') := by
        intro nm2 s'
        have h1 := ih (.es5 node) (mkArgs nm2 a.closureAlias true 0) s' (by
          have h2 := tm_es5_lt_genF node
          omega)
        have h2 : DrvOut s' (runTask (Task.es5 node) (mkArgs nm2 a.closureAlias true 0) s') :=
          h1
        rw [runTask_es5_arg] at h2
        exact h2
      exact genFCase a.nm a.closureAlias node s hInner hPro
    | arrow node =>
      have hPro : ∀ (e : Nat) (s' : St), POut e s' (emitFunctionPrologue node e s') := by
        intro e s'
        have h1 := ih (.prologue node) { Args.none0 with entry := e } s' (by
          have h2 := tm_prologue_lt_arrow node
          omega)
        have h2 : POut e s' (runTask (Task.prologue node)
            { Args.none0 with entry := e } s').2 := h1
        rw [runTask_prologue_arg] at h2
        exact h2
      have hStmts : ∀ (s' : St) (cfid bid : Nat), s'.insertion = some (cfid, bid) →
          PStep cfid bid s' (genStatements node.body s') := by
        intro s' cfid bid hins
        have h1 := ih (.stmts node.body) Args.none0 s' (by
          have h2 := tm_stmts_lt_arrow node
          omega)
        have h2 : PStep cfid bid s' (runTask (Task.stmts node.body) Args.none0 s').2 :=
          h1 cfid bid hins
        rw [runTask_stmts_arg] at h2
        exact h2
      have hA := arrowCase a.nm node s hPro hStmts
      constructor
      · intro cfid bid hins
        rw [runTask_arrow_arg]
        exact hA.1 cfid bid hins
      · intro c ct hc
        obtain ⟨ca2, m2, h3, h4, h5, h6, h7⟩ := hA.2 c ct hc
        refine ⟨ca2, m2, ?_, h4, h5, h6, h7⟩
        rw [runTask_arrow_arg]
        exact h3
    | prologue node =>
      show POut a.entry s (runTask (.prologue node) a s).2
      rw [runTask_prologue_arg]
      refine prologueCase node a.entry s ?_
      intro s' cfid bid hins
      have h1 := ih (.closures node.closures) Args.none0 s' (by
        have h2 := tm_closures_lt_prologue node
        omega)
      have h2 : PStep cfid bid s' (runTask (Task.closures node.closures) Args.none0 s').2 :=
        h1 cfid bid hins
      rw [runTask_closures_arg] at h2
      exact h2
    | stmts l =>
      cases l with
      | nil =>
        intro cfid bid hins
        rw [runTask_stmts_arg, genStatements_nil]
        exact PStep_refl cfid bid s
      | cons st t =>
        intro cfid bid hins
        rw [runTask_stmts_arg, genStatements_cons]
        have h1 := ih (.stmt1 st) Args.none0 s (by
          have h2 := tm_stmt1_lt_stmts st t
          omega)
        have hp0 : PStep cfid bid s (runTask (Task.stmt1 st) Args.none0 s).2 :=
          h1 cfid bid hins
        rw [runTask_stmt1_arg] at hp0
        have hp1 : PStep cfid bid s (genStatement st s) := hp0
        have h2 := ih (.stmts t) Args.none0 (genStatement st s) (by
          have h3 := tm_stmts_lt_stmts st t
          omega)
        have hp2 : PStep cfid bid (genStatement st s)
            (runTask (Task.stmts t) Args.none0 (genStatement st s)).2 :=
          h2 cfid bid (hp1.ins.trans hins)
        rw [runTask_stmts_arg] at hp2
        exact PStep_trans hp1 hp2
    | stmt1 st =>
      cases st with
      | simple tag =>
        intro cfid bid hins
        rw [runTask_stmt1_arg, genStatement_simple]
        exact PStep_emit cfid bid _ s rfl hins
      | arrow hint node =>
        intro cfid bid hins
        rw [runTask_stmt1_arg, genStatement_arrow]
        have h1 := ih (.arrow node) (mkArgs hint none false 0) s (by
          have h2 := tm_arrow_lt_stmt1 hint node
          omega)
        have h2 := h1.1 cfid bid hins
        rw [runTask_arrow_arg] at h2
        exact h2
    | closures l =>
      cases l with
      | nil =>
        intro cfid bid hins
        rw [runTask_closures_arg, lowerClosures_nil]
        exact PStep_refl cfid bid s
      | cons fd t =>
        intro cfid bid hins
        rw [runTask_closures_arg, lowerClosures_cons]
        have h1 := ih (.decl fd) Args.none0 s (by
          have h2 := tm_decl_lt_closures fd t
          omega)
        have hp0 : PStep cfid bid s (runTask (Task.decl fd) Args.none0 s).2 :=
          h1 cfid bid hins
        rw [runTask_decl_arg] at hp0
        have hp1 : PStep cfid bid s (genFunctionDeclaration fd s) := hp0
        have h2 := ih (.closures t) Args.none0 (genFunctionDeclaration fd s) (by
          have h3 := tm_closures_lt_closures fd t
          omega)
        have hp2 : PStep cfid bid (genFunctionDeclaration fd s)
            (runTask (Task.closures t) Args.none0 (genFunctionDeclaration fd s)).2 :=
          h2 cfid bid (hp1.ins.trans hins)
        rw [runTask_closures_arg] at hp2
        exact PStep_trans hp1 hp2


/-! ### Clean corollaries of the master frame lemma -/

theorem genES5Function_out (nm : Name) (ca : Option Variable) (node : FuncNode) (gi : Bool)
    (s : St) : DrvOut s (genES5Function nm ca node gi s) := by
  have h1 := runTask_master (taskMeasure (Task.es5 node) + 1) (.es5 node)
    (mkArgs nm ca gi 0) s (Nat.lt_succ_self _)
  have h2 : DrvOut s (runTask (Task.es5 node) (mkArgs nm ca gi 0) s) := h1
  rw [runTask_es5_arg] at h2
  exact h2

theorem genGeneratorFunction_out (nm : Name) (ca : Option Variable) (node : FuncNode)
    (s : St) : DrvOut s (genGeneratorFunction nm ca node s) := by
  have h1 := runTask_master (taskMeasure (Task.genF node) + 1) (.genF node)
    (mkArgs nm ca false 0) s (Nat.lt_succ_self _)
  have h2 : DrvOut s (runTask (Task.genF node) (mkArgs nm ca false 0) s) := h1
  rw [runTask_genF_arg] at h2
  exact h2

theorem emitFunctionPrologue_out (node : FuncNode) (e : Nat) (s : St) :
    POut e s (emitFunctionPrologue node e s) := by
  have h1 := runTask_master (taskMeasure (Task.prologue node) + 1) (.prologue node)
    { Args.none0 with entry := e } s (Nat.lt_succ_self _)
  have h2 : POut e s (runTask (Task.prologue node) { Args.none0 with entry := e } s).2 := h1
  rw [runTask_prologue_arg] at h2
  exact h2

theorem genStatements_out (l : List Stmt) (s : St) (cfid bid : Nat)
    (hins : s.insertion = some (cfid, bid)) : PStep cfid bid s (genStatements l s) := by
  have h1 := runTask_master (taskMeasure (Task.stmts l) + 1) (.stmts l)
    Args.none0 s (Nat.lt_succ_self _)
  have h2 : PStep cfid bid s (runTask (Task.stmts l) Args.none0 s).2 := h1 cfid bid hins
  rw [runTask_stmts_arg] at h2
  exact h2

theorem genArrowFunctionExpression_out (hint : Name) (node : FuncNode) (s : St) :
    (∀ cfid bid, s.insertion = some (cfid, bid) →
      PStep cfid bid s (genArrowFunctionExpression hint node s).2) ∧
    ArrowOut s (genArrowFunctionExpression hint node s) := by
  have h1 := runTask_master (taskMeasure (Task.arrow node) + 1) (.arrow node)
    (mkArgs hint none false 0) s (Nat.lt_succ_self _)
  constructor
  · intro cfid bid hins
    have h2 : PStep cfid bid s (runTask (Task.arrow node) (mkArgs hint none false 0) s).2 :=
      h1.1 cfid bid hins
    rw [runTask_arrow_arg] at h2
    exact h2
  · intro c ct hc
    obtain ⟨ca2, m2, h3, h4, h5, h6, h7⟩ := h1.2 c ct hc
    refine ⟨ca2, m2, ?_, h4, h5, h6, h7⟩
    rw [runTask_arrow_arg] at h3
    exact h3


/-! ### Parameter-list bookkeeping lemmas for the lazy stub and emitParameters -/

theorem lazyParams_params (fid : Nat) (names : List Name) : ∀ (s : St) (f0 : Func),
    s.functions[fid]? = some f0 →
    (lazyParams fid (names.map (fun nm => ParamNode.plain (PatNode.ident nm)))
        s).functions[fid]? =
      some { f0 with params := f0.params ++ names } := by
  induction names with
  | nil =>
    intro s f0 h
    show s.functions[fid]? = _
    rw [h]
    refine congrArg some ?_
    cases f0 with
    | mk a1 a2 a3 a4 a5 a6 a7 a8 a9 a10 => simp
  | cons nm t ih =>
    intro s f0 h
    have he : (createParameter fid nm s).2 =
        s.modifyFunc fid (fun g => { g with params := g.params ++ [nm] }) := by
      simp [createParameter, St.getFunc, h]
    have h1 : (createParameter fid nm s).2.functions[fid]? =
        some { f0 with params := f0.params ++ [nm] } := by
      rw [he, modifyFunc_getElem_self, h, Option.map_some']
    have h2 := ih (createParameter fid nm s).2 { f0 with params := f0.params ++ [nm] } h1
    show (lazyParams fid (t.map (fun nm2 => ParamNode.plain (PatNode.ident nm2)))
        (createParameter fid nm s).2).functions[fid]? = _
    rw [h2]
    refine congrArg some ?_
    show ({ f0 with params := (f0.params ++ [nm]) ++ t } : Func) = _
    rw [List.append_assoc]
    rfl

def c1si : SemInfo := SemInfo.mk [] [] false false 0

def c1node : FuncNode :=
  FuncNode.mk NodeKind.functionDeclaration true (0, 9) (1, 8) [] c1si [] false 0 []

def c1st : St := St.mk [c2F] [c2c] [] [] (some (0, 0)) 0 1 0 1 false false

def Op.isResume : Op → Bool
  | .resumeGenerator _ _ => true
  | _ => false

def Op.isCreateGen : Op → Bool
  | .createGeneratorInst _ => true
  | _ => false

/-- **C1** counterexample to the claimed adjacency: in the inner generator
function's first basic block, the instruction immediately after the
`StartGenerator` marker (position 1) is not a resume marker — the
resume-marker mask over the block is `[false, false, true]`. -/
theorem claim_C1_counterexample :
    ((genGeneratorFunction "g" none c1node c1st).2.functions[2]?.map (fun f =>
      f.blocks.head?.map (fun b => b.instrs.map (fun i => Op.isResume i.op)))) =
      some (some [false, false, true]) := by
  decide


/-- **C4** (confirmed).  On the deferred (lazy) path, `genES5Function` emits
only the synthesized `this` parameter plus one named parameter per declared
formal, no body instructions (`blocks = []`), and records the lazy source
data: buffer id, AST node kind, the function's source range, and the lexical
scope chain (the scope-id chain of the name table) active at definition
time. -/
theorem claim_C4 (nm : Name) (ca : Option Variable) (node : FuncNode) (gi : Bool) (s : St)
    (names : List Name) (hlz : node.isLazy = true)
    (hp : node.params = names.map (fun x => ParamNode.plain (PatNode.ident x))) :
    (genES5Function nm ca node gi s).1 = s.functions.length ∧
    (genES5Function nm ca node gi s).2.functions[s.functions.length]? = some
      { fnm := nm, defKind := DefinitionKind.es5Function,
        funcKind := if gi then FuncKind.generatorInner else FuncKind.normal,
        strict := node.strictF, sourceRange := some node.bodyRange,
        params := "this" :: names, blocks := [], lazyClosureAlias := ca,
        lazyScope := some (s.nameTable.map (fun lvl => lvl.sid)),
        lazySource := some { bufferId := node.bufferId, nodeKind := node.kind,
                             functionRange := node.range } } := by
  have he : genES5Function nm ca node gi s =
      (s.functions.length,
       lazyParams s.functions.length node.params
         (createParameter s.functions.length "this" (St.modifyFunc (St.modifyFunc (createFunction nm DefinitionKind.es5Function (if gi then FuncKind.generatorInner else FuncKind.normal) node.strictF (some node.bodyRange) s).2 s.functions.length (fun f => { f with lazyClosureAlias := ca })) s.functions.length (fun f => { f with lazyScope := some (saveCurrentScope (St.modifyFunc (createFunction nm DefinitionKind.es5Function (if gi then FuncKind.generatorInner else FuncKind.normal) node.strictF (some node.bodyRange) s).2 s.functions.length (fun f => { f with lazyClosureAlias := ca }))), lazySource := some { bufferId := node.bufferId, nodeKind := node.kind, functionRange := node.range } }))).2) := by
    rw [genES5Function_eq, hlz]
    exact rfl
  rw [he]
  refine ⟨rfl, ?_⟩
  have h0 : (St.modifyFunc (St.modifyFunc (createFunction nm DefinitionKind.es5Function (if gi then FuncKind.generatorInner else FuncKind.normal) node.strictF (some node.bodyRange) s).2 s.functions.length (fun f => { f with lazyClosureAlias := ca })) s.functions.length (fun f => { f with lazyScope := some (saveCurrentScope (St.modifyFunc (createFunction nm DefinitionKind.es5Function (if gi then FuncKind.generatorInner else FuncKind.normal) node.strictF (some node.bodyRange) s).2 s.functions.length (fun f => { f with lazyClosureAlias := ca }))), lazySource := some { bufferId := node.bufferId, nodeKind := node.kind, functionRange := node.range } })).functions[s.functions.length]? = some
      { fnm := nm, defKind := DefinitionKind.es5Function,
        funcKind := if gi then FuncKind.generatorInner else FuncKind.normal,
        strict := node.strictF, sourceRange := some node.bodyRange, params := [],
        blocks := [], lazyClosureAlias := ca,
        lazyScope := some (saveCurrentScope (St.modifyFunc (createFunction nm DefinitionKind.es5Function (if gi then FuncKind.generatorInner else FuncKind.normal) node.strictF (some node.bodyRange) s).2 s.functions.length (fun f => { f with lazyClosureAlias := ca }))),
        lazySource := some { bufferId := node.bufferId, nodeKind := node.kind,
                             functionRange := node.range } } := by
    rw [modifyFunc_getElem_self, modifyFunc_getElem_self, createFunction_getElem_new,
      Option.map_some', Option.map_some']
  have he2 : (createParameter s.functions.length "this" (St.modifyFunc (St.modifyFunc (createFunction nm DefinitionKind.es5Function (if gi then FuncKind.generatorInner else FuncKind.normal) node.strictF (some node.bodyRange) s).2 s.functions.length (fun f => { f with lazyClosureAlias := ca })) s.functions.length (fun f => { f with lazyScope := some (saveCurrentScope (St.modifyFunc (createFunction nm DefinitionKind.es5Function (if gi then FuncKind.generatorInner else FuncKind.normal) node.strictF (some node.bodyRange) s).2 s.functions.length (fun f => { f with lazyClosureAlias := ca }))), lazySource := some { bufferId := node.bufferId, nodeKind := node.kind, functionRange := node.range } }))).2 =
      St.modifyFunc (St.modifyFunc (St.modifyFunc (createFunction nm DefinitionKind.es5Function (if gi then FuncKind.generatorInner else FuncKind.normal) node.strictF (some node.bodyRange) s).2 s.functions.length (fun f => { f with lazyClosureAlias := ca })) s.functions.length (fun f => { f with lazyScope := some (saveCurrentScope (St.modifyFunc (createFunction nm DefinitionKind.es5Function (if gi then FuncKind.generatorInner else FuncKind.normal) node.strictF (some node.bodyRange) s).2 s.functions.length (fun f => { f with lazyClosureAlias := ca }))), lazySource := some { bufferId := node.bufferId, nodeKind := node.kind, functionRange := node.range } })) s.functions.length
        (fun g => { g with params := g.params ++ ["this"] }) := by
    simp [createParameter, St.getFunc, h0]
  have h1 : (createParameter s.functions.length "this" (St.modifyFunc (St.modifyFunc (createFunction nm DefinitionKind.es5Function (if gi then FuncKind.generatorInner else FuncKind.normal) node.strictF (some node.bodyRange) s).2 s.functions.length (fun f => { f with lazyClosureAlias := ca })) s.functions.length (fun f => { f with lazyScope := some (saveCurrentScope (St.modifyFunc (createFunction nm DefinitionKind.es5Function (if gi then FuncKind.generatorInner else FuncKind.normal) node.strictF (some node.bodyRange) s).2 s.functions.length (fun f => { f with lazyClosureAlias := ca }))), lazySource := some { bufferId := node.bufferId, nodeKind := node.kind, functionRange := node.range } }))).2.functions[
      s.functions.length]? = some
      { fnm := nm, defKind := DefinitionKind.es5Function,
        funcKind := if gi then FuncKind.generatorInner else FuncKind.normal,
        strict := node.strictF, sourceRange := some node.bodyRange, params := ["this"],
        blocks := [], lazyClosureAlias := ca,
        lazyScope := some (saveCurrentScope (St.modifyFunc (createFunction nm DefinitionKind.es5Function (if gi then FuncKind.generatorInner else FuncKind.normal) node.strictF (some node.bodyRange) s).2 s.functions.length (fun f => { f with lazyClosureAlias := ca }))),
        lazySource := some { bufferId := node.bufferId, nodeKind := node.kind,
                             functionRange := node.range } } := by
    rw [he2, modifyFunc_getElem_self, h0, Option.map_some']
    exact rfl
  have h2 := lazyParams_params s.functions.length names _ _ h1
  rw [hp, h2]
  refine congrArg some ?_
  exact rfl

def c4node : FuncNode :=
  FuncNode.mk NodeKind.functionExpression true (0, 5) (1, 4)
    [ParamNode.plain (PatNode.ident "a"), ParamNode.plain (PatNode.ident "b")]
    (SemInfo.mk [] ["a", "b"] false false 0) [] true 7 []

/-- Witness for C4: a lazy node with formals `a, b` yields the stub function
with parameters `this, a, b`, no blocks, and the recorded lazy source data. -/
theorem claim_C4_witness :
    (c4node.isLazy = true ∧
      c4node.params = ["a", "b"].map (fun x => ParamNode.plain (PatNode.ident x))) ∧
    ((genES5Function "f" none c4node false c2st).1 = 1 ∧
      (genES5Function "f" none c4node false c2st).2.functions[1]? = some
        { fnm := "f", defKind := DefinitionKind.es5Function, funcKind := FuncKind.normal,
          strict := true, sourceRange := some (1, 4), params := ["this", "a", "b"],
          blocks := [], lazyClosureAlias := none, lazyScope := some [],
          lazySource := some { bufferId := 7, nodeKind := NodeKind.functionExpression,
                               functionRange := (0, 5) } }) :=
  ⟨⟨rfl, rfl⟩, claim_C4 "f" none c4node false c2st ["a", "b"] rfl rfl⟩


theorem getElem_params_emit (op : Op) (s : St) (j : Nat) :
    ((emit op s).2.functions[j]?).map Func.params = (s.functions[j]?).map Func.params := by
  rw [(emit_effect op s).2.2.2.2.2.2.2.2.2.2 j]
  cases s.functions[j]? with
  | none => rfl
  | some f =>
    simp only [Option.map_some']
    refine congrArg some ?_
    show (appendIns s.insertion j _ f).params = f.params
    cases hins : s.insertion with
    | none => rfl
    | some q =>
      obtain ⟨fid, bid⟩ := q
      show (if j = fid then appendList _ bid f else f).params = f.params
      by_cases hj : j = fid
      · rw [if_pos hj]
        exact appendList_params _ _ _
      · rw [if_neg hj]

theorem getElem_params_emitStore (v : Value) (target : Storage) (s : St) (j : Nat) :
    ((emitStore v target s).functions[j]?).map Func.params =
      (s.functions[j]?).map Func.params := by
  cases target with
  | var vr => exact getElem_params_emit _ _ _
  | globalProp nm => exact getElem_params_emit _ _ _

theorem getElem_params_lrefStore (p : PatNode) (v : Value) (s : St) (j : Nat) :
    ((lrefStore p v s).functions[j]?).map Func.params =
      (s.functions[j]?).map Func.params := by
  cases p with
  | ident nm =>
    show ((match nameLookup nm s with
      | some st => emitStore v st s
      | none => (emit (Op.storeGlobal v nm) s).2).functions[j]?).map Func.params = _
    cases nameLookup nm s with
    | some st => exact getElem_params_emitStore _ _ _ _
    | none => exact getElem_params_emit _ _ _
  | pattern x => exact getElem_params_emit _ _ _

theorem getElem_params_emitOpt (pv : Value) (hasInit : Bool) (s : St) (j : Nat) :
    ((emitOptionalInitialization pv hasInit s).2.functions[j]?).map Func.params =
      (s.functions[j]?).map Func.params := by
  cases hasInit with
  | true => exact getElem_params_emit _ _ _
  | false => rfl

theorem getElem_params_createParameter (fid : Nat) (nm : Name) (s : St) (pl : List Name)
    (h : (s.functions[fid]?).map Func.params = some pl) :
    ((createParameter fid nm s).2.functions[fid]?).map Func.params = some (pl ++ [nm]) := by
  cases hg : s.functions[fid]? with
  | none =>
    rw [hg] at h
    simp at h
  | some f0 =>
    rw [hg, Option.map_some'] at h
    injection h with h2
    have he : (createParameter fid nm s).2 =
        s.modifyFunc fid (fun g => { g with params := g.params ++ [nm] }) := by
      simp [createParameter, St.getFunc, hg]
    rw [he, modifyFunc_getElem_self, hg, Option.map_some', Option.map_some']
    show some (f0.params ++ [nm]) = some (pl ++ [nm])
    rw [h2]

theorem getElem_params_genAnon (hint : Name) (s : St) (j : Nat) :
    ((genAnonymousLabelName hint s).2.functions[j]?).map Func.params =
      (s.functions[j]?).map Func.params := by
  rw [genAnon_funcs]

/-- Number of parameter nodes processed before (excluding) the first rest
element — the number of bound formals `emitParameters` creates beyond
`this`. -/
def countBeforeRest : List ParamNode → Nat
  | [] => 0
  | ParamNode.rest _ :: _ => 0
  | _ :: t => 1 + countBeforeRest t

theorem countBeforeRest_nil : countBeforeRest [] = 0 := rfl

theorem countBeforeRest_rest (q : PatNode) (t : List ParamNode) :
    countBeforeRest (ParamNode.rest q :: t) = 0 := rfl

theorem countBeforeRest_plain (q : PatNode) (t : List ParamNode) :
    countBeforeRest (ParamNode.plain q :: t) = 1 + countBeforeRest t := rfl

theorem countBeforeRest_assign (q : PatNode) (i : Nat) (t : List ParamNode) :
    countBeforeRest (ParamNode.assign q i :: t) = 1 + countBeforeRest t := rfl

theorem countBeforeRest_no_rest (ps : List ParamNode)
    (h : ∀ q, ParamNode.rest q ∉ ps) : countBeforeRest ps = ps.length := by
  induction ps with
  | nil => rfl
  | cons p t ih =>
    have ht : ∀ q, ParamNode.rest q ∉ t := fun q hq => h q (List.mem_cons_of_mem _ hq)
    cases p with
    | rest q => exact absurd (List.mem_cons_self _ _) (h q)
    | plain q =>
      rw [countBeforeRest_plain, ih ht]
      show 1 + t.length = t.length + 1
      omega
    | assign q i =>
      rw [countBeforeRest_assign, ih ht]
      show 1 + t.length = t.length + 1
      omega

theorem countBeforeRest_append_rest (pre : List ParamNode) (r : PatNode)
    (post : List ParamNode) (h : ∀ q, ParamNode.rest q ∉ pre) :
    countBeforeRest (pre ++ ParamNode.rest r :: post) = pre.length := by
  induction pre with
  | nil => rfl
  | cons p t ih =>
    have ht : ∀ q, ParamNode.rest q ∉ t := fun q hq => h q (List.mem_cons_of_mem _ hq)
    cases p with
    | rest q => exact absurd (List.mem_cons_self _ _) (h q)
    | plain q =>
      rw [List.cons_append, countBeforeRest_plain, ih ht]
      show 1 + t.length = t.length + 1
      omega
    | assign q i =>
      rw [List.cons_append, countBeforeRest_assign, ih ht]
      show 1 + t.length = t.length + 1
      omega


theorem emitParamList_outParams (fid : Nat) (ps : List ParamNode) :
    ∀ (k : Nat) (s : St) (pl : List Name),
    (s.functions[fid]?).map Func.params = some pl →
    ∃ names : List Name, names.length = countBeforeRest ps ∧
      ((emitParamList fid ps k s).functions[fid]?).map Func.params = some (pl ++ names) := by
  induction ps with
  | nil =>
    intro k s pl h
    refine ⟨[], rfl, ?_⟩
    show (s.functions[fid]?).map Func.params = _
    rw [h, List.append_nil]
  | cons p t ih =>
    intro k s pl h
    cases p with
    | rest r =>
      refine ⟨[], rfl, ?_⟩
      show (((lrefStore r (Value.inst (genHermesInternalCall "copyRestArgs"
          Value.litUndefined [Value.litNumber ((k + 1) % 4294967296)] s).1)
          (genHermesInternalCall "copyRestArgs" Value.litUndefined
            [Value.litNumber ((k + 1) % 4294967296)] s).2).functions[fid]?).map
        Func.params) = some (pl ++ [])
      rw [getElem_params_lrefStore]
      show (((emit (Op.hermesInternal "copyRestArgs" Value.litUndefined
          [Value.litNumber ((k + 1) % 4294967296)]) s).2.functions[fid]?).map
        Func.params) = _
      rw [getElem_params_emit, h, List.append_nil]
    | plain q =>
      cases q with
      | ident nm2 =>
        have h0 : ((s).functions[fid]?).map Func.params = some pl := h
        have h1 := getElem_params_createParameter fid nm2 s pl h0
        have h2 : (((lrefStore (PatNode.ident nm2) (emitOptionalInitialization (Value.param fid (createParameter fid nm2 s).1) false (createParameter fid nm2 s).2).1 (emitOptionalInitialization (Value.param fid (createParameter fid nm2 s).1) false (createParameter fid nm2 s).2).2)).functions[fid]?).map Func.params = some (pl ++ [nm2]) := by
          rw [getElem_params_lrefStore, getElem_params_emitOpt]
          exact h1
        obtain ⟨names, hlen2, hout⟩ := ih ((k + 1) % 4294967296) (lrefStore (PatNode.ident nm2) (emitOptionalInitialization (Value.param fid (createParameter fid nm2 s).1) false (createParameter fid nm2 s).2).1 (emitOptionalInitialization (Value.param fid (createParameter fid nm2 s).1) false (createParameter fid nm2 s).2).2) (pl ++ [nm2]) h2
        refine ⟨nm2 :: names, ?_, ?_⟩
        · rw [countBeforeRest_plain]
          show names.length + 1 = 1 + countBeforeRest t
          omega
        · show ((emitParamList fid t ((k + 1) % 4294967296) (lrefStore (PatNode.ident nm2) (emitOptionalInitialization (Value.param fid (createParameter fid nm2 s).1) false (createParameter fid nm2 s).2).1 (emitOptionalInitialization (Value.param fid (createParameter fid nm2 s).1) false (createParameter fid nm2 s).2).2)).functions[fid]?).map
            Func.params = some (pl ++ nm2 :: names)
          rw [hout, List.append_assoc]
          rfl
      | pattern x =>
        have h0 : (((genAnonymousLabelName "param" s).2).functions[fid]?).map Func.params = some pl := (getElem_params_genAnon "param" s fid).trans h
        have h1 := getElem_params_createParameter fid (genAnonymousLabelName "param" s).1 (genAnonymousLabelName "param" s).2 pl h0
        have h2 : (((lrefStore (PatNode.pattern x) (emitOptionalInitialization (Value.param fid (createParameter fid (genAnonymousLabelName "param" s).1 (genAnonymousLabelName "param" s).2).1) false (createParameter fid (genAnonymousLabelName "param" s).1 (genAnonymousLabelName "param" s).2).2).1 (emitOptionalInitialization (Value.param fid (createParameter fid (genAnonymousLabelName "param" s).1 (genAnonymousLabelName "param" s).2).1) false (createParameter fid (genAnonymousLabelName "param" s).1 (genAnonymousLabelName "param" s).2).2).2)).functions[fid]?).map Func.params = some (pl ++ [(genAnonymousLabelName "param" s).1]) := by
          rw [getElem_params_lrefStore, getElem_params_emitOpt]
          exact h1
        obtain ⟨names, hlen2, hout⟩ := ih ((k + 1) % 4294967296) (lrefStore (PatNode.pattern x) (emitOptionalInitialization (Value.param fid (createParameter fid (genAnonymousLabelName "param" s).1 (genAnonymousLabelName "param" s).2).1) false (createParameter fid (genAnonymousLabelName "param" s).1 (genAnonymousLabelName "param" s).2).2).1 (emitOptionalInitialization (Value.param fid (createParameter fid (genAnonymousLabelName "param" s).1 (genAnonymousLabelName "param" s).2).1) false (createParameter fid (genAnonymousLabelName "param" s).1 (genAnonymousLabelName "param" s).2).2).2) (pl ++ [(genAnonymousLabelName "param" s).1]) h2
        refine ⟨(genAnonymousLabelName "param" s).1 :: names, ?_, ?_⟩
        · rw [countBeforeRest_plain]
          show names.length + 1 = 1 + countBeforeRest t
          omega
        · show ((emitParamList fid t ((k + 1) % 4294967296) (lrefStore (PatNode.pattern x) (emitOptionalInitialization (Value.param fid (createParameter fid (genAnonymousLabelName "param" s).1 (genAnonymousLabelName "param" s).2).1) false (createParameter fid (genAnonymousLabelName "param" s).1 (genAnonymousLabelName "param" s).2).2).1 (emitOptionalInitialization (Value.param fid (createParameter fid (genAnonymousLabelName "param" s).1 (genAnonymousLabelName "param" s).2).1) false (createParameter fid (genAnonymousLabelName "param" s).1 (genAnonymousLabelName "param" s).2).2).2)).functions[fid]?).map
            Func.params = some (pl ++ (genAnonymousLabelName "param" s).1 :: names)
          rw [hout, List.append_assoc]
          rfl
    | assign q i =>
      cases q with
      | ident nm2 =>
        have h0 : ((s).functions[fid]?).map Func.params = some pl := h
        have h1 := getElem_params_createParameter fid nm2 s pl h0
        have h2 : (((lrefStore (PatNode.ident nm2) (emitOptionalInitialization (Value.param fid (createParameter fid nm2 s).1) true (createParameter fid nm2 s).2).1 (emitOptionalInitialization (Value.param fid (createParameter fid nm2 s).1) true (createParameter fid nm2 s).2).2)).functions[fid]?).map Func.params = some (pl ++ [nm2]) := by
          rw [getElem_params_lrefStore, getElem_params_emitOpt]
          exact h1
        obtain ⟨names, hlen2, hout⟩ := ih ((k + 1) % 4294967296) (lrefStore (PatNode.ident nm2) (emitOptionalInitialization (Value.param fid (createParameter fid nm2 s).1) true (createParameter fid nm2 s).2).1 (emitOptionalInitialization (Value.param fid (createParameter fid nm2 s).1) true (createParameter fid nm2 s).2).2) (pl ++ [nm2]) h2
        refine ⟨nm2 :: names, ?_, ?_⟩
        · rw [countBeforeRest_assign]
          show names.length + 1 = 1 + countBeforeRest t
          omega
        · show ((emitParamList fid t ((k + 1) % 4294967296) (lrefStore (PatNode.ident nm2) (emitOptionalInitialization (Value.param fid (createParameter fid nm2 s).1) true (createParameter fid nm2 s).2).1 (emitOptionalInitialization (Value.param fid (createParameter fid nm2 s).1) true (createParameter fid nm2 s).2).2)).functions[fid]?).map
            Func.params = some (pl ++ nm2 :: names)
          rw [hout, List.append_assoc]
          rfl
      | pattern x =>
        have h0 : (((genAnonymousLabelName "param" s).2).functions[fid]?).map Func.params = some pl := (getElem_params_genAnon "param" s fid).trans h
        have h1 := getElem_params_createParameter fid (genAnonymousLabelName "param" s).1 (genAnonymousLabelName "param" s).2 pl h0
        have h2 : (((lrefStore (PatNode.pattern x) (emitOptionalInitialization (Value.param fid (createParameter fid (genAnonymousLabelName "param" s).1 (genAnonymousLabelName "param" s).2).1) true (createParameter fid (genAnonymousLabelName "param" s).1 (genAnonymousLabelName "param" s).2).2).1 (emitOptionalInitialization (Value.param fid (createParameter fid (genAnonymousLabelName "param" s).1 (genAnonymousLabelName "param" s).2).1) true (createParameter fid (genAnonymousLabelName "param" s).1 (genAnonymousLabelName "param" s).2).2).2)).functions[fid]?).map Func.params = some (pl ++ [(genAnonymousLabelName "param" s).1]) := by
          rw [getElem_params_lrefStore, getElem_params_emitOpt]
          exact h1
        obtain ⟨names, hlen2, hout⟩ := ih ((k + 1) % 4294967296) (lrefStore (PatNode.pattern x) (emitOptionalInitialization (Value.param fid (createParameter fid (genAnonymousLabelName "param" s).1 (genAnonymousLabelName "param" s).2).1) true (createParameter fid (genAnonymousLabelName "param" s).1 (genAnonymousLabelName "param" s).2).2).1 (emitOptionalInitialization (Value.param fid (createParameter fid (genAnonymousLabelName "param" s).1 (genAnonymousLabelName "param" s).2).1) true (createParameter fid (genAnonymousLabelName "param" s).1 (genAnonymousLabelName "param" s).2).2).2) (pl ++ [(genAnonymousLabelName "param" s).1]) h2
        refine ⟨(genAnonymousLabelName "param" s).1 :: names, ?_, ?_⟩
        · rw [countBeforeRest_assign]
          show names.length + 1 = 1 + countBeforeRest t
          omega
        · show ((emitParamList fid t ((k + 1) % 4294967296) (lrefStore (PatNode.pattern x) (emitOptionalInitialization (Value.param fid (createParameter fid (genAnonymousLabelName "param" s).1 (genAnonymousLabelName "param" s).2).1) true (createParameter fid (genAnonymousLabelName "param" s).1 (genAnonymousLabelName "param" s).2).2).1 (emitOptionalInitialization (Value.param fid (createParameter fid (genAnonymousLabelName "param" s).1 (genAnonymousLabelName "param" s).2).1) true (createParameter fid (genAnonymousLabelName "param" s).1 (genAnonymousLabelName "param" s).2).2).2)).functions[fid]?).map
            Func.params = some (pl ++ (genAnonymousLabelName "param" s).1 :: names)
          rw [hout, List.append_assoc]
          rfl


theorem insertTop_funcs (nm : Name) (stg : Storage) (s : St) :
    (insertTop nm stg s).functions = s.functions := by
  cases ht : s.nameTable with
  | nil =>
    have he : insertTop nm stg s = s.crash := by simp [insertTop, ht]
    rw [he]
    rfl
  | cons lvl t =>
    have he : insertTop nm stg s = { s with nameTable :=
        { lvl with entries := (nm, stg) :: lvl.entries } :: t } := by
      simp [insertTop, ht]
    rw [he]

theorem declareParamVars_funcs (names : List Name) : ∀ s : St,
    (declareParamVars names s).functions = s.functions := by
  induction names with
  | nil =>
    intro s
    rfl
  | cons nm t ih =>
    intro s
    show (declareParamVars t (insertTop nm (Storage.var (createVariable nm s).1)
      (createVariable nm s).2)).functions = _
    rw [ih, insertTop_funcs]
    rfl

theorem emitParameters_outParams (node : FuncNode) (s : St) (c : Ctx) (ct : List Ctx)
    (hc : s.contexts = c :: ct) (pl : List Name)
    (hf : (s.functions[c.funcId]?).map Func.params = some pl) :
    ∃ names, names.length = countBeforeRest node.params ∧
      ((emitParameters node s).functions[c.funcId]?).map Func.params =
        some (pl ++ "this" :: names) := by
  have hcur : s.curCtx = some c := by
    rw [St.curCtx, hc]
    rfl
  have he : emitParameters node s = emitParamList c.funcId node.params 4294967295
      (declareParamVars node.sem.paramNames (createParameter c.funcId "this" s).2) := by
    simp [emitParameters, hcur]
  have h1 := getElem_params_createParameter c.funcId "this" s pl hf
  have h2 : (((declareParamVars node.sem.paramNames
      (createParameter c.funcId "this" s).2).functions[c.funcId]?).map Func.params) =
      some (pl ++ ["this"]) := by
    rw [declareParamVars_funcs]
    exact h1
  obtain ⟨names, hl, ho⟩ := emitParamList_outParams c.funcId node.params 4294967295 _ _ h2
  refine ⟨names, hl, ?_⟩
  rw [he, ho, List.append_assoc]
  rfl

/-- **C5** (corrected): the amended parameter-arity property.  `emitParameters`
always appends the synthetic `this` formal first; the number of further bound
formals is the number of declared parameters strictly before the first rest
element — which equals the declared formal-parameter count exactly when no
rest element occurs (destructuring and defaults still yield one formal
each). -/
theorem claim_C5 (node : FuncNode) (s : St) (c : Ctx) (ct : List Ctx)
    (hc : s.contexts = c :: ct) (pl : List Name)
    (hf : (s.functions[c.funcId]?).map Func.params = some pl) :
    (∃ names, names.length = countBeforeRest node.params ∧
      ((emitParameters node s).functions[c.funcId]?).map Func.params =
        some (pl ++ "this" :: names)) ∧
    ((∀ q, ParamNode.rest q ∉ node.params) →
      countBeforeRest node.params = node.params.length) :=
  ⟨emitParameters_outParams node s c ct hc pl hf, countBeforeRest_no_rest node.params⟩

def c5xnode : FuncNode :=
  FuncNode.mk NodeKind.functionExpression true (0, 5) (1, 4)
    [ParamNode.plain (PatNode.ident "a"), ParamNode.rest (PatNode.ident "r")]
    (SemInfo.mk [] ["a"] false false 0) [] false 0 []

/-- **C5** counterexample: on a parameter list `(a, ...r)` with two declared
formals, the emitted formal list is `[this, a]` — only one bound formal beyond
`this`, not two: the emitted length does not match the declared count when a
rest element is present. -/
theorem claim_C5_counterexample :
    ((emitParameters c5xnode c2st).functions[0]?).map Func.params = some ["this", "a"] ∧
    c5xnode.params.length = 2 := by
  decide

def c5node : FuncNode :=
  FuncNode.mk NodeKind.functionExpression true (0, 5) (1, 4)
    [ParamNode.plain (PatNode.ident "a"), ParamNode.assign (PatNode.ident "b") 3]
    (SemInfo.mk [] ["a", "b"] false false 0) [] false 0 []

/-- Witness for the amended C5 on a rest-free list with a default: `this` is
first and both declared formals (including the defaulted one) are bound. -/
theorem claim_C5_witness :
    (c2st.contexts = c2c :: [] ∧
      (c2st.functions[c2c.funcId]?).map Func.params = some []) ∧
    ((∃ names, names.length = countBeforeRest c5node.params ∧
      ((emitParameters c5node c2st).functions[c2c.funcId]?).map Func.params =
        some ([] ++ "this" :: names)) ∧
     ((∀ q, ParamNode.rest q ∉ c5node.params) →
       countBeforeRest c5node.params = c5node.params.length)) :=
  ⟨⟨rfl, rfl⟩, claim_C5 c5node c2st c2c [] rfl [] rfl⟩

theorem emitParamList_restStop (fid : Nat) (pre : List ParamNode) : ∀ (r : PatNode)
    (post : List ParamNode) (k : Nat) (s : St),
    (∀ q, ParamNode.rest q ∉ pre) → k < 4294967296 →
    ∃ s1 : St, emitParamList fid (pre ++ ParamNode.rest r :: post) k s =
      lrefStore r
        (Value.inst (genHermesInternalCall "copyRestArgs" Value.litUndefined
          [Value.litNumber ((k + 1 + pre.length) % 4294967296)] s1).1)
        (genHermesInternalCall "copyRestArgs" Value.litUndefined
          [Value.litNumber ((k + 1 + pre.length) % 4294967296)] s1).2 := by
  induction pre with
  | nil =>
    intro r post k s hnr hk
    refine ⟨s, ?_⟩
    rfl
  | cons p t ih =>
    intro r post k s hnr hk
    have hnr2 : ∀ q, ParamNode.rest q ∉ t := fun q hq => hnr q (List.mem_cons_of_mem _ hq)
    have hk2 : (k + 1) % 4294967296 < 4294967296 := Nat.mod_lt _ (by omega)
    have harith : ((k + 1) % 4294967296 + 1 + t.length) % 4294967296 =
        (k + 1 + (t.length + 1)) % 4294967296 := by
      omega
    cases p with
    | rest q => exact absurd (List.mem_cons_self _ _) (hnr q)
    | plain q =>
      cases q with
      | ident nm2 =>
        obtain ⟨s1, h1⟩ := ih r post ((k + 1) % 4294967296) (lrefStore (PatNode.ident nm2) (emitOptionalInitialization (Value.param fid (createParameter fid nm2 s).1) false (createParameter fid nm2 s).2).1 (emitOptionalInitialization (Value.param fid (createParameter fid nm2 s).1) false (createParameter fid nm2 s).2).2) hnr2 hk2
        refine ⟨s1, ?_⟩
        show emitParamList fid (t ++ ParamNode.rest r :: post) ((k + 1) % 4294967296)
          (lrefStore (PatNode.ident nm2) (emitOptionalInitialization (Value.param fid (createParameter fid nm2 s).1) false (createParameter fid nm2 s).2).1 (emitOptionalInitialization (Value.param fid (createParameter fid nm2 s).1) false (createParameter fid nm2 s).2).2) = _
        rw [h1, harith]
        rfl
      | pattern x =>
        obtain ⟨s1, h1⟩ := ih r post ((k + 1) % 4294967296) (lrefStore (PatNode.pattern x) (emitOptionalInitialization (Value.param fid (createParameter fid (genAnonymousLabelName "param" s).1 (genAnonymousLabelName "param" s).2).1) false (createParameter fid (genAnonymousLabelName "param" s).1 (genAnonymousLabelName "param" s).2).2).1 (emitOptionalInitialization (Value.param fid (createParameter fid (genAnonymousLabelName "param" s).1 (genAnonymousLabelName "param" s).2).1) false (createParameter fid (genAnonymousLabelName "param" s).1 (genAnonymousLabelName "param" s).2).2).2) hnr2 hk2
        refine ⟨s1, ?_⟩
        show emitParamList fid (t ++ ParamNode.rest r :: post) ((k + 1) % 4294967296)
          (lrefStore (PatNode.pattern x) (emitOptionalInitialization (Value.param fid (createParameter fid (genAnonymousLabelName "param" s).1 (genAnonymousLabelName "param" s).2).1) false (createParameter fid (genAnonymousLabelName "param" s).1 (genAnonymousLabelName "param" s).2).2).1 (emitOptionalInitialization (Value.param fid (createParameter fid (genAnonymousLabelName "param" s).1 (genAnonymousLabelName "param" s).2).1) false (createParameter fid (genAnonymousLabelName "param" s).1 (genAnonymousLabelName "param" s).2).2).2) = _
        rw [h1, harith]
        rfl
    | assign q i =>
      cases q with
      | ident nm2 =>
        obtain ⟨s1, h1⟩ := ih r post ((k + 1) % 4294967296) (lrefStore (PatNode.ident nm2) (emitOptionalInitialization (Value.param fid (createParameter fid nm2 s).1) true (createParameter fid nm2 s).2).1 (emitOptionalInitialization (Value.param fid (createParameter fid nm2 s).1) true (createParameter fid nm2 s).2).2) hnr2 hk2
        refine ⟨s1, ?_⟩
        show emitParamList fid (t ++ ParamNode.rest r :: post) ((k + 1) % 4294967296)
          (lrefStore (PatNode.ident nm2) (emitOptionalInitialization (Value.param fid (createParameter fid nm2 s).1) true (createParameter fid nm2 s).2).1 (emitOptionalInitialization (Value.param fid (createParameter fid nm2 s).1) true (createParameter fid nm2 s).2).2) = _
        rw [h1, harith]
        rfl
      | pattern x =>
        obtain ⟨s1, h1⟩ := ih r post ((k + 1) % 4294967296) (lrefStore (PatNode.pattern x) (emitOptionalInitialization (Value.param fid (createParameter fid (genAnonymousLabelName "param" s).1 (genAnonymousLabelName "param" s).2).1) true (createParameter fid (genAnonymousLabelName "param" s).1 (genAnonymousLabelName "param" s).2).2).1 (emitOptionalInitialization (Value.param fid (createParameter fid (genAnonymousLabelName "param" s).1 (genAnonymousLabelName "param" s).2).1) true (createParameter fid (genAnonymousLabelName "param" s).1 (genAnonymousLabelName "param" s).2).2).2) hnr2 hk2
        refine ⟨s1, ?_⟩
        show emitParamList fid (t ++ ParamNode.rest r :: post) ((k + 1) % 4294967296)
          (lrefStore (PatNode.pattern x) (emitOptionalInitialization (Value.param fid (createParameter fid (genAnonymousLabelName "param" s).1 (genAnonymousLabelName "param" s).2).1) true (createParameter fid (genAnonymousLabelName "param" s).1 (genAnonymousLabelName "param" s).2).2).1 (emitOptionalInitialization (Value.param fid (createParameter fid (genAnonymousLabelName "param" s).1 (genAnonymousLabelName "param" s).2).1) true (createParameter fid (genAnonymousLabelName "param" s).1 (genAnonymousLabelName "param" s).2).2).2) = _
        rw [h1, harith]
        rfl


/-- **C6** (confirmed).  When the declared parameter list is
`pre ++ rest r :: post` with the rest element first occurring at 0-based
position `pre.length`, `emitParameters` (a) ends parameter processing at the
rest element with the `copyRestArgs` internal call that copies the actual
arguments from positional index `pre.length` onward into the rest binding
target, and (b) binds no formals for the rest element or anything after it:
the bound formals beyond `this` number exactly `pre.length`. -/
theorem claim_C6 (node : FuncNode) (s : St) (c : Ctx) (ct : List Ctx)
    (pre : List ParamNode) (r : PatNode) (post : List ParamNode)
    (hc : s.contexts = c :: ct)
    (hp : node.params = pre ++ ParamNode.rest r :: post)
    (hnr : ∀ q, ParamNode.rest q ∉ pre)
    (hlen : pre.length < 4294967296)
    (pl : List Name)
    (hf : (s.functions[c.funcId]?).map Func.params = some pl) :
    (∃ s1, emitParameters node s =
      lrefStore r
        (Value.inst (genHermesInternalCall "copyRestArgs" Value.litUndefined
          [Value.litNumber pre.length] s1).1)
        (genHermesInternalCall "copyRestArgs" Value.litUndefined
          [Value.litNumber pre.length] s1).2) ∧
    (∃ names, names.length = pre.length ∧
      ((emitParameters node s).functions[c.funcId]?).map Func.params =
        some (pl ++ "this" :: names)) := by
  constructor
  · have hcur : s.curCtx = some c := by
      rw [St.curCtx, hc]
      rfl
    have he : emitParameters node s = emitParamList c.funcId node.params 4294967295
        (declareParamVars node.sem.paramNames (createParameter c.funcId "this" s).2) := by
      simp [emitParameters, hcur]
    obtain ⟨s1, h1⟩ := emitParamList_restStop c.funcId pre r post 4294967295
      (declareParamVars node.sem.paramNames (createParameter c.funcId "this" s).2)
      hnr (by omega)
    refine ⟨s1, ?_⟩
    rw [he, hp, h1]
    have harith : (4294967295 + 1 + pre.length) % 4294967296 = pre.length := by omega
    rw [harith]
  · obtain ⟨names, hl, ho⟩ := emitParameters_outParams node s c ct hc pl hf
    refine ⟨names, ?_, ho⟩
    rw [hl, hp]
    exact countBeforeRest_append_rest pre r post hnr

def c6node : FuncNode :=
  FuncNode.mk NodeKind.functionExpression true (0, 5) (1, 4)
    [ParamNode.plain (PatNode.ident "a"), ParamNode.rest (PatNode.ident "r")]
    (SemInfo.mk [] ["a"] false false 0) [] false 0 []

/-- Witness for C6 on `(a, ...r)`: the copy call consumes arguments from
index 1 onward and only `a` is bound beyond `this`. -/
theorem claim_C6_witness :
    (c2st.contexts = c2c :: [] ∧
      c6node.params =
        [ParamNode.plain (PatNode.ident "a")] ++ ParamNode.rest (PatNode.ident "r") :: [] ∧
      (c2st.functions[c2c.funcId]?).map Func.params = some []) ∧
    ((∃ s1, emitParameters c6node c2st =
      lrefStore (PatNode.ident "r")
        (Value.inst (genHermesInternalCall "copyRestArgs" Value.litUndefined
          [Value.litNumber [ParamNode.plain (PatNode.ident "a")].length] s1).1)
        (genHermesInternalCall "copyRestArgs" Value.litUndefined
          [Value.litNumber [ParamNode.plain (PatNode.ident "a")].length] s1).2) ∧
    (∃ names, names.length = [ParamNode.plain (PatNode.ident "a")].length ∧
      ((emitParameters c6node c2st).functions[c2c.funcId]?).map Func.params =
        some ([] ++ "this" :: names))) :=
  ⟨⟨rfl, rfl, rfl⟩,
   claim_C6 c6node c2st c2c [] [ParamNode.plain (PatNode.ident "a")]
     (PatNode.ident "r") [] rfl rfl
     (by
       intro q hq
       simp at hq)
     (by decide) [] rfl⟩

/-! ### C3: arrow functions copy the enclosing context's capture references -/

/-- **C3** (confirmed).  At the start of lowering an arrow function via
`genArrowFunctionExpression` the capture references for `this`, `new.target`
and `arguments` of the arrow's context are copied verbatim from the enclosing
context, and the arrow never creates capture slots of its own: the arrow's
archived (final) context still carries exactly the enclosing context's three
capture references, so an arrow nested inside a function with materialized
captures observes the same storage identity as that function's capture
slots.  Nesting through a chain of arrows follows by applying this theorem at
each level. -/
theorem claim_C3 (hint : Name) (node : FuncNode) (s : St) (c : Ctx) (ct : List Ctx)
    (hc : s.contexts = c :: ct) :
    ∃ ca mid, (genArrowFunctionExpression hint node s).2.archived =
        ca :: (mid ++ s.archived) ∧
      ca.capturedThis = c.capturedThis ∧
      ca.capturedNewTarget = c.capturedNewTarget ∧
      ca.capturedArguments = c.capturedArguments ∧
      ca.funcId = s.functions.length :=
  (genArrowFunctionExpression_out hint node s).2 c ct hc

def c3var : Variable := { vid := 3, vname := "this" }

def c3avar : Variable := { vid := 4, vname := "arguments" }

def c3c : Ctx :=
  Ctx.mk 0 (some c2si) (some c3var) (some (Value.var c3var)) (some c3avar) none 0 0 none 0

def c3st : St := St.mk [c2F] [c3c] [] [] (some (0, 0)) 0 1 0 1 false false

def c3node : FuncNode :=
  FuncNode.mk NodeKind.arrowFunctionExpression true (0, 5) (1, 4) []
    (SemInfo.mk [] [] false false 0) [] false 0 []

/-- Witness for C3: an arrow lowered under a context whose three capture
slots are materialized; the archived arrow context carries the same three
references. -/
theorem claim_C3_witness :
    ∃ ca mid, (genArrowFunctionExpression "a" c3node c3st).2.archived =
        ca :: (mid ++ c3st.archived) ∧
      ca.capturedThis = c3c.capturedThis ∧
      ca.capturedNewTarget = c3c.capturedNewTarget ∧
      ca.capturedArguments = c3c.capturedArguments ∧
      ca.funcId = c3st.functions.length :=
  claim_C3 "a" c3node c3st c3c [] rfl

/-! ### C9: fresh contexts start with new.target captured as literal undefined -/

/-- **C9** (confirmed).  Every `FunctionContext` created by `pushContext`
initializes its `new.target` capture reference to the literal undefined value
while the `this` and `arguments` captures start absent; consequently an arrow
function lowered directly under such a fresh context (one that never
materialized its captures) copies the literal undefined as its captured
`new.target`, and absent for `this` and `arguments`. -/
theorem claim_C9 (fid : Nat) (si : Option SemInfo) (s : St) :
    ((pushContext fid si s).contexts.head?.map
        (fun c => (c.capturedThis, c.capturedNewTarget, c.capturedArguments))) =
      some (none, some Value.litUndefined, none) ∧
    (∀ (hint : Name) (node : FuncNode), ∃ ca mid,
      (genArrowFunctionExpression hint node (pushContext fid si s)).2.archived =
        ca :: (mid ++ (pushContext fid si s).archived) ∧
      ca.capturedThis = none ∧
      ca.capturedNewTarget = some Value.litUndefined ∧
      ca.capturedArguments = none) := by
  refine ⟨rfl, ?_⟩
  intro hint node
  have hc9 : (pushContext fid si s).contexts =
      Ctx.mk fid si none (some Value.litUndefined) none none 0
        ((si.map (fun x => x.labelCount)).getD 0) s.insertion s.nextScopeId ::
      s.contexts := rfl
  obtain ⟨ca2, mid, h1, h2, h3, h4, h5⟩ :=
    (genArrowFunctionExpression_out hint node (pushContext fid si s)).2 _ _ hc9
  exact ⟨ca2, mid, h1, h2, h3, h4⟩

/-! ### C7: hoisting, closure pre-declaration and the prologue's ordering -/

/-- **C7** (confirmed).  In the function prologue: (a) hoisting a `var` whose
name already has a slot in the function's scope level leaves the state
unchanged (the existing slot — a parameter's or an earlier hoist's — wins);
(b) hoisting a fresh name creates a frame variable, registers it in the
function's scope level and emits a store of undefined into it; (c) the
prologue runs the `var` hoisting loop, then the closure pre-declaration loop,
then parameter emission, then closure lowering, before creating the next
block and the entry branch terminator — so every nested closure is lowered
inside the prologue; (d) on the non-lazy path `genES5Function` lowers the
body statements strictly after the whole prologue; (e) `genFunctionDeclaration`
lowers the closure and stores the created closure value into the slot the
pre-declaration pass resolved by name; (f) `lowerClosures` processes the
declarations in order by `genFunctionDeclaration`. -/
theorem claim_C7 (fid : Nat) (nm nm2 : Name) (ca : Option Variable) (s : St) (c : Ctx)
    (ct : List Ctx) (hc : s.contexts = c :: ct) (node : FuncNode) (entry : Nat) :
    (∀ st, lookupScopeLevel c.scopeId nm s = some st → hoistVarDecl fid nm s = s) ∧
    (lookupScopeLevel c.scopeId nm s = none →
      hoistVarDecl fid nm s =
        (emit (Op.storeFrame Value.litUndefined (Variable.mk s.nextVarId nm))
          (insertIntoScope c.scopeId nm (Storage.var (Variable.mk s.nextVarId nm))
            { s with nextVarId := s.nextVarId + 1 })).2) ∧
    (emitFunctionPrologue node entry s =
      let s5 := lowerClosures node.closures (emitParameters node
        (declareClosures c.funcId node.closures
          (hoistVarDecls c.funcId node.sem.varDecls (setInsertion c.funcId entry s))))
      let nb := createBasicBlock c.funcId s5
      let term := emit (Op.branch nb.1) nb.2
      setInsertion c.funcId nb.1
        (term.2.modifyCtx (fun c0 => { c0 with entryTerminator := some term.1 }))) ∧
    (node.isLazy = false →
      genES5Function nm2 ca node false s =
        let f1 := createFunction nm2 DefinitionKind.es5Function FuncKind.normal
          node.strictF (some node.bodyRange) s
        let s2 := f1.2.modifyFunc f1.1 (fun f => { f with lazyClosureAlias := ca })
        let s3 := pushContext f1.1 (some node.sem) s2
        let bb := createBasicBlock f1.1 s3
        let s4 := emitFunctionPrologue node bb.1 bb.2
        let s6 := genStatements node.body (initCaptureStateInES5Function s4)
        (f1.1, popContext (emitFunctionEpilogue (some Value.litUndefined) s6))) ∧
    (∀ (fd : FuncDecl) (fs : Storage), nameLookup fd.nm s = some fs →
      genFunctionDeclaration fd s =
        let r := if fd.isGenerator then genGeneratorFunction fd.nm none fd.node s
                 else genES5Function fd.nm none fd.node false s
        let cl := emit (Op.createFunctionInst r.1) r.2
        emitStore (Value.inst cl.1) fs cl.2) ∧
    (∀ (fd : FuncDecl) (t : List FuncDecl) (s0 : St),
      lowerClosures (fd :: t) s0 = lowerClosures t (genFunctionDeclaration fd s0)) := by
  have hcur : s.curCtx = some c := by
    show s.contexts.head? = some c
    rw [hc]
    rfl
  refine ⟨?_, ?_, ?_, ?_, ?_, fun fd t s0 => lowerClosures_cons fd t s0⟩
  · intro st hst
    cases st with
    | var v => simp [hoistVarDecl, declareVariableOrGlobalProperty, hcur, hst]
    | globalProp g => simp [hoistVarDecl, declareVariableOrGlobalProperty, hcur, hst]
  · intro hst
    simp [hoistVarDecl, declareVariableOrGlobalProperty, hcur, hst, createVariable]
  · rw [emitFunctionPrologue_eq, hcur]
  · intro hlz
    rw [genES5Function_eq, hlz]
    exact rfl
  · intro fd fs hfs
    rw [genFunctionDeclaration_eq, hfs]

def c7var : Variable := { vid := 9, vname := "v" }

def c7c : Ctx := Ctx.mk 0 (some c2si) none (some Value.litUndefined) none none 0 0 none 0

def c7st : St :=
  St.mk [c2F] [c7c] [] [ScopeLevel.mk 0 [("v", Storage.var c7var)]] (some (0, 0)) 0 1 10 1
    false false

def c7node : FuncNode :=
  FuncNode.mk NodeKind.functionDeclaration true (0, 9) (1, 8) []
    (SemInfo.mk ["v", "w"] [] false false 0) [] false 0 []

/-- Witness for C7: hoisting `v`, which already has a slot in the function's
scope level, is a no-op; hoisting the fresh `w` creates a frame variable,
registers it and stores undefined into it. -/
theorem claim_C7_witness :
    (c7st.contexts = c7c :: [] ∧
      lookupScopeLevel c7c.scopeId "v" c7st = some (Storage.var c7var) ∧
      lookupScopeLevel c7c.scopeId "w" c7st = none) ∧
    hoistVarDecl 0 "v" c7st = c7st ∧
    hoistVarDecl 0 "w" c7st =
      (emit (Op.storeFrame Value.litUndefined (Variable.mk c7st.nextVarId "w"))
        (insertIntoScope c7c.scopeId "w" (Storage.var (Variable.mk c7st.nextVarId "w"))
          { c7st with nextVarId := c7st.nextVarId + 1 })).2 :=
  ⟨⟨rfl, rfl, rfl⟩,
   (claim_C7 0 "v" "f" none c7st c7c [] rfl c7node 0).1 (Storage.var c7var) rfl,
   (claim_C7 0 "w" "f" none c7st c7c [] rfl c7node 0).2.1 rfl⟩

/-! ### C8: the syntax-error stub function -/

/-- Spec-modelled outcome of running a straight-line instruction sequence:
the first throw raises its operand, the first return finishes with its
operand, all other instructions fall through. -/
inductive RunOutcome where
  | thrown (v : Value)
  | finished (v : Value)
  | ranOff
deriving DecidableEq, Repr

def runInstrs : List Instr → RunOutcome
  | [] => RunOutcome.ranOff
  | i :: t =>
    match i.op with
    | Op.throwInst v => RunOutcome.thrown v
    | Op.ret v => RunOutcome.finished v
    | _ => runInstrs t

theorem createParameter_eq (fid : Nat) (nm2 : Name) (s : St) (f : Func)
    (h : s.functions[fid]? = some f) :
    createParameter fid nm2 s =
      (f.params.length,
       s.modifyFunc fid (fun g => { g with params := g.params ++ [nm2] })) := by
  show (match s.getFunc fid with
    | none => (0, s.crash)
    | some f0 => (f0.params.length,
        s.modifyFunc fid (fun g => { g with params := g.params ++ [nm2] }))) = _
  have hg : s.getFunc fid = some f := h
  rw [hg]

theorem emit_single_block (op : Op) (s : St) (fid bid : Nat) (f : Func) (is0 : List Instr)
    (hins : s.insertion = some (fid, bid)) (hf : s.functions[fid]? = some f)
    (hb : f.blocks = [BasicBlock.mk bid is0]) :
    (emit op s).2.functions[fid]? =
      some { f with blocks := [BasicBlock.mk bid (is0 ++ [Instr.mk s.nextInstrId op])] } := by
  have h := (emit_effect op s).2.2.2.2.2.2.2.2.2.2 fid
  rw [h, hf, hins]
  simp only [Option.map_some']
  refine congrArg some ?_
  show (if fid = fid then appendList [Instr.mk s.nextInstrId op] bid f else f) = _
  rw [if_pos rfl]
  show ({ f with blocks := f.blocks.map (fun b =>
    if b.bid = bid then { b with instrs := b.instrs ++ [Instr.mk s.nextInstrId op] }
    else b) } : Func) = _
  rw [hb]
  simp

/-- **C8** (confirmed).  For every original name, source range and message
given to `genSyntaxErrorFunction`, the produced function is appended as the
next module function, the main builder's insertion point is undisturbed, and
the function consists of the `this` parameter and a single body block holding
exactly three instructions: a load of the global `SyntaxError`, a call of it
with the message string as its sole argument, and an unconditional throw of
the call's result.  Running that block under the spec-modelled straight-line
executor always ends in a throw of the call's result (which carries the
message), with no other outcome reachable. -/
theorem claim_C8 (nm : Name) (r : Nat × Nat) (err : Name) (s : St) :
    (genSyntaxErrorFunction nm r err s).1 = s.functions.length ∧
    (genSyntaxErrorFunction nm r err s).2.insertion = s.insertion ∧
    (genSyntaxErrorFunction nm r err s).2.functions[s.functions.length]? =
      some { fnm := nm, defKind := DefinitionKind.es5Function, funcKind := FuncKind.normal,
             strict := true, sourceRange := some r, params := ["this"],
             blocks := [BasicBlock.mk s.nextBlockId
               [Instr.mk s.nextInstrId (Op.loadGlobal "SyntaxError"),
                Instr.mk (s.nextInstrId + 1)
                  (Op.callInst (Value.inst s.nextInstrId) Value.litUndefined
                    [Value.litString err]),
                Instr.mk (s.nextInstrId + 2)
                  (Op.throwInst (Value.inst (s.nextInstrId + 1)))]],
             lazyClosureAlias := none, lazyScope := none, lazySource := none } ∧
    runInstrs
      [Instr.mk s.nextInstrId (Op.loadGlobal "SyntaxError"),
       Instr.mk (s.nextInstrId + 1)
         (Op.callInst (Value.inst s.nextInstrId) Value.litUndefined [Value.litString err]),
       Instr.mk (s.nextInstrId + 2) (Op.throwInst (Value.inst (s.nextInstrId + 1)))] =
      RunOutcome.thrown (Value.inst (s.nextInstrId + 1)) := by
  have h1 : ((createFunction nm DefinitionKind.es5Function FuncKind.normal true (some r)
        s).2).functions[(createFunction nm DefinitionKind.es5Function FuncKind.normal true
        (some r) s).1]? =
      some { fnm := nm, defKind := DefinitionKind.es5Function, funcKind := FuncKind.normal,
             strict := true, sourceRange := some r, params := [], blocks := [],
             lazyClosureAlias := none, lazyScope := none, lazySource := none } :=
    createFunction_getElem_new nm DefinitionKind.es5Function FuncKind.normal true (some r) s
  have hP := createParameter_eq
    (createFunction nm DefinitionKind.es5Function FuncKind.normal true (some r) s).1 "this"
    (createFunction nm DefinitionKind.es5Function FuncKind.normal true (some r) s).2
    { fnm := nm, defKind := DefinitionKind.es5Function, funcKind := FuncKind.normal,
      strict := true, sourceRange := some r, params := [], blocks := [],
      lazyClosureAlias := none, lazyScope := none, lazySource := none } h1
  have key : genSyntaxErrorFunction nm r err s =
      (s.functions.length,
       { (emit (Op.throwInst (Value.inst (s.nextInstrId + 1)))
           (emit (Op.callInst (Value.inst s.nextInstrId) Value.litUndefined
               [Value.litString err])
             (emit (Op.loadGlobal "SyntaxError")
               (setInsertion
                 (createFunction nm DefinitionKind.es5Function FuncKind.normal true (some r)
                   s).1 s.nextBlockId
                 (createBasicBlock
                   (createFunction nm DefinitionKind.es5Function FuncKind.normal true
                     (some r) s).1
                   (((createFunction nm DefinitionKind.es5Function FuncKind.normal true
                       (some r) s).2).modifyFunc
                     (createFunction nm DefinitionKind.es5Function FuncKind.normal true
                       (some r) s).1
                     (fun g => { g with params := g.params ++ ["this"] }))).2)).2).2).2
         with insertion := s.insertion }) := by
    simp only [genSyntaxErrorFunction]
    rw [hP]
    exact rfl
  refine ⟨?_, ?_, ?_, rfl⟩
  · rw [key]
  · rw [key]
  · rw [key]
    have hMF : ((((createFunction nm DefinitionKind.es5Function FuncKind.normal true (some r)
          s).2).modifyFunc
          (createFunction nm DefinitionKind.es5Function FuncKind.normal true (some r) s).1
          (fun g => { g with params := g.params ++ ["this"] })).functions[(createFunction nm
          DefinitionKind.es5Function FuncKind.normal true (some r) s).1]?) =
        some { fnm := nm, defKind := DefinitionKind.es5Function, funcKind := FuncKind.normal,
               strict := true, sourceRange := some r, params := ["this"], blocks := [],
               lazyClosureAlias := none, lazyScope := none, lazySource := none } := by
      rw [modifyFunc_getElem_self, h1]
      rfl
    have hBB : (((createBasicBlock
          (createFunction nm DefinitionKind.es5Function FuncKind.normal true (some r) s).1
          (((createFunction nm DefinitionKind.es5Function FuncKind.normal true (some r)
              s).2).modifyFunc
            (createFunction nm DefinitionKind.es5Function FuncKind.normal true (some r) s).1
            (fun g => { g with params := g.params ++ ["this"] }))).2).functions[(createFunction
          nm DefinitionKind.es5Function FuncKind.normal true (some r) s).1]?) =
        some { fnm := nm, defKind := DefinitionKind.es5Function, funcKind := FuncKind.normal,
               strict := true, sourceRange := some r, params := ["this"],
               blocks := [BasicBlock.mk s.nextBlockId []],
               lazyClosureAlias := none, lazyScope := none, lazySource := none } := by
      rw [createBasicBlock_getElem_self, hMF]
      rfl
    have hE1 := emit_single_block (Op.loadGlobal "SyntaxError")
      (setInsertion
        (createFunction nm DefinitionKind.es5Function FuncKind.normal true (some r) s).1
        s.nextBlockId
        (createBasicBlock
          (createFunction nm DefinitionKind.es5Function FuncKind.normal true (some r) s).1
          (((createFunction nm DefinitionKind.es5Function FuncKind.normal true (some r)
              s).2).modifyFunc
            (createFunction nm DefinitionKind.es5Function FuncKind.normal true (some r) s).1
            (fun g => { g with params := g.params ++ ["this"] }))).2)
      (createFunction nm DefinitionKind.es5Function FuncKind.normal true (some r) s).1
      s.nextBlockId
      { fnm := nm, defKind := DefinitionKind.es5Function, funcKind := FuncKind.normal,
        strict := true, sourceRange := some r, params := ["this"],
        blocks := [BasicBlock.mk s.nextBlockId []],
        lazyClosureAlias := none, lazyScope := none, lazySource := none }
      [] rfl hBB rfl
    have hE2 := emit_single_block
      (Op.callInst (Value.inst s.nextInstrId) Value.litUndefined [Value.litString err])
      ((emit (Op.loadGlobal "SyntaxError")
        (setInsertion
          (createFunction nm DefinitionKind.es5Function FuncKind.normal true (some r) s).1
          s.nextBlockId
          (createBasicBlock
            (createFunction nm DefinitionKind.es5Function FuncKind.normal true (some r) s).1
            (((createFunction nm DefinitionKind.es5Function FuncKind.normal true (some r)
                s).2).modifyFunc
              (createFunction nm DefinitionKind.es5Function FuncKind.normal true (some r)
                s).1
              (fun g => { g with params := g.params ++ ["this"] }))).2)).2)
      (createFunction nm DefinitionKind.es5Function FuncKind.normal true (some r) s).1
      s.nextBlockId
      { fnm := nm, defKind := DefinitionKind.es5Function, funcKind := FuncKind.normal,
        strict := true, sourceRange := some r, params := ["this"],
        blocks := [BasicBlock.mk s.nextBlockId
          [Instr.mk s.nextInstrId (Op.loadGlobal "SyntaxError")]],
        lazyClosureAlias := none, lazyScope := none, lazySource := none }
      [Instr.mk s.nextInstrId (Op.loadGlobal "SyntaxError")] rfl hE1 rfl
    have hE3 := emit_single_block
      (Op.throwInst (Value.inst (s.nextInstrId + 1)))
      ((emit (Op.callInst (Value.inst s.nextInstrId) Value.litUndefined
          [Value.litString err])
        (emit (Op.loadGlobal "SyntaxError")
          (setInsertion
            (createFunction nm DefinitionKind.es5Function FuncKind.normal true (some r) s).1
            s.nextBlockId
            (createBasicBlock
              (createFunction nm DefinitionKind.es5Function FuncKind.normal true (some r)
                s).1
              (((createFunction nm DefinitionKind.es5Function FuncKind.normal true (some r)
                  s).2).modifyFunc
                (createFunction nm DefinitionKind.es5Function FuncKind.normal true (some r)
                  s).1
                (fun g => { g with params := g.params ++ ["this"] }))).2)).2).2)
      (createFunction nm DefinitionKind.es5Function FuncKind.normal true (some r) s).1
      s.nextBlockId
      { fnm := nm, defKind := DefinitionKind.es5Function, funcKind := FuncKind.normal,
        strict := true, sourceRange := some r, params := ["this"],
        blocks := [BasicBlock.mk s.nextBlockId
          [Instr.mk s.nextInstrId (Op.loadGlobal "SyntaxError"),
           Instr.mk (s.nextInstrId + 1)
             (Op.callInst (Value.inst s.nextInstrId) Value.litUndefined
               [Value.litString err])]],
        lazyClosureAlias := none, lazyScope := none, lazySource := none }
      [Instr.mk s.nextInstrId (Op.loadGlobal "SyntaxError"),
       Instr.mk (s.nextInstrId + 1)
         (Op.callInst (Value.inst s.nextInstrId) Value.litUndefined [Value.litString err])]
      rfl hE2 rfl
    exact hE3

/-! ### C10: the epilogue's nextBlock dereference is safe after the prologue -/

/-- **C10** (confirmed).  `emitFunctionEpilogue` dereferences its local
`nextBlock` pointer unconditionally after assigning it only when the entry
terminator has exactly one successor; the dereference is safe for every
function lowered through `emitFunctionPrologue` followed by
`emitFunctionEpilogue`: the prologue always leaves the head context's entry
terminator set to the fresh unconditional branch it creates (whose successor
list is the single target block), and each of the three function-lowering
drivers (`genES5Function`, `genGeneratorFunction`,
`genArrowFunctionExpression`), which pair that prologue with the epilogue,
leaves the `epilogueNullDeref` flag — which records reaching the dereference
with a null pointer — unchanged on every well-formed input state. -/
theorem claim_C10 (node : FuncNode) (e : Nat) (s : St) (c : Ctx) (ct : List Ctx)
    (hc : s.contexts = c :: ct) :
    (∃ a tid nbid,
      (emitFunctionPrologue node e s).contexts =
        { c with anonCounter := a, entryTerminator := some tid } :: ct ∧
      (emitFunctionPrologue node e s).insertion = some (c.funcId, nbid) ∧
      (s.wfS → c.funcId < s.functions.length →
        (∀ f, s.getFunc c.funcId = some f →
          (f.blocks.find? (fun b => b.bid = e)).isSome = true) →
        ∃ f', (emitFunctionPrologue node e s).getFunc c.funcId = some f' ∧
          f'.findInstr tid = some (Instr.mk tid (Op.branch nbid)) ∧
          (Op.branch nbid).blockRefs = [nbid])) ∧
    (∀ nm ca gi, s.wfS →
      ((genES5Function nm ca node gi s).2).epilogueNullDeref = s.epilogueNullDeref) ∧
    (∀ nm ca, s.wfS →
      ((genGeneratorFunction nm ca node s).2).epilogueNullDeref = s.epilogueNullDeref) ∧
    (∀ hint cfid bid, s.wfS → s.insertion = some (cfid, bid) →
      ((genArrowFunctionExpression hint node s).2).epilogueNullDeref =
        s.epilogueNullDeref) := by
  refine ⟨?_, ?_, ?_, ?_⟩
  · obtain ⟨a, tid, nbid, h1, h2, h3, h4, h5⟩ :=
      (emitFunctionPrologue_out node e s).main c ct hc
    refine ⟨a, tid, nbid, h1, h2, fun hw hlt hfind => ?_⟩
    obtain ⟨f', hf1, hf2⟩ := h5 hw hlt hfind
    exact ⟨f', hf1, hf2, rfl⟩
  · intro nm ca gi hw
    exact (genES5Function_out nm ca node gi s).toS.core.flag hw
  · intro nm ca hw
    exact (genGeneratorFunction_out nm ca node s).toS.core.flag hw
  · intro hint cfid bid hw hins
    exact ((genArrowFunctionExpression_out hint node s).1 cfid bid hins).core.flag hw

def c10node : FuncNode :=
  FuncNode.mk NodeKind.functionDeclaration true (0, 9) (1, 8) []
    (SemInfo.mk [] [] false false 0) [] false 0 []

/-- Witness for C10: on a concrete well-formed state the prologue installs
the branch terminator and the drivers leave the null-dereference flag
clear. -/
theorem claim_C10_witness :
    c2st.contexts = c2c :: [] ∧
    (∃ a tid nbid,
      (emitFunctionPrologue c10node 0 c2st).contexts =
        { c2c with anonCounter := a, entryTerminator := some tid } :: [] ∧
      (emitFunctionPrologue c10node 0 c2st).insertion = some (c2c.funcId, nbid) ∧
      (c2st.wfS → c2c.funcId < c2st.functions.length →
        (∀ f, c2st.getFunc c2c.funcId = some f →
          (f.blocks.find? (fun b => b.bid = 0)).isSome = true) →
        ∃ f', (emitFunctionPrologue c10node 0 c2st).getFunc c2c.funcId = some f' ∧
          f'.findInstr tid = some (Instr.mk tid (Op.branch nbid)) ∧
          (Op.branch nbid).blockRefs = [nbid])) :=
  ⟨rfl, ((claim_C10 c10node 0 c2st c2c [] rfl).1)⟩


/-! ### C1 machinery: lowering steps that append no create-generator marker -/

def noCreateGen (L : List Instr) : Prop := ∀ i ∈ L, Op.isCreateGen i.op = false

/-- Like the function-effect component of `PStep`, with the extra bookkeeping
that the instructions appended to the current function are branch-free and
contain no create-generator marker. -/
structure CStep (cfid bid : Nat) (s s' : St) : Prop where
  ins : s'.insertion = s.insertion
  funLe : s.functions.length ≤ s'.functions.length
  instrLe : s.nextInstrId ≤ s'.nextInstrId
  funcs : ∃ L ps, noCreateGen L ∧ noBlockRefs L ∧ freshIds s.nextInstrId L ∧
    (∀ j, j < s.functions.length → j ≠ cfid → s'.functions[j]? = s.functions[j]?) ∧
    (cfid < s.functions.length → s'.functions[cfid]? = (s.functions[cfid]?).map
      (fun f => { appendList L bid f with params := f.params ++ ps }))

theorem CStep_refl (cfid bid : Nat) (s : St) : CStep cfid bid s s := by
  refine ⟨rfl, Nat.le.refl, Nat.le.refl, ⟨[], [], ?_, ?_, ?_, ?_, ?_⟩⟩
  · intro i hi
    simp at hi
  · intro i hi
    simp at hi
  · intro i hi
    simp at hi
  · intro j _ _
    rfl
  · intro _
    show s.functions[cfid]? = _
    cases s.functions[cfid]? with
    | none => rfl
    | some f => exact congrArg some (papp_nil bid f).symm

theorem CStep_trans {cfid bid : Nat} {s1 s2 s3 : St} (a : CStep cfid bid s1 s2)
    (b : CStep cfid bid s2 s3) : CStep cfid bid s1 s3 := by
  refine ⟨b.ins.trans a.ins, a.funLe.trans b.funLe, a.instrLe.trans b.instrLe, ?_⟩
  obtain ⟨L1, ps1, g1, n1, fr1, j1, c1⟩ := a.funcs
  obtain ⟨L2, ps2, g2, n2, fr2, j2, c2⟩ := b.funcs
  refine ⟨L1 ++ L2, ps1 ++ ps2, ?_, ?_, ?_, ?_, ?_⟩
  · intro i hi
    rcases List.mem_append.mp hi with hi | hi
    · exact g1 i hi
    · exact g2 i hi
  · intro i hi
    rcases List.mem_append.mp hi with hi | hi
    · exact n1 i hi
    · exact n2 i hi
  · intro i hi
    rcases List.mem_append.mp hi with hi | hi
    · exact fr1 i hi
    · exact Nat.le_trans a.instrLe (fr2 i hi)
  · intro j hj hne
    rw [j2 j (Nat.lt_of_lt_of_le hj a.funLe) hne, j1 j hj hne]
  · intro hlt
    rw [c2 (Nat.lt_of_lt_of_le hlt a.funLe), c1 hlt]
    cases s1.functions[cfid]? with
    | none => rfl
    | some f => exact congrArg some (papp_compose L1 L2 ps1 ps2 bid f)

theorem CStep_ofFuncsEq (cfid bid : Nat) {s s' : St} (hins : s'.insertion = s.insertion)
    (hle : s.nextInstrId ≤ s'.nextInstrId) (hfn : s'.functions = s.functions) :
    CStep cfid bid s s' := by
  refine ⟨hins, by rw [hfn], hle, ⟨[], [], ?_, ?_, ?_, ?_, ?_⟩⟩
  · intro i hi
    simp at hi
  · intro i hi
    simp at hi
  · intro i hi
    simp at hi
  · intro j _ _
    rw [hfn]
  · intro _
    rw [hfn]
    cases s.functions[cfid]? with
    | none => rfl
    | some f => exact congrArg some (papp_nil bid f).symm

theorem CStep_crash (cfid bid : Nat) (s : St) : CStep cfid bid s s.crash :=
  CStep_ofFuncsEq cfid bid rfl Nat.le.refl rfl

theorem CStep_emit (cfid bid : Nat) (op : Op) (s : St) (hop : op.blockRefs = [])
    (hcg : Op.isCreateGen op = false) (hins : s.insertion = some (cfid, bid)) :
    CStep cfid bid s (emit op s).2 := by
  obtain ⟨e1, e2, e3, e4, e5, e6, e7, e8, e9, e10, e11⟩ := emit_effect op s
  refine ⟨e2, Nat.le_of_eq (emit_len op s).symm, e9,
    ⟨[Instr.mk s.nextInstrId op], [], ?_, ?_, ?_, ?_, ?_⟩⟩
  · intro i hi
    simp only [List.mem_singleton] at hi
    subst hi
    exact hcg
  · intro i hi
    simp only [List.mem_singleton] at hi
    subst hi
    exact hop
  · intro i hi
    simp only [List.mem_singleton] at hi
    subst hi
    exact Nat.le.refl
  · intro j _ hne
    rw [e11 j, hins]
    cases s.functions[j]? with
    | none => rfl
    | some f => simp [appendIns, hne]
  · intro _
    rw [e11 cfid, hins]
    cases s.functions[cfid]? with
    | none => rfl
    | some f =>
      refine congrArg some ?_
      show appendIns (some (cfid, bid)) cfid _ f = _
      simp only [appendIns, if_pos rfl, if_true, List.append_nil]
      rfl

theorem CStep_createVariable (cfid bid : Nat) (nm : Name) (s : St) :
    CStep cfid bid s (createVariable nm s).2 :=
  CStep_ofFuncsEq cfid bid rfl Nat.le.refl rfl

theorem CStep_genAnon (cfid bid : Nat) (hint : Name) (s : St) :
    CStep cfid bid s (genAnonymousLabelName hint s).2 := by
  obtain ⟨g1, g2, g3, g4, g5, g6, g7, g8, g9, g10, g11⟩ := genAnon_effect hint s
  exact CStep_ofFuncsEq cfid bid g2 (Nat.le_of_eq g6.symm) g5

theorem CStep_insertTop (cfid bid : Nat) (nm : Name) (stg : Storage) (s : St) :
    CStep cfid bid s (insertTop nm stg s) := by
  cases ht : s.nameTable with
  | nil =>
    have he : insertTop nm stg s = s.crash := by simp [insertTop, ht]
    rw [he]
    exact CStep_crash cfid bid s
  | cons lvl t =>
    have he : insertTop nm stg s =
        { s with nameTable := { lvl with entries := (nm, stg) :: lvl.entries } :: t } := by
      simp [insertTop, ht]
    rw [he]
    exact CStep_ofFuncsEq cfid bid rfl Nat.le.refl rfl

theorem CStep_insertIntoScope (cfid bid sid : Nat) (nm : Name) (stg : Storage) (s : St) :
    CStep cfid bid s (insertIntoScope sid nm stg s) :=
  CStep_ofFuncsEq cfid bid rfl Nat.le.refl rfl

theorem CStep_modifyCtx (cfid bid : Nat) (g : Ctx → Ctx) (s : St) :
    CStep cfid bid s (s.modifyCtx g) := by
  cases hc : s.contexts with
  | nil =>
    have he : s.modifyCtx g = s.crash := by simp [St.modifyCtx, hc]
    rw [he]
    exact CStep_crash cfid bid s
  | cons c t =>
    have he : s.modifyCtx g = { s with contexts := g c :: t } := by
      simp [St.modifyCtx, hc]
    rw [he]
    exact CStep_ofFuncsEq cfid bid rfl Nat.le.refl rfl

theorem CStep_emitStore (cfid bid : Nat) (v : Value) (target : Storage) (s : St)
    (hins : s.insertion = some (cfid, bid)) : CStep cfid bid s (emitStore v target s) := by
  cases target with
  | var vr => exact CStep_emit cfid bid _ s rfl rfl hins
  | globalProp nm => exact CStep_emit cfid bid _ s rfl rfl hins

theorem CStep_lrefStore (cfid bid : Nat) (p : PatNode) (v : Value) (s : St)
    (hins : s.insertion = some (cfid, bid)) : CStep cfid bid s (lrefStore p v s) := by
  cases p with
  | ident nm =>
    show CStep cfid bid s (match nameLookup nm s with
      | some st => emitStore v st s
      | none => (emit (Op.storeGlobal v nm) s).2)
    cases nameLookup nm s with
    | some st => exact CStep_emitStore cfid bid v st s hins
    | none => exact CStep_emit cfid bid (Op.storeGlobal v nm) s rfl rfl hins
  | pattern x => exact CStep_emit cfid bid (Op.destructure v) s rfl rfl hins

theorem CStep_emitOpt (cfid bid : Nat) (pv : Value) (hasInit : Bool) (s : St)
    (hins : s.insertion = some (cfid, bid)) :
    CStep cfid bid s (emitOptionalInitialization pv hasInit s).2 := by
  cases hasInit with
  | true => exact CStep_emit cfid bid _ s rfl rfl hins
  | false => exact CStep_refl cfid bid s

theorem CStep_createParameter (cfid bid : Nat) (nm : Name) (s : St) :
    CStep cfid bid s (createParameter cfid nm s).2 := by
  cases hf : s.getFunc cfid with
  | none =>
    have he : (createParameter cfid nm s).2 = s.crash := by simp [createParameter, hf]
    rw [he]
    exact CStep_crash cfid bid s
  | some f =>
    have he : (createParameter cfid nm s).2 =
        s.modifyFunc cfid (fun g => { g with params := g.params ++ [nm] }) := by
      simp [createParameter, hf]
    rw [he]
    refine ⟨rfl, ?_, Nat.le.refl, ⟨[], [nm], ?_, ?_, ?_, ?_, ?_⟩⟩
    · show s.functions.length ≤ (listUpdate s.functions cfid _).length
      rw [listUpdate_length]
    · intro i hi
      simp at hi
    · intro i hi
      simp at hi
    · intro i hi
      simp at hi
    · intro j _ hne
      show (listUpdate s.functions cfid _)[j]? = _
      rw [listUpdate_getElem_other _ _ _ _ (fun he' => hne he'.symm)]
    · intro _
      show (listUpdate s.functions cfid _)[cfid]? = _
      rw [listUpdate_getElem_self]
      cases s.functions[cfid]? with
      | none => rfl
      | some g =>
        refine congrArg some ?_
        exact congrArg (fun h : Func => ({ h with params := g.params ++ [nm] } : Func))
          (appendList_nil bid g).symm

theorem CStep_declProp (cfid bid fid : Nat) (nm : Name) (s : St) :
    CStep cfid bid s (declareVariableOrGlobalProperty fid nm s).2 := by
  cases hc : s.curCtx with
  | none =>
    have he : (declareVariableOrGlobalProperty fid nm s).2 = s.crash := by
      simp [declareVariableOrGlobalProperty, hc]
    rw [he]
    exact CStep_crash cfid bid s
  | some c =>
    cases hl : lookupScopeLevel c.scopeId nm s with
    | some stg =>
      have he : (declareVariableOrGlobalProperty fid nm s).2 = s := by
        simp [declareVariableOrGlobalProperty, hc, hl]
      rw [he]
      exact CStep_refl cfid bid s
    | none =>
      have he : (declareVariableOrGlobalProperty fid nm s).2 =
          insertIntoScope c.scopeId nm (Storage.var { vid := s.nextVarId, vname := nm })
            (createVariable nm s).2 := by
        simp [declareVariableOrGlobalProperty, hc, hl, createVariable]
      rw [he]
      exact CStep_trans (CStep_createVariable cfid bid nm s)
        (CStep_insertIntoScope cfid bid c.scopeId nm _ _)

theorem CStep_hoistVarDecl (cfid bid fid : Nat) (nm : Name) (s : St)
    (hins : s.insertion = some (cfid, bid)) : CStep cfid bid s (hoistVarDecl fid nm s) := by
  have h1 := CStep_declProp cfid bid fid nm s
  cases hr : (declareVariableOrGlobalProperty fid nm s).1.1 with
  | var v =>
    cases hr2 : (declareVariableOrGlobalProperty fid nm s).1.2 with
    | true =>
      have he : hoistVarDecl fid nm s = (emit (Op.storeFrame Value.litUndefined v)
          (declareVariableOrGlobalProperty fid nm s).2).2 := by
        simp [hoistVarDecl, hr, hr2]
      rw [he]
      exact CStep_trans h1 (CStep_emit cfid bid _ _ rfl rfl (h1.ins.trans hins))
    | false =>
      have he : hoistVarDecl fid nm s = (declareVariableOrGlobalProperty fid nm s).2 := by
        simp [hoistVarDecl, hr, hr2]
      rw [he]
      exact h1
  | globalProp g =>
    have he : hoistVarDecl fid nm s = (declareVariableOrGlobalProperty fid nm s).2 := by
      simp [hoistVarDecl, hr]
    rw [he]
    exact h1

theorem CStep_hoistVarDecls (cfid bid fid : Nat) (names : List Name) :
    ∀ s : St, s.insertion = some (cfid, bid) →
    CStep cfid bid s (hoistVarDecls fid names s) := by
  induction names with
  | nil =>
    intro s _
    exact CStep_refl cfid bid s
  | cons nm t ih =>
    intro s hins
    have h1 := CStep_hoistVarDecl cfid bid fid nm s hins
    exact CStep_trans h1 (ih (hoistVarDecl fid nm s) (h1.ins.trans hins))

theorem CStep_declareClosures (cfid bid fid : Nat) (cs : List FuncDecl) :
    ∀ s : St, CStep cfid bid s (declareClosures fid cs s) := by
  induction cs with
  | nil =>
    intro s
    exact CStep_refl cfid bid s
  | cons fd t ih =>
    intro s
    exact CStep_trans (CStep_declProp cfid bid fid fd.nm s) (ih _)

theorem CStep_declareParamVars (cfid bid : Nat) (names : List Name) :
    ∀ s : St, CStep cfid bid s (declareParamVars names s) := by
  induction names with
  | nil =>
    intro s
    exact CStep_refl cfid bid s
  | cons nm t ih =>
    intro s
    exact CStep_trans (CStep_createVariable cfid bid nm s)
      (CStep_trans (CStep_insertTop cfid bid nm
        (Storage.var { vid := s.nextVarId, vname := nm }) (createVariable nm s).2) (ih _))

theorem CStep_emitParamList (cfid bid : Nat) (ps : List ParamNode) :
    ∀ (k : Nat) (s : St), s.insertion = some (cfid, bid) →
    CStep cfid bid s (emitParamList cfid ps k s) := by
  induction ps with
  | nil =>
    intro k s _
    exact CStep_refl cfid bid s
  | cons p t ih =>
    intro k s hins
    cases p with
    | rest r =>
      have h1 := CStep_emit cfid bid (Op.hermesInternal "copyRestArgs" Value.litUndefined
        [Value.litNumber ((k + 1) % 4294967296)]) s rfl rfl hins
      exact CStep_trans h1 (CStep_lrefStore cfid bid r
        (Value.inst (emit (Op.hermesInternal "copyRestArgs" Value.litUndefined
          [Value.litNumber ((k + 1) % 4294967296)]) s).1)
        (emit (Op.hermesInternal "copyRestArgs" Value.litUndefined
          [Value.litNumber ((k + 1) % 4294967296)]) s).2 (h1.ins.trans hins))
    | assign q init =>
      cases q with
      | ident nm =>
        have h1 := CStep_createParameter cfid bid nm s
        have h2 := CStep_emitOpt cfid bid
          (Value.param cfid (createParameter cfid nm s).1) true
          (createParameter cfid nm s).2 (h1.ins.trans hins)
        have h3 := CStep_lrefStore cfid bid (PatNode.ident nm)
          (emitOptionalInitialization (Value.param cfid (createParameter cfid nm s).1) true
            (createParameter cfid nm s).2).1
          (emitOptionalInitialization (Value.param cfid (createParameter cfid nm s).1) true
            (createParameter cfid nm s).2).2
          (h2.ins.trans (h1.ins.trans hins))
        exact CStep_trans h1 (CStep_trans h2 (CStep_trans h3
          (ih _ _ (h3.ins.trans (h2.ins.trans (h1.ins.trans hins))))))
      | pattern x =>
        have h0 := CStep_genAnon cfid bid "param" s
        have h1 := CStep_createParameter cfid bid (genAnonymousLabelName "param" s).1
          (genAnonymousLabelName "param" s).2
        have h2 := CStep_emitOpt cfid bid
          (Value.param cfid (createParameter cfid (genAnonymousLabelName "param" s).1
            (genAnonymousLabelName "param" s).2).1) true
          (createParameter cfid (genAnonymousLabelName "param" s).1
            (genAnonymousLabelName "param" s).2).2
          (h1.ins.trans (h0.ins.trans hins))
        have h3 := CStep_lrefStore cfid bid (PatNode.pattern x)
          (emitOptionalInitialization (Value.param cfid (createParameter cfid
              (genAnonymousLabelName "param" s).1 (genAnonymousLabelName "param" s).2).1) true
            (createParameter cfid (genAnonymousLabelName "param" s).1
              (genAnonymousLabelName "param" s).2).2).1
          (emitOptionalInitialization (Value.param cfid (createParameter cfid
              (genAnonymousLabelName "param" s).1 (genAnonymousLabelName "param" s).2).1) true
            (createParameter cfid (genAnonymousLabelName "param" s).1
              (genAnonymousLabelName "param" s).2).2).2
          (h2.ins.trans (h1.ins.trans (h0.ins.trans hins)))
        exact CStep_trans h0 (CStep_trans h1 (CStep_trans h2 (CStep_trans h3
          (ih _ _ (h3.ins.trans (h2.ins.trans
            (h1.ins.trans (h0.ins.trans hins))))))))
    | plain q =>
      cases q with
      | ident nm =>
        have h1 := CStep_createParameter cfid bid nm s
        have h3 := CStep_lrefStore cfid bid (PatNode.ident nm)
          (Value.param cfid (createParameter cfid nm s).1)
          (createParameter cfid nm s).2 (h1.ins.trans hins)
        exact CStep_trans h1 (CStep_trans h3 (ih _ _ (h3.ins.trans (h1.ins.trans hins))))
      | pattern x =>
        have h0 := CStep_genAnon cfid bid "param" s
        have h1 := CStep_createParameter cfid bid (genAnonymousLabelName "param" s).1
          (genAnonymousLabelName "param" s).2
        have h3 := CStep_lrefStore cfid bid (PatNode.pattern x)
          (Value.param cfid (createParameter cfid (genAnonymousLabelName "param" s).1
            (genAnonymousLabelName "param" s).2).1)
          (createParameter cfid (genAnonymousLabelName "param" s).1
            (genAnonymousLabelName "param" s).2).2
          (h1.ins.trans (h0.ins.trans hins))
        exact CStep_trans h0 (CStep_trans h1 (CStep_trans h3
          (ih _ _ (h3.ins.trans (h1.ins.trans (h0.ins.trans hins))))))

theorem CStep_emitParameters (cfid bid : Nat) (node : FuncNode) (s : St)
    (hins : s.insertion = some (cfid, bid))
    (hcf : ∀ c ct, s.contexts = c :: ct → c.funcId = cfid) :
    CStep cfid bid s (emitParameters node s) := by
  cases hc : s.curCtx with
  | none =>
    have he : emitParameters node s = s.crash := by simp [emitParameters, hc]
    rw [he]
    exact CStep_crash cfid bid s
  | some c =>
    have hcf' : c.funcId = cfid := by
      cases hcs : s.contexts with
      | nil =>
        rw [St.curCtx, hcs] at hc
        simp at hc
      | cons c0 ct =>
        rw [St.curCtx, hcs] at hc
        simp only [List.head?] at hc
        injection hc with h
        exact h ▸ hcf c0 ct hcs
    have he : emitParameters node s = emitParamList c.funcId node.params 4294967295
        (declareParamVars node.sem.paramNames (createParameter c.funcId "this" s).2) := by
      simp [emitParameters, hc]
    rw [he, hcf']
    have h1 := CStep_createParameter cfid bid "this" s
    have h2 := CStep_declareParamVars cfid bid node.sem.paramNames
      (createParameter cfid "this" s).2
    exact CStep_trans h1 (CStep_trans h2 (CStep_emitParamList cfid bid node.params 4294967295 _
      ((CStep_trans h1 h2).ins.trans hins)))

theorem CStep_ofDrvOutS (cfid bid : Nat) {s s' : St} (h : DrvOutS s s') :
    CStep cfid bid s s' := by
  refine ⟨h.ins, h.core.funLe, h.core.instrLe, ⟨[], [], ?_, ?_, ?_, ?_, ?_⟩⟩
  · intro i hi
    simp at hi
  · intro i hi
    simp at hi
  · intro i hi
    simp at hi
  · intro j hj _
    exact h.funcs j hj
  · intro hlt
    rw [h.funcs cfid hlt]
    cases s.functions[cfid]? with
    | none => rfl
    | some f => exact congrArg some (papp_nil bid f).symm

theorem CStep_decl (cfid bid : Nat) (fd : FuncDecl) (s : St)
    (hins : s.insertion = some (cfid, bid)) :
    CStep cfid bid s (genFunctionDeclaration fd s) := by
  rw [genFunctionDeclaration_eq]
  cases hn : nameLookup fd.nm s with
  | none => exact CStep_crash cfid bid s
  | some fs =>
    have hD : DrvOut s (if fd.isGenerator then genGeneratorFunction fd.nm none fd.node s
        else genES5Function fd.nm none fd.node false s) := by
      cases fd.isGenerator with
      | true => exact genGeneratorFunction_out fd.nm none fd.node s
      | false => exact genES5Function_out fd.nm none fd.node false s
    have h0 : CStep cfid bid s (if fd.isGenerator then genGeneratorFunction fd.nm none
        fd.node s else genES5Function fd.nm none fd.node false s).2 :=
      CStep_ofDrvOutS cfid bid hD.toS
    have h1 := CStep_emit cfid bid (Op.createFunctionInst
      (if fd.isGenerator then genGeneratorFunction fd.nm none fd.node s
       else genES5Function fd.nm none fd.node false s).1)
      (if fd.isGenerator then genGeneratorFunction fd.nm none fd.node s
       else genES5Function fd.nm none fd.node false s).2 rfl rfl (h0.ins.trans hins)
    have h2 := CStep_emitStore cfid bid
      (Value.inst (emit (Op.createFunctionInst
        (if fd.isGenerator then genGeneratorFunction fd.nm none fd.node s
         else genES5Function fd.nm none fd.node false s).1)
        (if fd.isGenerator then genGeneratorFunction fd.nm none fd.node s
         else genES5Function fd.nm none fd.node false s).2).1) fs
      (emit (Op.createFunctionInst
        (if fd.isGenerator then genGeneratorFunction fd.nm none fd.node s
         else genES5Function fd.nm none fd.node false s).1)
        (if fd.isGenerator then genGeneratorFunction fd.nm none fd.node s
         else genES5Function fd.nm none fd.node false s).2).2
      (h1.ins.trans (h0.ins.trans hins))
    exact CStep_trans h0 (CStep_trans h1 h2)

theorem CStep_lowerClosures (cfid bid : Nat) (l : List FuncDecl) :
    ∀ s : St, s.insertion = some (cfid, bid) → CStep cfid bid s (lowerClosures l s) := by
  induction l with
  | nil =>
    intro s _
    rw [lowerClosures_nil]
    exact CStep_refl cfid bid s
  | cons fd t ih =>
    intro s hins
    rw [lowerClosures_cons]
    have h1 := CStep_decl cfid bid fd s hins
    exact CStep_trans h1 (ih _ (h1.ins.trans hins))

theorem lowerClosures_out (l : List FuncDecl) (s : St) (cfid bid : Nat)
    (hins : s.insertion = some (cfid, bid)) : PStep cfid bid s (lowerClosures l s) := by
  have h1 := runTask_master (taskMeasure (Task.closures l) + 1) (.closures l)
    Args.none0 s (Nat.lt_succ_self _)
  have h2 : PStep cfid bid s (runTask (Task.closures l) Args.none0 s).2 := h1 cfid bid hins
  exact h2

theorem papp_of_appendList (L : List Instr) (bid : Nat) (f : Func) :
    ({ appendList L bid f with params := f.params ++ [] } : Func) = appendList L bid f := by
  rw [List.append_nil]
  show ({ appendList L bid f with params := f.params } : Func) = _
  rw [← appendList_params L bid f]

theorem CStep_initCapture (s : St) (c : Ctx) (ct : List Ctx) (cfid bid : Nat)
    (hcs : s.contexts = c :: ct) (hins : s.insertion = some (cfid, bid)) :
    CStep cfid bid s (initCaptureStateInES5Function s) := by
  obtain ⟨fns, ctxs, arch, tbl, ins, nii, nbi, nvi, nsi, af, ed⟩ := s
  obtain ⟨cfid0, csem, cthis, cnt, cargs, cterm, canon, clab, csav, cscope⟩ := c
  simp only at hcs hins ⊢
  subst hcs hins
  cases csem with
  | none =>
    have he : ∀ st : St,
        st.contexts = Ctx.mk cfid0 none cthis cnt cargs cterm canon clab csav cscope :: ct →
        initCaptureStateInES5Function st = st.crash := by
      intro st hcst
      simp [initCaptureStateInES5Function, St.curCtx, hcst]
    rw [he _ rfl]
    exact CStep_crash cfid bid _
  | some si =>
    cases haf : si.containsArrowFunctions with
    | false =>
      have he : ∀ st : St,
          st.contexts =
            Ctx.mk cfid0 (some si) cthis cnt cargs cterm canon clab csav cscope :: ct →
          initCaptureStateInES5Function st = st := by
        intro st hcst
        simp [initCaptureStateInES5Function, St.curCtx, hcst, haf]
      rw [he _ rfl]
      exact CStep_refl cfid bid _
    | true =>
      cases hua : si.containsArrowFunctionsUsingArguments with
      | false =>
        simp only [initCaptureStateInES5Function, St.curCtx, List.head?_cons, haf, hua,
          genAnonymousLabelName, createVariable, St.modifyCtx, emitStore, emit, St.modifyFunc,
          appendInstrToBlock_eq_appendList, Bool.not_true, Bool.false_eq_true, if_false,
          if_true, Option.map_some', Option.getD_some]
        refine ⟨(by trivial), ?_,
          Nat.le_add_right nii 3,
          ⟨[Instr.mk nii (Op.storeFrame (Value.param cfid 0)
              (Variable.mk nvi ("?anon_" ++ toString canon ++ "_" ++ "this"))),
            Instr.mk (nii + 1) Op.getNewTarget,
            Instr.mk (nii + 2) (Op.storeFrame (Value.inst (nii + 1))
              (Variable.mk (nvi + 1)
                ("?anon_" ++ toString (canon + 1) ++ "_" ++ "new.target")))], [],
           ?_, ?_, ?_, ?_, ?_⟩⟩
        · show fns.length ≤ (listUpdate (listUpdate (listUpdate fns cfid _) cfid _)
            cfid _).length
          rw [listUpdate_length, listUpdate_length, listUpdate_length]
        · intro i hi
          simp only [List.mem_cons, List.mem_singleton] at hi
          rcases hi with rfl | rfl | rfl | h
          · rfl
          · rfl
          · rfl
          · simp at h
        · intro i hi
          simp only [List.mem_cons, List.mem_singleton] at hi
          rcases hi with rfl | rfl | rfl | h
          · rfl
          · rfl
          · rfl
          · simp at h
        · intro i hi
          simp only [List.mem_cons, List.mem_singleton] at hi
          rcases hi with rfl | rfl | rfl | h
          · exact Nat.le.refl
          · show nii ≤ nii + 1
            omega
          · show nii ≤ nii + 2
            omega
          · simp at h
        · intro j _ hne
          rw [listUpdate_listUpdate, listUpdate_listUpdate]
          rw [listUpdate_getElem_other _ _ _ _ (fun h => hne h.symm)]
        · intro _
          rw [listUpdate_listUpdate, listUpdate_listUpdate]
          rw [listUpdate_getElem_self]
          cases fns[cfid]? with
          | none => rfl
          | some f =>
            refine congrArg some ?_
            show appendList _ bid (appendList _ bid (appendList _ bid f)) = _
            rw [appendList_compose, appendList_compose]
            exact (papp_of_appendList _ bid f).symm
      | true =>
        simp only [initCaptureStateInES5Function, St.curCtx, List.head?_cons, haf, hua,
          genAnonymousLabelName, createVariable, St.modifyCtx, emitStore, emit, St.modifyFunc,
          appendInstrToBlock_eq_appendList, Bool.not_true, Bool.false_eq_true, if_false,
          if_true, Option.map_some', Option.getD_some]
        refine ⟨(by trivial), ?_,
          Nat.le_add_right nii 5,
          ⟨[Instr.mk nii (Op.storeFrame (Value.param cfid 0)
              (Variable.mk nvi ("?anon_" ++ toString canon ++ "_" ++ "this"))),
            Instr.mk (nii + 1) Op.getNewTarget,
            Instr.mk (nii + 2) (Op.storeFrame (Value.inst (nii + 1))
              (Variable.mk (nvi + 1)
                ("?anon_" ++ toString (canon + 1) ++ "_" ++ "new.target"))),
            Instr.mk (nii + 3) Op.createArguments,
            Instr.mk (nii + 4) (Op.storeFrame (Value.inst (nii + 3))
              (Variable.mk (nvi + 2)
                ("?anon_" ++ toString (canon + 2) ++ "_" ++ "arguments")))], [],
           ?_, ?_, ?_, ?_, ?_⟩⟩
        · show fns.length ≤ (listUpdate (listUpdate (listUpdate (listUpdate (listUpdate
            fns cfid _) cfid _) cfid _) cfid _) cfid _).length
          rw [listUpdate_length, listUpdate_length, listUpdate_length, listUpdate_length,
            listUpdate_length]
        · intro i hi
          simp only [List.mem_cons, List.mem_singleton] at hi
          rcases hi with rfl | rfl | rfl | rfl | rfl | h
          · rfl
          · rfl
          · rfl
          · rfl
          · rfl
          · simp at h
        · intro i hi
          simp only [List.mem_cons, List.mem_singleton] at hi
          rcases hi with rfl | rfl | rfl | rfl | rfl | h
          · rfl
          · rfl
          · rfl
          · rfl
          · rfl
          · simp at h
        · intro i hi
          simp only [List.mem_cons, List.mem_singleton] at hi
          rcases hi with rfl | rfl | rfl | rfl | rfl | h
          · exact Nat.le.refl
          · show nii ≤ nii + 1
            omega
          · show nii ≤ nii + 2
            omega
          · show nii ≤ nii + 3
            omega
          · show nii ≤ nii + 4
            omega
          · simp at h
        · intro j _ hne
          rw [listUpdate_listUpdate, listUpdate_listUpdate, listUpdate_listUpdate,
            listUpdate_listUpdate]
          rw [listUpdate_getElem_other _ _ _ _ (fun h => hne h.symm)]
        · intro _
          rw [listUpdate_listUpdate, listUpdate_listUpdate, listUpdate_listUpdate,
            listUpdate_listUpdate]
          rw [listUpdate_getElem_self]
          cases fns[cfid]? with
          | none => rfl
          | some f =>
            refine congrArg some ?_
            show appendList _ bid (appendList _ bid (appendList _ bid (appendList _ bid
              (appendList _ bid f)))) = _
            rw [appendList_compose, appendList_compose, appendList_compose,
              appendList_compose]
            exact (papp_of_appendList _ bid f).symm

theorem getElem?_lt {α : Type} {l : List α} {i : Nat} {x : α} (h : l[i]? = some x) :
    i < l.length := by
  by_contra hge
  rw [List.getElem?_eq_none (Nat.le_of_not_lt hge)] at h
  exact Option.noConfusion h

theorem getElem?_mem_of_some {α : Type} {l : List α} {i : Nat} {x : α}
    (h : l[i]? = some x) : x ∈ l := by
  induction l generalizing i with
  | nil => simp at h
  | cons y t ih =>
    cases i with
    | zero =>
      simp only [List.getElem?_cons_zero] at h
      injection h with h
      exact h ▸ List.mem_cons_self y t
    | succ j =>
      simp only [List.getElem?_cons_succ] at h
      exact List.mem_cons_of_mem y (ih h)

theorem insertBeforeInstr_of_not_mem (tid : Nat) (L is : List Instr)
    (h : ∀ i ∈ is, i.iid ≠ tid) : insertBeforeInstr tid L is = is := by
  induction is with
  | nil => rfl
  | cons i t ih =>
    show (if i.iid = tid then L ++ i :: t else i :: insertBeforeInstr tid L t) = _
    rw [if_neg (h i (List.mem_cons_self i t))]
    rw [ih (fun j hj => h j (List.mem_cons_of_mem i hj))]

theorem insertBeforeInstr_hit (tid : Nat) (L xs ys : List Instr) (op : Op)
    (h : ∀ i ∈ xs, i.iid ≠ tid) :
    insertBeforeInstr tid L (xs ++ Instr.mk tid op :: ys) =
      xs ++ L ++ Instr.mk tid op :: ys := by
  induction xs with
  | nil =>
    show (if (Instr.mk tid op).iid = tid then L ++ Instr.mk tid op :: ys
      else Instr.mk tid op :: insertBeforeInstr tid L ys) = _
    rw [if_pos rfl]
    simp
  | cons i t ih =>
    show (if i.iid = tid then L ++ i :: (t ++ Instr.mk tid op :: ys)
      else i :: insertBeforeInstr tid L (t ++ Instr.mk tid op :: ys)) = _
    rw [if_neg (h i (List.mem_cons_self i t))]
    rw [ih (fun j hj => h j (List.mem_cons_of_mem i hj))]
    simp

theorem filter_iid_ne_self (tid : Nat) (is : List Instr) (h : ∀ i ∈ is, i.iid ≠ tid) :
    is.filter (fun i => i.iid ≠ tid) = is := by
  induction is with
  | nil => rfl
  | cons i t ih =>
    rw [List.filter_cons_of_pos (by simpa using h i (List.mem_cons_self i t))]
    rw [ih (fun j hj => h j (List.mem_cons_of_mem i hj))]

theorem filter_iid_erase_hit (tid : Nat) (xs ys : List Instr) (op : Op)
    (hx : ∀ i ∈ xs, i.iid ≠ tid) (hy : ∀ i ∈ ys, i.iid ≠ tid) :
    (xs ++ Instr.mk tid op :: ys).filter (fun i => i.iid ≠ tid) = xs ++ ys := by
  rw [List.filter_append, filter_iid_ne_self tid xs hx]
  rw [List.filter_cons_of_neg (by simp), filter_iid_ne_self tid ys hy]

theorem countUses_noRefs (L : List Instr) (q : Nat) (h : noBlockRefs L) :
    (L.map (fun i => ((i.op.blockRefs.filter (fun t => t = q)).length))).sum = 0 := by
  induction L with
  | nil => rfl
  | cons i t ih =>
    rw [List.map_cons, List.sum_cons, h i (List.mem_cons_self i t)]
    rw [ih (fun j hj => h j (List.mem_cons_of_mem i hj))]
    rfl

/-- The shape of the current function after `emitFunctionPrologue`, before the
branch terminator is appended: piece instructions `L` in the entry block,
parameters `ps` appended, and the fresh (still empty) next block `NB`. -/
def prologueFunc (L : List Instr) (ps : List Name) (entry NB : Nat) (f : Func) : Func :=
  { appendList L entry f with params := f.params ++ ps, blocks := (appendList L entry f).blocks ++ [BasicBlock.mk NB []] }

/-- The full effect of `emitFunctionPrologue` on the current function: the
piece instructions `L` (hoists, parameters, lowered closures) land in the
entry block, carry no branch and no create-generator marker, a fresh next
block `NB` is appended, the fresh terminator `tid` is the unconditional
branch to `NB` placed after `L` in the entry block, the head context records
the terminator, and the insertion point moves to `NB`. -/
theorem prologue_func_effect (node : FuncNode) (entry : Nat) (s : St) (c : Ctx)
    (ct : List Ctx) (f : Func) (hc : s.contexts = c :: ct)
    (hlt : c.funcId < s.functions.length)
    (hf : s.functions[c.funcId]? = some f) :
    ∃ L ps a NB tid,
      noCreateGen L ∧ noBlockRefs L ∧ (∀ i ∈ L, s.nextInstrId ≤ i.iid) ∧
      s.nextInstrId ≤ tid ∧ s.nextBlockId ≤ NB ∧
      (emitFunctionPrologue node entry s).functions[c.funcId]? =
        some (appendList [Instr.mk tid (Op.branch NB)] entry
          (prologueFunc L ps entry NB f)) ∧
      (emitFunctionPrologue node entry s).contexts =
        { c with anonCounter := a, entryTerminator := some tid } :: ct ∧
      (emitFunctionPrologue node entry s).insertion = some (c.funcId, NB) ∧
      (emitFunctionPrologue node entry s).nextInstrId = tid + 1 ∧
      (emitFunctionPrologue node entry s).nextBlockId = NB + 1 ∧
      (∀ j, j < s.functions.length → j ≠ c.funcId →
        (emitFunctionPrologue node entry s).functions[j]? = s.functions[j]?) ∧
      s.functions.length ≤ (emitFunctionPrologue node entry s).functions.length ∧
      (s.wfS → (emitFunctionPrologue node entry s).wfS) ∧
      (s.wfS → (∃ b0, b0 ∈ f.blocks ∧ b0.bid = entry) → ∀ i ∈ L, i.iid < tid) := by
  have hcur : s.curCtx = some c := by
    show s.contexts.head? = some c
    rw [hc]
    rfl
  obtain ⟨S5, hS5⟩ : ∃ S5, lowerClosures node.closures (emitParameters node
      (declareClosures c.funcId node.closures (hoistVarDecls c.funcId node.sem.varDecls
        (setInsertion c.funcId entry s)))) = S5 := ⟨_, rfl⟩
  have hins1 : (setInsertion c.funcId entry s).insertion = some (c.funcId, entry) := rfl
  have hP1 := PStep_hoistVarDecls c.funcId entry c.funcId node.sem.varDecls
    (setInsertion c.funcId entry s) hins1
  have hP2 := PStep_declareClosures c.funcId entry c.funcId node.closures
    (hoistVarDecls c.funcId node.sem.varDecls (setInsertion c.funcId entry s))
  have hP12 := PStep_trans hP1 hP2
  have hcf : ∀ c' ct', (declareClosures c.funcId node.closures (hoistVarDecls c.funcId
      node.sem.varDecls (setInsertion c.funcId entry s))).contexts = c' :: ct' →
      c'.funcId = c.funcId := by
    intro c' ct' hc'
    have hb : anonBumped (c :: ct) (declareClosures c.funcId node.closures
        (hoistVarDecls c.funcId node.sem.varDecls
          (setInsertion c.funcId entry s))).contexts := by
      have hx := hP12.ctxs
      rw [show (setInsertion c.funcId entry s).contexts = c :: ct from hc] at hx
      exact hx
    obtain ⟨k, hk⟩ := hb
    rw [hk] at hc'
    injection hc' with h1 _
    rw [← h1]
  have hP3 := PStep_emitParameters c.funcId entry node _ (hP12.ins.trans hins1) hcf
  have hP123 := PStep_trans hP12 hP3
  have hP4 := lowerClosures_out node.closures _ c.funcId entry (hP123.ins.trans hins1)
  have hP := PStep_trans hP123 hP4
  have hC1 := CStep_hoistVarDecls c.funcId entry c.funcId node.sem.varDecls
    (setInsertion c.funcId entry s) hins1
  have hC2 := CStep_declareClosures c.funcId entry c.funcId node.closures
    (hoistVarDecls c.funcId node.sem.varDecls (setInsertion c.funcId entry s))
  have hC12 := CStep_trans hC1 hC2
  have hC3 := CStep_emitParameters c.funcId entry node _ (hC12.ins.trans hins1) hcf
  have hC123 := CStep_trans hC12 hC3
  have hC4 := CStep_lowerClosures c.funcId entry node.closures _ (hC123.ins.trans hins1)
  have hC := CStep_trans hC123 hC4
  rw [hS5] at hP hC
  obtain ⟨L, ps, hg, hnbr, hfr, hoth, hcf5⟩ := hC.funcs
  have hlt1 : c.funcId < (setInsertion c.funcId entry s).functions.length := hlt
  have hf1 : (setInsertion c.funcId entry s).functions[c.funcId]? = some f := hf
  have hS5f : S5.functions[c.funcId]? =
      some { appendList L entry f with params := f.params ++ ps } := by
    rw [hcf5 hlt1, hf1, Option.map_some']
  have hctxS5 : ∃ a, S5.contexts = { c with anonCounter := a } :: ct := by
    have hx := hP.ctxs
    rw [show (setInsertion c.funcId entry s).contexts = c :: ct from hc] at hx
    exact hx
  obtain ⟨a, hctx5⟩ := hctxS5
  have hins5 : S5.insertion = some (c.funcId, entry) := hC.ins.trans hins1
  obtain ⟨CB, hCB⟩ : ∃ x, createBasicBlock c.funcId S5 = x := ⟨_, rfl⟩
  obtain ⟨EM, hEM⟩ : ∃ x, emit (Op.branch CB.1) CB.2 = x := ⟨_, rfl⟩
  have hCB1 : CB.1 = S5.nextBlockId := by
    rw [← hCB]
    exact rfl
  have hinsBB : CB.2.insertion = some (c.funcId, entry) := by
    rw [← hCB]
    exact hins5
  have hCBnii : CB.2.nextInstrId = S5.nextInstrId := by
    rw [← hCB]
    exact rfl
  have hCBnbi : CB.2.nextBlockId = S5.nextBlockId + 1 := by
    rw [← hCB]
    exact rfl
  have hCBf : CB.2.functions[c.funcId]? =
      some (prologueFunc L ps entry S5.nextBlockId f) := by
    rw [← hCB, createBasicBlock_getElem_self, hS5f]
    exact rfl
  have hctxBB : CB.2.contexts = { c with anonCounter := a } :: ct := by
    rw [← hCB]
    exact hctx5
  have hEMval : EM = (CB.2.nextInstrId, { CB.2 with functions := listUpdate CB.2.functions c.funcId (appendList [Instr.mk CB.2.nextInstrId (Op.branch CB.1)] entry), nextInstrId := CB.2.nextInstrId + 1 }) :=
    hEM.symm.trans (emit_some (Op.branch CB.1) CB.2 c.funcId entry hinsBB)
  have heq : emitFunctionPrologue node entry s =
      setInsertion c.funcId CB.1
        (EM.2.modifyCtx (fun c0 => { c0 with entryTerminator := some EM.1 })) := by
    rw [emitFunctionPrologue_eq, hcur, ← hEM, ← hCB, ← hS5]
  have hctxT : EM.2.contexts = { c with anonCounter := a } :: ct := by
    rw [hEMval]
    exact hctxBB
  have hmc := modifyCtx_eq (fun c0 => { c0 with entryTerminator := some EM.1 })
    EM.2 ({ c with anonCounter := a }) ct hctxT
  have hfin : emitFunctionPrologue node entry s =
      setInsertion c.funcId CB.1
        { EM.2 with contexts := ({ c with anonCounter := a, entryTerminator := some EM.1 } : Ctx) :: ct } := by
    rw [heq, hmc]
  refine ⟨L, ps, a, S5.nextBlockId, S5.nextInstrId, hg, hnbr, ?_, hC.instrLe,
    hP.core.blockLe, ?_, ?_, ?_, ?_, ?_, ?_, ?_, ?_, ?_⟩
  · intro i hi
    exact hfr i hi
  · rw [hfin, hEMval]
    show (listUpdate CB.2.functions c.funcId _)[c.funcId]? = _
    rw [listUpdate_getElem_self, hCBf]
    rw [hCBnii, hCB1]
    exact rfl
  · rw [hfin, hEMval]
    show ({ c with anonCounter := a, entryTerminator := some CB.2.nextInstrId } : Ctx) :: ct = _
    rw [hCBnii]
  · rw [hfin, hCB1]
    exact rfl
  · rw [hfin, hEMval]
    show CB.2.nextInstrId + 1 = _
    rw [hCBnii]
  · rw [hfin, hEMval]
    show CB.2.nextBlockId = _
    rw [hCBnbi]
  · intro j hj hne
    rw [hfin, hEMval]
    show (listUpdate CB.2.functions c.funcId _)[j]? = _
    rw [listUpdate_getElem_other _ _ _ _ (fun h => hne h.symm)]
    rw [← hCB, createBasicBlock_getElem_other c.funcId S5 j hne]
    exact hoth j hj hne
  · rw [hfin, hEMval]
    show s.functions.length ≤ (listUpdate CB.2.functions c.funcId _).length
    rw [listUpdate_length]
    rw [← hCB]
    show s.functions.length ≤ (listUpdate S5.functions c.funcId _).length
    rw [listUpdate_length]
    exact hC.funLe
  · intro hw
    have hw1 : (setInsertion c.funcId entry s).wfS := hw
    have hw5 := hP.core.wfp hw1
    have hwBB : CB.2.wfS := by
      rw [← hCB]
      exact createBasicBlock_wf c.funcId S5 hw5
    have hwT : EM.2.wfS := by
      rw [← hEM]
      refine emit_wf (Op.branch CB.1) CB.2 ?_ hwBB
      intro r hr
      simp only [Op.blockRefs, List.mem_singleton] at hr
      subst hr
      rw [hCB1, hCBnbi]
      exact Nat.lt_succ_self _
    rw [hfin]
    exact hwT
  · intro hw hblk i hiL
    obtain ⟨b0, hb0, hb0bid⟩ := hblk
    have hw1 : (setInsertion c.funcId entry s).wfS := hw
    have hw5 := hP.core.wfp hw1
    have hmemF : ({ appendList L entry f with params := f.params ++ ps } : Func) ∈
        S5.functions := getElem?_mem_of_some hS5f
    have hmemB : ({ b0 with instrs := b0.instrs ++ L } : BasicBlock) ∈
        ({ appendList L entry f with params := f.params ++ ps } : Func).blocks := by
      show _ ∈ f.blocks.map (fun b =>
        if b.bid = entry then { b with instrs := b.instrs ++ L } else b)
      refine List.mem_map.mpr ⟨b0, hb0, ?_⟩
      rw [if_pos hb0bid]
    have hin : i ∈ ({ b0 with instrs := b0.instrs ++ L } : BasicBlock).instrs :=
      List.mem_append_right b0.instrs hiL
    exact ((hw5.1 _ hmemF _ hmemB).2 i hin).1

/-- The first basic block of the current function survives
`emitFunctionEpilogue` untouched, provided the entry terminator is a branch
located elsewhere: the merge surgery only moves instructions at the
terminator, erases the terminator id, and drops the merged-away block.
Moreover every block id other than the merged-away one stays findable. -/
theorem epilogue_head_block (s : St) (c : Ctx) (ct : List Ctx) (tid nb : Nat) (f : Func)
    (b0 : BasicBlock) (hc : s.contexts = c :: ct) (hterm : c.entryTerminator = some tid)
    (hgf : s.getFunc c.funcId = some f)
    (hfi : f.findInstr tid = some (Instr.mk tid (Op.branch nb)))
    (hhead : f.blocks.head? = some b0) (hbid : b0.bid ≠ nb)
    (htid : ∀ i ∈ b0.instrs, i.iid ≠ tid) :
    ∃ f', (emitFunctionEpilogue none s).functions[c.funcId]? = some f' ∧
      f'.blocks.head? = some b0 ∧
      (∀ q, q ≠ nb → ((f'.blocks.find? (fun b => b.bid = q)).isSome =
        (f.blocks.find? (fun b => b.bid = q)).isSome)) := by
  have hcur : s.curCtx = some c := by
    show s.contexts.head? = some c
    rw [hc]
    rfl
  have hgf2 : s.functions[c.funcId]? = some f := hgf
  by_cases hcond : countBlockUses f nb = 1
  · have he : emitFunctionEpilogue none s =
        { s with
            functions := listUpdate s.functions c.funcId (fun g =>
              { g with blocks := epilogueMerge tid nb f }),
            contexts := { c with entryTerminator := none } :: ct } := by
      simp only [emitFunctionEpilogue, hcur, hterm, hgf, hfi, Op.blockRefs, St.modifyFunc,
        St.modifyCtx, hcond, List.mem_singleton, and_self, if_true, hc, epilogueMerge]
    rw [he]
    obtain ⟨NBI, hNBI⟩ : ∃ x, ((f.blocks.find? (fun b2 => b2.bid = nb)).map
        (fun b2 => b2.instrs)).getD [] = x := ⟨_, rfl⟩
    have hem : epilogueMerge tid nb f =
        ((f.blocks.map (fun bb => { bb with instrs := insertBeforeInstr tid NBI bb.instrs })).map
          (fun bb => { bb with instrs := bb.instrs.filter (fun i => i.iid ≠ tid) })).filter
          (fun bb => bb.bid ≠ nb) := by
      rw [← hNBI]
      exact rfl
    refine ⟨{ f with blocks := epilogueMerge tid nb f }, ?_, ?_, ?_⟩
    · show (listUpdate s.functions c.funcId _)[c.funcId]? = _
      rw [listUpdate_getElem_self, hgf2, Option.map_some']
    · show (epilogueMerge tid nb f).head? = some b0
      cases hbl : f.blocks with
      | nil =>
        rw [hbl] at hhead
        simp at hhead
      | cons bh bt =>
        rw [hbl] at hhead
        simp only [List.head?_cons] at hhead
        injection hhead with hbh
        rw [hbh] at hbl
        rw [hem, hbl, List.map_cons, List.map_cons]
        rw [insertBeforeInstr_of_not_mem tid NBI b0.instrs htid]
        have hb0eta : ({ b0 with instrs := b0.instrs } : BasicBlock) = b0 := rfl
        rw [hb0eta]
        rw [filter_iid_ne_self tid b0.instrs htid, hb0eta]
        rw [List.filter_cons_of_pos (by simpa using hbid)]
        rfl
    · intro q hq
      show ((epilogueMerge tid nb f).find? (fun b => b.bid = q)).isSome = _
      have hiff : (∃ b ∈ epilogueMerge tid nb f, b.bid = q) ↔
          (∃ b ∈ f.blocks, b.bid = q) := by
        rw [hem]
        constructor
        · rintro ⟨b, hbm, hbq⟩
          obtain ⟨hbm3, _⟩ := List.mem_filter.mp hbm
          obtain ⟨b2, hb2, rfl⟩ := List.mem_map.mp hbm3
          obtain ⟨b1, hb1, rfl⟩ := List.mem_map.mp hb2
          exact ⟨b1, hb1, hbq⟩
        · rintro ⟨b, hbm, hbq⟩
          have hm1 : ({ b with instrs := insertBeforeInstr tid NBI b.instrs } : BasicBlock) ∈
              f.blocks.map (fun bb =>
                { bb with instrs := insertBeforeInstr tid NBI bb.instrs }) :=
            List.mem_map.mpr ⟨b, hbm, rfl⟩
          have hm2 : ({ { b with instrs := insertBeforeInstr tid NBI b.instrs } with
              instrs := (insertBeforeInstr tid NBI b.instrs).filter
                (fun i => i.iid ≠ tid) } : BasicBlock) ∈
              (f.blocks.map (fun bb =>
                { bb with instrs := insertBeforeInstr tid NBI bb.instrs })).map
                (fun bb => { bb with instrs := bb.instrs.filter (fun i => i.iid ≠ tid) }) :=
            List.mem_map.mpr ⟨_, hm1, rfl⟩
          refine ⟨_, List.mem_filter.mpr ⟨hm2, ?_⟩, ?_⟩
          · show decide (b.bid ≠ nb) = true
            rw [hbq]
            simpa using hq
          · show b.bid = q
            exact hbq
      cases hfa : (f.blocks.find? (fun b => b.bid = q)).isSome with
      | false =>
        have hnone : ¬ ∃ b ∈ f.blocks, b.bid = q := by
          intro hx
          obtain ⟨b, hbm, hbq⟩ := hx
          have hy : (f.blocks.find? (fun b2 => b2.bid = q)).isSome = true :=
            List.find?_isSome.mpr ⟨b, hbm, by simp [hbq]⟩
          rw [hfa] at hy
          exact Bool.noConfusion hy
        have hnone2 : ¬ ∃ b ∈ epilogueMerge tid nb f, b.bid = q := fun h =>
          hnone (hiff.mp h)
        cases hma : ((epilogueMerge tid nb f).find? (fun b => b.bid = q)).isSome with
        | false => rfl
        | true =>
          exfalso
          obtain ⟨b, hbm, hbq⟩ := List.find?_isSome.mp hma
          exact hnone2 ⟨b, hbm, by simpa using hbq⟩
      | true =>
        have hsome : ∃ b ∈ f.blocks, b.bid = q := by
          obtain ⟨b, hbm, hbq⟩ := List.find?_isSome.mp hfa
          exact ⟨b, hbm, by simpa using hbq⟩
        obtain ⟨b, hbm, hbq⟩ := hiff.mpr hsome
        exact List.find?_isSome.mpr ⟨b, hbm, by simp [hbq]⟩
  · have he : emitFunctionEpilogue none s = s := by
      simp only [emitFunctionEpilogue, hcur, hterm, hgf, hfi, Op.blockRefs, hcond,
        List.mem_singleton, false_and, if_false]
    rw [he]
    exact ⟨f, hgf2, hhead, fun q _ => rfl⟩

theorem findSome_cons_none {α β : Type} (f : α → Option β) (a : α) (l : List α)
    (h : f a = none) : List.findSome? f (a :: l) = List.findSome? f l := by
  simp [List.findSome?_cons, h]

theorem findSome_cons_some {α β : Type} (f : α → Option β) (a : α) (l : List α) (b : β)
    (h : f a = some b) : List.findSome? f (a :: l) = some b := by
  simp [List.findSome?_cons, h]

theorem appendList_blocks3 (M : List Instr) (q : Nat) (f : Func) (b1 b2 b3 : BasicBlock)
    (hb : f.blocks = [b1, b2, b3]) (h1 : b1.bid ≠ q) (h2 : b2.bid ≠ q) (h3 : b3.bid = q) :
    (appendList M q f).blocks = [b1, b2, { b3 with instrs := b3.instrs ++ M }] := by
  show f.blocks.map _ = _
  rw [hb]
  simp only [List.map_cons, List.map_nil, if_neg h1, if_neg h2, if_pos h3]

/-- From a state whose current (inner generator) function holds the preamble
block `⟨B0, PRE⟩` followed by the empty entry block `⟨B1, []⟩`, the rest of
`genES5Function`'s non-lazy path (prologue, capture initialization, body
statements, epilogue, context pop) leaves the preamble block untouched as the
function's first block, and the entry block `B1` stays present. -/
theorem innerTail (node : FuncNode) (s0 : St) (I B0 B1 : Nat) (PRE : List Instr)
    (cI : Ctx) (ct0 : List Ctx) (F0 : Func)
    (hc : s0.contexts = cI :: ct0) (hfid : cI.funcId = I)
    (hins : s0.insertion = some (I, B1))
    (hlt : I < s0.functions.length)
    (hf : s0.functions[I]? = some F0)
    (hblocks : F0.blocks = [BasicBlock.mk B0 PRE, BasicBlock.mk B1 []])
    (hB0B1 : B0 ≠ B1)
    (hB0lt : B0 < s0.nextBlockId) (hB1lt : B1 < s0.nextBlockId)
    (hpre : ∀ i ∈ PRE, i.iid < s0.nextInstrId)
    (hw : s0.wfS) :
    ∃ F, (popContext (emitFunctionEpilogue (some Value.litUndefined)
        (genStatements node.body (initCaptureStateInES5Function
          (emitFunctionPrologue node B1 s0))))).functions[I]? = some F ∧
      F.blocks.head? = some (BasicBlock.mk B0 PRE) ∧
      ((F.blocks.find? (fun b => b.bid = B1)).isSome = true) := by
  subst hfid
  obtain ⟨L, ps, a, NB, tid, hg, hnbr, hfr, htidge, hNBge, hPf, hPctx, hPins, hPnii,
    hPnbi, hPoth, hPlen, hPwf, hPiid⟩ :=
    prologue_func_effect node B1 s0 cI ct0 F0 hc hlt hf
  have hB0NB : B0 ≠ NB := fun h => absurd (h ▸ hB0lt) (Nat.not_lt_of_le (h ▸ hNBge))
  have hB1NB : B1 ≠ NB := fun h => absurd (h ▸ hB1lt) (Nat.not_lt_of_le (h ▸ hNBge))
  have hNBB1 : ¬ (NB = B1) := fun h => hB1NB (Eq.symm h)
  have hLiid : ∀ i ∈ L, i.iid < tid :=
    hPiid hw ⟨BasicBlock.mk B1 [], by rw [hblocks]; simp, rfl⟩
  have hF1blocksA : (appendList L B1 F0).blocks =
      [BasicBlock.mk B0 PRE, BasicBlock.mk B1 L] := by
    show F0.blocks.map _ = _
    rw [hblocks]
    simp only [List.map_cons, List.map_nil, if_neg hB0B1, if_pos rfl]
    rfl
  have hPFblocks : (prologueFunc L ps B1 NB F0).blocks =
      [BasicBlock.mk B0 PRE, BasicBlock.mk B1 L, BasicBlock.mk NB []] := by
    show (appendList L B1 F0).blocks ++ [BasicBlock.mk NB []] = _
    rw [hF1blocksA]
    rfl
  have hF1blocks : (appendList [Instr.mk tid (Op.branch NB)] B1
      (prologueFunc L ps B1 NB F0)).blocks =
      [BasicBlock.mk B0 PRE, BasicBlock.mk B1 (L ++ [Instr.mk tid (Op.branch NB)]),
        BasicBlock.mk NB []] := by
    show (prologueFunc L ps B1 NB F0).blocks.map _ = _
    rw [hPFblocks]
    simp only [List.map_cons, List.map_nil, if_neg hB0B1, if_pos rfl, if_neg hNBB1]
    rfl
  obtain ⟨⟨a2, cT, cNT, cA2, hCctx⟩, ⟨L2, hL2nbr, hL2fr, hL2fn⟩, hCins, _, _, _, hCnii,
    _, _, _, hClen, hCwf⟩ := initCapture_effect (emitFunctionPrologue node B1 s0)
    ({ cI with anonCounter := a, entryTerminator := some tid }) ct0 cI.funcId NB hPctx hPins
  have hSCf : (initCaptureStateInES5Function (emitFunctionPrologue node B1 s0)
      ).functions[cI.funcId]? =
      some (appendList L2 NB (appendList [Instr.mk tid (Op.branch NB)] B1
        (prologueFunc L ps B1 NB F0))) := by
    rw [hL2fn cI.funcId, hPins, hPf]
    simp [appendIns]
  have hSCins : (initCaptureStateInES5Function (emitFunctionPrologue node B1 s0)
      ).insertion = some (cI.funcId, NB) := hCins.trans hPins
  have hST := genStatements_out node.body
    (initCaptureStateInES5Function (emitFunctionPrologue node B1 s0)) cI.funcId NB hSCins
  obtain ⟨L3, ps3, hL3nbr, hL3fr, hSToth, hSTcf⟩ := hST.funcs
  have hltSC : cI.funcId < (initCaptureStateInES5Function
      (emitFunctionPrologue node B1 s0)).functions.length := by
    rw [hClen]
    exact Nat.lt_of_lt_of_le hlt hPlen
  have hS6f : (genStatements node.body (initCaptureStateInES5Function
      (emitFunctionPrologue node B1 s0))).functions[cI.funcId]? =
      some { appendList L3 NB (appendList L2 NB (appendList [Instr.mk tid (Op.branch NB)]
        B1 (prologueFunc L ps B1 NB F0))) with
        params := (appendList L2 NB (appendList [Instr.mk tid (Op.branch NB)] B1
          (prologueFunc L ps B1 NB F0))).params ++ ps3 } := by
    rw [hSTcf hltSC, hSCf, Option.map_some']
  have hS6ins : (genStatements node.body (initCaptureStateInES5Function
      (emitFunctionPrologue node B1 s0))).insertion = some (cI.funcId, NB) :=
    hST.ins.trans hSCins
  obtain ⟨e1, e2, e3, e4, e5, e6, e7, e8, e9, e10, e11⟩ :=
    emit_effect (Op.ret Value.litUndefined) (genStatements node.body
      (initCaptureStateInES5Function (emitFunctionPrologue node B1 s0)))
  obtain ⟨rid, hrid⟩ : ∃ x, (genStatements node.body (initCaptureStateInES5Function
      (emitFunctionPrologue node B1 s0))).nextInstrId = x := ⟨_, rfl⟩
  have hS7f : (emit (Op.ret Value.litUndefined) (genStatements node.body
      (initCaptureStateInES5Function (emitFunctionPrologue node B1 s0)))
      ).2.functions[cI.funcId]? =
      some (appendList [Instr.mk rid (Op.ret Value.litUndefined)] NB
        { appendList L3 NB (appendList L2 NB (appendList [Instr.mk tid (Op.branch NB)]
            B1 (prologueFunc L ps B1 NB F0))) with
          params := (appendList L2 NB (appendList [Instr.mk tid (Op.branch NB)] B1
            (prologueFunc L ps B1 NB F0))).params ++ ps3 }) := by
    rw [e11 cI.funcId, hS6ins, hS6f, hrid]
    simp [appendIns]
  have hblocks2 : (appendList L2 NB (appendList [Instr.mk tid (Op.branch NB)] B1
      (prologueFunc L ps B1 NB F0))).blocks =
      [BasicBlock.mk B0 PRE, BasicBlock.mk B1 (L ++ [Instr.mk tid (Op.branch NB)]),
        BasicBlock.mk NB L2] :=
    appendList_blocks3 L2 NB _ _ _ _ hF1blocks hB0NB hB1NB rfl
  have hblocks3 : ({ appendList L3 NB (appendList L2 NB (appendList
      [Instr.mk tid (Op.branch NB)] B1 (prologueFunc L ps B1 NB F0))) with
      params := (appendList L2 NB (appendList [Instr.mk tid (Op.branch NB)] B1
        (prologueFunc L ps B1 NB F0))).params ++ ps3 } : Func).blocks =
      [BasicBlock.mk B0 PRE, BasicBlock.mk B1 (L ++ [Instr.mk tid (Op.branch NB)]),
        BasicBlock.mk NB (L2 ++ L3)] :=
    appendList_blocks3 L3 NB _ _ _ _ hblocks2 hB0NB hB1NB rfl
  have hblocks4 : (appendList [Instr.mk rid (Op.ret Value.litUndefined)] NB
      { appendList L3 NB (appendList L2 NB (appendList [Instr.mk tid (Op.branch NB)]
          B1 (prologueFunc L ps B1 NB F0))) with
        params := (appendList L2 NB (appendList [Instr.mk tid (Op.branch NB)] B1
          (prologueFunc L ps B1 NB F0))).params ++ ps3 }).blocks =
      [BasicBlock.mk B0 PRE, BasicBlock.mk B1 (L ++ [Instr.mk tid (Op.branch NB)]),
        BasicBlock.mk NB ((L2 ++ L3) ++ [Instr.mk rid (Op.ret Value.litUndefined)])] :=
    appendList_blocks3 _ NB _ _ _ _ hblocks3 hB0NB hB1NB rfl
  have hpretid : ∀ i ∈ PRE, i.iid ≠ tid :=
    fun i hi => Nat.ne_of_lt (Nat.lt_of_lt_of_le (hpre i hi) htidge)
  have hLne : ∀ i ∈ L, i.iid ≠ tid := fun i hi => Nat.ne_of_lt (hLiid i hi)
  have hL2gt : ∀ i ∈ L2, tid < i.iid := by
    intro i hi
    have := hL2fr i hi
    rw [hPnii] at this
    omega
  have hL3gt : ∀ i ∈ L3, tid < i.iid := by
    intro i hi
    have h1 := hL3fr i hi
    have h2 : (emitFunctionPrologue node B1 s0).nextInstrId ≤
        (initCaptureStateInES5Function (emitFunctionPrologue node B1 s0)).nextInstrId :=
      hCnii
    rw [hPnii] at h2
    omega
  have hridgt : tid < rid := by
    have h1 : (initCaptureStateInES5Function (emitFunctionPrologue node B1 s0)).nextInstrId
        ≤ (genStatements node.body (initCaptureStateInES5Function
          (emitFunctionPrologue node B1 s0))).nextInstrId := hST.core.instrLe
    have h2 := hCnii
    rw [hPnii] at h2
    omega
  have hfindPRE : PRE.find? (fun i => i.iid = tid) = none := by
    apply List.find?_eq_none.mpr
    intro i hi
    simpa using hpretid i hi
  have hfindB1 : (L ++ [Instr.mk tid (Op.branch NB)]).find? (fun i => i.iid = tid) =
      some (Instr.mk tid (Op.branch NB)) :=
    find?_iid_append_self L (Instr.mk tid (Op.branch NB)) hLne
  have hctxS7 : (emit (Op.ret Value.litUndefined) (genStatements node.body
      (initCaptureStateInES5Function (emitFunctionPrologue node B1 s0)))).2.contexts =
      (genStatements node.body (initCaptureStateInES5Function
        (emitFunctionPrologue node B1 s0))).contexts := e1
  have hctxST : ∃ cE : Ctx, (genStatements node.body (initCaptureStateInES5Function
      (emitFunctionPrologue node B1 s0))).contexts = cE :: ct0 ∧
      cE.funcId = cI.funcId ∧ cE.entryTerminator = some tid := by
    have hx := hST.ctxs
    rw [hCctx] at hx
    obtain ⟨a3, ha3⟩ := hx
    exact ⟨_, ha3, rfl, rfl⟩
  obtain ⟨cE, hctxS6, hcEfid, hcEterm⟩ := hctxST
  have hcS7 : (emit (Op.ret Value.litUndefined) (genStatements node.body
      (initCaptureStateInES5Function (emitFunctionPrologue node B1 s0)))).2.contexts =
      cE :: ct0 :=
    hctxS7.trans hctxS6
  have hgfE : (emit (Op.ret Value.litUndefined) (genStatements node.body
      (initCaptureStateInES5Function (emitFunctionPrologue node B1 s0)))
      ).2.functions[cE.funcId]? =
      some (appendList [Instr.mk rid (Op.ret Value.litUndefined)] NB
        { appendList L3 NB (appendList L2 NB (appendList [Instr.mk tid (Op.branch NB)]
            B1 (prologueFunc L ps B1 NB F0))) with
          params := (appendList L2 NB (appendList [Instr.mk tid (Op.branch NB)] B1
            (prologueFunc L ps B1 NB F0))).params ++ ps3 }) := by
    rw [hcEfid]
    exact hS7f
  obtain ⟨F5, hEpf, hEphead, hEpfind⟩ := epilogue_head_block
    (emit (Op.ret Value.litUndefined) (genStatements node.body
      (initCaptureStateInES5Function (emitFunctionPrologue node B1 s0)))).2
    cE ct0 tid NB
    (appendList [Instr.mk rid (Op.ret Value.litUndefined)] NB
      { appendList L3 NB (appendList L2 NB (appendList [Instr.mk tid (Op.branch NB)]
          B1 (prologueFunc L ps B1 NB F0))) with
        params := (appendList L2 NB (appendList [Instr.mk tid (Op.branch NB)] B1
          (prologueFunc L ps B1 NB F0))).params ++ ps3 })
    (BasicBlock.mk B0 PRE) hcS7 hcEterm hgfE
    (by
      show ((appendList [Instr.mk rid (Op.ret Value.litUndefined)] NB
        { appendList L3 NB (appendList L2 NB (appendList [Instr.mk tid (Op.branch NB)]
            B1 (prologueFunc L ps B1 NB F0))) with
          params := (appendList L2 NB (appendList [Instr.mk tid (Op.branch NB)] B1
            (prologueFunc L ps B1 NB F0))).params ++ ps3 }).blocks.findSome?
        (fun b => b.instrs.find? (fun i => i.iid = tid))) = _
      rw [hblocks4]
      rw [findSome_cons_none (fun b => b.instrs.find? (fun i => i.iid = tid))
        (BasicBlock.mk B0 PRE) _ hfindPRE]
      rw [findSome_cons_some (fun b => b.instrs.find? (fun i => i.iid = tid))
        (BasicBlock.mk B1 (L ++ [Instr.mk tid (Op.branch NB)])) _ _ hfindB1])
    (by rw [hblocks4]; rfl) hB0NB hpretid
  refine ⟨F5, ?_, hEphead, ?_⟩
  · have hpop : ∀ X : St, (popContext X).functions = X.functions := by
      intro X
      cases hX : X.contexts with
      | nil => simp [popContext, hX, St.crash]
      | cons c1 t1 => rw [popContext_eq X c1 t1 hX]
    rw [epilogue_some_eq, hpop, ← hcEfid]
    exact hEpf
  · have hfind4 := hEpfind B1 hB1NB
    rw [hblocks4] at hfind4
    rw [hfind4]
    rw [List.find?_cons_of_neg _ (by simpa using hB0B1)]
    rw [List.find?_cons_of_pos _ (by simp)]
    rfl

theorem popContext_functions (X : St) : (popContext X).functions = X.functions := by
  cases hX : X.contexts with
  | nil => simp [popContext, hX, St.crash]
  | cons c1 t1 => rw [popContext_eq X c1 t1 hX]

theorem appendList_blocks2 (M : List Instr) (q : Nat) (f : Func) (b1 b2 : BasicBlock)
    (hb : f.blocks = [b1, b2]) (h1 : b1.bid ≠ q) (h2 : b2.bid = q) :
    (appendList M q f).blocks = [b1, { b2 with instrs := b2.instrs ++ M }] := by
  show f.blocks.map _ = _
  rw [hb]
  simp only [List.map_cons, List.map_nil, if_neg h1, if_pos h2]

theorem appendList_blocks2a (M : List Instr) (q : Nat) (f : Func) (b1 b2 : BasicBlock)
    (hb : f.blocks = [b1, b2]) (h1 : b1.bid = q) (h2 : b2.bid ≠ q) :
    (appendList M q f).blocks = [{ b1 with instrs := b1.instrs ++ M }, b2] := by
  show f.blocks.map _ = _
  rw [hb]
  simp only [List.map_cons, List.map_nil, if_pos h1, if_neg h2]

theorem filter_createGen_none (L : List Instr) (h : noCreateGen L) :
    L.filter (fun i => Op.isCreateGen i.op) = [] := by
  induction L with
  | nil => rfl
  | cons i t ih =>
    rw [List.filter_cons_of_neg (by simp [h i (List.mem_cons_self i t)])]
    exact ih (fun j hj => h j (List.mem_cons_of_mem i hj))

theorem emit_block_hit1 (op : Op) (s : St) (fid bid bid2 : Nat) (f : Func)
    (is0 is2 : List Instr) (hins : s.insertion = some (fid, bid))
    (hf : s.functions[fid]? = some f)
    (hb : f.blocks = [BasicBlock.mk bid is0, BasicBlock.mk bid2 is2]) (hne : bid2 ≠ bid) :
    (emit op s).2.functions[fid]? =
      some { f with blocks := [BasicBlock.mk bid (is0 ++ [Instr.mk s.nextInstrId op]),
        BasicBlock.mk bid2 is2] } := by
  have h := (emit_effect op s).2.2.2.2.2.2.2.2.2.2 fid
  rw [h, hf, hins]
  simp only [Option.map_some']
  refine congrArg some ?_
  show (if fid = fid then appendList [Instr.mk s.nextInstrId op] bid f else f) = _
  rw [if_pos rfl]
  show ({ f with blocks := f.blocks.map (fun b =>
    if b.bid = bid then { b with instrs := b.instrs ++ [Instr.mk s.nextInstrId op] }
    else b) } : Func) = _
  rw [hb]
  simp [hne]

theorem emit_block_hit2 (op : Op) (s : St) (fid bid bid1 : Nat) (f : Func)
    (is1 is2 : List Instr) (hins : s.insertion = some (fid, bid))
    (hf : s.functions[fid]? = some f)
    (hb : f.blocks = [BasicBlock.mk bid1 is1, BasicBlock.mk bid is2]) (hne : bid1 ≠ bid) :
    (emit op s).2.functions[fid]? =
      some { f with blocks := [BasicBlock.mk bid1 is1,
        BasicBlock.mk bid (is2 ++ [Instr.mk s.nextInstrId op])] } := by
  have h := (emit_effect op s).2.2.2.2.2.2.2.2.2.2 fid
  rw [h, hf, hins]
  simp only [Option.map_some']
  refine congrArg some ?_
  show (if fid = fid then appendList [Instr.mk s.nextInstrId op] bid f else f) = _
  rw [if_pos rfl]
  show ({ f with blocks := f.blocks.map (fun b =>
    if b.bid = bid then { b with instrs := b.instrs ++ [Instr.mk s.nextInstrId op] }
    else b) } : Func) = _
  rw [hb]
  simp [hne]

/-- The merge branch of `emitFunctionEpilogue` on a two-block function whose
entry ends in the lone branch to the second block: the successor's
instructions are folded into the entry block, the terminator disappears, and
the merged-away block is dropped, leaving a single block. -/
theorem epilogue_merge_single (s : St) (c : Ctx) (ct : List Ctx) (tid OB NB : Nat)
    (f : Func) (Lo NI : List Instr)
    (hc : s.contexts = c :: ct) (hterm : c.entryTerminator = some tid)
    (hgf : s.getFunc c.funcId = some f)
    (hblocks : f.blocks = [BasicBlock.mk OB (Lo ++ [Instr.mk tid (Op.branch NB)]),
      BasicBlock.mk NB NI])
    (hOBNB : OB ≠ NB)
    (hLo : ∀ i ∈ Lo, i.iid ≠ tid) (hNI : ∀ i ∈ NI, i.iid ≠ tid)
    (hrefsLo : noBlockRefs Lo) (hrefsNI : noBlockRefs NI) :
    ∃ f2, (emitFunctionEpilogue none s).functions[c.funcId]? = some f2 ∧
      f2.blocks = [BasicBlock.mk OB (Lo ++ NI)] ∧
      (∀ j, j ≠ c.funcId →
        (emitFunctionEpilogue none s).functions[j]? = s.functions[j]?) ∧
      (emitFunctionEpilogue none s).functions.length = s.functions.length := by
  have hcur : s.curCtx = some c := by
    show s.contexts.head? = some c
    rw [hc]
    rfl
  have hgf2 : s.functions[c.funcId]? = some f := hgf
  have hfi : f.findInstr tid = some (Instr.mk tid (Op.branch NB)) := by
    show f.blocks.findSome? _ = _
    rw [hblocks]
    exact findSome_cons_some _ _ _ _
      (find?_iid_append_self Lo (Instr.mk tid (Op.branch NB)) hLo)
  have hcond : countBlockUses f NB = 1 := by
    show (f.blocks.map (fun b => (b.instrs.map
      (fun i => ((i.op.blockRefs.filter (fun t => t = NB)).length))).sum)).sum = 1
    rw [hblocks]
    rw [List.map_cons, List.map_cons, List.map_nil, List.sum_cons, List.sum_cons,
      List.sum_nil]
    rw [countUses_noRefs NI NB hrefsNI]
    rw [List.map_append, List.sum_append, countUses_noRefs Lo NB hrefsLo]
    simp [Op.blockRefs]
  have he : emitFunctionEpilogue none s =
      { s with
          functions := listUpdate s.functions c.funcId (fun g =>
            { g with blocks := epilogueMerge tid NB f }),
          contexts := { c with entryTerminator := none } :: ct } := by
    simp only [emitFunctionEpilogue, hcur, hterm, hgf, hfi, Op.blockRefs, St.modifyFunc,
      St.modifyCtx, hcond, List.mem_singleton, and_self, if_true, hc, epilogueMerge]
  have hNBI : ((f.blocks.find? (fun b2 => b2.bid = NB)).map (fun b2 => b2.instrs)).getD []
      = NI := by
    rw [hblocks]
    rw [List.find?_cons_of_neg _ (by simpa using hOBNB)]
    rw [List.find?_cons_of_pos _ (by simp)]
    rfl
  have hLoNI : ∀ i ∈ Lo ++ NI, i.iid ≠ tid := by
    intro i hi
    rcases List.mem_append.mp hi with h | h
    · exact hLo i h
    · exact hNI i h
  obtain ⟨NBI, hNBIv⟩ : ∃ x, ((f.blocks.find? (fun b2 => b2.bid = NB)).map
      (fun b2 => b2.instrs)).getD [] = x := ⟨_, rfl⟩
  have hNBIeq : NBI = NI := hNBIv.symm.trans hNBI
  have hem0 : epilogueMerge tid NB f =
      ((f.blocks.map (fun bb => { bb with instrs := insertBeforeInstr tid NBI bb.instrs })).map
        (fun bb => { bb with instrs := bb.instrs.filter (fun i => i.iid ≠ tid) })).filter
        (fun bb => bb.bid ≠ NB) := by
    rw [← hNBIv]
    exact rfl
  have hem : epilogueMerge tid NB f = [BasicBlock.mk OB (Lo ++ NI)] := by
    rw [hem0, hNBIeq, hblocks]
    simp only [List.map_cons, List.map_nil]
    rw [insertBeforeInstr_hit tid NI Lo [] (Op.branch NB) hLo]
    rw [insertBeforeInstr_of_not_mem tid NI NI hNI]
    have hf1 : ((Lo ++ NI) ++ [Instr.mk tid (Op.branch NB)]).filter
        (fun i => i.iid ≠ tid) = Lo ++ NI := by
      rw [List.filter_append, List.filter_append, filter_iid_ne_self tid Lo hLo,
        filter_iid_ne_self tid NI hNI, List.filter_cons_of_neg (by simp),
        List.filter_nil, List.append_nil]
    rw [hf1]
    rw [filter_iid_ne_self tid NI hNI]
    rw [List.filter_cons_of_pos (by simpa using hOBNB)]
    rw [List.filter_cons_of_neg (by simp)]
    rw [List.filter_nil]
  rw [he]
  refine ⟨{ f with blocks := epilogueMerge tid NB f }, ?_, ?_, ?_, ?_⟩
  · show (listUpdate s.functions c.funcId _)[c.funcId]? = _
    rw [listUpdate_getElem_self, hgf2, Option.map_some']
  · show epilogueMerge tid NB f = _
    exact hem
  · intro j hj
    show (listUpdate s.functions c.funcId _)[j]? = _
    rw [listUpdate_getElem_other _ _ _ _ (fun h => hj h.symm)]
  · show (listUpdate s.functions c.funcId _).length = _
    rw [listUpdate_length]

/-- The inner function produced by `genES5Function` on the generator-inner
path (non-lazy): it occupies the next function slot, its first basic block is
exactly `StartGenerator`, then the `AllocStack` for the anonymous is-return
slot, then the `ResumeGenerator` marker pointing at that slot and at the
freshly created entry block, and that entry block is still present after the
body is generated. -/
theorem genES5_inner_shape (nm : Name) (ca : Option Variable) (node : FuncNode) (s : St)
    (hlz : node.isLazy = false) (hw : s.wfS) :
    (genES5Function nm ca node true s).1 = s.functions.length ∧
    ∃ F, (genES5Function nm ca node true s).2.functions[s.functions.length]? = some F ∧
      F.blocks.head? = some (BasicBlock.mk s.nextBlockId
        [Instr.mk s.nextInstrId Op.startGenerator,
         Instr.mk (s.nextInstrId + 1)
           (Op.allocStack ("?anon_" ++ toString 0 ++ "_" ++ "isReturn")),
         Instr.mk (s.nextInstrId + 2)
           (Op.resumeGenerator (s.nextInstrId + 1) (s.nextBlockId + 1))]) ∧
      ((F.blocks.find? (fun b => b.bid = s.nextBlockId + 1)).isSome = true) := by
  obtain ⟨CF2, hCF2⟩ : ∃ x, (createFunction nm DefinitionKind.es5Function
    FuncKind.generatorInner node.strictF (some node.bodyRange) s).2 = x := ⟨_, rfl⟩
  obtain ⟨S2, hS2⟩ : ∃ x, St.modifyFunc CF2 s.functions.length
    (fun f => { f with lazyClosureAlias := ca }) = x := ⟨_, rfl⟩
  obtain ⟨S3, hS3⟩ : ∃ x, pushContext s.functions.length (some node.sem) S2 = x := ⟨_, rfl⟩
  obtain ⟨B4, hB4⟩ : ∃ x, createBasicBlock s.functions.length S3 = x := ⟨_, rfl⟩
  obtain ⟨E6, hE6⟩ : ∃ x, emit Op.startGenerator
    (setInsertion s.functions.length B4.1 B4.2) = x := ⟨_, rfl⟩
  obtain ⟨A7, hA7⟩ : ∃ x, genAnonymousLabelName "isReturn" E6.2 = x := ⟨_, rfl⟩
  obtain ⟨E8, hE8⟩ : ∃ x, emit (Op.allocStack A7.1) A7.2 = x := ⟨_, rfl⟩
  obtain ⟨B9, hB9⟩ : ∃ x, createBasicBlock s.functions.length E8.2 = x := ⟨_, rfl⟩
  obtain ⟨T10, hT10⟩ : ∃ x, genResumeGenerator E8.1 B9.1 B9.2 = x := ⟨_, rfl⟩
  have he : genES5Function nm ca node true s = (s.functions.length,
      popContext (emitFunctionEpilogue (some Value.litUndefined) (genStatements node.body
        (initCaptureStateInES5Function (emitFunctionPrologue node B9.1 T10))))) := by
    rw [genES5Function_eq, hlz, ← hT10, ← hB9, ← hE8, ← hA7, ← hE6, ← hB4, ← hS3,
      ← hS2, ← hCF2]
    exact rfl
  obtain ⟨Fca, hFca⟩ : ∃ x : Func, ({ fnm := nm, defKind := DefinitionKind.es5Function, funcKind := FuncKind.generatorInner, strict := node.strictF, sourceRange := some node.bodyRange, params := [], blocks := [], lazyClosureAlias := ca, lazyScope := none, lazySource := none } : Func) = x := ⟨_, rfl⟩
  have hCF2f : CF2.functions[s.functions.length]? = some { fnm := nm, defKind := DefinitionKind.es5Function, funcKind := FuncKind.generatorInner, strict := node.strictF, sourceRange := some node.bodyRange, params := [], blocks := [], lazyClosureAlias := none, lazyScope := none, lazySource := none } := by
    rw [← hCF2]
    exact createFunction_getElem_new nm DefinitionKind.es5Function FuncKind.generatorInner
      node.strictF (some node.bodyRange) s
  have hCF2wf : CF2.wfS := by
    rw [← hCF2]
    exact createFunction_wf nm DefinitionKind.es5Function FuncKind.generatorInner
      node.strictF (some node.bodyRange) s hw
  have hS2f : S2.functions[s.functions.length]? = some Fca := by
    rw [← hS2, modifyFunc_getElem_self, hCF2f, Option.map_some', ← hFca]
  have hS2nii : S2.nextInstrId = s.nextInstrId := by
    rw [← hS2, ← hCF2]
    rfl
  have hS2nbi : S2.nextBlockId = s.nextBlockId := by
    rw [← hS2, ← hCF2]
    rfl
  have hS2ctx : S2.contexts = s.contexts := by
    rw [← hS2, ← hCF2]
    rfl
  have hS2len : S2.functions.length = s.functions.length + 1 := by
    rw [← hS2]
    show (listUpdate CF2.functions _ _).length = _
    rw [listUpdate_length, ← hCF2]
    exact createFunction_len nm DefinitionKind.es5Function FuncKind.generatorInner
      node.strictF (some node.bodyRange) s
  have hS2wf : S2.wfS := by
    rw [← hS2]
    exact modifyFunc_wf CF2 s.functions.length _ (fun f => rfl) hCF2wf
  have hCNpack : ∃ x : Ctx, S3.contexts = x :: s.contexts ∧
      x.funcId = s.functions.length ∧ x.anonCounter = 0 := by
    rw [← hS3]
    refine ⟨{ funcId := s.functions.length, semInfo := some node.sem, capturedThis := none, capturedNewTarget := some Value.litUndefined, capturedArguments := none, entryTerminator := none, anonCounter := 0, labelsSize := (((some node.sem) : Option SemInfo).map (fun y => y.labelCount)).getD 0, savedInsertion := S2.insertion, scopeId := S2.nextScopeId }, ?_, rfl, rfl⟩
    show _ :: S2.contexts = _ :: s.contexts
    rw [hS2ctx]
  obtain ⟨CN, hS3ctx, hCNfid, hCNanon⟩ := hCNpack
  have hS3f : S3.functions[s.functions.length]? = some Fca := by
    rw [← hS3]
    exact hS2f
  have hS3nii : S3.nextInstrId = s.nextInstrId := by
    rw [← hS3]
    exact hS2nii
  have hS3nbi : S3.nextBlockId = s.nextBlockId := by
    rw [← hS3]
    exact hS2nbi
  have hS3len : S3.functions.length = s.functions.length + 1 := by
    rw [← hS3]
    exact hS2len
  have hS3wf : S3.wfS := by
    rw [← hS3]
    exact pushContext_wf s.functions.length (some node.sem) S2 hS2wf
  have hB41 : B4.1 = s.nextBlockId := by
    rw [← hB4]
    show S3.nextBlockId = _
    exact hS3nbi
  have hB4f : B4.2.functions[s.functions.length]? =
      some ({ Fca with blocks := [BasicBlock.mk s.nextBlockId []] } : Func) := by
    rw [← hB4, createBasicBlock_getElem_self, hS3f, Option.map_some', hS3nbi, ← hFca]
    rfl
  have hB4ctx : B4.2.contexts = CN :: s.contexts := by
    rw [← hB4]
    exact hS3ctx
  have hB4nii : B4.2.nextInstrId = s.nextInstrId := by
    rw [← hB4]
    exact hS3nii
  have hB4nbi : B4.2.nextBlockId = s.nextBlockId + 1 := by
    rw [← hB4]
    show S3.nextBlockId + 1 = _
    rw [hS3nbi]
  have hB4len : B4.2.functions.length = s.functions.length + 1 := by
    rw [← hB4]
    show (listUpdate S3.functions _ _).length = _
    rw [listUpdate_length]
    exact hS3len
  have hB4wf : B4.2.wfS := by
    rw [← hB4]
    exact createBasicBlock_wf s.functions.length S3 hS3wf
  have hE6f : E6.2.functions[s.functions.length]? =
      some ({ Fca with blocks := [BasicBlock.mk s.nextBlockId
        [Instr.mk s.nextInstrId Op.startGenerator]] } : Func) := by
    have hsi : (setInsertion s.functions.length B4.1 B4.2).nextInstrId = s.nextInstrId :=
      hB4nii
    have h1 := emit_single_block Op.startGenerator
      (setInsertion s.functions.length B4.1 B4.2) s.functions.length B4.1
      ({ Fca with blocks := [BasicBlock.mk s.nextBlockId []] } : Func) [] rfl hB4f
      (by rw [hB41])
    rw [hsi] at h1
    rw [← hE6, h1, hB41]
    rfl
  have hE6ctx : E6.2.contexts = CN :: s.contexts := by
    rw [← hE6]
    have h1 : (emit Op.startGenerator (setInsertion s.functions.length B4.1 B4.2)
        ).2.contexts = (setInsertion s.functions.length B4.1 B4.2).contexts :=
      (emit_effect _ _).1
    rw [h1]
    exact hB4ctx
  have hE6ins : E6.2.insertion = some (s.functions.length, B4.1) := by
    rw [← hE6]
    exact (emit_effect _ _).2.1
  have hE6nii : E6.2.nextInstrId = s.nextInstrId + 1 := by
    rw [← hE6, emit_some Op.startGenerator (setInsertion s.functions.length B4.1 B4.2)
      s.functions.length B4.1 rfl]
    show (setInsertion s.functions.length B4.1 B4.2).nextInstrId + 1 = _
    have hsi : (setInsertion s.functions.length B4.1 B4.2).nextInstrId = s.nextInstrId :=
      hB4nii
    rw [hsi]
  have hE6nbi : E6.2.nextBlockId = s.nextBlockId + 1 := by
    rw [← hE6]
    have h1 : (emit Op.startGenerator (setInsertion s.functions.length B4.1 B4.2)
        ).2.nextBlockId = (setInsertion s.functions.length B4.1 B4.2).nextBlockId :=
      (emit_effect _ _).2.2.2.2.1
    rw [h1]
    exact hB4nbi
  have hE6len : E6.2.functions.length = s.functions.length + 1 := by
    rw [← hE6, emit_len]
    exact hB4len
  have hE6wf : E6.2.wfS := by
    rw [← hE6]
    refine emit_wf Op.startGenerator (setInsertion s.functions.length B4.1 B4.2) ?_ hB4wf
    intro r hr
    simp [Op.blockRefs] at hr
  have hA7funcs : A7.2.functions = E6.2.functions := by
    rw [← hA7]
    exact genAnon_funcs _ _
  have hA7name : A7.1 = "?anon_" ++ toString 0 ++ "_" ++ "isReturn" := by
    rw [← hA7]
    simp [genAnonymousLabelName, hE6ctx, hCNanon]
  have hA7ctx : A7.2.contexts = ({ CN with anonCounter := CN.anonCounter + 1 } : Ctx)
      :: s.contexts := by
    rw [← hA7]
    simp [genAnonymousLabelName, hE6ctx]
  have hA7ins : A7.2.insertion = some (s.functions.length, B4.1) := by
    rw [← hA7]
    exact ((genAnon_effect _ _).2.1).trans hE6ins
  have hA7nii : A7.2.nextInstrId = s.nextInstrId + 1 := by
    rw [← hA7]
    exact ((genAnon_effect "isReturn" E6.2).2.2.2.2.2.1).trans hE6nii
  have hA7nbi : A7.2.nextBlockId = s.nextBlockId + 1 := by
    rw [← hA7]
    exact ((genAnon_effect "isReturn" E6.2).2.2.2.2.2.2.1).trans hE6nbi
  have hA7wf : A7.2.wfS := by
    rw [← hA7]
    exact ((genAnon_effect "isReturn" E6.2).2.2.2.2.2.2.2.2.2.2).mpr hE6wf
  have hE8f : E8.2.functions[s.functions.length]? =
      some ({ Fca with blocks := [BasicBlock.mk s.nextBlockId
        [Instr.mk s.nextInstrId Op.startGenerator,
         Instr.mk (s.nextInstrId + 1)
           (Op.allocStack ("?anon_" ++ toString 0 ++ "_" ++ "isReturn"))]] } : Func) := by
    have hAf : A7.2.functions[s.functions.length]? =
        some ({ Fca with blocks := [BasicBlock.mk s.nextBlockId
          [Instr.mk s.nextInstrId Op.startGenerator]] } : Func) := by
      rw [hA7funcs]
      exact hE6f
    have h1 := emit_single_block (Op.allocStack A7.1) A7.2 s.functions.length B4.1
      ({ Fca with blocks := [BasicBlock.mk s.nextBlockId
        [Instr.mk s.nextInstrId Op.startGenerator]] } : Func)
      [Instr.mk s.nextInstrId Op.startGenerator] hA7ins hAf (by rw [hB41])
    rw [hA7nii] at h1
    rw [← hE8, h1, hB41, hA7name]
    rfl
  have hE81 : E8.1 = s.nextInstrId + 1 := by
    rw [← hE8]
    rw [(emit_effect (Op.allocStack A7.1) A7.2).2.2.2.2.2.2.2.2.2.1]
    exact hA7nii
  have hE8ctx : E8.2.contexts = ({ CN with anonCounter := CN.anonCounter + 1 } : Ctx)
      :: s.contexts := by
    rw [← hE8]
    exact ((emit_effect _ _).1).trans hA7ctx
  have hE8ins : E8.2.insertion = some (s.functions.length, B4.1) := by
    rw [← hE8]
    exact ((emit_effect _ _).2.1).trans hA7ins
  have hE8nii : E8.2.nextInstrId = s.nextInstrId + 2 := by
    rw [← hE8, emit_some (Op.allocStack A7.1) A7.2 s.functions.length B4.1 hA7ins]
    show A7.2.nextInstrId + 1 = _
    rw [hA7nii]
  have hE8nbi : E8.2.nextBlockId = s.nextBlockId + 1 := by
    rw [← hE8]
    exact ((emit_effect _ _).2.2.2.2.1).trans hA7nbi
  have hE8len : E8.2.functions.length = s.functions.length + 1 := by
    rw [← hE8, emit_len]
    rw [hA7funcs]
    exact hE6len
  have hE8wf : E8.2.wfS := by
    rw [← hE8]
    refine emit_wf (Op.allocStack A7.1) A7.2 ?_ hA7wf
    intro r hr
    simp [Op.blockRefs] at hr
  have hB91 : B9.1 = s.nextBlockId + 1 := by
    rw [← hB9]
    show E8.2.nextBlockId = _
    exact hE8nbi
  have hB9f : B9.2.functions[s.functions.length]? =
      some ({ Fca with blocks := [BasicBlock.mk s.nextBlockId
        [Instr.mk s.nextInstrId Op.startGenerator,
         Instr.mk (s.nextInstrId + 1)
           (Op.allocStack ("?anon_" ++ toString 0 ++ "_" ++ "isReturn"))],
        BasicBlock.mk (s.nextBlockId + 1) []] } : Func) := by
    rw [← hB9, createBasicBlock_getElem_self, hE8f, Option.map_some', hE8nbi]
    rfl
  have hB9ctx : B9.2.contexts = ({ CN with anonCounter := CN.anonCounter + 1 } : Ctx)
      :: s.contexts := by
    rw [← hB9]
    exact hE8ctx
  have hB9ins : B9.2.insertion = some (s.functions.length, B4.1) := by
    rw [← hB9]
    exact hE8ins
  have hB9nii : B9.2.nextInstrId = s.nextInstrId + 2 := by
    rw [← hB9]
    exact hE8nii
  have hB9nbi : B9.2.nextBlockId = s.nextBlockId + 2 := by
    rw [← hB9]
    show E8.2.nextBlockId + 1 = _
    rw [hE8nbi]
  have hB9len : B9.2.functions.length = s.functions.length + 1 := by
    rw [← hB9]
    show (listUpdate E8.2.functions _ _).length = _
    rw [listUpdate_length]
    exact hE8len
  have hB9wf : B9.2.wfS := by
    rw [← hB9]
    exact createBasicBlock_wf s.functions.length E8.2 hE8wf
  have hT10eqn : T10 = setInsertion s.functions.length B9.1
      (emit (Op.resumeGenerator E8.1 B9.1) B9.2).2 := by
    rw [← hT10]
    exact genResumeGenerator_eq_some E8.1 B9.1 B9.2 s.functions.length B4.1 hB9ins
  have hT10f : T10.functions[s.functions.length]? =
      some ({ Fca with blocks := [BasicBlock.mk s.nextBlockId
        [Instr.mk s.nextInstrId Op.startGenerator,
         Instr.mk (s.nextInstrId + 1)
           (Op.allocStack ("?anon_" ++ toString 0 ++ "_" ++ "isReturn")),
         Instr.mk (s.nextInstrId + 2)
           (Op.resumeGenerator (s.nextInstrId + 1) (s.nextBlockId + 1))],
        BasicBlock.mk (s.nextBlockId + 1) []] } : Func) := by
    rw [hT10eqn]
    show (emit (Op.resumeGenerator E8.1 B9.1) B9.2).2.functions[s.functions.length]? = _
    have h1 := emit_block_hit1 (Op.resumeGenerator E8.1 B9.1) B9.2 s.functions.length B4.1
      (s.nextBlockId + 1)
      ({ Fca with blocks := [BasicBlock.mk s.nextBlockId
        [Instr.mk s.nextInstrId Op.startGenerator,
         Instr.mk (s.nextInstrId + 1)
           (Op.allocStack ("?anon_" ++ toString 0 ++ "_" ++ "isReturn"))],
        BasicBlock.mk (s.nextBlockId + 1) []] } : Func)
      [Instr.mk s.nextInstrId Op.startGenerator,
       Instr.mk (s.nextInstrId + 1)
         (Op.allocStack ("?anon_" ++ toString 0 ++ "_" ++ "isReturn"))] []
      hB9ins hB9f (by rw [hB41]) (by rw [hB41]; omega)
    rw [hB9nii] at h1
    rw [h1, hB41, hE81, hB91]
    rfl
  have hT10ctx : T10.contexts = ({ CN with anonCounter := CN.anonCounter + 1 } : Ctx)
      :: s.contexts := by
    rw [hT10eqn]
    show (emit (Op.resumeGenerator E8.1 B9.1) B9.2).2.contexts = _
    exact ((emit_effect _ _).1).trans hB9ctx
  have hT10ins : T10.insertion = some (s.functions.length, s.nextBlockId + 1) := by
    rw [hT10eqn]
    show some (s.functions.length, B9.1) = _
    rw [hB91]
  have hT10nii : T10.nextInstrId = s.nextInstrId + 3 := by
    rw [hT10eqn]
    show (emit (Op.resumeGenerator E8.1 B9.1) B9.2).2.nextInstrId = _
    rw [emit_some (Op.resumeGenerator E8.1 B9.1) B9.2 s.functions.length B4.1 hB9ins]
    show B9.2.nextInstrId + 1 = _
    rw [hB9nii]
  have hT10nbi : T10.nextBlockId = s.nextBlockId + 2 := by
    rw [hT10eqn]
    show (emit (Op.resumeGenerator E8.1 B9.1) B9.2).2.nextBlockId = _
    rw [((emit_effect _ _).2.2.2.2.1)]
    exact hB9nbi
  have hT10len : T10.functions.length = s.functions.length + 1 := by
    rw [hT10eqn]
    show (emit (Op.resumeGenerator E8.1 B9.1) B9.2).2.functions.length = _
    rw [emit_len]
    exact hB9len
  have hT10wf : T10.wfS := by
    rw [← hT10]
    refine genResumeGenerator_wf E8.1 B9.1 B9.2 s.functions.length B4.1 hB9ins ?_ hB9wf
    rw [hB91, hB9nbi]
    omega
  rw [hB91] at he
  obtain ⟨F, hF1, hF2, hF3⟩ := innerTail node T10 s.functions.length s.nextBlockId
    (s.nextBlockId + 1)
    [Instr.mk s.nextInstrId Op.startGenerator,
     Instr.mk (s.nextInstrId + 1)
       (Op.allocStack ("?anon_" ++ toString 0 ++ "_" ++ "isReturn")),
     Instr.mk (s.nextInstrId + 2)
       (Op.resumeGenerator (s.nextInstrId + 1) (s.nextBlockId + 1))]
    ({ CN with anonCounter := CN.anonCounter + 1 } : Ctx) s.contexts
    ({ Fca with blocks := [BasicBlock.mk s.nextBlockId
      [Instr.mk s.nextInstrId Op.startGenerator,
       Instr.mk (s.nextInstrId + 1)
         (Op.allocStack ("?anon_" ++ toString 0 ++ "_" ++ "isReturn")),
       Instr.mk (s.nextInstrId + 2)
         (Op.resumeGenerator (s.nextInstrId + 1) (s.nextBlockId + 1))],
      BasicBlock.mk (s.nextBlockId + 1) []] } : Func)
    hT10ctx (by show CN.funcId = _; exact hCNfid) hT10ins
    (by rw [hT10len]; omega) hT10f rfl (by omega)
    (by rw [hT10nbi]; omega) (by rw [hT10nbi]; omega)
    (by
      intro i hi
      rw [hT10nii]
      simp only [List.mem_cons, List.not_mem_nil, or_false] at hi
      rcases hi with rfl | rfl | rfl
      · show s.nextInstrId < s.nextInstrId + 3
        omega
      · show s.nextInstrId + 1 < s.nextInstrId + 3
        omega
      · show s.nextInstrId + 2 < s.nextInstrId + 3
        omega)
    hT10wf
  refine ⟨?_, ⟨F, ?_, hF2, hF3⟩⟩
  · rw [he]
  · rw [he]
    exact hF1

/-- **C1** (corrected).  For every generator function node on the non-lazy
path and every well-formed starting state, `genGeneratorFunction` returns the
outer function's id (the next free slot); at least two new IR functions exist
afterwards (outer at that slot, inner right after it — nested declarations
may add more); the outer function's body contains exactly one
create-generator instruction, and it references the inner function; and the
inner function's first basic block is the `StartGenerator` marker, then the
`AllocStack` for the return-request slot, then the `ResumeGenerator` marker
parameterized with that stack slot and the entry block to branch into — the
alloc-stack sits between the two markers, so the resume follows the begin
marker with one instruction in between, not immediately; the entry block the
resume points at is still present. -/
theorem claim_C1 (nm : Name) (ca : Option Variable) (node : FuncNode) (s : St)
    (hlz : node.isLazy = false) (hw : s.wfS) :
    (genGeneratorFunction nm ca node s).1 = s.functions.length ∧
    s.functions.length + 2 ≤ (genGeneratorFunction nm ca node s).2.functions.length ∧
    ((genGeneratorFunction nm ca node s).2.functions[s.functions.length]?.map (fun f =>
      (f.blocks.map (fun b =>
        (b.instrs.filter (fun i => Op.isCreateGen i.op)).map (fun i => i.op))).flatten)) =
      some [Op.createGeneratorInst (s.functions.length + 1)] ∧
    ((genGeneratorFunction nm ca node s).2.functions[s.functions.length + 1]?.map (fun f =>
      f.blocks.head?.map (fun b => b.instrs.map (fun i => i.op)))) =
      some (some [Op.startGenerator,
        Op.allocStack ("?anon_" ++ toString 0 ++ "_" ++ "isReturn"),
        Op.resumeGenerator (s.nextInstrId + 1) (s.nextBlockId + 1)]) ∧
    ((genGeneratorFunction nm ca node s).2.functions[s.functions.length + 1]?.map (fun f =>
      (f.blocks.find? (fun b => b.bid = s.nextBlockId + 1)).isSome)) = some true := by
  obtain ⟨OF, hOF⟩ : ∃ x, (createFunction nm DefinitionKind.es5Function
    FuncKind.generatorOuter node.strictF none s).2 = x := ⟨_, rfl⟩
  obtain ⟨AN, hAN⟩ : ∃ x, genAnonymousLabelName nm OF = x := ⟨_, rfl⟩
  obtain ⟨IN, hIN⟩ : ∃ x, genES5Function AN.1 ca node true AN.2 = x := ⟨_, rfl⟩
  obtain ⟨S4, hS4⟩ : ∃ x, pushContext s.functions.length (some node.sem) IN.2 = x :=
    ⟨_, rfl⟩
  obtain ⟨B5, hB5⟩ : ∃ x, createBasicBlock s.functions.length S4 = x := ⟨_, rfl⟩
  obtain ⟨S6, hS6⟩ : ∃ x, emitFunctionPrologue node B5.1 B5.2 = x := ⟨_, rfl⟩
  obtain ⟨S7, hS7⟩ : ∃ x, initCaptureStateInES5Function S6 = x := ⟨_, rfl⟩
  obtain ⟨G8, hG8⟩ : ∃ x, emit (Op.createGeneratorInst IN.1) S7 = x := ⟨_, rfl⟩
  have he : genGeneratorFunction nm ca node s = (s.functions.length,
      popContext (emitFunctionEpilogue (some (Value.inst G8.1)) G8.2)) := by
    rw [genGeneratorFunction_eq, ← hG8, ← hS7, ← hS6, ← hB5, ← hS4, ← hIN, ← hAN, ← hOF]
    exact rfl
  obtain ⟨Fo, hFo⟩ : ∃ x : Func, ({ fnm := nm, defKind := DefinitionKind.es5Function, funcKind := FuncKind.generatorOuter, strict := node.strictF, sourceRange := none, params := [], blocks := [], lazyClosureAlias := none, lazyScope := none, lazySource := none } : Func) = x := ⟨_, rfl⟩
  have hOFf : OF.functions[s.functions.length]? = some Fo := by
    rw [← hOF, ← hFo]
    exact createFunction_getElem_new nm DefinitionKind.es5Function FuncKind.generatorOuter
      node.strictF none s
  have hOFlen : OF.functions.length = s.functions.length + 1 := by
    rw [← hOF]
    exact createFunction_len nm DefinitionKind.es5Function FuncKind.generatorOuter
      node.strictF none s
  have hOFwf : OF.wfS := by
    rw [← hOF]
    exact createFunction_wf nm DefinitionKind.es5Function FuncKind.generatorOuter
      node.strictF none s hw
  have hOFnii : OF.nextInstrId = s.nextInstrId := by
    rw [← hOF]
    rfl
  have hOFnbi : OF.nextBlockId = s.nextBlockId := by
    rw [← hOF]
    rfl
  have hANfuncs : AN.2.functions = OF.functions := by
    rw [← hAN]
    exact genAnon_funcs nm OF
  have hANf : AN.2.functions[s.functions.length]? = some Fo := by
    rw [hANfuncs]
    exact hOFf
  have hANlen : AN.2.functions.length = s.functions.length + 1 := by
    rw [hANfuncs]
    exact hOFlen
  have hANnii : AN.2.nextInstrId = s.nextInstrId := by
    rw [← hAN]
    exact ((genAnon_effect nm OF).2.2.2.2.2.1).trans hOFnii
  have hANnbi : AN.2.nextBlockId = s.nextBlockId := by
    rw [← hAN]
    exact ((genAnon_effect nm OF).2.2.2.2.2.2.1).trans hOFnbi
  have hANwf : AN.2.wfS := by
    rw [← hAN]
    exact ((genAnon_effect nm OF).2.2.2.2.2.2.2.2.2.2).mpr hOFwf
  have hInner := genES5_inner_shape AN.1 ca node AN.2 hlz hANwf
  rw [hIN] at hInner
  obtain ⟨hIN1x, FI, hFIat, hFIhead, hFIfind⟩ := hInner
  have hIN1 : IN.1 = s.functions.length + 1 := hIN1x.trans hANlen
  rw [hANlen] at hFIat
  rw [hANnii, hANnbi] at hFIhead
  rw [hANnbi] at hFIfind
  have hIout := genES5Function_out AN.1 ca node true AN.2
  rw [hIN] at hIout
  have hINof : IN.2.functions[s.functions.length]? = some Fo := by
    rw [hIout.toS.funcs s.functions.length (by rw [hANlen]; omega)]
    exact hANf
  have hINwf : IN.2.wfS := hIout.toS.core.wfp hANwf
  have hINlen2 : s.functions.length + 2 ≤ IN.2.functions.length := by
    have h1 := getElem?_lt hFIat
    omega
  have hCNopack : ∃ x : Ctx, S4.contexts = x :: IN.2.contexts ∧
      x.funcId = s.functions.length := by
    rw [← hS4]
    exact ⟨_, rfl, rfl⟩
  obtain ⟨CNo, hS4ctx, hCNofid⟩ := hCNopack
  have hS4fo : S4.functions[s.functions.length]? = some Fo := by
    rw [← hS4]
    exact hINof
  have hS4fi : S4.functions[s.functions.length + 1]? = some FI := by
    rw [← hS4]
    exact hFIat
  have hS4len : S4.functions.length = IN.2.functions.length := by
    rw [← hS4]
    rfl
  have hS4wf : S4.wfS := by
    rw [← hS4]
    exact pushContext_wf s.functions.length (some node.sem) IN.2 hINwf
  have hB51 : B5.1 = S4.nextBlockId := by
    rw [← hB5]
    rfl
  have hB5fo : B5.2.functions[s.functions.length]? =
      some ({ Fo with blocks := [BasicBlock.mk S4.nextBlockId []] } : Func) := by
    rw [← hB5, createBasicBlock_getElem_self, hS4fo, Option.map_some', ← hFo]
    rfl
  have hB5fi : B5.2.functions[s.functions.length + 1]? = some FI := by
    rw [← hB5, createBasicBlock_getElem_other s.functions.length S4
      (s.functions.length + 1) (by omega)]
    exact hS4fi
  have hB5ctx : B5.2.contexts = CNo :: IN.2.contexts := by
    rw [← hB5]
    exact hS4ctx
  have hB5len : B5.2.functions.length = IN.2.functions.length := by
    rw [← hB5]
    show (listUpdate S4.functions _ _).length = _
    rw [listUpdate_length]
    exact hS4len
  have hB5nbi : B5.2.nextBlockId = S4.nextBlockId + 1 := by
    rw [← hB5]
    rfl
  have hB5wf : B5.2.wfS := by
    rw [← hB5]
    exact createBasicBlock_wf s.functions.length S4 hS4wf
  obtain ⟨Lo, pso, ao, NBo, tido, hgLo, hnbrLo, hfrLo, htidge, hNBge, hPf, hPctx, hPins,
    hPnii, hPnbi, hPoth, hPlen, hPwf, hPiid⟩ :=
    prologue_func_effect node B5.1 B5.2 CNo IN.2.contexts
      ({ Fo with blocks := [BasicBlock.mk S4.nextBlockId []] } : Func) hB5ctx
      (by rw [hCNofid, hB5len]; omega)
      (by rw [hCNofid]; exact hB5fo)
  rw [hS6] at hPf hPctx hPins hPnii hPnbi hPoth hPlen hPwf
  rw [hCNofid] at hPf hPins hPoth
  rw [hB51] at hPf
  have hS6wf : S6.wfS := hPwf hB5wf
  have hS6fi : S6.functions[s.functions.length + 1]? = some FI := by
    rw [hPoth (s.functions.length + 1) (by rw [hB5len]; omega) (by omega)]
    exact hB5fi
  have hLolt : ∀ i ∈ Lo, i.iid < tido :=
    hPiid hB5wf ⟨BasicBlock.mk S4.nextBlockId [], by simp, by rw [hB51]⟩
  have hNBoOB : NBo ≠ S4.nextBlockId := by
    have h1 := hNBge
    rw [hB5nbi] at h1
    omega
  have hblk1 : (appendList Lo S4.nextBlockId
      ({ Fo with blocks := [BasicBlock.mk S4.nextBlockId []] } : Func)).blocks =
      [BasicBlock.mk S4.nextBlockId Lo] := by
    show ({ Fo with blocks := [BasicBlock.mk S4.nextBlockId []] } : Func).blocks.map _ = _
    simp only [List.map_cons, List.map_nil, if_pos rfl]
    rfl
  have hblk2 : (prologueFunc Lo pso S4.nextBlockId NBo
      ({ Fo with blocks := [BasicBlock.mk S4.nextBlockId []] } : Func)).blocks =
      [BasicBlock.mk S4.nextBlockId Lo, BasicBlock.mk NBo []] := by
    show (appendList Lo S4.nextBlockId _).blocks ++ [BasicBlock.mk NBo []] = _
    rw [hblk1]
    rfl
  have hS6blk : (appendList [Instr.mk tido (Op.branch NBo)] S4.nextBlockId
      (prologueFunc Lo pso S4.nextBlockId NBo
        ({ Fo with blocks := [BasicBlock.mk S4.nextBlockId []] } : Func))).blocks =
      [BasicBlock.mk S4.nextBlockId (Lo ++ [Instr.mk tido (Op.branch NBo)]),
        BasicBlock.mk NBo []] :=
    appendList_blocks2a _ _ _ _ _ hblk2 rfl hNBoOB
  have hCS := CStep_initCapture S6
    ({ CNo with anonCounter := ao, entryTerminator := some tido } : Ctx) IN.2.contexts
    s.functions.length NBo hPctx hPins
  rw [hS7] at hCS
  obtain ⟨Mo, ps2, hgMo, hnbrMo, hfrMo, hothMo, hcfMo⟩ := hCS.funcs
  have hlen6 : s.functions.length + 2 ≤ S6.functions.length := by
    have h1 := hPlen
    rw [hB5len] at h1
    omega
  obtain ⟨⟨a2, cT, cNT, cA2, hICctx⟩, _, hICins, _, _, _, hICnii, _, _, _, hIClen, _⟩ :=
    initCapture_effect S6
      ({ CNo with anonCounter := ao, entryTerminator := some tido } : Ctx) IN.2.contexts
      s.functions.length NBo hPctx hPins
  rw [hS7] at hICctx hICins hICnii hIClen
  have hS7fo : S7.functions[s.functions.length]? =
      some ({ appendList Mo NBo (appendList [Instr.mk tido (Op.branch NBo)] S4.nextBlockId
          (prologueFunc Lo pso S4.nextBlockId NBo
            ({ Fo with blocks := [BasicBlock.mk S4.nextBlockId []] } : Func))) with
        params := (appendList [Instr.mk tido (Op.branch NBo)] S4.nextBlockId
          (prologueFunc Lo pso S4.nextBlockId NBo
            ({ Fo with blocks := [BasicBlock.mk S4.nextBlockId []] } : Func))).params
          ++ ps2 } : Func) := by
    rw [hcfMo (by omega), hPf, Option.map_some']
  have hS7blk : ({ appendList Mo NBo (appendList [Instr.mk tido (Op.branch NBo)]
      S4.nextBlockId (prologueFunc Lo pso S4.nextBlockId NBo
        ({ Fo with blocks := [BasicBlock.mk S4.nextBlockId []] } : Func))) with
      params := (appendList [Instr.mk tido (Op.branch NBo)] S4.nextBlockId
        (prologueFunc Lo pso S4.nextBlockId NBo
          ({ Fo with blocks := [BasicBlock.mk S4.nextBlockId []] } : Func))).params
        ++ ps2 } : Func).blocks =
      [BasicBlock.mk S4.nextBlockId (Lo ++ [Instr.mk tido (Op.branch NBo)]),
        BasicBlock.mk NBo Mo] := by
    show (appendList Mo NBo (appendList [Instr.mk tido (Op.branch NBo)] S4.nextBlockId
      (prologueFunc Lo pso S4.nextBlockId NBo
        ({ Fo with blocks := [BasicBlock.mk S4.nextBlockId []] } : Func)))).blocks = _
    rw [appendList_blocks2 Mo NBo _ _ _ hS6blk (fun h => hNBoOB h.symm) rfl]
    rfl
  have hS7ins : S7.insertion = some (s.functions.length, NBo) := hICins.trans hPins
  have hcEpack : ∃ cE : Ctx, S7.contexts = cE :: IN.2.contexts ∧
      cE.funcId = s.functions.length ∧ cE.entryTerminator = some tido := by
    refine ⟨_, hICctx, ?_, rfl⟩
    show CNo.funcId = _
    exact hCNofid
  obtain ⟨cE, hS7ctx, hcEfid, hcEterm⟩ := hcEpack
  obtain ⟨gid, hgid⟩ : ∃ x, S7.nextInstrId = x := ⟨_, rfl⟩
  have htidgid : tido + 1 ≤ gid := by
    have h1 := hICnii
    rw [hPnii, hgid] at h1
    exact h1
  have hG8f : G8.2.functions[s.functions.length]? =
      some ({ ({ appendList Mo NBo (appendList [Instr.mk tido (Op.branch NBo)]
          S4.nextBlockId (prologueFunc Lo pso S4.nextBlockId NBo
            ({ Fo with blocks := [BasicBlock.mk S4.nextBlockId []] } : Func))) with
        params := (appendList [Instr.mk tido (Op.branch NBo)] S4.nextBlockId
          (prologueFunc Lo pso S4.nextBlockId NBo
            ({ Fo with blocks := [BasicBlock.mk S4.nextBlockId []] } : Func))).params
          ++ ps2 } : Func) with blocks :=
        [BasicBlock.mk S4.nextBlockId (Lo ++ [Instr.mk tido (Op.branch NBo)]),
         BasicBlock.mk NBo (Mo ++ [Instr.mk gid (Op.createGeneratorInst IN.1)])] }
        : Func) := by
    have h1 := emit_block_hit2 (Op.createGeneratorInst IN.1) S7 s.functions.length NBo
      S4.nextBlockId _ (Lo ++ [Instr.mk tido (Op.branch NBo)]) Mo hS7ins hS7fo hS7blk
      (fun h => hNBoOB h.symm)
    rw [hgid] at h1
    rw [← hG8]
    exact h1
  have hS7fi : S7.functions[s.functions.length + 1]? = some FI := by
    rw [hothMo (s.functions.length + 1) (by omega) (by omega)]
    exact hS6fi
  have hG8fi : G8.2.functions[s.functions.length + 1]? = some FI := by
    rw [← hG8]
    rw [emit_getElem_other (Op.createGeneratorInst IN.1) S7 s.functions.length NBo
      (s.functions.length + 1) hS7ins (by omega)]
    exact hS7fi
  have hG8ctx : G8.2.contexts = cE :: IN.2.contexts := by
    rw [← hG8]
    exact ((emit_effect _ _).1).trans hS7ctx
  have hG8nii : G8.2.nextInstrId = gid + 1 := by
    rw [← hG8, emit_some (Op.createGeneratorInst IN.1) S7 s.functions.length NBo hS7ins]
    show S7.nextInstrId + 1 = _
    rw [hgid]
  have hG8ins : G8.2.insertion = some (s.functions.length, NBo) := by
    rw [← hG8]
    exact ((emit_effect _ _).2.1).trans hS7ins
  have hG8len : G8.2.functions.length = S7.functions.length := by
    rw [← hG8, emit_len]
  obtain ⟨RS, hRS⟩ : ∃ x, emit (Op.ret (Value.inst G8.1)) G8.2 = x := ⟨_, rfl⟩
  have hRSf : RS.2.functions[s.functions.length]? =
      some ({ ({ ({ appendList Mo NBo (appendList [Instr.mk tido (Op.branch NBo)]
          S4.nextBlockId (prologueFunc Lo pso S4.nextBlockId NBo
            ({ Fo with blocks := [BasicBlock.mk S4.nextBlockId []] } : Func))) with
        params := (appendList [Instr.mk tido (Op.branch NBo)] S4.nextBlockId
          (prologueFunc Lo pso S4.nextBlockId NBo
            ({ Fo with blocks := [BasicBlock.mk S4.nextBlockId []] } : Func))).params
          ++ ps2 } : Func) with blocks :=
        [BasicBlock.mk S4.nextBlockId (Lo ++ [Instr.mk tido (Op.branch NBo)]),
         BasicBlock.mk NBo (Mo ++ [Instr.mk gid (Op.createGeneratorInst IN.1)])] }
        : Func) with blocks :=
        [BasicBlock.mk S4.nextBlockId (Lo ++ [Instr.mk tido (Op.branch NBo)]),
         BasicBlock.mk NBo ((Mo ++ [Instr.mk gid (Op.createGeneratorInst IN.1)]) ++
           [Instr.mk (gid + 1) (Op.ret (Value.inst G8.1))])] } : Func) := by
    have h1 := emit_block_hit2 (Op.ret (Value.inst G8.1)) G8.2 s.functions.length NBo
      S4.nextBlockId _ (Lo ++ [Instr.mk tido (Op.branch NBo)])
      (Mo ++ [Instr.mk gid (Op.createGeneratorInst IN.1)]) hG8ins hG8f rfl
      (fun h => hNBoOB h.symm)
    rw [hG8nii] at h1
    rw [← hRS]
    exact h1
  have hRSfi : RS.2.functions[s.functions.length + 1]? = some FI := by
    rw [← hRS]
    rw [emit_getElem_other (Op.ret (Value.inst G8.1)) G8.2 s.functions.length NBo
      (s.functions.length + 1) hG8ins (by omega)]
    exact hG8fi
  have hRSctx : RS.2.contexts = cE :: IN.2.contexts := by
    rw [← hRS]
    exact ((emit_effect _ _).1).trans hG8ctx
  have hRSlen : RS.2.functions.length = S7.functions.length := by
    rw [← hRS, emit_len]
    exact hG8len
  have hNIne : ∀ i ∈ (Mo ++ [Instr.mk gid (Op.createGeneratorInst IN.1)]) ++
      [Instr.mk (gid + 1) (Op.ret (Value.inst G8.1))], i.iid ≠ tido := by
    intro i hi
    rcases List.mem_append.mp hi with h | h
    · rcases List.mem_append.mp h with h2 | h2
      · have h3 := hfrMo i h2
        rw [hPnii] at h3
        omega
      · simp only [List.mem_singleton] at h2
        subst h2
        show gid ≠ tido
        omega
    · simp only [List.mem_singleton] at h
      subst h
      show gid + 1 ≠ tido
      omega
  have hNInbr : noBlockRefs ((Mo ++ [Instr.mk gid (Op.createGeneratorInst IN.1)]) ++
      [Instr.mk (gid + 1) (Op.ret (Value.inst G8.1))]) := by
    intro i hi
    rcases List.mem_append.mp hi with h | h
    · rcases List.mem_append.mp h with h2 | h2
      · exact hnbrMo i h2
      · simp only [List.mem_singleton] at h2
        subst h2
        rfl
    · simp only [List.mem_singleton] at h
      subst h
      rfl
  obtain ⟨f2, hf2at, hf2blk, hf2oth, hf2len⟩ := epilogue_merge_single RS.2 cE
    IN.2.contexts tido S4.nextBlockId NBo _ Lo
    ((Mo ++ [Instr.mk gid (Op.createGeneratorInst IN.1)]) ++
      [Instr.mk (gid + 1) (Op.ret (Value.inst G8.1))])
    hRSctx hcEterm (by show RS.2.functions[cE.funcId]? = _; rw [hcEfid]; exact hRSf) rfl
    (fun h => hNBoOB h.symm)
    (fun i hi => Nat.ne_of_lt (hLolt i hi)) hNIne hnbrLo hNInbr
  have he2 : emitFunctionEpilogue (some (Value.inst G8.1)) G8.2 =
      emitFunctionEpilogue none RS.2 := by
    rw [epilogue_some_eq, hRS]
  rw [he2] at he
  have hf2at2 : (emitFunctionEpilogue none RS.2).functions[s.functions.length]? =
      some f2 := by
    rw [← hcEfid]
    exact hf2at
  have hEfi : (emitFunctionEpilogue none RS.2).functions[s.functions.length + 1]? =
      some FI := by
    rw [hf2oth (s.functions.length + 1) (by rw [hcEfid]; omega)]
    exact hRSfi
  have hfcg : (Lo ++ ((Mo ++ [Instr.mk gid (Op.createGeneratorInst IN.1)]) ++
      [Instr.mk (gid + 1) (Op.ret (Value.inst G8.1))])).filter
      (fun i => Op.isCreateGen i.op) =
      [Instr.mk gid (Op.createGeneratorInst IN.1)] := by
    rw [List.filter_append, List.filter_append, List.filter_append]
    rw [filter_createGen_none Lo hgLo, filter_createGen_none Mo hgMo]
    rw [List.filter_cons_of_pos rfl]
    rw [List.filter_cons_of_neg (by simp [Op.isCreateGen])]
    simp
  refine ⟨?_, ?_, ?_, ?_, ?_⟩
  · rw [he]
  · rw [he]
    show s.functions.length + 2 ≤
      (popContext (emitFunctionEpilogue none RS.2)).functions.length
    rw [popContext_functions, hf2len, hRSlen, hIClen]
    exact hlen6
  · rw [he]
    show ((popContext (emitFunctionEpilogue none RS.2)
      ).functions[s.functions.length]?.map _) = _
    rw [popContext_functions, hf2at2, Option.map_some']
    refine congrArg some ?_
    show (f2.blocks.map _).flatten = _
    rw [hf2blk]
    simp only [List.map_cons, List.map_nil, List.flatten_cons, List.flatten_nil,
      List.append_nil]
    rw [hfcg, hIN1]
    rfl
  · rw [he]
    show ((popContext (emitFunctionEpilogue none RS.2)
      ).functions[s.functions.length + 1]?.map _) = _
    rw [popContext_functions, hEfi, Option.map_some']
    refine congrArg some ?_
    show FI.blocks.head?.map _ = _
    rw [hFIhead]
    rfl
  · rw [he]
    show ((popContext (emitFunctionEpilogue none RS.2)
      ).functions[s.functions.length + 1]?.map _) = _
    rw [popContext_functions, hEfi, Option.map_some']
    refine congrArg some ?_
    show (FI.blocks.find? _).isSome = _
    exact hFIfind

/-- Witness for C1: the universal theorem applied to a concrete generator
node on a concrete well-formed one-function state. -/
theorem claim_C1_witness :
    c1node.isLazy = false ∧ c1st.wfS ∧
    ((genGeneratorFunction "g" none c1node c1st).1 = c1st.functions.length ∧
     c1st.functions.length + 2 ≤
       (genGeneratorFunction "g" none c1node c1st).2.functions.length ∧
     ((genGeneratorFunction "g" none c1node c1st).2.functions[c1st.functions.length]?.map
       (fun f => (f.blocks.map (fun b =>
         (b.instrs.filter (fun i => Op.isCreateGen i.op)).map (fun i => i.op))).flatten)) =
       some [Op.createGeneratorInst (c1st.functions.length + 1)] ∧
     ((genGeneratorFunction "g" none c1node c1st
       ).2.functions[c1st.functions.length + 1]?.map (fun f =>
       f.blocks.head?.map (fun b => b.instrs.map (fun i => i.op)))) =
       some (some [Op.startGenerator,
         Op.allocStack ("?anon_" ++ toString 0 ++ "_" ++ "isReturn"),
         Op.resumeGenerator (c1st.nextInstrId + 1) (c1st.nextBlockId + 1)]) ∧
     ((genGeneratorFunction "g" none c1node c1st
       ).2.functions[c1st.functions.length + 1]?.map (fun f =>
       (f.blocks.find? (fun b => b.bid = c1st.nextBlockId + 1)).isSome)) = some true) :=
  ⟨rfl, by constructor <;> decide, claim_C1 "g" none c1node c1st rfl (by constructor <;> decide)⟩


end Hermes
